import Mathlib

/-!
libdc1394: Format_7 negotiation (`dc1394_format7.c`)

A shallow embedding of the Format_7 functions of libdc1394 and of the
declarations of `dc1394_control.h` they use.

* C `int` values are `Int`, C `unsigned int` / `quadlet_t` values are `Nat`;
  conversions between the two and 32-bit wrap-around are written out (`uint`, `sint`, `quadlet`).
* The camera and the bus are outside this file (`GetCameraFormat7Register`,
  `SetCameraFormat7Register`, the iso and video-mode calls live in other translation units).
  They are modelled by a `Device`: a deterministic responder whose answer to each request may
  depend on the whole history of earlier transactions.
* A piece of C code is a `Prog`: run on the history so far it yields its value and the list of
  transactions it performed.  The only loop (the v1.30 handshake poll) has no timeout in the
  source; it is run with a fuel bound and yields `Outcome.spin` when the bound is exhausted.
-/

namespace Dc1394

/-! ## Declarations of `dc1394_control.h` -/

/-- The `dc1394error_t` return values. -/
def DC1394_SUCCESS : Int := 0
def DC1394_FAILURE : Int := 1
def DC1394_NO_FRAME : Int := -2
def DC1394_NO_CAMERA : Int := 3
def DC1394_NOT_A_CAMERA : Int := 4
def DC1394_FUNCTION_NOT_SUPPORTED : Int := 5
def DC1394_CAMERA_NOT_INITITIALIZED : Int := 6
def DC1394_INVALID_FEATURE : Int := 7
def DC1394_INVALID_FORMAT : Int := 8
def DC1394_INVALID_MODE : Int := 9
def DC1394_INVALID_FRAMERATE : Int := 10
def DC1394_INVALID_TRIGGER_MODE : Int := 11
def DC1394_INVALID_ISO_SPEED : Int := 12
def DC1394_INVALID_IIDC_VERSION : Int := 13
def DC1394_INVALID_COLOR_MODE : Int := 14
def DC1394_INVALID_FORMAT7_COLOR_TILE : Int := 15
def DC1394_REQ_VALUE_OUTSIDE_RANGE : Int := 16
def DC1394_INVALID_ERROR_CODE : Int := 17
def DC1394_MEMORY_ALLOCATION_FAILURE : Int := 18
def DC1394_TAGGED_REGISTER_NOT_FOUND : Int := 19
def DC1394_FORMAT7_ERROR_FLAG_1 : Int := 20
def DC1394_FORMAT7_ERROR_FLAG_2 : Int := 21
def DC1394_INVALID_BAYER_METHOD : Int := 22
def DC1394_HANDLE_CREATION_FAILURE : Int := 23
def DC1394_GENERIC_INVALID_ARGUMENT : Int := 24

/-- The macro `DC1394_ERROR_NUM`, textually `DC1394_GENERIC_INVALID_ARGUMENT+1`. -/
def DC1394_ERROR_NUM : Int := DC1394_GENERIC_INVALID_ARGUMENT + 1

/-- Parameter flags for `dc1394_setup_format7_capture()`. -/
def QUERY_FROM_CAMERA : Int := -1
def USE_MAX_AVAIL : Int := -2
def USE_RECOMMENDED : Int := -3

/-- Format_7 modes (`DC1394_MODE_FORMAT7_0` .. `DC1394_MODE_FORMAT7_7`). -/
def MODE_FORMAT7_MIN : Nat := 288
def MODE_FORMAT7_MAX : Nat := 295

/-- Format_7 color codings (`DC1394_COLOR_CODING_MONO8` .. `DC1394_COLOR_CODING_RAW16`). -/
def COLOR_FORMAT7_MONO8 : Nat := 320
def COLOR_FORMAT7_YUV411 : Nat := 321
def COLOR_FORMAT7_YUV422 : Nat := 322
def COLOR_FORMAT7_YUV444 : Nat := 323
def COLOR_FORMAT7_RGB8 : Nat := 324
def COLOR_FORMAT7_MONO16 : Nat := 325
def COLOR_FORMAT7_RGB16 : Nat := 326
def COLOR_FORMAT7_MONO16S : Nat := 327
def COLOR_FORMAT7_RGB16S : Nat := 328
def COLOR_FORMAT7_RAW8 : Nat := 329
def COLOR_FORMAT7_RAW16 : Nat := 330
def COLOR_FORMAT7_MIN : Nat := COLOR_FORMAT7_MONO8
def COLOR_FORMAT7_MAX : Nat := COLOR_FORMAT7_RAW16

/-- The image format of the scalable modes (`DC1394_FORMAT7`). -/
def FORMAT_SCALABLE_IMAGE_SIZE : Nat := 391

/-- IIDC versions (`DC1394_IIDC_VERSION_1_04` .. `DC1394_IIDC_VERSION_1_39`). -/
def IIDC_VERSION_1_04 : Nat := 544
def IIDC_VERSION_1_20 : Nat := 545
def IIDC_VERSION_PTGREY : Nat := 546
def IIDC_VERSION_1_30 : Nat := 547
def IIDC_VERSION_1_31 : Nat := 548
def IIDC_VERSION_1_39 : Nat := 556

/-- The fields of `dc1394camera_t` read by the Format_7 code.  The version field is
`sw_version` in `dc1394_format7.c` (`iidc_version` in the header). -/
structure dc1394camera_t where
  node : Nat
  port : Int
  sw_version : Nat
deriving DecidableEq, Repr

/-- The fields of `dc1394capture_t` written by the Format_7 setup (all `uint_t`). -/
structure dc1394capture_t where
  node : Nat
  channel : Nat
  frame_rate : Nat
  frame_width : Nat
  frame_height : Nat
  quadlets_per_frame : Nat
  quadlets_per_packet : Nat
deriving DecidableEq, Repr

/-! ## Machine integers -/

/-- Conversion of a C `int` to `unsigned int` (reduction modulo 2^32). -/
def uint (i : Int) : Nat := (i % 4294967296).toNat

/-- Conversion of a C `unsigned int` to `int` (two's complement). -/
def sint (n : Nat) : Int :=
  if n % 4294967296 < 2147483648 then ((n % 4294967296 : Nat) : Int)
  else ((n % 4294967296 : Nat) : Int) - 4294967296

/-- Truncation to a 32-bit `quadlet_t`. -/
def quadlet (n : Nat) : Nat := n % 4294967296

/-! ## The camera seen from the host -/

/-- The Format_7 register offsets `REG_CAMERA_FORMAT7_*` of `dc1394_offsets.h`.  That header is
not part of the sources at hand, so the offsets are kept as distinct names. -/
inductive Format7Reg where
  | MAX_IMAGE_SIZE_INQ
  | UNIT_SIZE_INQ
  | IMAGE_POSITION
  | IMAGE_SIZE
  | COLOR_CODING_ID
  | COLOR_CODING_INQ
  | PIXEL_NUMBER_INQ
  | TOTAL_BYTES_HI_INQ
  | TOTAL_BYTES_LO_INQ
  | PACKET_PARA_INQ
  | BYTE_PER_PACKET
  | PACKET_PER_FRAME_INQ
  | UNIT_POSITION_INQ
  | FRAME_INTERVAL_INQ
  | DATA_DEPTH_INQ
  | COLOR_FILTER_ID
  | VALUE_SETTING
deriving DecidableEq, Repr

/-- One completed call into the camera layer, with its arguments and what came back. -/
inductive Event where
  | get (mode : Nat) (reg : Format7Reg) (value : Nat) (err : Int)
  | set (mode : Nat) (reg : Format7Reg) (value : Nat) (err : Int)
  | get_iso_status (is_iso_on : Bool) (err : Int)
  | stop_iso_transmission (err : Int)
  | start_iso_transmission (err : Int)
  | set_iso_channel_and_speed (channel speed : Int) (err : Int)
  | set_video_format (format : Nat) (err : Int)
  | set_video_mode (mode : Int) (err : Int)
deriving DecidableEq, Repr

/-- The transactions performed so far, oldest first. -/
abbrev Trace := List Event

/-- The functions of the camera layer that `dc1394_format7.c` calls and does not define.  Each
takes the history of earlier transactions and returns the `int` result (and the value read). -/
structure Device where
  GetCameraFormat7Register : Trace → Nat → Format7Reg → Int × Nat
  SetCameraFormat7Register : Trace → Nat → Format7Reg → Nat → Int
  dc1394_get_iso_status : Trace → Int × Bool
  dc1394_stop_iso_transmission : Trace → Int
  dc1394_start_iso_transmission : Trace → Int
  dc1394_set_iso_channel_and_speed : Trace → Int → Int → Int
  dc1394_set_video_format : Trace → Nat → Int
  dc1394_set_video_mode : Trace → Int → Int

/-- What running a piece of code gives: a value and the transactions performed, or no value
and the transactions performed up to the point where the poll loop used up its fuel (`spin`)
or where the C code has undefined behaviour, such as a division by zero (`undef`). -/
inductive Outcome (α : Type) where
  | done (a : α) (seg : Trace)
  | spin (seg : Trace)
  | undef (seg : Trace)
deriving DecidableEq, Repr

/-- The transactions performed, whatever the outcome. -/
def Outcome.seg {α : Type} : Outcome α → Trace
  | .done _ s => s
  | .spin s => s
  | .undef s => s

/-- A piece of C code, run on the history of earlier transactions. -/
def Prog (α : Type) : Type := Trace → Outcome α

/-- The outcome `o` of a piece of code that ran after the transactions `s`. -/
def Outcome.after {α : Type} (s : Trace) : Outcome α → Outcome α
  | .done a t => .done a (s ++ t)
  | .spin t => .spin (s ++ t)
  | .undef t => .undef (s ++ t)

/-- Sequencing: the second piece runs on the history extended by what the first one did. -/
def Prog.bind {α β : Type} (m : Prog α) (k : α → Prog β) : Prog β := fun h =>
  match m h with
  | .spin s => .spin s
  | .undef s => .undef s
  | .done a s => (k a (h ++ s)).after s

instance : Monad Prog where
  pure a := fun _ => .done a []
  bind := Prog.bind

/-- Undefined behaviour is reached. -/
def Prog.undef {α : Type} : Prog α := fun _ => .undef []

/-- The code that a read of register `reg` returns after the history `h`. -/
def Device.read_err (D : Device) (h : Trace) (mode : Nat) (reg : Format7Reg) : Int :=
  (D.GetCameraFormat7Register h mode reg).1

/-- The quadlet that a read of register `reg` delivers after the history `h`. -/
def Device.read_value (D : Device) (h : Trace) (mode : Nat) (reg : Format7Reg) : Nat :=
  quadlet (D.GetCameraFormat7Register h mode reg).2

/-- Read a Format_7 register: `GetCameraFormat7Register(camera, mode, offset, &value)`. -/
def GetCameraFormat7Register (D : Device) (mode : Nat) (reg : Format7Reg) : Prog (Int × Nat) :=
  fun h =>
    .done (D.read_err h mode reg, D.read_value h mode reg)
      [Event.get mode reg (D.read_value h mode reg) (D.read_err h mode reg)]

/-- Write a Format_7 register: `SetCameraFormat7Register(camera, mode, offset, value)`. -/
def SetCameraFormat7Register (D : Device) (mode : Nat) (reg : Format7Reg) (value : Nat) :
    Prog Int :=
  fun h =>
    let e := D.SetCameraFormat7Register h mode reg (quadlet value)
    .done e [Event.set mode reg (quadlet value) e]

/-- The call `dc1394_get_iso_status(camera, &is_iso_on)`. -/
def dc1394_get_iso_status (D : Device) : Prog (Int × Bool) := fun h =>
  let r := D.dc1394_get_iso_status h
  .done r [Event.get_iso_status r.2 r.1]

/-- The call `dc1394_stop_iso_transmission(camera)`. -/
def dc1394_stop_iso_transmission (D : Device) : Prog Int := fun h =>
  let e := D.dc1394_stop_iso_transmission h
  .done e [Event.stop_iso_transmission e]

/-- The call `dc1394_start_iso_transmission(camera)`. -/
def dc1394_start_iso_transmission (D : Device) : Prog Int := fun h =>
  let e := D.dc1394_start_iso_transmission h
  .done e [Event.start_iso_transmission e]

/-- The call `dc1394_set_iso_channel_and_speed(camera, channel, speed)`. -/
def dc1394_set_iso_channel_and_speed (D : Device) (channel speed : Int) : Prog Int := fun h =>
  let e := D.dc1394_set_iso_channel_and_speed h channel speed
  .done e [Event.set_iso_channel_and_speed channel speed e]

/-- The call `dc1394_set_video_format(camera, format)`. -/
def dc1394_set_video_format (D : Device) (format : Nat) : Prog Int := fun h =>
  let e := D.dc1394_set_video_format h format
  .done e [Event.set_video_format format e]

/-- The call `dc1394_set_video_mode(camera, mode)`. -/
def dc1394_set_video_mode (D : Device) (mode : Int) : Prog Int := fun h =>
  let e := D.dc1394_set_video_mode h mode
  .done e [Event.set_video_mode mode e]

/-- The normalisation step of the macro `DC1394_ERR_CHK`: a code below zero or above
`DC1394_ERROR_NUM` becomes `DC1394_INVALID_ERROR_CODE`.  The macro then returns from the
enclosing function when the normalised code is positive; that test is written out at each
use. -/
def DC1394_ERR_CHK (err : Int) : Int :=
  if err < 0 ∨ err > DC1394_ERROR_NUM then DC1394_INVALID_ERROR_CODE else err

/-- The test of the macro `DC1394_ERR_CHK` after the normalisation: the enclosing function
returns the normalised code when it is positive. -/
def DC1394_ERR_CHK_returns (err : Int) : Bool :=
  decide (DC1394_ERR_CHK err > DC1394_SUCCESS)

/-- An out-pointer handed to a query is the address of a variable of the caller. -/
def out_pointer_is_null : Bool := false

/-! ## Internal functions of `dc1394_format7.c` -/

/-- The four fields decoded from the value-setting register. -/
structure ValueSetting where
  present : Nat
  setting1 : Nat
  err_flag1 : Nat
  err_flag2 : Nat
deriving DecidableEq, Repr

/-- `dc1394_query_format7_value_setting`; `out` holds the caller's variables behind the four
out-pointers. -/
def dc1394_query_format7_value_setting (D : Device) (camera : dc1394camera_t) (mode : Nat)
    (out : ValueSetting) : Prog (Int × ValueSetting) :=
  if camera.sw_version < IIDC_VERSION_1_30 then
    pure (DC1394_SUCCESS, { out with present := 0 })
  else if mode > MODE_FORMAT7_MAX ∨ mode < MODE_FORMAT7_MIN then
    pure (DC1394_FAILURE, out)
  else do
    let (err, value) ← GetCameraFormat7Register D mode Format7Reg.VALUE_SETTING
    let err := DC1394_ERR_CHK err
    if err > DC1394_SUCCESS then
      return (err, out)
    else
      return (err, { present := (value &&& 0x80000000) >>> 31,
                     setting1 := (value &&& 0x40000000) >>> 30,
                     err_flag1 := (value &&& 0x00800000) >>> 23,
                     err_flag2 := (value &&& 0x00400000) >>> 22 })

/-- `dc1394_set_format7_value_setting`. -/
def dc1394_set_format7_value_setting (D : Device) (mode : Nat) : Prog Int := do
  let err ← SetCameraFormat7Register D mode Format7Reg.VALUE_SETTING 0x40000000
  let err := DC1394_ERR_CHK err
  if err > DC1394_SUCCESS then
    return err
  else
    return err

/-- The loop `while (!exit_loop)` of `_dc1394_v130_handshake`, entered with `exit_loop = 0`.
The result is `Except.error err` when the `DC1394_ERR_CHK` inside the loop returns from the
handshake, and `Except.ok` with the variables of the last poll when the loop is left. -/
def v130_handshake_loop (D : Device) (camera : dc1394camera_t) (mode : Int) :
    Nat → ValueSetting → Prog (Except Int (Int × ValueSetting))
  | 0, _ => fun _ => .spin []
  | fuel + 1, vs => do
    let (err, vs) ← dc1394_query_format7_value_setting D camera (uint mode) vs
    let err := DC1394_ERR_CHK err
    if err > DC1394_SUCCESS then
      return .error err
    else
      let exit_loop := vs.setting1 == 0
      if exit_loop then
        return .ok (err, vs)
      else
        v130_handshake_loop D camera mode fuel vs

/-- `_dc1394_v130_handshake`.  The locals `v130handshake`, `setting_1`, `err_flag1`,
`err_flag2` are uninitialised in the source and written before they are read; they start
at 0 here.  `fuel` bounds the number of polls. -/
def _dc1394_v130_handshake (D : Device) (fuel : Nat) (camera : dc1394camera_t) (mode : Int) :
    Prog Int :=
  if camera.sw_version >= IIDC_VERSION_1_30 then do
    let (err, vs) ← dc1394_query_format7_value_setting D camera (uint mode) ⟨0, 0, 0, 0⟩
    let err := DC1394_ERR_CHK err
    if err > DC1394_SUCCESS then
      return err
    else if vs.present == 1 then
      let err ← dc1394_set_format7_value_setting D (uint mode)
      let err := DC1394_ERR_CHK err
      if err > DC1394_SUCCESS then
        return err
      else
        match ← v130_handshake_loop D camera mode fuel vs with
        | .error err => return err
        | .ok (err, vs) =>
          if vs.err_flag1 > 0 then
            return DC1394_FAILURE
          else
            return err
    else
      return err
  else
    pure DC1394_SUCCESS

/-- `_dc1394_v130_errflag2`. -/
def _dc1394_v130_errflag2 (D : Device) (camera : dc1394camera_t) (mode : Int) : Prog Int :=
  if camera.sw_version >= IIDC_VERSION_1_30 then do
    let (err, vs) ← dc1394_query_format7_value_setting D camera (uint mode) ⟨0, 0, 0, 0⟩
    let err := DC1394_ERR_CHK err
    if err > DC1394_SUCCESS then
      return err
    else if vs.present == 1 then
      if vs.err_flag2 == 0 then
        return DC1394_SUCCESS
      else
        return DC1394_FAILURE
    else
      return DC1394_SUCCESS
  else
    pure DC1394_SUCCESS

/-- `_Format7BytePerPixel`; every value of the table is exact as a `float`. -/
def _Format7BytePerPixel (color_coding : Int) : ℚ :=
  if color_coding = COLOR_FORMAT7_MONO8 then 1
  else if color_coding = COLOR_FORMAT7_YUV411 then 3 / 2
  else if color_coding = COLOR_FORMAT7_YUV422 then 2
  else if color_coding = COLOR_FORMAT7_YUV444 then 3
  else if color_coding = COLOR_FORMAT7_RGB8 then 3
  else if color_coding = COLOR_FORMAT7_MONO16 then 2
  else if color_coding = COLOR_FORMAT7_RGB16 then 6
  else if color_coding = COLOR_FORMAT7_MONO16S then 2
  else if color_coding = COLOR_FORMAT7_RGB16S then 6
  else if color_coding = COLOR_FORMAT7_RAW8 then 1
  else if color_coding = COLOR_FORMAT7_RAW16 then 2
  else -1

/-! ## Queries and commits of the Format_7 registers -/

/-- `dc1394_query_format7_max_image_size`. -/
def dc1394_query_format7_max_image_size (D : Device) (mode : Nat)
    (horizontal_size vertical_size : Nat) : Prog (Int × Nat × Nat) :=
  if mode > MODE_FORMAT7_MAX ∨ mode < MODE_FORMAT7_MIN then
    pure (DC1394_FAILURE, horizontal_size, vertical_size)
  else do
    let (err, value) ← GetCameraFormat7Register D mode Format7Reg.MAX_IMAGE_SIZE_INQ
    let err := DC1394_ERR_CHK err
    if err > DC1394_SUCCESS then
      return (err, horizontal_size, vertical_size)
    else
      return (err, (value &&& 0xFFFF0000) >>> 16, value &&& 0x0000FFFF)

/-- `dc1394_query_format7_unit_size`. -/
def dc1394_query_format7_unit_size (D : Device) (mode : Nat)
    (horizontal_unit vertical_unit : Nat) : Prog (Int × Nat × Nat) :=
  if mode > MODE_FORMAT7_MAX ∨ mode < MODE_FORMAT7_MIN then
    pure (DC1394_FAILURE, horizontal_unit, vertical_unit)
  else do
    let (err, value) ← GetCameraFormat7Register D mode Format7Reg.UNIT_SIZE_INQ
    let err := DC1394_ERR_CHK err
    if err > DC1394_SUCCESS then
      return (err, horizontal_unit, vertical_unit)
    else
      return (err, (value &&& 0xFFFF0000) >>> 16, value &&& 0x0000FFFF)

/-- `dc1394_query_format7_image_position`. -/
def dc1394_query_format7_image_position (D : Device) (mode : Nat)
    (left_position top_position : Nat) : Prog (Int × Nat × Nat) :=
  if mode > MODE_FORMAT7_MAX ∨ mode < MODE_FORMAT7_MIN then
    pure (DC1394_FAILURE, left_position, top_position)
  else do
    let (err, value) ← GetCameraFormat7Register D mode Format7Reg.IMAGE_POSITION
    let err := DC1394_ERR_CHK err
    if err > DC1394_SUCCESS then
      return (err, left_position, top_position)
    else
      return (err, (value &&& 0xFFFF0000) >>> 16, value &&& 0x0000FFFF)

/-- `dc1394_query_format7_image_size`. -/
def dc1394_query_format7_image_size (D : Device) (mode : Nat) (width height : Nat) :
    Prog (Int × Nat × Nat) :=
  if mode > MODE_FORMAT7_MAX ∨ mode < MODE_FORMAT7_MIN then
    pure (DC1394_FAILURE, width, height)
  else do
    let (err, value) ← GetCameraFormat7Register D mode Format7Reg.IMAGE_SIZE
    let err := DC1394_ERR_CHK err
    if err > DC1394_SUCCESS then
      return (err, width, height)
    else
      return (err, (value &&& 0xFFFF0000) >>> 16, value &&& 0x0000FFFF)

/-- `dc1394_query_format7_color_coding_id`. -/
def dc1394_query_format7_color_coding_id (D : Device) (mode : Nat) (color_id : Nat) :
    Prog (Int × Nat) :=
  if mode > MODE_FORMAT7_MAX ∨ mode < MODE_FORMAT7_MIN then
    pure (DC1394_FAILURE, color_id)
  else do
    let (err, value) ← GetCameraFormat7Register D mode Format7Reg.COLOR_CODING_ID
    let err := DC1394_ERR_CHK err
    if err > DC1394_SUCCESS then
      return (err, color_id)
    else
      let value := value >>> 24
      return (err, quadlet (value + COLOR_FORMAT7_MIN))

/-- `dc1394_query_format7_total_bytes` (the result is a 64-bit value). -/
def dc1394_query_format7_total_bytes (D : Device) (mode : Nat) (total_bytes : Nat) :
    Prog (Int × Nat) :=
  if mode > MODE_FORMAT7_MAX ∨ mode < MODE_FORMAT7_MIN then
    pure (DC1394_FAILURE, total_bytes)
  else do
    let (err, value) ← GetCameraFormat7Register D mode Format7Reg.TOTAL_BYTES_HI_INQ
    let err := DC1394_ERR_CHK err
    if err > DC1394_SUCCESS then
      return (err, total_bytes)
    else
      let value_hi := value
      let (err, value) ← GetCameraFormat7Register D mode Format7Reg.TOTAL_BYTES_LO_INQ
      let err := DC1394_ERR_CHK err
      if err > DC1394_SUCCESS then
        return (err, total_bytes)
      else
        let value_lo := value
        return (err, value_lo ||| ((value_hi <<< 32) % 18446744073709551616))

/-- `dc1394_query_format7_packet_para`. -/
def dc1394_query_format7_packet_para (D : Device) (mode : Nat) (min_bytes max_bytes : Nat) :
    Prog (Int × Nat × Nat) :=
  if mode > MODE_FORMAT7_MAX ∨ mode < MODE_FORMAT7_MIN then
    pure (DC1394_FAILURE, min_bytes, max_bytes)
  else do
    let (err, value) ← GetCameraFormat7Register D mode Format7Reg.PACKET_PARA_INQ
    let err := DC1394_ERR_CHK err
    if err > DC1394_SUCCESS then
      return (err, min_bytes, max_bytes)
    else
      return (err, (value &&& 0xFFFF0000) >>> 16, value &&& 0x0000FFFF)

/-- `dc1394_query_format7_byte_per_packet`.  The source tests the out-pointer `packet_bytes`
itself against 0, not the value it has just stored. -/
def dc1394_query_format7_byte_per_packet (D : Device) (mode : Nat) (packet_bytes : Nat) :
    Prog (Int × Nat) :=
  if mode > MODE_FORMAT7_MAX ∨ mode < MODE_FORMAT7_MIN then
    pure (DC1394_FAILURE, packet_bytes)
  else do
    let (err, value) ← GetCameraFormat7Register D mode Format7Reg.BYTE_PER_PACKET
    let err := DC1394_ERR_CHK err
    if err > DC1394_SUCCESS then
      return (err, packet_bytes)
    else
      let packet_bytes := (value &&& 0xFFFF0000) >>> 16
      if out_pointer_is_null then
        return (DC1394_FAILURE, packet_bytes)
      else
        return (err, packet_bytes)

/-- `dc1394_query_format7_recommended_byte_per_packet`. -/
def dc1394_query_format7_recommended_byte_per_packet (D : Device) (mode : Nat) (bpp : Nat) :
    Prog (Int × Nat) :=
  if mode > MODE_FORMAT7_MAX ∨ mode < MODE_FORMAT7_MIN then
    pure (DC1394_FAILURE, bpp)
  else do
    let (err, value) ← GetCameraFormat7Register D mode Format7Reg.BYTE_PER_PACKET
    let err := DC1394_ERR_CHK err
    if err > DC1394_SUCCESS then
      return (err, bpp)
    else
      return (err, value &&& 0x0000FFFF)

/-- `dc1394_query_format7_packet_per_frame`. -/
def dc1394_query_format7_packet_per_frame (D : Device) (camera : dc1394camera_t) (mode : Nat)
    (ppf : Nat) : Prog (Int × Nat) :=
  if camera.sw_version >= IIDC_VERSION_1_30 then
    if mode > MODE_FORMAT7_MAX ∨ mode < MODE_FORMAT7_MIN then
      pure (DC1394_FAILURE, ppf)
    else do
      let (err, value) ← GetCameraFormat7Register D mode Format7Reg.PACKET_PER_FRAME_INQ
      let err := DC1394_ERR_CHK err
      if err > DC1394_SUCCESS then
        return (err, ppf)
      else
        return (err, value)
  else do
    let (err, packet_bytes) ← dc1394_query_format7_byte_per_packet D mode 0
    let err := DC1394_ERR_CHK err
    if err > DC1394_SUCCESS then
      return (err, ppf)
    else if packet_bytes == 0 then
      return (DC1394_FAILURE, ppf)
    else
      let (err, total_bytes) ← dc1394_query_format7_total_bytes D mode 0
      let err := DC1394_ERR_CHK err
      if err > DC1394_SUCCESS then
        return (err, ppf)
      else if total_bytes % packet_bytes != 0 then
        return (err, quadlet (total_bytes / packet_bytes + 1))
      else
        return (err, quadlet (total_bytes / packet_bytes))

/-- `dc1394_set_format7_image_position`. -/
def dc1394_set_format7_image_position (D : Device) (fuel : Nat) (camera : dc1394camera_t)
    (mode : Nat) (left top : Nat) : Prog Int := do
  let err ← SetCameraFormat7Register D mode Format7Reg.IMAGE_POSITION
    (quadlet (left <<< 16) ||| top)
  let err := DC1394_ERR_CHK err
  if err > DC1394_SUCCESS then
    return err
  else
    let err ← _dc1394_v130_handshake D fuel camera (sint mode)
    let err := DC1394_ERR_CHK err
    if err > DC1394_SUCCESS then
      return err
    else
      return err

/-- `dc1394_set_format7_image_size`. -/
def dc1394_set_format7_image_size (D : Device) (fuel : Nat) (camera : dc1394camera_t)
    (mode : Nat) (width height : Nat) : Prog Int := do
  let err ← SetCameraFormat7Register D mode Format7Reg.IMAGE_SIZE
    (quadlet (width <<< 16) ||| height)
  let err := DC1394_ERR_CHK err
  if err > DC1394_SUCCESS then
    return err
  else
    let err ← _dc1394_v130_handshake D fuel camera (sint mode)
    let err := DC1394_ERR_CHK err
    if err > DC1394_SUCCESS then
      return err
    else
      return err

/-- `dc1394_set_format7_color_coding_id`.  The subtraction `color_id -= COLOR_FORMAT7_MIN` is
only reached with `color_id >= COLOR_FORMAT7_MIN`, so it does not wrap; the shift is taken
in 32 bits. -/
def dc1394_set_format7_color_coding_id (D : Device) (fuel : Nat) (camera : dc1394camera_t)
    (mode : Nat) (color_id : Nat) : Prog Int :=
  if color_id < COLOR_FORMAT7_MIN ∨ color_id > COLOR_FORMAT7_MAX then
    pure DC1394_FAILURE
  else do
    let color_id := color_id - COLOR_FORMAT7_MIN
    let color_id := quadlet (color_id <<< 24)
    let err ← SetCameraFormat7Register D mode Format7Reg.COLOR_CODING_ID color_id
    let err := DC1394_ERR_CHK err
    if err > DC1394_SUCCESS then
      return err
    else
      let err ← _dc1394_v130_handshake D fuel camera (sint mode)
      let err := DC1394_ERR_CHK err
      if err > DC1394_SUCCESS then
        return err
      else
        return err

/-- `dc1394_set_format7_byte_per_packet`. -/
def dc1394_set_format7_byte_per_packet (D : Device) (fuel : Nat) (camera : dc1394camera_t)
    (mode : Nat) (packet_bytes : Nat) : Prog Int := do
  let err ← SetCameraFormat7Register D mode Format7Reg.BYTE_PER_PACKET
    (quadlet (packet_bytes <<< 16))
  let err := DC1394_ERR_CHK err
  if err > DC1394_SUCCESS then
    return err
  else
    let err ← _dc1394_v130_handshake D fuel camera (sint mode)
    let err := DC1394_ERR_CHK err
    if err > DC1394_SUCCESS then
      return err
    else
      return err

/-! ## `_dc1394_basic_format7_setup`

The function is cut at its comment banners into consecutive pieces.  A piece yields
`Except.error err` when one of its `DC1394_ERR_CHK` returns `err` from the function, and
`Except.ok` with the updated local variables when control reaches the next piece. -/

/-- Lines 177-183: read the iso status and stop a running transmission. -/
def format7_setup_stop_iso (D : Device) : Prog (Except Int Bool) := do
  let (err, is_iso_on) ← dc1394_get_iso_status D
  let err := DC1394_ERR_CHK err
  if err > DC1394_SUCCESS then
    return .error err
  else if is_iso_on then
    let err ← dc1394_stop_iso_transmission D
    let err := DC1394_ERR_CHK err
    if err > DC1394_SUCCESS then
      return .error err
    else
      return .ok is_iso_on
  else
    return .ok is_iso_on

/-- Lines 185-192: program iso channel and speed, the video format and the video mode. -/
def format7_setup_channel_and_mode (D : Device) (channel mode speed : Int) :
    Prog (Except Int Unit) := do
  let err ← dc1394_set_iso_channel_and_speed D channel speed
  let err := DC1394_ERR_CHK err
  if err > DC1394_SUCCESS then
    return .error err
  else
    let err ← dc1394_set_video_format D FORMAT_SCALABLE_IMAGE_SIZE
    let err := DC1394_ERR_CHK err
    if err > DC1394_SUCCESS then
      return .error err
    else
      let err ← dc1394_set_video_mode D mode
      let err := DC1394_ERR_CHK err
      if err > DC1394_SUCCESS then
        return .error err
      else
        return .ok ()

/-- Lines 194-198: with `QUERY_FROM_CAMERA`, the current packet size of the camera replaces
`bytes_per_packet`. -/
def format7_setup_query_bpp (D : Device) (mode bytes_per_packet : Int) :
    Prog (Except Int Int) :=
  if bytes_per_packet = QUERY_FROM_CAMERA then do
    let (err, bytes_per_packet) ←
      dc1394_query_format7_byte_per_packet D (uint mode) (uint bytes_per_packet)
    let err := DC1394_ERR_CHK err
    if err > DC1394_SUCCESS then
      return .error err
    else
      return .ok (sint bytes_per_packet)
  else
    pure (.ok bytes_per_packet)

/-- Lines 208-215: read the current image position, resolve `left` and `top`, commit them. -/
def format7_setup_image_position (D : Device) (fuel : Nat) (camera : dc1394camera_t)
    (mode left top : Int) : Prog (Except Int (Int × Int)) := do
  let (err, camera_left, camera_top) ← dc1394_query_format7_image_position D (uint mode) 0 0
  let err := DC1394_ERR_CHK err
  if err > DC1394_SUCCESS then
    return .error err
  else
    let left := if left = QUERY_FROM_CAMERA then sint camera_left else left
    let top := if top = QUERY_FROM_CAMERA then sint camera_top else top
    let err ← dc1394_set_format7_image_position D fuel camera (uint mode) (uint left) (uint top)
    let err := DC1394_ERR_CHK err
    if err > DC1394_SUCCESS then
      return .error err
    else
      return .ok (left, top)

/-- Lines 221-239: with `QUERY_FROM_CAMERA` for a dimension, take the current size of the
camera, or `USE_MAX_AVAIL` when the camera reports 0. -/
def format7_setup_query_size (D : Device) (mode width height : Int) :
    Prog (Except Int (Int × Int)) :=
  if width = QUERY_FROM_CAMERA ∨ height = QUERY_FROM_CAMERA then do
    let (err, camera_width, camera_height) ← dc1394_query_format7_image_size D (uint mode) 0 0
    let err := DC1394_ERR_CHK err
    if err > DC1394_SUCCESS then
      return .error err
    else
      let width :=
        if width = QUERY_FROM_CAMERA then
          if camera_width > 0 then sint camera_width else USE_MAX_AVAIL
        else width
      let height :=
        if height = QUERY_FROM_CAMERA then
          if camera_height > 0 then sint camera_height else USE_MAX_AVAIL
        else height
      return .ok (width, height)
  else
    pure (.ok (width, height))

/-- Lines 245-250: with `USE_MAX_AVAIL` for a dimension, take the maximum size minus the
position; `max_width - left` is an `unsigned int` subtraction stored into an `int`. -/
def format7_setup_max_size (D : Device) (mode left top width height : Int) :
    Prog (Except Int (Int × Int)) :=
  if width = USE_MAX_AVAIL ∨ height = USE_MAX_AVAIL then do
    let (err, max_width, max_height) ← dc1394_query_format7_max_image_size D (uint mode) 0 0
    let err := DC1394_ERR_CHK err
    if err > DC1394_SUCCESS then
      return .error err
    else
      let width :=
        if width = USE_MAX_AVAIL then sint (uint ((max_width : Int) - (uint left : Int)))
        else width
      let height :=
        if height = USE_MAX_AVAIL then sint (uint ((max_height : Int) - (uint top : Int)))
        else height
      return .ok (width, height)
  else
    pure (.ok (width, height))

/-- Lines 252-253: commit the image size. -/
def format7_setup_commit_size (D : Device) (fuel : Nat) (camera : dc1394camera_t)
    (mode width height : Int) : Prog (Except Int Unit) := do
  let err ← dc1394_set_format7_image_size D fuel camera (uint mode) (uint width) (uint height)
  let err := DC1394_ERR_CHK err
  if err > DC1394_SUCCESS then
    return .error err
  else
    return .ok ()

/-- Lines 266-308, the statement `switch (bytes_per_packet)`: the new value of
`bytes_per_packet`, or `none` when `bytes_per_packet % unit_bytes` divides by zero.  In the
default case the comparisons and the remainder mix `int` and `unsigned int`, so they are
taken on the `unsigned int` value of `bytes_per_packet`. -/
def format7_packet_size_switch (bytes_per_packet : Int) (recom_bpp unit_bytes max_bytes : Nat) :
    Option Int :=
  if bytes_per_packet = USE_RECOMMENDED then
    if recom_bpp > 0 then some (sint recom_bpp) else some (sint max_bytes)
  else if bytes_per_packet = USE_MAX_AVAIL then
    some (sint max_bytes)
  else if bytes_per_packet = QUERY_FROM_CAMERA then
    some bytes_per_packet
  else
    let unit_bytes := if unit_bytes = 0 then max_bytes else unit_bytes
    let bytes_per_packet :=
      if uint bytes_per_packet > max_bytes then sint max_bytes
      else if uint bytes_per_packet < unit_bytes then sint unit_bytes
      else bytes_per_packet
    if unit_bytes = 0 then none
    else some (sint (uint bytes_per_packet - uint bytes_per_packet % unit_bytes))

/-- Lines 258-311: read the recommended packet size and the packet parameters, resolve
`bytes_per_packet`, commit it. -/
def format7_setup_packet_size (D : Device) (fuel : Nat) (camera : dc1394camera_t)
    (mode bytes_per_packet : Int) : Prog (Except Int Int) := do
  let (err, recom_bpp) ← dc1394_query_format7_recommended_byte_per_packet D (uint mode) 0
  let err := DC1394_ERR_CHK err
  if err > DC1394_SUCCESS then
    return .error err
  else
    let (err, unit_bytes, max_bytes) ← dc1394_query_format7_packet_para D (uint mode) 0 0
    let err := DC1394_ERR_CHK err
    if err > DC1394_SUCCESS then
      return .error err
    else
      match format7_packet_size_switch bytes_per_packet recom_bpp unit_bytes max_bytes with
      | none => Prog.undef
      | some bytes_per_packet =>
        let err ← dc1394_set_format7_byte_per_packet D fuel camera (uint mode)
          (uint bytes_per_packet)
        let err := DC1394_ERR_CHK err
        if err > DC1394_SUCCESS then
          return .error err
        else
          return .ok bytes_per_packet

/-- A value fits a C `int`. -/
def int_fits (x : Int) : Bool := decide (-2147483648 ≤ x ∧ x ≤ 2147483647)

/-- Rounding of an integer to the nearest value with 24 significant bits, ties to even: the
conversion to an IEEE-754 binary32 `float`. -/
def float_round (n : Int) : Int :=
  let a := n.natAbs
  let bits := if a = 0 then 0 else Nat.log2 a + 1
  if bits ≤ 24 then n
  else
    let s := bits - 24
    let q := a / 2 ^ s
    let r := a % 2 ^ s
    let q := if 2 * r > 2 ^ s ∨ (2 * r = 2 ^ s ∧ q % 2 = 1) then q + 1 else q
    n.sign * ((q * 2 ^ s : Nat) : Int)

/-- The expression `(int)(width * height * _Format7BytePerPixel(color_coding))` of line 347,
with `float` arithmetic carried out in binary32: the `int` product is converted to `float`,
multiplied by the table value (a multiple of 1/2, so twice the product is an integer and is
rounded as such), and truncated.  `none` when the `int` product or the truncated value does
not fit an `int` (undefined in C). -/
def format7_frame_bytes (width height color_coding : Int) : Option Int :=
  let area := width * height
  if int_fits area then
    let f := float_round area
    let twice := float_round (2 * (f : ℚ) * _Format7BytePerPixel color_coding).floor
    let bytes := Int.tdiv twice 2
    if int_fits bytes then some bytes else none
  else none

/-- Lines 347-349, the `int` arithmetic of the pre-1.30 branch: `packets_per_frame` and the
value stored into `quadlets_per_frame`; `none` on overflow or division by zero. -/
def format7_frame_quadlets (frame_bytes bytes_per_packet : Int) : Option (Int × Nat) :=
  if int_fits (frame_bytes + bytes_per_packet) ∧ int_fits (frame_bytes + bytes_per_packet - 1)
      ∧ bytes_per_packet ≠ 0 then
    let packets_per_frame := Int.tdiv (frame_bytes + bytes_per_packet - 1) bytes_per_packet
    if int_fits packets_per_frame ∧ int_fits (packets_per_frame * bytes_per_packet) then
      some (packets_per_frame, uint (Int.tdiv (packets_per_frame * bytes_per_packet) 4))
    else none
  else none

/-- Lines 361-372: the final test of `quadlets_per_frame`, the frame size, and the restart of
the transmission; `err` is the variable as the branch above left it. -/
def format7_setup_finish (D : Device) (err : Int) (width height : Int) (is_iso_on : Bool)
    (capture : dc1394capture_t) : Prog (Int × dc1394capture_t) :=
  if capture.quadlets_per_frame ≤ 0 then
    pure (DC1394_FAILURE, capture)
  else
    let capture := { capture with frame_width := uint width, frame_height := uint height }
    if is_iso_on then do
      let err ← dc1394_start_iso_transmission D
      let err := DC1394_ERR_CHK err
      if err > DC1394_SUCCESS then
        return (err, capture)
      else
        return (err, capture)
    else
      pure (err, capture)

/-- Lines 313-372: re-read the committed packet size, fill the capture structure, derive the
frame accounting on the branch of the camera version. -/
def format7_setup_accounting (D : Device) (camera : dc1394camera_t)
    (channel mode width height bytes_per_packet : Int) (is_iso_on : Bool)
    (capture : dc1394capture_t) : Prog (Int × dc1394capture_t) := do
  let (err, packet_bytes) ← dc1394_query_format7_byte_per_packet D (uint mode) 0
  let err := DC1394_ERR_CHK err
  if err > DC1394_SUCCESS then
    return (err, capture)
  else
    let capture := { capture with quadlets_per_packet := packet_bytes / 4 }
    if capture.quadlets_per_packet ≤ 0 then
      return (DC1394_FAILURE, capture)
    else
      let capture :=
        { capture with node := camera.node, frame_rate := 0, channel := uint channel }
      if camera.sw_version >= IIDC_VERSION_1_30 then
        let (err, packets_per_frame) ←
          dc1394_query_format7_packet_per_frame D camera (uint mode) 0
        let err := DC1394_ERR_CHK err
        if err > DC1394_SUCCESS then
          return (err, capture)
        else
          let capture :=
            { capture with quadlets_per_frame := quadlet (packets_per_frame * packet_bytes) / 4 }
          format7_setup_finish D err width height is_iso_on capture
      else
        let (err, color_coding) ← dc1394_query_format7_color_coding_id D (uint mode) 0
        let err := DC1394_ERR_CHK err
        if err > DC1394_SUCCESS then
          return (err, capture)
        else
          match format7_frame_bytes width height (sint color_coding) with
          | none => Prog.undef
          | some frame_bytes =>
            match format7_frame_quadlets frame_bytes bytes_per_packet with
            | none => Prog.undef
            | some (_, quadlets_per_frame) =>
              let capture := { capture with quadlets_per_frame := quadlets_per_frame }
              format7_setup_finish D err width height is_iso_on capture

/-- The `DC1394_ERR_CHK` that ends a piece, seen from `_dc1394_basic_format7_setup`: when the
piece returned `err`, the function returns `err` and leaves `*capture` as it is; otherwise
the rest of the function runs with the variables of the piece. -/
def Prog.orReturn {α : Type} (m : Prog (Except Int α)) (capture : dc1394capture_t)
    (k : α → Prog (Int × dc1394capture_t)) : Prog (Int × dc1394capture_t) :=
  m >>= fun r =>
    match r with
    | .error err => pure (err, capture)
    | .ok a => k a

/-- `_dc1394_basic_format7_setup`: the pieces above in sequence.  The result is the returned
code and the capture structure as the function leaves it. -/
def _dc1394_basic_format7_setup (D : Device) (fuel : Nat) (camera : dc1394camera_t)
    (channel mode speed bytes_per_packet left top width height : Int)
    (capture : dc1394capture_t) : Prog (Int × dc1394capture_t) :=
  (format7_setup_stop_iso D).orReturn capture fun is_iso_on =>
  (format7_setup_channel_and_mode D channel mode speed).orReturn capture fun _ =>
  (format7_setup_query_bpp D mode bytes_per_packet).orReturn capture fun bytes_per_packet =>
  (format7_setup_image_position D fuel camera mode left top).orReturn capture fun position =>
  (format7_setup_query_size D mode width height).orReturn capture fun size =>
  (format7_setup_max_size D mode position.1 position.2 size.1 size.2).orReturn capture
    fun size =>
  (format7_setup_commit_size D fuel camera mode size.1 size.2).orReturn capture fun _ =>
  (format7_setup_packet_size D fuel camera mode bytes_per_packet).orReturn capture
    fun bytes_per_packet =>
  format7_setup_accounting D camera channel mode size.1 size.2 bytes_per_packet is_iso_on
    capture

/-! ## The other Format_7 queries, and `dc1394_setup_format7_capture` -/

/-- `dc1394_query_format7_color_coding`.  The out-pointer `value` is handed to the register
read itself, so the caller's variable holds what the read delivered, also when the read
failed. -/
def dc1394_query_format7_color_coding (D : Device) (mode : Nat) (value : Nat) :
    Prog (Int × Nat) :=
  if mode > MODE_FORMAT7_MAX ∨ mode < MODE_FORMAT7_MIN then
    pure (DC1394_FAILURE, value)
  else do
    let (err, value) ← GetCameraFormat7Register D mode Format7Reg.COLOR_CODING_INQ
    let err := DC1394_ERR_CHK err
    if err > DC1394_SUCCESS then
      return (err, value)
    else
      return (err, value)

/-- `dc1394_query_format7_pixel_number`. -/
def dc1394_query_format7_pixel_number (D : Device) (mode : Nat) (pixnum : Nat) :
    Prog (Int × Nat) :=
  if mode > MODE_FORMAT7_MAX ∨ mode < MODE_FORMAT7_MIN then
    pure (DC1394_FAILURE, pixnum)
  else do
    let (err, value) ← GetCameraFormat7Register D mode Format7Reg.PIXEL_NUMBER_INQ
    let err := DC1394_ERR_CHK err
    if err > DC1394_SUCCESS then
      return (err, pixnum)
    else
      return (err, value)

/-- `dc1394_query_format7_unit_position`: the unit-position register from version 1.30 on,
the unit-size register below. -/
def dc1394_query_format7_unit_position (D : Device) (camera : dc1394camera_t) (mode : Nat)
    (horizontal_pos vertical_pos : Nat) : Prog (Int × Nat × Nat) :=
  if mode > MODE_FORMAT7_MAX ∨ mode < MODE_FORMAT7_MIN then
    pure (DC1394_FAILURE, horizontal_pos, vertical_pos)
  else if camera.sw_version >= IIDC_VERSION_1_30 then do
    let (err, value) ← GetCameraFormat7Register D mode Format7Reg.UNIT_POSITION_INQ
    let err := DC1394_ERR_CHK err
    if err > DC1394_SUCCESS then
      return (err, horizontal_pos, vertical_pos)
    else
      return (err, (value &&& 0xFFFF0000) >>> 16, value &&& 0x0000FFFF)
  else do
    let (err, value) ← GetCameraFormat7Register D mode Format7Reg.UNIT_SIZE_INQ
    let err := DC1394_ERR_CHK err
    if err > DC1394_SUCCESS then
      return (err, horizontal_pos, vertical_pos)
    else
      return (err, (value &&& 0xFFFF0000) >>> 16, value &&& 0x0000FFFF)

/-- `dc1394_query_format7_frame_interval`.  The assignment `*interval=value` converts the
quadlet to `float`. -/
def dc1394_query_format7_frame_interval (D : Device) (mode : Nat) (interval : ℚ) :
    Prog (Int × ℚ) :=
  if mode > MODE_FORMAT7_MAX ∨ mode < MODE_FORMAT7_MIN then
    pure (DC1394_FAILURE, interval)
  else do
    let (err, value) ← GetCameraFormat7Register D mode Format7Reg.FRAME_INTERVAL_INQ
    let err := DC1394_ERR_CHK err
    if err > DC1394_SUCCESS then
      return (err, interval)
    else
      return (err, ((float_round (value : Int) : Int) : ℚ))

/-- `dc1394_query_format7_data_depth`. -/
def dc1394_query_format7_data_depth (D : Device) (mode : Nat) (data_depth : Nat) :
    Prog (Int × Nat) :=
  if mode > MODE_FORMAT7_MAX ∨ mode < MODE_FORMAT7_MIN then
    pure (DC1394_FAILURE, data_depth)
  else do
    let (err, value) ← GetCameraFormat7Register D mode Format7Reg.DATA_DEPTH_INQ
    let err := DC1394_ERR_CHK err
    if err > DC1394_SUCCESS then
      return (err, data_depth)
    else
      return (err, value >>> 24)

/-- `dc1394_query_format7_color_filter_id`. -/
def dc1394_query_format7_color_filter_id (D : Device) (mode : Nat) (color_id : Nat) :
    Prog (Int × Nat) :=
  if mode > MODE_FORMAT7_MAX ∨ mode < MODE_FORMAT7_MIN then
    pure (DC1394_FAILURE, color_id)
  else do
    let (err, value) ← GetCameraFormat7Register D mode Format7Reg.COLOR_FILTER_ID
    let err := DC1394_ERR_CHK err
    if err > DC1394_SUCCESS then
      return (err, color_id)
    else
      return (err, quadlet (value >>> 24 + COLOR_FORMAT7_MIN))

/-- `dc1394_set_format7_color_filter_id`.  The difference `color_id - COLOR_FORMAT7_MIN` is
taken in `unsigned int` and written as it is. -/
def dc1394_set_format7_color_filter_id (D : Device) (mode : Nat) (color_id : Nat) :
    Prog Int :=
  if mode > MODE_FORMAT7_MAX ∨ mode < MODE_FORMAT7_MIN then
    pure DC1394_FAILURE
  else do
    let err ← SetCameraFormat7Register D mode Format7Reg.COLOR_FILTER_ID
      (uint ((color_id : Int) - (COLOR_FORMAT7_MIN : Int)))
    let err := DC1394_ERR_CHK err
    if err > DC1394_SUCCESS then
      return err
    else
      return err

/-- What `dc1394_setup_format7_capture` leaves behind: the code it returns, the capture
structure, the sizes in bytes it has requested of `malloc`, and the pointer
`capture->capture_buffer`. -/
structure CaptureSetup where
  err : Int
  capture : dc1394capture_t
  requested : List Nat
  capture_buffer : Option Nat
deriving DecidableEq, Repr

/-- `dc1394_setup_format7_capture`.  The `unsigned int` arguments `left`, `top`, `width` and
`height` become the `int` parameters of `_dc1394_basic_format7_setup`.  `malloc` is the
allocator of the host: it answers a request of `n` bytes with an address, or with `none` for
the null pointer.  The product `capture->quadlets_per_frame*4` is taken in `unsigned int`. -/
def dc1394_setup_format7_capture (D : Device) (malloc : Nat → Option Nat) (fuel : Nat)
    (camera : dc1394camera_t) (channel mode speed bytes_per_packet : Int)
    (left top width height : Nat) (capture : dc1394capture_t) (capture_buffer : Option Nat) :
    Prog CaptureSetup := do
  let (err, capture) ← _dc1394_basic_format7_setup D fuel camera channel mode speed
    bytes_per_packet (sint left) (sint top) (sint width) (sint height) capture
  let err := DC1394_ERR_CHK err
  if err > DC1394_SUCCESS then
    return { err := err, capture := capture, requested := [],
             capture_buffer := capture_buffer }
  else
    let size := quadlet (capture.quadlets_per_frame * 4)
    match malloc size with
    | none =>
      return { err := DC1394_FAILURE, capture := capture, requested := [size],
               capture_buffer := none }
    | some address =>
      return { err := err, capture := capture, requested := [size],
               capture_buffer := some address }

/-! ## The isochronous resource allocator

`dc1394/iso.h` declares the operations of the allocator; their bodies are not part of the
sources at hand. -/

/-- Modelled from the spec: the result classes of the allocator operations, whose bodies and
result codes are missing from the sources (section 4.1, "failure conditions signaled
distinctly", and section 6, "error codes surfaced to callers"): success, operation not
supported by the platform or driver, no channel available, insufficient bandwidth, generic
failure. -/
inductive IsoResult where
  | success
  | function_not_supported
  | no_iso_channel
  | no_bandwidth
  | failure
deriving DecidableEq, Repr

/-- Modelled from the spec: what the platform or driver under the allocator supports; the
platform layer is missing from the sources.  An operation that the platform does not
support is "surfaced immediately" as such (section 4.1). -/
structure IsoPlatform where
  allocate_channel : Bool
  release_channel : Bool
  release_bandwidth : Bool

/-- Modelled from the spec: the state behind the allocator, which the missing bodies keep.
Bus-wide: the channels in use by anyone and the bandwidth allocated in total.  Per device
(a device is identified by its unique id): the channels the device supports, the channel
grants held by this process (a set of channels below 64, section 3), and the running total
of its bandwidth grants. -/
structure IsoState where
  bus_channels : Nat → Bool
  bus_bandwidth : Nat
  supported : Nat → Nat → Bool
  held : Nat → Nat → Bool
  tracked : Nat → Nat

/-- Modelled from the spec: whether `dc1394_iso_allocate_channel`, whose body is missing,
considers channel `c`: "bit i => channel i allowed; a zero mask means all channels the
device supports" (section 4.1), for a 64-bit mask. -/
def iso_channel_allowed (s : IsoState) (device : Nat) (channels_allowed : Nat) (c : Nat) :
    Bool :=
  if channels_allowed % 18446744073709551616 = 0 then s.supported device c
  else (channels_allowed % 18446744073709551616).testBit c

/-- Modelled from the spec: `dc1394_iso_allocate_channel`, whose body is missing.  "Scans
allowed channels, selects the first unused one system-wide, and records it as a grant.  Fails
with a no-channel-available condition if none of the allowed channels are free" (section
4.1); the scan goes from channel 0 up to channel 63, so that the lowest free channel is
selected (section 8).  The result is the code, the channel stored behind the out-pointer,
and the new state. -/
def dc1394_iso_allocate_channel (P : IsoPlatform) (s : IsoState) (device : Nat)
    (channels_allowed : Nat) : IsoResult × Option Nat × IsoState :=
  if P.allocate_channel then
    match (List.range 64).find?
        (fun c => iso_channel_allowed s device channels_allowed c && !s.bus_channels c) with
    | none => (.no_iso_channel, none, s)
    | some c =>
      (.success, some c,
        { s with
          bus_channels := fun x => if x = c then true else s.bus_channels x
          held := fun d x => if d = device ∧ x = c then true else s.held d x })
  else
    (.function_not_supported, none, s)

/-- Modelled from the spec: `dc1394_iso_release_channel`, whose body is missing.
"Idempotent: releasing an already-released or never-allocated channel succeeds.  Releasing a
channel allocated by a different process/host is permitted and succeeds" (section 4.1).  The
channel is an `int`. -/
def dc1394_iso_release_channel (P : IsoPlatform) (s : IsoState) (device : Nat)
    (channel : Int) : IsoResult × IsoState :=
  if P.release_channel then
    (.success,
      { s with
        bus_channels := fun x => if (x : Int) = channel then false else s.bus_channels x
        held := fun d x => if d = device ∧ (x : Int) = channel then false else s.held d x })
  else
    (.function_not_supported, s)

/-- Modelled from the spec: `dc1394_iso_release_bandwidth`, whose body is missing.
"Subtracts bytes from the device's running total, clamped at zero: releasing more than
currently tracked succeeds and simply zeroes the local total.  Releasing more than the
entire bus has allocated in total is also tolerated: the bus-wide allocation is fully
cleared and the call still succeeds" (section 4.1).  The amount is an `int`. -/
def dc1394_iso_release_bandwidth (P : IsoPlatform) (s : IsoState) (device : Nat)
    (bandwidth_bytes : Int) : IsoResult × IsoState :=
  if P.release_bandwidth then
    (.success,
      { s with
        bus_bandwidth := ((s.bus_bandwidth : Int) - bandwidth_bytes).toNat
        tracked := fun d =>
          if d = device then ((s.tracked d : Int) - bandwidth_bytes).toNat else s.tracked d })
  else
    (.function_not_supported, s)

/-! ## Vocabulary for statements about runs -/

/-- What every mode-checked query of one register does: nothing when the mode is not a
Format_7 mode, otherwise one read, whose value is decoded when the read succeeded. -/
def query_outcome {α : Type} (D : Device) (mode : Nat) (reg : Format7Reg) (old : α)
    (decode : Nat → α) (h : Trace) : Outcome (Int × α) :=
  if mode > MODE_FORMAT7_MAX ∨ mode < MODE_FORMAT7_MIN then
    .done (DC1394_FAILURE, old) []
  else if D.read_err h mode reg = 0 then
    .done (0, decode (D.read_value h mode reg)) [Event.get mode reg (D.read_value h mode reg) 0]
  else
    .done (DC1394_ERR_CHK (D.read_err h mode reg), old)
      [Event.get mode reg (D.read_value h mode reg) (D.read_err h mode reg)]

/-- The fields of the value-setting register as `dc1394_query_format7_value_setting` decodes
them. -/
def value_setting_fields (value : Nat) : ValueSetting :=
  { present := (value &&& 0x80000000) >>> 31,
    setting1 := (value &&& 0x40000000) >>> 30,
    err_flag1 := (value &&& 0x00800000) >>> 23,
    err_flag2 := (value &&& 0x00400000) >>> 22 }

/-- What every committing write does: one write of the register and, when it succeeded, the
handshake. -/
def commit_outcome (D : Device) (fuel : Nat) (camera : dc1394camera_t) (mode : Nat)
    (reg : Format7Reg) (value : Nat) (h : Trace) : Outcome Int :=
  if D.SetCameraFormat7Register h mode reg (quadlet value) = 0 then
    match _dc1394_v130_handshake D fuel camera (sint mode)
        (h ++ [Event.set mode reg (quadlet value) 0]) with
    | .done err s => .done (DC1394_ERR_CHK err) (Event.set mode reg (quadlet value) 0 :: s)
    | .spin s => .spin (Event.set mode reg (quadlet value) 0 :: s)
    | .undef s => .undef (Event.set mode reg (quadlet value) 0 :: s)
  else
    .done (DC1394_ERR_CHK (D.SetCameraFormat7Register h mode reg (quadlet value)))
      [Event.set mode reg (quadlet value)
        (D.SetCameraFormat7Register h mode reg (quadlet value))]

/-- What `_dc1394_v130_handshake` returns once its poll loop has ended. -/
def handshake_verdict : Outcome (Except Int (Int × ValueSetting)) → Outcome Int
  | .done (.error err) s => .done err s
  | .done (.ok (err, vs)) s => if vs.err_flag1 > 0 then .done DC1394_FAILURE s else .done err s
  | .spin s => .spin s
  | .undef s => .undef s

/-- What a piece of `_dc1394_basic_format7_setup` makes of the code returned by a committing
write: `DC1394_ERR_CHK` returns it from the function when it is not 0, otherwise the piece
ends with the variables `a`. -/
def commit_verdict {α : Type} (a : α) : Outcome Int → Outcome (Except Int α)
  | .done err s => if err ≠ 0 then .done (.error (DC1394_ERR_CHK err)) s else .done (.ok a) s
  | .spin s => .spin s
  | .undef s => .undef s

/-- The register access a transaction makes: `(false, reg)` for a read and `(true, reg)` for a
write of `reg`, nothing for the calls that are not register accesses. -/
def Event.access : Event → Option (Bool × Format7Reg)
  | .get _ reg _ _ => some (false, reg)
  | .set _ reg _ _ => some (true, reg)
  | _ => none

/-- Every transaction of the program is one of the listed accesses. -/
def Prog.emits {α : Type} (L : List (Option (Bool × Format7Reg))) (m : Prog α) : Prop :=
  ∀ h, ∀ e ∈ (m h).seg, e.access ∈ L

/-- The transaction is a read of register `reg`. -/
def Event.isRead (reg : Format7Reg) : Event → Bool
  | .get _ r _ _ => r == reg
  | _ => false

/-- The transaction is a write of register `reg`. -/
def Event.isWrite (reg : Format7Reg) : Event → Bool
  | .set _ r _ _ => r == reg
  | _ => false

/-- The transaction is an access to the value-setting register. -/
def Event.isValueSetting (e : Event) : Bool :=
  e.isRead Format7Reg.VALUE_SETTING || e.isWrite Format7Reg.VALUE_SETTING

/-- The transaction is a successful read of the value-setting register that shows the pending
bit (bit 30) clear and error flag 1 (bit 23) set. -/
def Event.isRejection : Event → Bool
  | .get _ r value err =>
    r == Format7Reg.VALUE_SETTING && err == 0 && !value.testBit 30 && value.testBit 23
  | _ => false

/-- Among the transactions there is a poll of the value-setting register (a read that comes
directly after another access to that register) at which the pending bit has cleared with
error flag 1 set. -/
def handshake_rejected (seg : Trace) : Prop :=
  ∃ pre p q post, seg = pre ++ p :: q :: post ∧ p.isValueSetting = true ∧ q.isRejection = true

/-- The code that the camera layer returned for the transaction. -/
def Event.err : Event → Int
  | .get _ _ _ err => err
  | .set _ _ _ err => err
  | .get_iso_status _ err => err
  | .stop_iso_transmission err => err
  | .start_iso_transmission err => err
  | .set_iso_channel_and_speed _ _ err => err
  | .set_video_format _ err => err
  | .set_video_mode _ err => err

/-- The transaction is the call that stops the iso transmission. -/
def Event.isStop : Event → Bool
  | .stop_iso_transmission _ => true
  | _ => false

/-- The transaction is the call that starts the iso transmission. -/
def Event.isStart : Event → Bool
  | .start_iso_transmission _ => true
  | _ => false

/-- The transaction changes the configuration of the camera: the channel and speed, the
video format, the video mode, or a Format_7 register. -/
def Event.isConfigWrite : Event → Bool
  | .set _ _ _ _ => true
  | .set_iso_channel_and_speed _ _ _ => true
  | .set_video_format _ _ => true
  | .set_video_mode _ _ => true
  | _ => false

/-- A failed transaction ends the piece of code: a transaction whose code is not 0 is the
last one, and the piece has returned a value that satisfies `failed`. -/
def Outcome.failStop {α : Type} (failed : α → Prop) (o : Outcome α) : Prop :=
  ∀ pre x post, o.seg = pre ++ x :: post → x.err ≠ 0 →
    post = [] ∧ ∃ a, o = .done a o.seg ∧ failed a

/-- What is asked of a query that validates its mode and reads one register `reg`: outside
`[MODE_FORMAT7_MIN, MODE_FORMAT7_MAX]` it returns `DC1394_FAILURE` without a transaction;
inside, it makes the one read of `reg` and returns `DC1394_SUCCESS` exactly when that read
returned 0. -/
def mode_checked {α : Type} (D : Device) (mode : Nat) (reg : Format7Reg) (h : Trace)
    (o : Outcome (Int × α)) : Prop :=
  (mode > MODE_FORMAT7_MAX ∨ mode < MODE_FORMAT7_MIN →
    ∃ out, o = .done (DC1394_FAILURE, out) []) ∧
  (¬ (mode > MODE_FORMAT7_MAX ∨ mode < MODE_FORMAT7_MIN) →
    ∃ code out, o = .done (code, out)
        [Event.get mode reg (D.read_value h mode reg) (D.read_err h mode reg)] ∧
      (code = DC1394_SUCCESS ↔ D.read_err h mode reg = 0))

/-- No transaction of the trace stops the iso transmission, and a transaction that starts it
is the last one of the trace and is made only when `restart` holds. -/
def start_only_last (restart : Bool) (s : Trace) : Prop :=
  (∀ x ∈ s, x.isStop = false) ∧
    ∀ pre x post, s = pre ++ x :: post → x.isStart = true → post = [] ∧ restart = true

/-- The run has reached undefined behaviour of the C code. -/
def Outcome.isUndef {α : Type} : Outcome α → Bool
  | .undef _ => true
  | _ => false

/-- The reads of the value-setting register that deliver the quadlets `values`, one after
the other, all successful. -/
def poll_events (mode : Nat) (values : List Nat) : Trace :=
  values.map fun v => Event.get mode Format7Reg.VALUE_SETTING v 0

/-- From the history `h` on, the camera answers the reads of its value-setting register as
follows: the reads succeed, they deliver the quadlets `pending` one after the other, each with
the pending bit 30 set, and then the quadlet `final`, whose pending bit is clear. -/
def polls_until (D : Device) (mode : Nat) : Trace → List Nat → Nat → Prop
  | h, [], final =>
    D.read_err h mode Format7Reg.VALUE_SETTING = 0 ∧
    D.read_value h mode Format7Reg.VALUE_SETTING = final ∧ final.testBit 30 = false
  | h, p :: ps, final =>
    D.read_err h mode Format7Reg.VALUE_SETTING = 0 ∧
    D.read_value h mode Format7Reg.VALUE_SETTING = p ∧ p.testBit 30 = true ∧
    polls_until D mode (h ++ [Event.get mode Format7Reg.VALUE_SETTING p 0]) ps final

/-- The register `reg` of mode `mode` stores the written quadlet: after an accepted write of
`v`, and as long as no other write of the register follows, a read succeeds and delivers
`v`. -/
def Device.stores (D : Device) (mode : Nat) (reg : Format7Reg) : Prop :=
  ∀ (h : Trace) (v : Nat) (rest : Trace), v < 4294967296 →
    (∀ x ∈ rest, x.isWrite reg = false) →
    D.GetCameraFormat7Register (h ++ Event.set mode reg v 0 :: rest) mode reg = (0, v)

/-! ## Cameras for the examples -/

/-- A camera that is not transmitting, accepts every call and every write, and answers
every read of register `reg` with the fixed quadlet `regs reg`. -/
def fixed_camera (regs : Format7Reg → Nat) : Device where
  GetCameraFormat7Register := fun _ _ reg => (0, regs reg)
  SetCameraFormat7Register := fun _ _ _ _ => 0
  dc1394_get_iso_status := fun _ => (0, false)
  dc1394_stop_iso_transmission := fun _ => 0
  dc1394_start_iso_transmission := fun _ => 0
  dc1394_set_iso_channel_and_speed := fun _ _ _ => 0
  dc1394_set_video_format := fun _ _ => 0
  dc1394_set_video_mode := fun _ _ => 0

/-- Register contents of a camera whose value-setting register always reads as: feature
present, nothing pending, error flag 1 set. -/
def flag1_regs : Format7Reg → Nat
  | .VALUE_SETTING => 0x80800000
  | _ => 0

/-- Register contents of a camera whose value-setting register always reads as: feature
present, nothing pending, error flag 1 clear, error flag 2 set.  Packet size 1024 (current
and recommended), packet parameters min 4 and max 4096, 600 packets per frame. -/
def flag2_regs : Format7Reg → Nat
  | .VALUE_SETTING => 0x80400000
  | .BYTE_PER_PACKET => 0x04000400
  | .PACKET_PARA_INQ => 0x00041000
  | .PACKET_PER_FRAME_INQ => 600
  | _ => 0

/-- Register contents of a camera that accepts every committing write and recommends a
packet size of 203 bytes although its packet parameters are min 4 and max 100; the current
packet size is 100, with 10 packets per frame. -/
def odd_recommended_regs : Format7Reg → Nat
  | .VALUE_SETTING => 0x80000000
  | .BYTE_PER_PACKET => 0x006400CB
  | .PACKET_PARA_INQ => 0x00040064
  | .PACKET_PER_FRAME_INQ => 10
  | _ => 0

/-- Register contents of a camera that accepts every committing write, with a maximum image
size of 640x480, a current position of (100, 50), a current size of 320x0, packet size 1024
(current and recommended), packet parameters min 4 and max 4096, 600 packets per frame. -/
def vga_regs : Format7Reg → Nat
  | .VALUE_SETTING => 0x80000000
  | .MAX_IMAGE_SIZE_INQ => 0x028001E0
  | .IMAGE_POSITION => 0x00640032
  | .IMAGE_SIZE => 0x01400000
  | .BYTE_PER_PACKET => 0x04000400
  | .PACKET_PARA_INQ => 0x00041000
  | .PACKET_PER_FRAME_INQ => 600
  | _ => 0

/-- Register contents of a camera of 640x480 pixels whose position and size go in units of
8x8 pixels, with YUV422 as the current color coding, packet size 1024 (current and
recommended), packet parameters min 4 and max 4096. -/
def unit8_regs : Format7Reg → Nat
  | .MAX_IMAGE_SIZE_INQ => 0x028001E0
  | .UNIT_SIZE_INQ => 0x00080008
  | .COLOR_CODING_ID => 0x02000000
  | .BYTE_PER_PACKET => 0x04000400
  | .PACKET_PARA_INQ => 0x00041000
  | _ => 0

/-- A camera of version 1.30. -/
def camera_v130 : dc1394camera_t := { node := 0, port := 0, sw_version := IIDC_VERSION_1_30 }

/-- A camera of version 1.20. -/
def camera_v120 : dc1394camera_t := { node := 0, port := 0, sw_version := IIDC_VERSION_1_20 }

/-- A capture structure with arbitrary earlier contents. -/
def stale_capture : dc1394capture_t :=
  { node := 9, channel := 9, frame_rate := 9, frame_width := 9, frame_height := 9,
    quadlets_per_frame := 9, quadlets_per_packet := 9 }

/-- A camera that answers every read of register `reg` with the fixed quadlet `regs reg`,
reports the iso transmission as `iso`, answers a write of register `reg` with the code
`write_err reg`, and accepts every other call. -/
def scripted_camera (regs : Format7Reg → Nat) (iso : Bool) (write_err : Format7Reg → Int) :
    Device where
  GetCameraFormat7Register := fun _ _ reg => (0, regs reg)
  SetCameraFormat7Register := fun _ _ reg _ => write_err reg
  dc1394_get_iso_status := fun _ => (0, iso)
  dc1394_stop_iso_transmission := fun _ => 0
  dc1394_start_iso_transmission := fun _ => 0
  dc1394_set_iso_channel_and_speed := fun _ _ _ => 0
  dc1394_set_video_format := fun _ _ => 0
  dc1394_set_video_mode := fun _ _ => 0

/-- Write codes of a camera that accepts every write. -/
def no_write_fault : Format7Reg → Int := fun _ => 0

/-- Write codes of a camera that answers a write of the image-size register with
`DC1394_FAILURE` and accepts every other write. -/
def size_write_fault : Format7Reg → Int
  | .IMAGE_SIZE => DC1394_FAILURE
  | _ => 0

/-- Register contents of a camera with YUV411 as the current color coding, packet size 4
(current and recommended), packet parameters min 4 and max 4. -/
def yuv411_regs : Format7Reg → Nat
  | .COLOR_CODING_ID => 0x01000000
  | .BYTE_PER_PACKET => 0x00040004
  | .PACKET_PARA_INQ => 0x00040004
  | _ => 0

/-- Register contents of a camera whose color-coding register holds `0xFF000000`, the id
`COLOR_FORMAT7_MIN + 255`, which `_Format7BytePerPixel` does not know; packet size 1024
(current and recommended), packet parameters min 4 and max 4096. -/
def unknown_coding_regs : Format7Reg → Nat
  | .COLOR_CODING_ID => 0xFF000000
  | .BYTE_PER_PACKET => 0x04000400
  | .PACKET_PARA_INQ => 0x00041000
  | _ => 0

/-- A camera like `fixed_camera regs` whose iso-status call returns the warning
`DC1394_NO_FRAME`. -/
def warning_camera (regs : Format7Reg → Nat) : Device :=
  { fixed_camera regs with dc1394_get_iso_status := fun _ => (DC1394_NO_FRAME, false) }

/-- An allocator that refuses every request. -/
def malloc_refuses : Nat → Option Nat := fun _ => none

/-- An allocator that grants every request at address 4096. -/
def malloc_grants : Nat → Option Nat := fun _ => some 4096

/-- Register contents of a camera whose byte-per-packet register reports a current packet
size of 0 and a recommended packet size of 1024. -/
def zero_packet_regs : Format7Reg → Nat
  | .BYTE_PER_PACKET => 0x00000400
  | _ => 0

/-- Register contents of a camera whose value-setting register reads as: feature absent, with
the pending bit and both error flags set. -/
def absent_regs : Format7Reg → Nat
  | .VALUE_SETTING => 0x40C00000
  | _ => 0

/-- Register contents of a camera with a packet size of 1 byte and a frame of 2^32 bytes
(total-bytes registers: high 1, low 0). -/
def huge_frame_regs : Format7Reg → Nat
  | .BYTE_PER_PACKET => 0x00010001
  | .TOTAL_BYTES_HI_INQ => 1
  | .TOTAL_BYTES_LO_INQ => 0
  | _ => 0

/-- Register contents of a camera with a packet size of 1024 bytes and a frame of 614500
bytes. -/
def padded_frame_regs : Format7Reg → Nat
  | .BYTE_PER_PACKET => 0x04000400
  | .TOTAL_BYTES_HI_INQ => 0
  | .TOTAL_BYTES_LO_INQ => 614500
  | _ => 0

/-- A camera that accepts every call and every write and whose value-setting register reads
as present and pending (`0xC0000000`) as long as at most `k` reads of it have been made, and
as `final` after that; every other register reads 0. -/
def slow_camera (k : Nat) (final : Nat) : Device :=
  { fixed_camera (fun _ => 0) with
    GetCameraFormat7Register := fun h _ reg =>
      if reg = Format7Reg.VALUE_SETTING then
        (0, if h.countP (fun e => e.isRead Format7Reg.VALUE_SETTING) ≤ k then 0xC0000000
          else final)
      else (0, 0) }

/-- A camera like `fixed_camera (fun _ => 0)` whose register reads all return the code `err`. -/
def read_fault_camera (err : Int) : Device :=
  { fixed_camera (fun _ => 0) with GetCameraFormat7Register := fun _ _ _ => (err, 0) }

/-- The quadlet that register `reg` of mode `mode` holds after the history: the value of the
last accepted write, or `init reg` when there is none. -/
def stored_value (init : Format7Reg → Nat) (mode : Nat) (reg : Format7Reg) (h : Trace) : Nat :=
  h.foldl
    (fun v e =>
      match e with
      | .set m r w err => if m = mode ∧ r = reg ∧ err = 0 then w else v
      | _ => v)
    (init reg)

/-- A camera that accepts every call and every write and keeps the written quadlets: a read
delivers what the register holds.  The value-setting register is the exception: its pending
bit clears at once, so it always reads `init .VALUE_SETTING`. -/
def storing_camera (init : Format7Reg → Nat) : Device :=
  { fixed_camera init with
    GetCameraFormat7Register := fun h mode reg =>
      if reg = Format7Reg.VALUE_SETTING then (0, init reg)
      else (0, stored_value init mode reg h) }

/-- Register contents with the value-setting feature present and nothing pending; every
other register holds 0. -/
def handshake_regs : Format7Reg → Nat
  | .VALUE_SETTING => 0x80000000
  | _ => 0

/-! ## Allocator states for the examples -/

/-- A platform that supports every operation of the allocator. -/
def iso_platform_full : IsoPlatform :=
  { allocate_channel := true, release_channel := true, release_bandwidth := true }

/-- A platform that supports no operation of the allocator. -/
def iso_platform_none : IsoPlatform :=
  { allocate_channel := false, release_channel := false, release_bandwidth := false }

/-- A bus on which channels 2 and 5 are taken by others and 300 bytes of bandwidth are
allocated in total; every device supports the channels 0 to 63; this process holds no
channel, and device 7 has a running total of 100 bytes. -/
def iso_state_example : IsoState :=
  { bus_channels := fun c => c == 2 || c == 5
    bus_bandwidth := 300
    supported := fun _ c => decide (c < 64)
    held := fun _ _ => false
    tracked := fun d => if d = 7 then 100 else 0 }

/-- A bus on which every channel from 0 to 63 is taken. -/
def iso_state_busy : IsoState :=
  { iso_state_example with bus_channels := fun _ => true }

/-! ## Running programs: basic facts -/

@[simp]
theorem Prog.pure_apply {α : Type} (a : α) (h : Trace) : (pure a : Prog α) h = .done a [] := rfl

@[simp]
theorem Prog.undef_apply {α : Type} (h : Trace) : (Prog.undef : Prog α) h = .undef [] := rfl

theorem Prog.bind_apply {α β : Type} (m : Prog α) (k : α → Prog β) (h : Trace) :
    (m >>= k) h =
      match m h with
      | .spin s => .spin s
      | .undef s => .undef s
      | .done a s => (k a (h ++ s)).after s := rfl

theorem Prog.ite_apply {α : Type} (c : Prop) [Decidable c] (f g : Prog α) (h : Trace) :
    (if c then f else g) h = if c then f h else g h := by
  split <;> rfl

@[simp]
theorem Outcome.after_done {α : Type} (s t : Trace) (a : α) :
    (Outcome.done a t).after s = .done a (s ++ t) := rfl

@[simp]
theorem Outcome.after_spin {α : Type} (s t : Trace) :
    (Outcome.spin t : Outcome α).after s = .spin (s ++ t) := rfl

@[simp]
theorem Outcome.after_undef {α : Type} (s t : Trace) :
    (Outcome.undef t : Outcome α).after s = .undef (s ++ t) := rfl

@[simp]
theorem Outcome.seg_after {α : Type} (s : Trace) (o : Outcome α) :
    (o.after s).seg = s ++ o.seg := by
  cases o <;> rfl

@[simp]
theorem Outcome.seg_done {α : Type} (a : α) (s : Trace) : (Outcome.done a s).seg = s := rfl

@[simp]
theorem Outcome.seg_spin {α : Type} (s : Trace) : (Outcome.spin s : Outcome α).seg = s := rfl

@[simp]
theorem Outcome.seg_undef {α : Type} (s : Trace) : (Outcome.undef s : Outcome α).seg = s := rfl

theorem Outcome.after_eq_done {α : Type} {s u : Trace} {o : Outcome α} {a : α}
    (h : o.after s = .done a u) : ∃ t, o = .done a t ∧ u = s ++ t := by
  cases o with
  | done b t => simp only [Outcome.after, Outcome.done.injEq] at h; exact ⟨t, by simp [h.1], h.2.symm⟩
  | spin t => simp [Outcome.after] at h
  | undef t => simp [Outcome.after] at h

/-- The transactions of `m >>= k` are those of `m` followed by those of `k`. -/
theorem Prog.bind_seg {α β : Type} (m : Prog α) (k : α → Prog β) (h : Trace) :
    ((m >>= k) h).seg =
      (m h).seg ++ (match m h with
        | .done a s => (k a (h ++ s)).seg
        | _ => []) := by
  rw [Prog.bind_apply]
  cases hm : m h with
  | spin s => simp
  | undef s => simp
  | done a s => simp

theorem GetCameraFormat7Register_apply (D : Device) (mode : Nat) (reg : Format7Reg)
    (h : Trace) :
    GetCameraFormat7Register D mode reg h =
      .done (D.read_err h mode reg, D.read_value h mode reg)
        [Event.get mode reg (D.read_value h mode reg) (D.read_err h mode reg)] := rfl

theorem SetCameraFormat7Register_apply (D : Device) (mode : Nat) (reg : Format7Reg)
    (value : Nat) (h : Trace) :
    SetCameraFormat7Register D mode reg value h =
      .done (D.SetCameraFormat7Register h mode reg (quadlet value))
        [Event.set mode reg (quadlet value)
          (D.SetCameraFormat7Register h mode reg (quadlet value))] := rfl

/-! ## The error check -/

theorem ERR_CHK_pos_iff (err : Int) : DC1394_ERR_CHK err > DC1394_SUCCESS ↔ err ≠ 0 := by
  unfold DC1394_ERR_CHK DC1394_SUCCESS DC1394_ERROR_NUM DC1394_GENERIC_INVALID_ARGUMENT
    DC1394_INVALID_ERROR_CODE
  split <;> omega

@[simp]
theorem ERR_CHK_pos_iff' (err : Int) : 0 < DC1394_ERR_CHK err ↔ err ≠ 0 :=
  ERR_CHK_pos_iff err

@[simp]
theorem ERR_CHK_eq_zero_iff (err : Int) : DC1394_ERR_CHK err = 0 ↔ err = 0 := by
  unfold DC1394_ERR_CHK DC1394_ERROR_NUM DC1394_GENERIC_INVALID_ARGUMENT
    DC1394_INVALID_ERROR_CODE
  split <;> omega

@[simp]
theorem ERR_CHK_zero : DC1394_ERR_CHK 0 = 0 := by decide

@[simp]
theorem ERR_CHK_one : DC1394_ERR_CHK 1 = 1 := by decide

theorem ERR_CHK_ne_zero {err : Int} (h : err ≠ 0) : DC1394_ERR_CHK err ≠ 0 := by
  rw [Ne, ERR_CHK_eq_zero_iff]; exact h

@[simp]
theorem ERR_CHK_idem (err : Int) : DC1394_ERR_CHK (DC1394_ERR_CHK err) = DC1394_ERR_CHK err := by
  unfold DC1394_ERR_CHK DC1394_ERROR_NUM DC1394_GENERIC_INVALID_ARGUMENT
    DC1394_INVALID_ERROR_CODE
  split <;> simp_all

@[simp]
theorem SUCCESS_eq : DC1394_SUCCESS = 0 := rfl

@[simp]
theorem FAILURE_eq : DC1394_FAILURE = 1 := rfl

/-! ## What the queries and the commits do -/

theorem dc1394_query_format7_value_setting_run (D : Device) (camera : dc1394camera_t)
    (mode : Nat) (out : ValueSetting) (h : Trace)
    (hv : IIDC_VERSION_1_30 ≤ camera.sw_version) :
    dc1394_query_format7_value_setting D camera mode out h =
      query_outcome D mode Format7Reg.VALUE_SETTING out
        value_setting_fields h := by
  have hv' : ¬ camera.sw_version < IIDC_VERSION_1_30 := by omega
  unfold dc1394_query_format7_value_setting query_outcome value_setting_fields
  simp only [hv', if_false, Prog.ite_apply, Prog.bind_apply, Prog.pure_apply,
    GetCameraFormat7Register_apply, gt_iff_lt, SUCCESS_eq, ERR_CHK_pos_iff']
  split_ifs <;> simp_all

theorem dc1394_query_format7_max_image_size_run (D : Device) (mode : Nat) (a b : Nat)
    (h : Trace) :
    dc1394_query_format7_max_image_size D mode a b h =
      query_outcome D mode Format7Reg.MAX_IMAGE_SIZE_INQ (a, b)
        (fun value => ((value &&& 0xFFFF0000) >>> 16, value &&& 0x0000FFFF)) h := by
  unfold dc1394_query_format7_max_image_size query_outcome
  simp only [Prog.ite_apply, Prog.bind_apply, Prog.pure_apply,
    GetCameraFormat7Register_apply, gt_iff_lt, SUCCESS_eq, ERR_CHK_pos_iff']
  split_ifs <;> simp_all

theorem dc1394_query_format7_image_position_run (D : Device) (mode : Nat) (a b : Nat)
    (h : Trace) :
    dc1394_query_format7_image_position D mode a b h =
      query_outcome D mode Format7Reg.IMAGE_POSITION (a, b)
        (fun value => ((value &&& 0xFFFF0000) >>> 16, value &&& 0x0000FFFF)) h := by
  unfold dc1394_query_format7_image_position query_outcome
  simp only [Prog.ite_apply, Prog.bind_apply, Prog.pure_apply,
    GetCameraFormat7Register_apply, gt_iff_lt, SUCCESS_eq, ERR_CHK_pos_iff']
  split_ifs <;> simp_all

theorem dc1394_query_format7_image_size_run (D : Device) (mode : Nat) (a b : Nat)
    (h : Trace) :
    dc1394_query_format7_image_size D mode a b h =
      query_outcome D mode Format7Reg.IMAGE_SIZE (a, b)
        (fun value => ((value &&& 0xFFFF0000) >>> 16, value &&& 0x0000FFFF)) h := by
  unfold dc1394_query_format7_image_size query_outcome
  simp only [Prog.ite_apply, Prog.bind_apply, Prog.pure_apply,
    GetCameraFormat7Register_apply, gt_iff_lt, SUCCESS_eq, ERR_CHK_pos_iff']
  split_ifs <;> simp_all

theorem dc1394_query_format7_packet_para_run (D : Device) (mode : Nat) (a b : Nat)
    (h : Trace) :
    dc1394_query_format7_packet_para D mode a b h =
      query_outcome D mode Format7Reg.PACKET_PARA_INQ (a, b)
        (fun value => ((value &&& 0xFFFF0000) >>> 16, value &&& 0x0000FFFF)) h := by
  unfold dc1394_query_format7_packet_para query_outcome
  simp only [Prog.ite_apply, Prog.bind_apply, Prog.pure_apply,
    GetCameraFormat7Register_apply, gt_iff_lt, SUCCESS_eq, ERR_CHK_pos_iff']
  split_ifs <;> simp_all

theorem dc1394_query_format7_byte_per_packet_run (D : Device) (mode : Nat) (a : Nat)
    (h : Trace) :
    dc1394_query_format7_byte_per_packet D mode a h =
      query_outcome D mode Format7Reg.BYTE_PER_PACKET a
        (fun value => (value &&& 0xFFFF0000) >>> 16) h := by
  unfold dc1394_query_format7_byte_per_packet query_outcome
  simp only [Prog.ite_apply, Prog.bind_apply, Prog.pure_apply,
    GetCameraFormat7Register_apply, gt_iff_lt, SUCCESS_eq, ERR_CHK_pos_iff', out_pointer_is_null]
  split_ifs <;> simp_all

theorem dc1394_query_format7_recommended_byte_per_packet_run (D : Device) (mode : Nat)
    (a : Nat) (h : Trace) :
    dc1394_query_format7_recommended_byte_per_packet D mode a h =
      query_outcome D mode Format7Reg.BYTE_PER_PACKET a (fun value => value &&& 0x0000FFFF) h := by
  unfold dc1394_query_format7_recommended_byte_per_packet query_outcome
  simp only [Prog.ite_apply, Prog.bind_apply, Prog.pure_apply,
    GetCameraFormat7Register_apply, gt_iff_lt, SUCCESS_eq, ERR_CHK_pos_iff']
  split_ifs <;> simp_all

theorem dc1394_query_format7_color_coding_id_run (D : Device) (mode : Nat) (a : Nat)
    (h : Trace) :
    dc1394_query_format7_color_coding_id D mode a h =
      query_outcome D mode Format7Reg.COLOR_CODING_ID a
        (fun value => quadlet (value >>> 24 + COLOR_FORMAT7_MIN)) h := by
  unfold dc1394_query_format7_color_coding_id query_outcome
  simp only [Prog.ite_apply, Prog.bind_apply, Prog.pure_apply,
    GetCameraFormat7Register_apply, gt_iff_lt, SUCCESS_eq, ERR_CHK_pos_iff']
  split_ifs <;> simp_all

theorem dc1394_query_format7_packet_per_frame_run (D : Device) (camera : dc1394camera_t)
    (mode : Nat) (a : Nat) (h : Trace) (hv : IIDC_VERSION_1_30 ≤ camera.sw_version) :
    dc1394_query_format7_packet_per_frame D camera mode a h =
      query_outcome D mode Format7Reg.PACKET_PER_FRAME_INQ a (fun value => value) h := by
  have hv' : camera.sw_version ≥ IIDC_VERSION_1_30 := hv
  unfold dc1394_query_format7_packet_per_frame query_outcome
  simp only [hv', if_true, Prog.ite_apply, Prog.bind_apply, Prog.pure_apply,
    GetCameraFormat7Register_apply, gt_iff_lt, SUCCESS_eq, ERR_CHK_pos_iff']
  split_ifs <;> simp_all

theorem commit_run (D : Device) (fuel : Nat) (camera : dc1394camera_t) (mode : Nat)
    (reg : Format7Reg) (value : Nat) (h : Trace) :
    (do
      let err ← SetCameraFormat7Register D mode reg value
      let err := DC1394_ERR_CHK err
      if err > DC1394_SUCCESS then
        return err
      else
        let err ← _dc1394_v130_handshake D fuel camera (sint mode)
        let err := DC1394_ERR_CHK err
        if err > DC1394_SUCCESS then
          return err
        else
          return err : Prog Int) h = commit_outcome D fuel camera mode reg value h := by
  unfold commit_outcome
  simp only [Prog.ite_apply, Prog.bind_apply, Prog.pure_apply,
    SetCameraFormat7Register_apply, gt_iff_lt, SUCCESS_eq, ERR_CHK_pos_iff', Outcome.after]
  by_cases h0 : D.SetCameraFormat7Register h mode reg (quadlet value) = 0
  · simp only [h0, ne_eq, not_true_eq_false, if_false, if_true, ERR_CHK_zero]
    cases hh : _dc1394_v130_handshake D fuel camera (sint mode)
        (h ++ [Event.set mode reg (quadlet value) 0]) with
    | done e s => by_cases he : e = 0 <;> simp [he]
    | spin s => simp
    | undef s => simp
  · simp [h0]

theorem dc1394_set_format7_image_position_run (D : Device) (fuel : Nat)
    (camera : dc1394camera_t) (mode left top : Nat) (h : Trace) :
    dc1394_set_format7_image_position D fuel camera mode left top h =
      commit_outcome D fuel camera mode Format7Reg.IMAGE_POSITION
        (quadlet (left <<< 16) ||| top) h :=
  commit_run D fuel camera mode _ _ h

theorem dc1394_set_format7_image_size_run (D : Device) (fuel : Nat)
    (camera : dc1394camera_t) (mode width height : Nat) (h : Trace) :
    dc1394_set_format7_image_size D fuel camera mode width height h =
      commit_outcome D fuel camera mode Format7Reg.IMAGE_SIZE
        (quadlet (width <<< 16) ||| height) h :=
  commit_run D fuel camera mode _ _ h

theorem dc1394_set_format7_byte_per_packet_run (D : Device) (fuel : Nat)
    (camera : dc1394camera_t) (mode packet_bytes : Nat) (h : Trace) :
    dc1394_set_format7_byte_per_packet D fuel camera mode packet_bytes h =
      commit_outcome D fuel camera mode Format7Reg.BYTE_PER_PACKET
        (quadlet (packet_bytes <<< 16)) h :=
  commit_run D fuel camera mode _ _ h

/-! ## The handshake -/

theorem and_two_pow_shiftRight (v k : Nat) : (v &&& 2 ^ k) >>> k = (v.testBit k).toNat := by
  apply Nat.eq_of_testBit_eq
  intro i
  rw [Nat.testBit_shiftRight, Nat.testBit_and, Nat.testBit_two_pow]
  cases i with
  | zero => cases hb : v.testBit k <;> simp [hb]
  | succ n =>
    have h1 : ¬ (k = k + (n + 1)) := by omega
    cases hb : v.testBit k <;> simp [h1, Nat.testBit_succ]

theorem value_setting_fields_eq (v : Nat) :
    value_setting_fields v =
      { present := (v.testBit 31).toNat, setting1 := (v.testBit 30).toNat,
        err_flag1 := (v.testBit 23).toNat, err_flag2 := (v.testBit 22).toNat } := by
  unfold value_setting_fields
  rw [show (0x80000000 : Nat) = 2 ^ 31 by norm_num, show (0x40000000 : Nat) = 2 ^ 30 by norm_num,
    show (0x00800000 : Nat) = 2 ^ 23 by norm_num, show (0x00400000 : Nat) = 2 ^ 22 by norm_num]
  simp only [and_two_pow_shiftRight]

theorem v130_handshake_loop_succ (D : Device) (camera : dc1394camera_t) (mode : Int)
    (hv : IIDC_VERSION_1_30 ≤ camera.sw_version) (n : Nat) (vs : ValueSetting) (h : Trace) :
    v130_handshake_loop D camera mode (n + 1) vs h =
      if uint mode > MODE_FORMAT7_MAX ∨ uint mode < MODE_FORMAT7_MIN then
        .done (.error DC1394_FAILURE) []
      else if D.read_err h (uint mode) Format7Reg.VALUE_SETTING = 0 then
        if (D.read_value h (uint mode) Format7Reg.VALUE_SETTING).testBit 30 = true then
          (v130_handshake_loop D camera mode n
            (value_setting_fields (D.read_value h (uint mode) Format7Reg.VALUE_SETTING))
            (h ++ [Event.get (uint mode) Format7Reg.VALUE_SETTING
              (D.read_value h (uint mode) Format7Reg.VALUE_SETTING) 0])).after
            [Event.get (uint mode) Format7Reg.VALUE_SETTING
              (D.read_value h (uint mode) Format7Reg.VALUE_SETTING) 0]
        else
          .done (.ok (0, value_setting_fields
              (D.read_value h (uint mode) Format7Reg.VALUE_SETTING)))
            [Event.get (uint mode) Format7Reg.VALUE_SETTING
              (D.read_value h (uint mode) Format7Reg.VALUE_SETTING) 0]
      else
        .done (.error (DC1394_ERR_CHK (D.read_err h (uint mode) Format7Reg.VALUE_SETTING)))
          [Event.get (uint mode) Format7Reg.VALUE_SETTING
            (D.read_value h (uint mode) Format7Reg.VALUE_SETTING)
            (D.read_err h (uint mode) Format7Reg.VALUE_SETTING)] := by
  rw [v130_handshake_loop]
  simp only [Prog.bind_apply, Prog.ite_apply,
    dc1394_query_format7_value_setting_run D camera _ _ _ hv, query_outcome]
  split_ifs with h1 h2 h3
  · simp
  · have hs : ¬ ((value_setting_fields
        (D.read_value h (uint mode) Format7Reg.VALUE_SETTING)).setting1 == 0) = true := by
      simp [value_setting_fields_eq, h3]
    simp [hs]
  · have hs : ((value_setting_fields
        (D.read_value h (uint mode) Format7Reg.VALUE_SETTING)).setting1 == 0) = true := by
      simp [value_setting_fields_eq, h3]
    simp [hs]
  · simp [h2]

theorem v130_handshake_loop_spec (D : Device) (camera : dc1394camera_t) (mode : Int)
    (hv : IIDC_VERSION_1_30 ≤ camera.sw_version) :
    ∀ (fuel : Nat) (vs : ValueSetting) (h : Trace),
      (∀ e ∈ (v130_handshake_loop D camera mode fuel vs h).seg,
        e.isRead Format7Reg.VALUE_SETTING = true) ∧
      ((∃ q ∈ (v130_handshake_loop D camera mode fuel vs h).seg, q.isRejection = true) →
        ∃ err vs', v130_handshake_loop D camera mode fuel vs h =
            .done (.ok (err, vs')) (v130_handshake_loop D camera mode fuel vs h).seg ∧
          vs'.err_flag1 > 0) := by
  intro fuel
  induction fuel with
  | zero =>
    intro vs h
    simp [v130_handshake_loop]
  | succ n ih =>
    intro vs h
    rw [v130_handshake_loop_succ D camera mode hv]
    split_ifs with h1 h2 h3
    · simp
    · obtain ⟨iha, ihb⟩ := ih
        (value_setting_fields (D.read_value h (uint mode) Format7Reg.VALUE_SETTING))
        (h ++ [Event.get (uint mode) Format7Reg.VALUE_SETTING
          (D.read_value h (uint mode) Format7Reg.VALUE_SETTING) 0])
      simp only [Outcome.seg_after, List.singleton_append, List.mem_cons]
      refine ⟨?_, ?_⟩
      · rintro e (rfl | he)
        · simp [Event.isRead]
        · exact iha e he
      · rintro ⟨q, rfl | hq, hqr⟩
        · simp [Event.isRejection, h3] at hqr
        · obtain ⟨err, vs', heq, hfl⟩ := ihb ⟨q, hq, hqr⟩
          refine ⟨err, vs', ?_, hfl⟩
          rw [heq]
          simp
    · refine ⟨by simp [Event.isRead], ?_⟩
      rintro ⟨q, hq, hqr⟩
      simp only [Outcome.seg_done, List.mem_singleton] at hq
      subst hq
      refine ⟨_, _, rfl, ?_⟩
      simp only [Event.isRejection, Bool.and_eq_true] at hqr
      simp [value_setting_fields_eq, hqr.2]
    · refine ⟨by simp [Event.isRead], ?_⟩
      rintro ⟨q, hq, hqr⟩
      simp only [Outcome.seg_done, List.mem_singleton] at hq
      subst hq
      simp [Event.isRejection, h2] at hqr

theorem dc1394_set_format7_value_setting_run (D : Device) (mode : Nat) (h : Trace) :
    dc1394_set_format7_value_setting D mode h =
      .done (DC1394_ERR_CHK (D.SetCameraFormat7Register h mode Format7Reg.VALUE_SETTING 0x40000000))
        [Event.set mode Format7Reg.VALUE_SETTING 0x40000000
          (D.SetCameraFormat7Register h mode Format7Reg.VALUE_SETTING 0x40000000)] := by
  unfold dc1394_set_format7_value_setting
  simp only [Prog.bind_apply, Prog.ite_apply, Prog.pure_apply, SetCameraFormat7Register_apply,
    show quadlet 0x40000000 = 0x40000000 from rfl]
  split_ifs <;> simp

theorem _dc1394_v130_handshake_old (D : Device) (fuel : Nat) (camera : dc1394camera_t)
    (mode : Int) (h : Trace) (hv : camera.sw_version < IIDC_VERSION_1_30) :
    _dc1394_v130_handshake D fuel camera mode h = .done DC1394_SUCCESS [] := by
  have hv' : ¬ camera.sw_version ≥ IIDC_VERSION_1_30 := by omega
  unfold _dc1394_v130_handshake
  simp only [hv', if_false, Prog.pure_apply]

theorem _dc1394_v130_handshake_run (D : Device) (fuel : Nat) (camera : dc1394camera_t)
    (mode : Int) (h : Trace) (hv : IIDC_VERSION_1_30 ≤ camera.sw_version) :
    _dc1394_v130_handshake D fuel camera mode h =
      if uint mode > MODE_FORMAT7_MAX ∨ uint mode < MODE_FORMAT7_MIN then
        .done DC1394_FAILURE []
      else if D.read_err h (uint mode) Format7Reg.VALUE_SETTING = 0 then
        if (D.read_value h (uint mode) Format7Reg.VALUE_SETTING).testBit 31 = true then
          if D.SetCameraFormat7Register
              (h ++ [Event.get (uint mode) Format7Reg.VALUE_SETTING
                (D.read_value h (uint mode) Format7Reg.VALUE_SETTING) 0])
              (uint mode) Format7Reg.VALUE_SETTING 0x40000000 = 0 then
            (handshake_verdict (v130_handshake_loop D camera mode fuel
              (value_setting_fields (D.read_value h (uint mode) Format7Reg.VALUE_SETTING))
              (h ++ [Event.get (uint mode) Format7Reg.VALUE_SETTING
                  (D.read_value h (uint mode) Format7Reg.VALUE_SETTING) 0,
                Event.set (uint mode) Format7Reg.VALUE_SETTING 0x40000000 0]))).after
              [Event.get (uint mode) Format7Reg.VALUE_SETTING
                  (D.read_value h (uint mode) Format7Reg.VALUE_SETTING) 0,
                Event.set (uint mode) Format7Reg.VALUE_SETTING 0x40000000 0]
          else
            .done (DC1394_ERR_CHK (D.SetCameraFormat7Register
                (h ++ [Event.get (uint mode) Format7Reg.VALUE_SETTING
                  (D.read_value h (uint mode) Format7Reg.VALUE_SETTING) 0])
                (uint mode) Format7Reg.VALUE_SETTING 0x40000000))
              [Event.get (uint mode) Format7Reg.VALUE_SETTING
                  (D.read_value h (uint mode) Format7Reg.VALUE_SETTING) 0,
                Event.set (uint mode) Format7Reg.VALUE_SETTING 0x40000000
                  (D.SetCameraFormat7Register
                    (h ++ [Event.get (uint mode) Format7Reg.VALUE_SETTING
                      (D.read_value h (uint mode) Format7Reg.VALUE_SETTING) 0])
                    (uint mode) Format7Reg.VALUE_SETTING 0x40000000)]
        else
          .done 0 [Event.get (uint mode) Format7Reg.VALUE_SETTING
            (D.read_value h (uint mode) Format7Reg.VALUE_SETTING) 0]
      else
        .done (DC1394_ERR_CHK (D.read_err h (uint mode) Format7Reg.VALUE_SETTING))
          [Event.get (uint mode) Format7Reg.VALUE_SETTING
            (D.read_value h (uint mode) Format7Reg.VALUE_SETTING)
            (D.read_err h (uint mode) Format7Reg.VALUE_SETTING)] := by
  have hv' : camera.sw_version ≥ IIDC_VERSION_1_30 := hv
  unfold _dc1394_v130_handshake
  simp only [hv', if_true, Prog.bind_apply, Prog.ite_apply, Prog.pure_apply,
    dc1394_query_format7_value_setting_run D camera _ _ _ hv, query_outcome,
    dc1394_set_format7_value_setting_run]
  split_ifs with h1 h2 h3 h4
  · simp
  · have hp : ((value_setting_fields
        (D.read_value h (uint mode) Format7Reg.VALUE_SETTING)).present == 1) = true := by
      simp [value_setting_fields_eq, h3]
    simp only [ERR_CHK_zero, gt_iff_lt, SUCCESS_eq, lt_self_iff_false, if_false, hp, if_true,
      Outcome.after_done, List.nil_append, List.append_nil, h4, ERR_CHK_idem, ERR_CHK_pos_iff',
      ne_eq, not_true_eq_false, List.append_assoc, List.singleton_append]
    cases hl : v130_handshake_loop D camera mode fuel _ _ with
    | done a s =>
      cases a with
      | error e => simp [handshake_verdict]
      | ok p =>
        obtain ⟨err, vs⟩ := p
        simp only [handshake_verdict, gt_iff_lt, Prog.ite_apply, Prog.pure_apply]
        split_ifs <;> simp
    | spin s => simp [handshake_verdict]
    | undef s => simp [handshake_verdict]
  · have hp : ((value_setting_fields
        (D.read_value h (uint mode) Format7Reg.VALUE_SETTING)).present == 1) = true := by
      simp [value_setting_fields_eq, h3]
    simp [hp, h4]
  · have hp : ¬ ((value_setting_fields
        (D.read_value h (uint mode) Format7Reg.VALUE_SETTING)).present == 1) = true := by
      simp [value_setting_fields_eq, h3]
    simp [hp]
  · simp [h2]

theorem handshake_verdict_seg (o : Outcome (Except Int (Int × ValueSetting))) :
    (handshake_verdict o).seg = o.seg := by
  cases o with
  | done a s =>
    cases a with
    | error e => rfl
    | ok p =>
      obtain ⟨err, vs⟩ := p
      simp only [handshake_verdict]
      split_ifs <;> rfl
  | spin s => rfl
  | undef s => rfl

theorem _dc1394_v130_handshake_alphabet (D : Device) (fuel : Nat) (camera : dc1394camera_t)
    (mode : Int) (h : Trace) :
    ∀ e ∈ (_dc1394_v130_handshake D fuel camera mode h).seg, e.isValueSetting = true := by
  by_cases hv : IIDC_VERSION_1_30 ≤ camera.sw_version
  · rw [_dc1394_v130_handshake_run D fuel camera mode h hv]
    split_ifs
    · simp
    · simp only [Outcome.seg_after, handshake_verdict_seg, List.cons_append, List.nil_append,
        List.mem_cons]
      rintro e (rfl | rfl | he)
      · simp [Event.isValueSetting, Event.isRead]
      · simp [Event.isValueSetting, Event.isWrite]
      · simp [Event.isValueSetting, (v130_handshake_loop_spec D camera mode hv _ _ _).1 e he]
    · simp [Event.isValueSetting, Event.isRead, Event.isWrite]
    · simp [Event.isValueSetting, Event.isRead]
    · simp [Event.isValueSetting, Event.isRead]
  · rw [_dc1394_v130_handshake_old D fuel camera mode h (by omega)]
    simp

theorem _dc1394_v130_handshake_rejection (D : Device) (fuel : Nat) (camera : dc1394camera_t)
    (mode : Int) (h : Trace)
    (hq : ∃ q ∈ (_dc1394_v130_handshake D fuel camera mode h).seg.tail, q.isRejection = true) :
    _dc1394_v130_handshake D fuel camera mode h =
      .done DC1394_FAILURE (_dc1394_v130_handshake D fuel camera mode h).seg := by
  by_cases hv : IIDC_VERSION_1_30 ≤ camera.sw_version
  · rw [_dc1394_v130_handshake_run D fuel camera mode h hv] at hq ⊢
    split_ifs at hq ⊢
    · simp
    · simp only [Outcome.seg_after, handshake_verdict_seg, List.cons_append, List.nil_append,
        List.tail_cons, List.mem_cons] at hq
      obtain ⟨q, rfl | hq, hqr⟩ := hq
      · simp [Event.isRejection] at hqr
      · obtain ⟨err, vs, heq, hfl⟩ :=
          (v130_handshake_loop_spec D camera mode hv _ _ _).2 ⟨q, hq, hqr⟩
        rw [heq]
        simp [handshake_verdict, hfl]
    · simp [Event.isRejection] at hq
    · simp at hq
    · simp at hq
  · rw [_dc1394_v130_handshake_old D fuel camera mode h (by omega)] at hq
    simp at hq

theorem handshake_rejected_tail {seg : Trace} (hr : handshake_rejected seg) :
    ∃ q ∈ seg.tail, q.isRejection = true := by
  obtain ⟨pre, p, q, post, rfl, _, hq⟩ := hr
  refine ⟨q, ?_, hq⟩
  cases pre with
  | nil => simp
  | cons a pre => simp

theorem handshake_rejected_append_left {A B : Trace}
    (hA : ∀ e ∈ A, e.isValueSetting = false) (hr : handshake_rejected (A ++ B)) :
    handshake_rejected B := by
  induction A with
  | nil => simpa using hr
  | cons a A ih =>
    apply ih (fun e he => hA e (List.mem_cons_of_mem _ he))
    obtain ⟨pre, p, q, post, heq, hp, hq⟩ := hr
    cases pre with
    | nil =>
      simp only [List.nil_append, List.cons_append, List.cons.injEq] at heq
      have := hA a (List.mem_cons_self _ _)
      rw [heq.1, hp] at this
      cases this
    | cons b pre =>
      simp only [List.cons_append, List.cons.injEq] at heq
      exact ⟨pre, p, q, post, heq.2, hp, hq⟩

theorem handshake_rejected_append {A B : Trace}
    (hB : ∀ q ∈ B.head?, q.isRejection = false) (hr : handshake_rejected (A ++ B)) :
    handshake_rejected A ∨ handshake_rejected B := by
  obtain ⟨pre, p, q, post, heq, hp, hq⟩ := hr
  rcases List.append_eq_append_iff.1 heq with ⟨a', h1, h2⟩ | ⟨c', h1, h2⟩
  · -- pre = A ++ a', B = a' ++ p :: q :: post
    right
    exact ⟨a', p, q, post, h2, hp, hq⟩
  · -- A = pre ++ c', p :: q :: post = c' ++ B
    cases c' with
    | nil =>
      right
      simp only [List.nil_append] at h2
      exact ⟨[], p, q, post, by simp [h2], hp, hq⟩
    | cons c c' =>
      simp only [List.cons_append, List.cons.injEq] at h2
      obtain ⟨rfl, h2⟩ := h2
      cases c' with
      | nil =>
        simp only [List.nil_append] at h2
        subst h2
        have := hB q (by simp)
        rw [hq] at this
        cases this
      | cons d c' =>
        simp only [List.cons_append, List.cons.injEq] at h2
        obtain ⟨rfl, h2⟩ := h2
        left
        exact ⟨pre, p, q, c', by simp [h1], hp, hq⟩

theorem not_handshake_rejected_of_no_rejection {A : Trace}
    (hA : ∀ e ∈ A, e.isRejection = false) : ¬ handshake_rejected A := by
  intro hr
  obtain ⟨q, hq, hqr⟩ := handshake_rejected_tail hr
  have := hA q (List.mem_of_mem_tail hq)
  rw [hqr] at this
  cases this

/-! ## Which registers a piece of code touches -/

theorem Prog.emits_pure {α : Type} (L : List (Option (Bool × Format7Reg))) (a : α) :
    Prog.emits L (pure a : Prog α) := by
  intro h e he
  simp at he

theorem Prog.emits_undef {α : Type} (L : List (Option (Bool × Format7Reg))) :
    Prog.emits L (Prog.undef : Prog α) := by
  intro h e he
  simp at he

theorem Prog.emits_bind {α β : Type} {L : List (Option (Bool × Format7Reg))} {m : Prog α}
    {k : α → Prog β} (hm : Prog.emits L m) (hk : ∀ a, Prog.emits L (k a)) :
    Prog.emits L (m >>= k) := by
  intro h e he
  rw [Prog.bind_seg] at he
  rcases List.mem_append.1 he with he | he
  · exact hm h e he
  · cases hmh : m h with
    | done a s => rw [hmh] at he; exact hk a _ e he
    | spin s => rw [hmh] at he; simp at he
    | undef s => rw [hmh] at he; simp at he

theorem Prog.emits_ite {α : Type} {L : List (Option (Bool × Format7Reg))} (c : Prop)
    [Decidable c] {f g : Prog α} (hf : Prog.emits L f) (hg : Prog.emits L g) :
    Prog.emits L (if c then f else g) := by
  split
  · exact hf
  · exact hg

theorem Prog.emits_mono {α : Type} {L L' : List (Option (Bool × Format7Reg))} {m : Prog α}
    (hm : Prog.emits L m) (hL : ∀ x ∈ L, x ∈ L') : Prog.emits L' m :=
  fun h e he => hL _ (hm h e he)

theorem Prog.emits_of_eq {α : Type} {L : List (Option (Bool × Format7Reg))} {m : Prog α}
    (f : Trace → Outcome α) (hf : ∀ h, m h = f h) (hm : ∀ h, ∀ e ∈ (f h).seg, e.access ∈ L) :
    Prog.emits L m := by
  intro h e he
  rw [hf] at he
  exact hm h e he

theorem query_outcome_access {α : Type} (D : Device) (mode : Nat) (reg : Format7Reg) (old : α)
    (decode : Nat → α) (h : Trace) :
    ∀ e ∈ (query_outcome D mode reg old decode h).seg, e.access = some (false, reg) := by
  unfold query_outcome
  split_ifs <;> simp [Event.access]

theorem commit_outcome_access (D : Device) (fuel : Nat) (camera : dc1394camera_t) (mode : Nat)
    (reg : Format7Reg) (value : Nat) (h : Trace) :
    ∀ e ∈ (commit_outcome D fuel camera mode reg value h).seg,
      e.access ∈ [some (true, reg), some (false, Format7Reg.VALUE_SETTING),
        some (true, Format7Reg.VALUE_SETTING)] := by
  unfold commit_outcome
  have key : ∀ e ∈ (_dc1394_v130_handshake D fuel camera (sint mode)
      (h ++ [Event.set mode reg (quadlet value) 0])).seg,
      e.access ∈ [some (true, reg), some (false, Format7Reg.VALUE_SETTING),
        some (true, Format7Reg.VALUE_SETTING)] := by
    intro e he
    have := _dc1394_v130_handshake_alphabet D fuel camera (sint mode) _ e he
    cases e <;> simp_all [Event.isValueSetting, Event.isRead, Event.isWrite, Event.access]
  split_ifs
  · intro e he
    have hs : e = Event.set mode reg (quadlet value) 0 ∨
        e ∈ (_dc1394_v130_handshake D fuel camera (sint mode)
          (h ++ [Event.set mode reg (quadlet value) 0])).seg := by
      revert he
      cases _dc1394_v130_handshake D fuel camera (sint mode)
        (h ++ [Event.set mode reg (quadlet value) 0]) <;> simp
    rcases hs with rfl | hs
    · simp [Event.access]
    · exact key e hs
  · simp [Event.access]

theorem format7_setup_stop_iso_emits (D : Device) :
    Prog.emits [none] (format7_setup_stop_iso D) := by
  intro h e he
  unfold format7_setup_stop_iso dc1394_get_iso_status dc1394_stop_iso_transmission at he
  simp only [Prog.bind_apply, Prog.ite_apply, Prog.pure_apply] at he
  split_ifs at he <;> simp at he <;> rcases he with rfl | rfl <;> simp [Event.access]

theorem format7_setup_channel_and_mode_emits (D : Device) (channel mode speed : Int) :
    Prog.emits [none] (format7_setup_channel_and_mode D channel mode speed) := by
  intro h e he
  unfold format7_setup_channel_and_mode dc1394_set_iso_channel_and_speed
    dc1394_set_video_format dc1394_set_video_mode at he
  simp only [Prog.bind_apply, Prog.ite_apply, Prog.pure_apply] at he
  split_ifs at he <;> simp at he <;> rcases he with rfl | rfl | rfl <;> simp [Event.access]

theorem dc1394_query_format7_image_position_emits (D : Device) (mode a b : Nat) :
    Prog.emits [some (false, Format7Reg.IMAGE_POSITION)]
      (dc1394_query_format7_image_position D mode a b) :=
  Prog.emits_of_eq _ (dc1394_query_format7_image_position_run D mode a b)
    (fun h e he => by simp [query_outcome_access _ _ _ _ _ _ e he])

theorem dc1394_query_format7_image_size_emits (D : Device) (mode a b : Nat) :
    Prog.emits [some (false, Format7Reg.IMAGE_SIZE)]
      (dc1394_query_format7_image_size D mode a b) :=
  Prog.emits_of_eq _ (dc1394_query_format7_image_size_run D mode a b)
    (fun h e he => by simp [query_outcome_access _ _ _ _ _ _ e he])

theorem dc1394_query_format7_max_image_size_emits (D : Device) (mode a b : Nat) :
    Prog.emits [some (false, Format7Reg.MAX_IMAGE_SIZE_INQ)]
      (dc1394_query_format7_max_image_size D mode a b) :=
  Prog.emits_of_eq _ (dc1394_query_format7_max_image_size_run D mode a b)
    (fun h e he => by simp [query_outcome_access _ _ _ _ _ _ e he])

theorem dc1394_query_format7_packet_para_emits (D : Device) (mode a b : Nat) :
    Prog.emits [some (false, Format7Reg.PACKET_PARA_INQ)]
      (dc1394_query_format7_packet_para D mode a b) :=
  Prog.emits_of_eq _ (dc1394_query_format7_packet_para_run D mode a b)
    (fun h e he => by simp [query_outcome_access _ _ _ _ _ _ e he])

theorem dc1394_query_format7_byte_per_packet_emits (D : Device) (mode a : Nat) :
    Prog.emits [some (false, Format7Reg.BYTE_PER_PACKET)]
      (dc1394_query_format7_byte_per_packet D mode a) :=
  Prog.emits_of_eq _ (dc1394_query_format7_byte_per_packet_run D mode a)
    (fun h e he => by simp [query_outcome_access _ _ _ _ _ _ e he])

theorem dc1394_query_format7_recommended_byte_per_packet_emits (D : Device) (mode a : Nat) :
    Prog.emits [some (false, Format7Reg.BYTE_PER_PACKET)]
      (dc1394_query_format7_recommended_byte_per_packet D mode a) :=
  Prog.emits_of_eq _ (dc1394_query_format7_recommended_byte_per_packet_run D mode a)
    (fun h e he => by simp [query_outcome_access _ _ _ _ _ _ e he])

theorem dc1394_query_format7_color_coding_id_emits (D : Device) (mode a : Nat) :
    Prog.emits [some (false, Format7Reg.COLOR_CODING_ID)]
      (dc1394_query_format7_color_coding_id D mode a) :=
  Prog.emits_of_eq _ (dc1394_query_format7_color_coding_id_run D mode a)
    (fun h e he => by simp [query_outcome_access _ _ _ _ _ _ e he])

theorem dc1394_query_format7_total_bytes_emits (D : Device) (mode a : Nat) :
    Prog.emits [some (false, Format7Reg.TOTAL_BYTES_HI_INQ),
        some (false, Format7Reg.TOTAL_BYTES_LO_INQ)]
      (dc1394_query_format7_total_bytes D mode a) := by
  intro h e he
  unfold dc1394_query_format7_total_bytes at he
  simp only [Prog.bind_apply, Prog.ite_apply, Prog.pure_apply,
    GetCameraFormat7Register_apply] at he
  split_ifs at he <;> simp at he
  all_goals rcases he with rfl | rfl <;> simp [Event.access]

theorem dc1394_query_format7_packet_per_frame_emits (D : Device) (camera : dc1394camera_t)
    (mode a : Nat) :
    Prog.emits [some (false, Format7Reg.PACKET_PER_FRAME_INQ),
        some (false, Format7Reg.BYTE_PER_PACKET), some (false, Format7Reg.TOTAL_BYTES_HI_INQ),
        some (false, Format7Reg.TOTAL_BYTES_LO_INQ)]
      (dc1394_query_format7_packet_per_frame D camera mode a) := by
  by_cases hv : IIDC_VERSION_1_30 ≤ camera.sw_version
  · exact Prog.emits_of_eq _ (fun h => dc1394_query_format7_packet_per_frame_run D camera mode a h hv)
      (fun h e he => by simp [query_outcome_access _ _ _ _ _ _ e he])
  · have hv' : ¬ camera.sw_version ≥ IIDC_VERSION_1_30 := hv
    unfold dc1394_query_format7_packet_per_frame
    simp only [hv', if_false]
    refine Prog.emits_bind (Prog.emits_mono (dc1394_query_format7_byte_per_packet_emits _ _ _)
      (by simp)) ?_
    rintro ⟨err, packet_bytes⟩
    dsimp only
    refine Prog.emits_ite _ (Prog.emits_pure _ _) ?_
    refine Prog.emits_ite _ (Prog.emits_pure _ _) ?_
    refine Prog.emits_bind (Prog.emits_mono (dc1394_query_format7_total_bytes_emits _ _ _)
      (by simp)) ?_
    rintro ⟨err, total_bytes⟩
    dsimp only
    refine Prog.emits_ite _ (Prog.emits_pure _ _) ?_
    exact Prog.emits_ite _ (Prog.emits_pure _ _) (Prog.emits_pure _ _)

theorem dc1394_set_format7_image_position_emits (D : Device) (fuel : Nat)
    (camera : dc1394camera_t) (mode left top : Nat) :
    Prog.emits [some (true, Format7Reg.IMAGE_POSITION), some (false, Format7Reg.VALUE_SETTING),
        some (true, Format7Reg.VALUE_SETTING)]
      (dc1394_set_format7_image_position D fuel camera mode left top) :=
  Prog.emits_of_eq _ (dc1394_set_format7_image_position_run D fuel camera mode left top)
    (fun h => commit_outcome_access D fuel camera mode _ _ h)

theorem dc1394_set_format7_image_size_emits (D : Device) (fuel : Nat)
    (camera : dc1394camera_t) (mode width height : Nat) :
    Prog.emits [some (true, Format7Reg.IMAGE_SIZE), some (false, Format7Reg.VALUE_SETTING),
        some (true, Format7Reg.VALUE_SETTING)]
      (dc1394_set_format7_image_size D fuel camera mode width height) :=
  Prog.emits_of_eq _ (dc1394_set_format7_image_size_run D fuel camera mode width height)
    (fun h => commit_outcome_access D fuel camera mode _ _ h)

theorem dc1394_set_format7_byte_per_packet_emits (D : Device) (fuel : Nat)
    (camera : dc1394camera_t) (mode packet_bytes : Nat) :
    Prog.emits [some (true, Format7Reg.BYTE_PER_PACKET), some (false, Format7Reg.VALUE_SETTING),
        some (true, Format7Reg.VALUE_SETTING)]
      (dc1394_set_format7_byte_per_packet D fuel camera mode packet_bytes) :=
  Prog.emits_of_eq _ (dc1394_set_format7_byte_per_packet_run D fuel camera mode packet_bytes)
    (fun h => commit_outcome_access D fuel camera mode _ _ h)

theorem format7_setup_query_bpp_emits (D : Device) (mode bytes_per_packet : Int) :
    Prog.emits [some (false, Format7Reg.BYTE_PER_PACKET)]
      (format7_setup_query_bpp D mode bytes_per_packet) := by
  unfold format7_setup_query_bpp
  refine Prog.emits_ite _ ?_ (Prog.emits_pure _ _)
  refine Prog.emits_bind (dc1394_query_format7_byte_per_packet_emits _ _ _) ?_
  rintro ⟨err, b⟩
  dsimp only
  exact Prog.emits_ite _ (Prog.emits_pure _ _) (Prog.emits_pure _ _)

theorem format7_setup_image_position_emits (D : Device) (fuel : Nat) (camera : dc1394camera_t)
    (mode left top : Int) :
    Prog.emits [some (false, Format7Reg.IMAGE_POSITION), some (true, Format7Reg.IMAGE_POSITION),
        some (false, Format7Reg.VALUE_SETTING), some (true, Format7Reg.VALUE_SETTING)]
      (format7_setup_image_position D fuel camera mode left top) := by
  unfold format7_setup_image_position
  refine Prog.emits_bind (Prog.emits_mono (dc1394_query_format7_image_position_emits _ _ _ _)
    (by simp)) ?_
  rintro ⟨err, cl, ct⟩
  dsimp only
  refine Prog.emits_ite _ (Prog.emits_pure _ _) ?_
  refine Prog.emits_bind (Prog.emits_mono
    (dc1394_set_format7_image_position_emits _ _ _ _ _ _) (by simp)) ?_
  intro err
  exact Prog.emits_ite _ (Prog.emits_pure _ _) (Prog.emits_pure _ _)

theorem format7_setup_query_size_emits (D : Device) (mode width height : Int) :
    Prog.emits [some (false, Format7Reg.IMAGE_SIZE)]
      (format7_setup_query_size D mode width height) := by
  unfold format7_setup_query_size
  refine Prog.emits_ite _ ?_ (Prog.emits_pure _ _)
  refine Prog.emits_bind (dc1394_query_format7_image_size_emits _ _ _ _) ?_
  rintro ⟨err, cw, ch⟩
  dsimp only
  exact Prog.emits_ite _ (Prog.emits_pure _ _) (Prog.emits_pure _ _)

theorem format7_setup_max_size_emits (D : Device) (mode left top width height : Int) :
    Prog.emits [some (false, Format7Reg.MAX_IMAGE_SIZE_INQ)]
      (format7_setup_max_size D mode left top width height) := by
  unfold format7_setup_max_size
  refine Prog.emits_ite _ ?_ (Prog.emits_pure _ _)
  refine Prog.emits_bind (dc1394_query_format7_max_image_size_emits _ _ _ _) ?_
  rintro ⟨err, cw, ch⟩
  dsimp only
  exact Prog.emits_ite _ (Prog.emits_pure _ _) (Prog.emits_pure _ _)

theorem format7_setup_commit_size_emits (D : Device) (fuel : Nat) (camera : dc1394camera_t)
    (mode width height : Int) :
    Prog.emits [some (true, Format7Reg.IMAGE_SIZE), some (false, Format7Reg.VALUE_SETTING),
        some (true, Format7Reg.VALUE_SETTING)]
      (format7_setup_commit_size D fuel camera mode width height) := by
  unfold format7_setup_commit_size
  refine Prog.emits_bind (dc1394_set_format7_image_size_emits _ _ _ _ _ _) ?_
  intro err
  exact Prog.emits_ite _ (Prog.emits_pure _ _) (Prog.emits_pure _ _)

theorem format7_setup_packet_size_emits (D : Device) (fuel : Nat) (camera : dc1394camera_t)
    (mode bytes_per_packet : Int) :
    Prog.emits [some (false, Format7Reg.BYTE_PER_PACKET), some (false, Format7Reg.PACKET_PARA_INQ),
        some (true, Format7Reg.BYTE_PER_PACKET), some (false, Format7Reg.VALUE_SETTING),
        some (true, Format7Reg.VALUE_SETTING)]
      (format7_setup_packet_size D fuel camera mode bytes_per_packet) := by
  unfold format7_setup_packet_size
  refine Prog.emits_bind (Prog.emits_mono
    (dc1394_query_format7_recommended_byte_per_packet_emits _ _ _) (by simp)) ?_
  rintro ⟨err, recom_bpp⟩
  dsimp only
  refine Prog.emits_ite _ (Prog.emits_pure _ _) ?_
  refine Prog.emits_bind (Prog.emits_mono (dc1394_query_format7_packet_para_emits _ _ _ _)
    (by simp)) ?_
  rintro ⟨err, unit_bytes, max_bytes⟩
  dsimp only
  refine Prog.emits_ite _ (Prog.emits_pure _ _) ?_
  split
  · exact Prog.emits_undef _
  · refine Prog.emits_bind (Prog.emits_mono
      (dc1394_set_format7_byte_per_packet_emits _ _ _ _ _) (by simp)) ?_
    intro err
    exact Prog.emits_ite _ (Prog.emits_pure _ _) (Prog.emits_pure _ _)

theorem format7_setup_finish_emits (D : Device) (err width height : Int) (is_iso_on : Bool)
    (capture : dc1394capture_t) :
    Prog.emits [none] (format7_setup_finish D err width height is_iso_on capture) := by
  intro h e he
  unfold format7_setup_finish dc1394_start_iso_transmission at he
  simp only [Prog.bind_apply, Prog.ite_apply, Prog.pure_apply] at he
  split_ifs at he <;> simp at he <;> subst he <;> simp [Event.access]

theorem format7_setup_accounting_emits (D : Device) (camera : dc1394camera_t)
    (channel mode width height bytes_per_packet : Int) (is_iso_on : Bool)
    (capture : dc1394capture_t) :
    Prog.emits [none, some (false, Format7Reg.BYTE_PER_PACKET),
        some (false, Format7Reg.PACKET_PER_FRAME_INQ), some (false, Format7Reg.COLOR_CODING_ID),
        some (false, Format7Reg.TOTAL_BYTES_HI_INQ), some (false, Format7Reg.TOTAL_BYTES_LO_INQ)]
      (format7_setup_accounting D camera channel mode width height bytes_per_packet is_iso_on
        capture) := by
  unfold format7_setup_accounting
  refine Prog.emits_bind (Prog.emits_mono (dc1394_query_format7_byte_per_packet_emits _ _ _)
    (by simp)) ?_
  rintro ⟨err, packet_bytes⟩
  dsimp only
  refine Prog.emits_ite _ (Prog.emits_pure _ _) ?_
  refine Prog.emits_ite _ (Prog.emits_pure _ _) ?_
  refine Prog.emits_ite _ ?_ ?_
  · refine Prog.emits_bind (Prog.emits_mono
      (dc1394_query_format7_packet_per_frame_emits _ _ _ _) (by simp)) ?_
    rintro ⟨err, ppf⟩
    dsimp only
    refine Prog.emits_ite _ (Prog.emits_pure _ _) ?_
    exact Prog.emits_mono (format7_setup_finish_emits _ _ _ _ _ _) (by simp)
  · refine Prog.emits_bind (Prog.emits_mono
      (dc1394_query_format7_color_coding_id_emits _ _ _) (by simp)) ?_
    rintro ⟨err, color_coding⟩
    dsimp only
    refine Prog.emits_ite _ (Prog.emits_pure _ _) ?_
    split
    · exact Prog.emits_undef _
    · split
      · exact Prog.emits_undef _
      · exact Prog.emits_mono (format7_setup_finish_emits _ _ _ _ _ _) (by simp)

/-! ## The pieces of the setup, run -/

theorem commit_verdict_seg {α : Type} (a : α) (o : Outcome Int) :
    (commit_verdict a o).seg = o.seg := by
  cases o with
  | done err s => simp only [commit_verdict]; split_ifs <;> rfl
  | spin s => rfl
  | undef s => rfl

theorem commit_verdict_eq_ok {α : Type} {a b : α} {o : Outcome Int} {s : Trace}
    (h : commit_verdict a o = .done (.ok b) s) : o = .done 0 s ∧ b = a := by
  cases o with
  | done err t =>
    simp only [commit_verdict] at h
    split_ifs at h with h0
    · simp at h
    · simp only [Outcome.done.injEq, Except.ok.injEq] at h
      have h0' : err = 0 := by simpa using h0
      simp [h0', h.1, h.2]
  | spin t => simp [commit_verdict] at h
  | undef t => simp [commit_verdict] at h

theorem commit_verdict_eq_error {α : Type} {a : α} {o : Outcome Int} {s : Trace} {e : Int}
    (h : commit_verdict a o = .done (.error e) s) : e ≠ 0 := by
  cases o with
  | done err t =>
    simp only [commit_verdict] at h
    split_ifs at h with h0
    · simp only [Outcome.done.injEq, Except.error.injEq] at h
      rw [← h.1]
      exact ERR_CHK_ne_zero h0
    · simp at h
  | spin t => simp [commit_verdict] at h
  | undef t => simp [commit_verdict] at h

/-- The transactions of a committing write: the write, then accesses to the value-setting
register only. -/
theorem commit_outcome_seg (D : Device) (fuel : Nat) (camera : dc1394camera_t) (mode : Nat)
    (reg : Format7Reg) (value : Nat) (h : Trace) :
    ∃ err rest, (commit_outcome D fuel camera mode reg value h).seg =
        Event.set mode reg (quadlet value) err :: rest ∧
      err = D.SetCameraFormat7Register h mode reg (quadlet value) ∧
      (∀ e ∈ rest, e.isValueSetting = true) ∧
      ((∃ q ∈ rest.tail, q.isRejection = true) →
        commit_outcome D fuel camera mode reg value h =
          .done DC1394_FAILURE (commit_outcome D fuel camera mode reg value h).seg) := by
  unfold commit_outcome
  split_ifs with h0
  · refine ⟨0, (_dc1394_v130_handshake D fuel camera (sint mode)
      (h ++ [Event.set mode reg (quadlet value) 0])).seg, ?_, h0.symm,
      _dc1394_v130_handshake_alphabet D fuel camera (sint mode) _, ?_⟩
    · cases _dc1394_v130_handshake D fuel camera (sint mode)
        (h ++ [Event.set mode reg (quadlet value) 0]) <;> rfl
    · intro hq
      rw [_dc1394_v130_handshake_rejection D fuel camera (sint mode) _ hq]
      simp
  · exact ⟨_, [], rfl, rfl, by simp, by simp⟩

theorem commit_outcome_rejected (D : Device) (fuel : Nat) (camera : dc1394camera_t) (mode : Nat)
    (reg : Format7Reg) (value : Nat) (h : Trace) (hreg : reg ≠ Format7Reg.VALUE_SETTING)
    (hr : handshake_rejected (commit_outcome D fuel camera mode reg value h).seg) :
    commit_outcome D fuel camera mode reg value h =
      .done DC1394_FAILURE (commit_outcome D fuel camera mode reg value h).seg := by
  obtain ⟨err, rest, hseg, _, _, hrej⟩ := commit_outcome_seg D fuel camera mode reg value h
  apply hrej
  rw [hseg] at hr
  have hr' : handshake_rejected rest := by
    apply handshake_rejected_append_left (A := [Event.set mode reg (quadlet value) err])
    · intro e he
      simp only [List.mem_singleton] at he
      subst he
      simp [Event.isValueSetting, Event.isRead, Event.isWrite, hreg]
    · simpa using hr
  exact handshake_rejected_tail hr'

theorem format7_setup_image_position_run (D : Device) (fuel : Nat) (camera : dc1394camera_t)
    (mode left top : Int) (h : Trace) :
    format7_setup_image_position D fuel camera mode left top h =
      if uint mode > MODE_FORMAT7_MAX ∨ uint mode < MODE_FORMAT7_MIN then
        .done (.error DC1394_FAILURE) []
      else if D.read_err h (uint mode) Format7Reg.IMAGE_POSITION = 0 then
        (commit_verdict
          (if left = QUERY_FROM_CAMERA then
              sint ((D.read_value h (uint mode) Format7Reg.IMAGE_POSITION &&& 0xFFFF0000) >>> 16)
            else left,
           if top = QUERY_FROM_CAMERA then
              sint (D.read_value h (uint mode) Format7Reg.IMAGE_POSITION &&& 0x0000FFFF)
            else top)
          (commit_outcome D fuel camera (uint mode) Format7Reg.IMAGE_POSITION
            (quadlet (uint (if left = QUERY_FROM_CAMERA then
                sint ((D.read_value h (uint mode) Format7Reg.IMAGE_POSITION &&& 0xFFFF0000) >>> 16)
              else left) <<< 16) |||
              uint (if top = QUERY_FROM_CAMERA then
                sint (D.read_value h (uint mode) Format7Reg.IMAGE_POSITION &&& 0x0000FFFF)
              else top))
            (h ++ [Event.get (uint mode) Format7Reg.IMAGE_POSITION
              (D.read_value h (uint mode) Format7Reg.IMAGE_POSITION) 0]))).after
          [Event.get (uint mode) Format7Reg.IMAGE_POSITION
            (D.read_value h (uint mode) Format7Reg.IMAGE_POSITION) 0]
      else
        .done (.error (DC1394_ERR_CHK (D.read_err h (uint mode) Format7Reg.IMAGE_POSITION)))
          [Event.get (uint mode) Format7Reg.IMAGE_POSITION
            (D.read_value h (uint mode) Format7Reg.IMAGE_POSITION)
            (D.read_err h (uint mode) Format7Reg.IMAGE_POSITION)] := by
  unfold format7_setup_image_position
  simp only [Prog.bind_apply, Prog.ite_apply, Prog.pure_apply,
    dc1394_query_format7_image_position_run, dc1394_set_format7_image_position_run,
    query_outcome]
  by_cases h1 : uint mode > MODE_FORMAT7_MAX ∨ uint mode < MODE_FORMAT7_MIN
  · simp [h1]
  · by_cases h2 : D.read_err h (uint mode) Format7Reg.IMAGE_POSITION = 0
    · simp only [h1, h2, if_false, if_true, ERR_CHK_zero, gt_iff_lt, SUCCESS_eq,
        lt_self_iff_false, ERR_CHK_pos_iff']
      generalize commit_outcome D fuel camera (uint mode) Format7Reg.IMAGE_POSITION _ _ = o
      cases o with
      | done e s =>
        by_cases he : e = 0
        · simp [commit_verdict, he]
        · simp [commit_verdict, he]
      | spin s => simp [commit_verdict]
      | undef s => simp [commit_verdict]
    · simp [h1, h2]

theorem format7_setup_query_bpp_run (D : Device) (mode bytes_per_packet : Int) (h : Trace) :
    format7_setup_query_bpp D mode bytes_per_packet h =
      if bytes_per_packet = QUERY_FROM_CAMERA then
        if uint mode > MODE_FORMAT7_MAX ∨ uint mode < MODE_FORMAT7_MIN then
          .done (.error DC1394_FAILURE) []
        else if D.read_err h (uint mode) Format7Reg.BYTE_PER_PACKET = 0 then
          .done (.ok (sint ((D.read_value h (uint mode) Format7Reg.BYTE_PER_PACKET
              &&& 0xFFFF0000) >>> 16)))
            [Event.get (uint mode) Format7Reg.BYTE_PER_PACKET
              (D.read_value h (uint mode) Format7Reg.BYTE_PER_PACKET) 0]
        else
          .done (.error (DC1394_ERR_CHK (D.read_err h (uint mode) Format7Reg.BYTE_PER_PACKET)))
            [Event.get (uint mode) Format7Reg.BYTE_PER_PACKET
              (D.read_value h (uint mode) Format7Reg.BYTE_PER_PACKET)
              (D.read_err h (uint mode) Format7Reg.BYTE_PER_PACKET)]
      else .done (.ok bytes_per_packet) [] := by
  unfold format7_setup_query_bpp
  simp only [Prog.bind_apply, Prog.ite_apply, Prog.pure_apply,
    dc1394_query_format7_byte_per_packet_run, query_outcome]
  by_cases h0 : bytes_per_packet = QUERY_FROM_CAMERA
  · by_cases h1 : uint mode > MODE_FORMAT7_MAX ∨ uint mode < MODE_FORMAT7_MIN
    · simp [h0, h1]
    · by_cases h2 : D.read_err h (uint mode) Format7Reg.BYTE_PER_PACKET = 0
      · simp [h0, h1, h2]
      · simp [h0, h1, h2]
  · simp [h0]

theorem format7_setup_query_size_run (D : Device) (mode width height : Int) (h : Trace) :
    format7_setup_query_size D mode width height h =
      if width = QUERY_FROM_CAMERA ∨ height = QUERY_FROM_CAMERA then
        if uint mode > MODE_FORMAT7_MAX ∨ uint mode < MODE_FORMAT7_MIN then
          .done (.error DC1394_FAILURE) []
        else if D.read_err h (uint mode) Format7Reg.IMAGE_SIZE = 0 then
          .done (.ok
            (if width = QUERY_FROM_CAMERA then
                if (D.read_value h (uint mode) Format7Reg.IMAGE_SIZE &&& 0xFFFF0000) >>> 16 > 0
                then sint ((D.read_value h (uint mode) Format7Reg.IMAGE_SIZE &&& 0xFFFF0000) >>> 16)
                else USE_MAX_AVAIL
              else width,
             if height = QUERY_FROM_CAMERA then
                if D.read_value h (uint mode) Format7Reg.IMAGE_SIZE &&& 0x0000FFFF > 0
                then sint (D.read_value h (uint mode) Format7Reg.IMAGE_SIZE &&& 0x0000FFFF)
                else USE_MAX_AVAIL
              else height))
            [Event.get (uint mode) Format7Reg.IMAGE_SIZE
              (D.read_value h (uint mode) Format7Reg.IMAGE_SIZE) 0]
        else
          .done (.error (DC1394_ERR_CHK (D.read_err h (uint mode) Format7Reg.IMAGE_SIZE)))
            [Event.get (uint mode) Format7Reg.IMAGE_SIZE
              (D.read_value h (uint mode) Format7Reg.IMAGE_SIZE)
              (D.read_err h (uint mode) Format7Reg.IMAGE_SIZE)]
      else .done (.ok (width, height)) [] := by
  unfold format7_setup_query_size
  simp only [Prog.bind_apply, Prog.ite_apply, Prog.pure_apply,
    dc1394_query_format7_image_size_run, query_outcome]
  by_cases h0 : width = QUERY_FROM_CAMERA ∨ height = QUERY_FROM_CAMERA
  · by_cases h1 : uint mode > MODE_FORMAT7_MAX ∨ uint mode < MODE_FORMAT7_MIN
    · simp [h0, h1]
    · by_cases h2 : D.read_err h (uint mode) Format7Reg.IMAGE_SIZE = 0
      · simp [h0, h1, h2]
      · simp [h0, h1, h2]
  · simp [h0]

theorem format7_setup_max_size_run (D : Device) (mode left top width height : Int)
    (h : Trace) :
    format7_setup_max_size D mode left top width height h =
      if width = USE_MAX_AVAIL ∨ height = USE_MAX_AVAIL then
        if uint mode > MODE_FORMAT7_MAX ∨ uint mode < MODE_FORMAT7_MIN then
          .done (.error DC1394_FAILURE) []
        else if D.read_err h (uint mode) Format7Reg.MAX_IMAGE_SIZE_INQ = 0 then
          .done (.ok
            (if width = USE_MAX_AVAIL then
                sint (uint ((((D.read_value h (uint mode) Format7Reg.MAX_IMAGE_SIZE_INQ
                  &&& 0xFFFF0000) >>> 16 : Nat) : Int) - (uint left : Int)))
              else width,
             if height = USE_MAX_AVAIL then
                sint (uint ((((D.read_value h (uint mode) Format7Reg.MAX_IMAGE_SIZE_INQ
                  &&& 0x0000FFFF : Nat) : Int) - (uint top : Int))))
              else height))
            [Event.get (uint mode) Format7Reg.MAX_IMAGE_SIZE_INQ
              (D.read_value h (uint mode) Format7Reg.MAX_IMAGE_SIZE_INQ) 0]
        else
          .done (.error (DC1394_ERR_CHK (D.read_err h (uint mode) Format7Reg.MAX_IMAGE_SIZE_INQ)))
            [Event.get (uint mode) Format7Reg.MAX_IMAGE_SIZE_INQ
              (D.read_value h (uint mode) Format7Reg.MAX_IMAGE_SIZE_INQ)
              (D.read_err h (uint mode) Format7Reg.MAX_IMAGE_SIZE_INQ)]
      else .done (.ok (width, height)) [] := by
  unfold format7_setup_max_size
  simp only [Prog.bind_apply, Prog.ite_apply, Prog.pure_apply,
    dc1394_query_format7_max_image_size_run, query_outcome]
  by_cases h0 : width = USE_MAX_AVAIL ∨ height = USE_MAX_AVAIL
  · by_cases h1 : uint mode > MODE_FORMAT7_MAX ∨ uint mode < MODE_FORMAT7_MIN
    · simp [h0, h1]
    · by_cases h2 : D.read_err h (uint mode) Format7Reg.MAX_IMAGE_SIZE_INQ = 0
      · simp [h0, h1, h2]
      · simp [h0, h1, h2]
  · simp [h0]

theorem format7_setup_commit_size_run (D : Device) (fuel : Nat) (camera : dc1394camera_t)
    (mode width height : Int) (h : Trace) :
    format7_setup_commit_size D fuel camera mode width height h =
      commit_verdict ()
        (commit_outcome D fuel camera (uint mode) Format7Reg.IMAGE_SIZE
          (quadlet (uint width <<< 16) ||| uint height) h) := by
  unfold format7_setup_commit_size
  simp only [Prog.bind_apply, Prog.ite_apply, Prog.pure_apply,
    dc1394_set_format7_image_size_run]
  generalize commit_outcome D fuel camera (uint mode) Format7Reg.IMAGE_SIZE _ _ = o
  cases o with
  | done e s =>
    by_cases he : e = 0
    · simp [commit_verdict, he]
    · simp [commit_verdict, he]
  | spin s => simp [commit_verdict]
  | undef s => simp [commit_verdict]

theorem format7_setup_packet_size_run (D : Device) (fuel : Nat) (camera : dc1394camera_t)
    (mode bytes_per_packet : Int) (h : Trace) :
    format7_setup_packet_size D fuel camera mode bytes_per_packet h =
      if uint mode > MODE_FORMAT7_MAX ∨ uint mode < MODE_FORMAT7_MIN then
        .done (.error DC1394_FAILURE) []
      else if D.read_err h (uint mode) Format7Reg.BYTE_PER_PACKET = 0 then
        if D.read_err (h ++ [Event.get (uint mode) Format7Reg.BYTE_PER_PACKET
            (D.read_value h (uint mode) Format7Reg.BYTE_PER_PACKET) 0])
            (uint mode) Format7Reg.PACKET_PARA_INQ = 0 then
          match format7_packet_size_switch bytes_per_packet
              (D.read_value h (uint mode) Format7Reg.BYTE_PER_PACKET &&& 0x0000FFFF)
              ((D.read_value (h ++ [Event.get (uint mode) Format7Reg.BYTE_PER_PACKET
                (D.read_value h (uint mode) Format7Reg.BYTE_PER_PACKET) 0])
                (uint mode) Format7Reg.PACKET_PARA_INQ &&& 0xFFFF0000) >>> 16)
              (D.read_value (h ++ [Event.get (uint mode) Format7Reg.BYTE_PER_PACKET
                (D.read_value h (uint mode) Format7Reg.BYTE_PER_PACKET) 0])
                (uint mode) Format7Reg.PACKET_PARA_INQ &&& 0x0000FFFF) with
          | none =>
            .undef [Event.get (uint mode) Format7Reg.BYTE_PER_PACKET
                (D.read_value h (uint mode) Format7Reg.BYTE_PER_PACKET) 0,
              Event.get (uint mode) Format7Reg.PACKET_PARA_INQ
                (D.read_value (h ++ [Event.get (uint mode) Format7Reg.BYTE_PER_PACKET
                  (D.read_value h (uint mode) Format7Reg.BYTE_PER_PACKET) 0])
                  (uint mode) Format7Reg.PACKET_PARA_INQ) 0]
          | some b =>
            (commit_verdict b
              (commit_outcome D fuel camera (uint mode) Format7Reg.BYTE_PER_PACKET
                (quadlet (uint b <<< 16))
                (h ++ [Event.get (uint mode) Format7Reg.BYTE_PER_PACKET
                    (D.read_value h (uint mode) Format7Reg.BYTE_PER_PACKET) 0,
                  Event.get (uint mode) Format7Reg.PACKET_PARA_INQ
                    (D.read_value (h ++ [Event.get (uint mode) Format7Reg.BYTE_PER_PACKET
                      (D.read_value h (uint mode) Format7Reg.BYTE_PER_PACKET) 0])
                      (uint mode) Format7Reg.PACKET_PARA_INQ) 0]))).after
              [Event.get (uint mode) Format7Reg.BYTE_PER_PACKET
                  (D.read_value h (uint mode) Format7Reg.BYTE_PER_PACKET) 0,
                Event.get (uint mode) Format7Reg.PACKET_PARA_INQ
                  (D.read_value (h ++ [Event.get (uint mode) Format7Reg.BYTE_PER_PACKET
                    (D.read_value h (uint mode) Format7Reg.BYTE_PER_PACKET) 0])
                    (uint mode) Format7Reg.PACKET_PARA_INQ) 0]
        else
          .done (.error (DC1394_ERR_CHK
              (D.read_err (h ++ [Event.get (uint mode) Format7Reg.BYTE_PER_PACKET
                (D.read_value h (uint mode) Format7Reg.BYTE_PER_PACKET) 0])
                (uint mode) Format7Reg.PACKET_PARA_INQ)))
            [Event.get (uint mode) Format7Reg.BYTE_PER_PACKET
                (D.read_value h (uint mode) Format7Reg.BYTE_PER_PACKET) 0,
              Event.get (uint mode) Format7Reg.PACKET_PARA_INQ
                (D.read_value (h ++ [Event.get (uint mode) Format7Reg.BYTE_PER_PACKET
                  (D.read_value h (uint mode) Format7Reg.BYTE_PER_PACKET) 0])
                  (uint mode) Format7Reg.PACKET_PARA_INQ)
                (D.read_err (h ++ [Event.get (uint mode) Format7Reg.BYTE_PER_PACKET
                  (D.read_value h (uint mode) Format7Reg.BYTE_PER_PACKET) 0])
                  (uint mode) Format7Reg.PACKET_PARA_INQ)]
      else
        .done (.error (DC1394_ERR_CHK (D.read_err h (uint mode) Format7Reg.BYTE_PER_PACKET)))
          [Event.get (uint mode) Format7Reg.BYTE_PER_PACKET
            (D.read_value h (uint mode) Format7Reg.BYTE_PER_PACKET)
            (D.read_err h (uint mode) Format7Reg.BYTE_PER_PACKET)] := by
  unfold format7_setup_packet_size
  simp only [Prog.bind_apply, Prog.ite_apply, Prog.pure_apply,
    dc1394_query_format7_recommended_byte_per_packet_run, dc1394_query_format7_packet_para_run,
    dc1394_set_format7_byte_per_packet_run, query_outcome]
  by_cases h1 : uint mode > MODE_FORMAT7_MAX ∨ uint mode < MODE_FORMAT7_MIN
  · simp [h1]
  · by_cases h2 : D.read_err h (uint mode) Format7Reg.BYTE_PER_PACKET = 0
    · by_cases h3 : D.read_err (h ++ [Event.get (uint mode) Format7Reg.BYTE_PER_PACKET
            (D.read_value h (uint mode) Format7Reg.BYTE_PER_PACKET) 0])
            (uint mode) Format7Reg.PACKET_PARA_INQ = 0
      · simp only [h1, h2, h3, if_false, if_true, ERR_CHK_zero, gt_iff_lt, SUCCESS_eq,
          lt_self_iff_false, ERR_CHK_pos_iff', Outcome.after_done, List.nil_append,
          List.singleton_append, List.append_assoc]
        cases format7_packet_size_switch bytes_per_packet _ _ _ with
        | none => simp [Prog.undef_apply]
        | some b =>
          simp only [Prog.bind_apply, Prog.ite_apply, Prog.pure_apply,
            dc1394_set_format7_byte_per_packet_run, gt_iff_lt, SUCCESS_eq, ERR_CHK_pos_iff']
          generalize commit_outcome D fuel camera (uint mode) Format7Reg.BYTE_PER_PACKET _ _ = o
          cases o with
          | done e s =>
            by_cases he : e = 0
            · simp [commit_verdict, he]
            · simp [commit_verdict, he]
          | spin s => simp [commit_verdict]
          | undef s => simp [commit_verdict]
      · simp [h1, h2, h3]
    · simp [h1, h2]

/-! ## Sequencing the pieces -/

theorem Prog.orReturn_apply {α : Type} (m : Prog (Except Int α)) (capture : dc1394capture_t)
    (k : α → Prog (Int × dc1394capture_t)) (h : Trace) :
    (m.orReturn capture k) h =
      match m h with
      | .done (.error err) s => .done (err, capture) s
      | .done (.ok a) s => (k a (h ++ s)).after s
      | .spin s => .spin s
      | .undef s => .undef s := by
  unfold Prog.orReturn
  rw [Prog.bind_apply]
  cases m h with
  | done r s => cases r <;> simp
  | spin s => rfl
  | undef s => rfl

theorem Prog.orReturn_seg {α : Type} (m : Prog (Except Int α)) (capture : dc1394capture_t)
    (k : α → Prog (Int × dc1394capture_t)) (h : Trace) :
    ((m.orReturn capture k) h).seg =
      (m h).seg ++ (match m h with
        | .done (.ok a) s => (k a (h ++ s)).seg
        | _ => []) := by
  rw [Prog.orReturn_apply]
  cases m h with
  | done r s => cases r <;> simp
  | spin s => simp
  | undef s => simp

theorem Prog.emits_orReturn {α : Type} {L : List (Option (Bool × Format7Reg))}
    {m : Prog (Except Int α)} {capture : dc1394capture_t}
    {k : α → Prog (Int × dc1394capture_t)} (hm : Prog.emits L m)
    (hk : ∀ a, Prog.emits L (k a)) : Prog.emits L (m.orReturn capture k) := by
  unfold Prog.orReturn
  refine Prog.emits_bind hm ?_
  intro r
  cases r with
  | error e => exact Prog.emits_pure _ _
  | ok a => exact hk a

theorem Event.isValueSetting_of_isRejection {q : Event} (hq : q.isRejection = true) :
    q.isValueSetting = true := by
  cases q <;> simp_all [Event.isRejection, Event.isValueSetting, Event.isRead]

theorem Event.isValueSetting_eq_false_of_access {e : Event}
    {L : List (Option (Bool × Format7Reg))} (he : e.access ∈ L)
    (h1 : some (false, Format7Reg.VALUE_SETTING) ∉ L)
    (h2 : some (true, Format7Reg.VALUE_SETTING) ∉ L) : e.isValueSetting = false := by
  cases e with
  | get m r v err =>
    have : r ≠ Format7Reg.VALUE_SETTING := by
      rintro rfl
      exact h1 he
    simp [Event.isValueSetting, Event.isRead, Event.isWrite, this]
  | set m r v err =>
    have : r ≠ Format7Reg.VALUE_SETTING := by
      rintro rfl
      exact h2 he
    simp [Event.isValueSetting, Event.isRead, Event.isWrite, this]
  | _ => simp [Event.isValueSetting, Event.isRead, Event.isWrite]

theorem Event.isRejection_eq_false {e : Event} (h : e.isValueSetting = false) :
    e.isRejection = false := by
  cases hr : e.isRejection
  · rfl
  · rw [Event.isValueSetting_of_isRejection hr] at h
    cases h

theorem Event.isWrite_eq_false_of_access {e : Event} {reg : Format7Reg}
    {L : List (Option (Bool × Format7Reg))} (he : e.access ∈ L)
    (h1 : some (true, reg) ∉ L) : e.isWrite reg = false := by
  cases e with
  | set m r v err =>
    have : r ≠ reg := by
      rintro rfl
      exact h1 he
    simp [Event.isWrite, this]
  | _ => simp [Event.isWrite]

/-- A piece that never touches the value-setting register cannot show a rejection. -/
theorem Prog.emits_no_rejection {α : Type} {L : List (Option (Bool × Format7Reg))}
    {m : Prog α} (hm : Prog.emits L m)
    (h1 : some (false, Format7Reg.VALUE_SETTING) ∉ L)
    (h2 : some (true, Format7Reg.VALUE_SETTING) ∉ L) (h : Trace) :
    (∀ q ∈ (m h).seg.head?, q.isRejection = false) ∧ ¬ handshake_rejected (m h).seg := by
  have key : ∀ e ∈ (m h).seg, e.isRejection = false := fun e he =>
    Event.isRejection_eq_false (Event.isValueSetting_eq_false_of_access (hm h e he) h1 h2)
  refine ⟨?_, not_handshake_rejected_of_no_rejection key⟩
  intro q hq
  exact key q (List.mem_of_mem_head? hq)

/-- A committing write after transactions `pre` that leave the value-setting register alone:
a rejected handshake makes the piece return a non-zero code. -/
theorem commit_verdict_rejection {α : Type} (D : Device) (fuel : Nat)
    (camera : dc1394camera_t) (mode : Nat) (reg : Format7Reg) (value : Nat) (h : Trace)
    (a : α) (pre : Trace) (hreg : reg ≠ Format7Reg.VALUE_SETTING)
    (hpre : ∀ e ∈ pre, e.isValueSetting = false) :
    (∀ q ∈ ((commit_verdict a (commit_outcome D fuel camera mode reg value h)).after pre).seg.head?,
        q.isRejection = false) ∧
    (handshake_rejected
        ((commit_verdict a (commit_outcome D fuel camera mode reg value h)).after pre).seg →
      ∃ e, (commit_verdict a (commit_outcome D fuel camera mode reg value h)).after pre =
          .done (.error e)
            ((commit_verdict a (commit_outcome D fuel camera mode reg value h)).after pre).seg ∧
        e ≠ 0) := by
  obtain ⟨err, rest, hseg, -, -, -⟩ := commit_outcome_seg D fuel camera mode reg value h
  simp only [Outcome.seg_after, commit_verdict_seg]
  refine ⟨?_, ?_⟩
  · intro q hq
    rw [hseg] at hq
    cases pre with
    | nil =>
      simp only [List.nil_append, List.head?_cons, Option.mem_def, Option.some.injEq] at hq
      subst hq
      simp [Event.isRejection, hreg]
    | cons p pre =>
      simp only [List.cons_append, List.head?_cons, Option.mem_def, Option.some.injEq] at hq
      subst hq
      exact Event.isRejection_eq_false (hpre _ (List.mem_cons_self _ _))
  · intro hr
    have hr' := commit_outcome_rejected D fuel camera mode reg value h hreg
      (handshake_rejected_append_left hpre hr)
    refine ⟨DC1394_FAILURE, ?_, by simp⟩
    rw [hr']
    simp [commit_verdict]

/-! ## A rejected handshake fails the negotiation -/

theorem format7_setup_image_position_rejection (D : Device) (fuel : Nat)
    (camera : dc1394camera_t) (mode left top : Int) (h : Trace) :
    (∀ q ∈ (format7_setup_image_position D fuel camera mode left top h).seg.head?,
        q.isRejection = false) ∧
    (handshake_rejected (format7_setup_image_position D fuel camera mode left top h).seg →
      ∃ e, format7_setup_image_position D fuel camera mode left top h =
          .done (.error e) (format7_setup_image_position D fuel camera mode left top h).seg ∧
        e ≠ 0) := by
  rw [format7_setup_image_position_run]
  by_cases h1 : uint mode > MODE_FORMAT7_MAX ∨ uint mode < MODE_FORMAT7_MIN
  · rw [if_pos h1]
    refine ⟨by simp, fun hr => ?_⟩
    exact absurd hr (not_handshake_rejected_of_no_rejection (by simp))
  · rw [if_neg h1]
    by_cases h2 : D.read_err h (uint mode) Format7Reg.IMAGE_POSITION = 0
    · rw [if_pos h2]
      exact commit_verdict_rejection D fuel camera _ _ _ _ _ _ (by decide)
        (by simp [Event.isValueSetting, Event.isRead, Event.isWrite])
    · rw [if_neg h2]
      refine ⟨by simp [Event.isRejection], fun hr => ?_⟩
      obtain ⟨q, hq, -⟩ := handshake_rejected_tail hr
      simp at hq

theorem Outcome.after_nil {α : Type} (o : Outcome α) : o.after [] = o := by
  cases o <;> simp

theorem format7_setup_commit_size_rejection (D : Device) (fuel : Nat)
    (camera : dc1394camera_t) (mode width height : Int) (h : Trace) :
    (∀ q ∈ (format7_setup_commit_size D fuel camera mode width height h).seg.head?,
        q.isRejection = false) ∧
    (handshake_rejected (format7_setup_commit_size D fuel camera mode width height h).seg →
      ∃ e, format7_setup_commit_size D fuel camera mode width height h =
          .done (.error e) (format7_setup_commit_size D fuel camera mode width height h).seg ∧
        e ≠ 0) := by
  rw [format7_setup_commit_size_run]
  have := commit_verdict_rejection D fuel camera (uint mode) Format7Reg.IMAGE_SIZE
    (quadlet (uint width <<< 16) ||| uint height) h () [] (by decide) (by simp)
  rw [Outcome.after_nil] at this
  exact this

theorem format7_setup_packet_size_rejection (D : Device) (fuel : Nat)
    (camera : dc1394camera_t) (mode bytes_per_packet : Int) (h : Trace) :
    (∀ q ∈ (format7_setup_packet_size D fuel camera mode bytes_per_packet h).seg.head?,
        q.isRejection = false) ∧
    (handshake_rejected (format7_setup_packet_size D fuel camera mode bytes_per_packet h).seg →
      ∃ e, format7_setup_packet_size D fuel camera mode bytes_per_packet h =
          .done (.error e) (format7_setup_packet_size D fuel camera mode bytes_per_packet h).seg ∧
        e ≠ 0) := by
  rw [format7_setup_packet_size_run]
  by_cases h1 : uint mode > MODE_FORMAT7_MAX ∨ uint mode < MODE_FORMAT7_MIN
  · rw [if_pos h1]
    refine ⟨by simp, fun hr => ?_⟩
    exact absurd hr (not_handshake_rejected_of_no_rejection (by simp))
  · rw [if_neg h1]
    by_cases h2 : D.read_err h (uint mode) Format7Reg.BYTE_PER_PACKET = 0
    · rw [if_pos h2]
      by_cases h3 : D.read_err (h ++ [Event.get (uint mode) Format7Reg.BYTE_PER_PACKET
          (D.read_value h (uint mode) Format7Reg.BYTE_PER_PACKET) 0])
          (uint mode) Format7Reg.PACKET_PARA_INQ = 0
      · rw [if_pos h3]
        split
        · refine ⟨by simp [Event.isRejection], fun hr => ?_⟩
          exact absurd hr (not_handshake_rejected_of_no_rejection
            (by simp [Event.isRejection]))
        · exact commit_verdict_rejection D fuel camera _ _ _ _ _ _ (by decide)
            (by simp [Event.isValueSetting, Event.isRead, Event.isWrite])
      · rw [if_neg h3]
        refine ⟨by simp [Event.isRejection], fun hr => ?_⟩
        exact absurd hr (not_handshake_rejected_of_no_rejection
          (by simp [Event.isRejection]))
    · rw [if_neg h2]
      refine ⟨by simp [Event.isRejection], fun hr => ?_⟩
      exact absurd hr (not_handshake_rejected_of_no_rejection
        (by simp [Event.isRejection]))

/-- One step of the sequence: if the piece shows its rejections by returning a non-zero code
and the rest of the function fails with `*capture` untouched on a rejection, so does the
whole. -/
theorem Prog.orReturn_rejection {α : Type} (m : Prog (Except Int α))
    (capture : dc1394capture_t) (k : α → Prog (Int × dc1394capture_t)) (h : Trace)
    (hm : (∀ q ∈ (m h).seg.head?, q.isRejection = false) ∧
      (handshake_rejected (m h).seg → ∃ e, m h = .done (.error e) (m h).seg ∧ e ≠ 0))
    (hk : ∀ a s, m h = .done (.ok a) s →
      (∀ q ∈ (k a (h ++ s)).seg.head?, q.isRejection = false) ∧
      (handshake_rejected (k a (h ++ s)).seg →
        ∃ err, k a (h ++ s) = .done (err, capture) (k a (h ++ s)).seg ∧ err ≠ 0)) :
    (∀ q ∈ ((m.orReturn capture k) h).seg.head?, q.isRejection = false) ∧
    (handshake_rejected ((m.orReturn capture k) h).seg →
      ∃ err, (m.orReturn capture k) h = .done (err, capture) ((m.orReturn capture k) h).seg ∧
        err ≠ 0) := by
  obtain ⟨hm1, hm2⟩ := hm
  rw [Prog.orReturn_apply]
  cases hmh : m h with
  | done r s =>
    rw [hmh] at hm1 hm2
    simp only [Outcome.seg_done] at hm1 hm2
    cases r with
    | error e =>
      refine ⟨by simpa using hm1, fun hr => ?_⟩
      obtain ⟨e', he', hne⟩ := hm2 (by simpa using hr)
      simp only [Outcome.done.injEq, Except.error.injEq, and_true] at he'
      exact ⟨e, by simp, he' ▸ hne⟩
    | ok a =>
      obtain ⟨hk1, hk2⟩ := hk a s hmh
      simp only [Outcome.seg_after]
      refine ⟨?_, fun hr => ?_⟩
      · intro q hq
        cases s with
        | nil => exact hk1 q (by simpa using hq)
        | cons p s => exact hm1 q (by simpa using hq)
      · rcases handshake_rejected_append hk1 hr with hs | ht
        · obtain ⟨e', he', -⟩ := hm2 hs
          simp at he'
        · obtain ⟨err, heq, hne⟩ := hk2 ht
          refine ⟨err, ?_, hne⟩
          rw [heq]
          simp
  | spin s =>
    rw [hmh] at hm1 hm2
    simp only [Outcome.seg_spin] at hm1 hm2
    refine ⟨by simpa using hm1, fun hr => ?_⟩
    obtain ⟨e', he', -⟩ := hm2 (by simpa using hr)
    simp at he'
  | undef s =>
    rw [hmh] at hm1 hm2
    simp only [Outcome.seg_undef] at hm1 hm2
    refine ⟨by simpa using hm1, fun hr => ?_⟩
    obtain ⟨e', he', -⟩ := hm2 (by simpa using hr)
    simp at he'

theorem Prog.emits_rejection {α : Type} {L : List (Option (Bool × Format7Reg))}
    {m : Prog (Except Int α)} (hm : Prog.emits L m)
    (h1 : some (false, Format7Reg.VALUE_SETTING) ∉ L)
    (h2 : some (true, Format7Reg.VALUE_SETTING) ∉ L) (h : Trace) :
    (∀ q ∈ (m h).seg.head?, q.isRejection = false) ∧
      (handshake_rejected (m h).seg → ∃ e, m h = .done (.error e) (m h).seg ∧ e ≠ 0) :=
  ⟨(Prog.emits_no_rejection hm h1 h2 h).1,
    fun hr => absurd hr (Prog.emits_no_rejection hm h1 h2 h).2⟩

theorem format7_setup_rejection (D : Device) (fuel : Nat) (camera : dc1394camera_t)
    (channel mode speed bytes_per_packet left top width height : Int)
    (capture : dc1394capture_t) (h : Trace) :
    (∀ q ∈ (_dc1394_basic_format7_setup D fuel camera channel mode speed bytes_per_packet left
        top width height capture h).seg.head?, q.isRejection = false) ∧
    (handshake_rejected (_dc1394_basic_format7_setup D fuel camera channel mode speed
        bytes_per_packet left top width height capture h).seg →
      ∃ err, _dc1394_basic_format7_setup D fuel camera channel mode speed bytes_per_packet left
          top width height capture h =
          .done (err, capture) (_dc1394_basic_format7_setup D fuel camera channel mode speed
            bytes_per_packet left top width height capture h).seg ∧ err ≠ 0) := by
  unfold _dc1394_basic_format7_setup
  refine Prog.orReturn_rejection _ _ _ _
    (Prog.emits_rejection (format7_setup_stop_iso_emits D) (by decide) (by decide) h) ?_
  intro is_iso_on s1 _
  refine Prog.orReturn_rejection _ _ _ _
    (Prog.emits_rejection (format7_setup_channel_and_mode_emits D _ _ _) (by decide)
      (by decide) _) ?_
  intro _ s2 _
  refine Prog.orReturn_rejection _ _ _ _
    (Prog.emits_rejection (format7_setup_query_bpp_emits D _ _) (by decide) (by decide) _) ?_
  intro bpp s3 _
  refine Prog.orReturn_rejection _ _ _ _
    (format7_setup_image_position_rejection D fuel camera _ _ _ _) ?_
  intro position s4 _
  refine Prog.orReturn_rejection _ _ _ _
    (Prog.emits_rejection (format7_setup_query_size_emits D _ _ _) (by decide) (by decide) _) ?_
  intro size s5 _
  refine Prog.orReturn_rejection _ _ _ _
    (Prog.emits_rejection (format7_setup_max_size_emits D _ _ _ _ _) (by decide) (by decide)
      _) ?_
  intro size' s6 _
  refine Prog.orReturn_rejection _ _ _ _
    (format7_setup_commit_size_rejection D fuel camera _ _ _ _) ?_
  intro _ s7 _
  refine Prog.orReturn_rejection _ _ _ _
    (format7_setup_packet_size_rejection D fuel camera _ _ _) ?_
  intro bpp' s8 _
  have hacc := Prog.emits_no_rejection
    (format7_setup_accounting_emits D camera channel mode size'.1 size'.2 bpp' is_iso_on capture)
    (by decide) (by decide)
    (h ++ s1 ++ s2 ++ s3 ++ s4 ++ s5 ++ s6 ++ s7 ++ s8)
  exact ⟨hacc.1, fun hr => absurd hr hacc.2⟩

/-! ## The example cameras, run -/

theorem Prog.orReturn_ok {α : Type} {m : Prog (Except Int α)} {capture : dc1394capture_t}
    {k : α → Prog (Int × dc1394capture_t)} {h : Trace} {a : α} {s : Trace}
    (hm : m h = .done (.ok a) s) : (m.orReturn capture k) h = (k a (h ++ s)).after s := by
  rw [Prog.orReturn_apply, hm]

theorem Prog.orReturn_error {α : Type} {m : Prog (Except Int α)} {capture : dc1394capture_t}
    {k : α → Prog (Int × dc1394capture_t)} {h : Trace} {e : Int} {s : Trace}
    (hm : m h = .done (.error e) s) : (m.orReturn capture k) h = .done (e, capture) s := by
  rw [Prog.orReturn_apply, hm]

theorem handshake_verdict_rejected (err : Int) (vs : ValueSetting) (s : Trace)
    (h : vs.err_flag1 > 0) : handshake_verdict (.done (.ok (err, vs)) s) = .done DC1394_FAILURE s := by
  simp [handshake_verdict, h]

theorem handshake_verdict_accepted (err : Int) (vs : ValueSetting) (s : Trace)
    (h : ¬ vs.err_flag1 > 0) : handshake_verdict (.done (.ok (err, vs)) s) = .done err s := by
  simp only [handshake_verdict, if_neg h]

theorem fixed_camera_read_err (regs : Format7Reg → Nat) (h : Trace) (mode : Nat)
    (reg : Format7Reg) : (fixed_camera regs).read_err h mode reg = 0 := rfl

theorem fixed_camera_read_value (regs : Format7Reg → Nat) (h : Trace) (mode : Nat)
    (reg : Format7Reg) : (fixed_camera regs).read_value h mode reg = quadlet (regs reg) := rfl

theorem fixed_camera_set (regs : Format7Reg → Nat) (h : Trace) (mode : Nat)
    (reg : Format7Reg) (v : Nat) :
    (fixed_camera regs).SetCameraFormat7Register h mode reg v = 0 := rfl

theorem fixed_camera_stop_iso (regs : Format7Reg → Nat) (h : Trace) :
    format7_setup_stop_iso (fixed_camera regs) h =
      .done (.ok false) [Event.get_iso_status false 0] := by
  rfl

theorem fixed_camera_channel_and_mode (regs : Format7Reg → Nat) (channel mode speed : Int)
    (h : Trace) :
    format7_setup_channel_and_mode (fixed_camera regs) channel mode speed h =
      .done (.ok ()) [Event.set_iso_channel_and_speed channel speed 0,
        Event.set_video_format FORMAT_SCALABLE_IMAGE_SIZE 0, Event.set_video_mode mode 0] := by
  unfold format7_setup_channel_and_mode
  simp only [Prog.bind_apply, Prog.ite_apply, Prog.pure_apply]
  rfl

theorem fixed_camera_query_bpp_literal (regs : Format7Reg → Nat) (mode b : Int)
    (hb : b ≠ QUERY_FROM_CAMERA) (h : Trace) :
    format7_setup_query_bpp (fixed_camera regs) mode b h = .done (.ok b) [] := by
  rw [format7_setup_query_bpp_run, if_neg hb]

/-- The handshake with a camera of version 1.30 or later whose value-setting register reads
as a constant with the presence bit set and the pending bit clear: one poll. -/
theorem fixed_camera_handshake (regs : Format7Reg → Nat) (fuel : Nat) (camera : dc1394camera_t)
    (mode : Int) (h : Trace) (hv : IIDC_VERSION_1_30 ≤ camera.sw_version)
    (hmode : ¬ (uint mode > MODE_FORMAT7_MAX ∨ uint mode < MODE_FORMAT7_MIN))
    (h31 : (quadlet (regs Format7Reg.VALUE_SETTING)).testBit 31 = true)
    (h30 : ¬ (quadlet (regs Format7Reg.VALUE_SETTING)).testBit 30 = true) :
    _dc1394_v130_handshake (fixed_camera regs) (fuel + 1) camera mode h =
      .done (if (quadlet (regs Format7Reg.VALUE_SETTING)).testBit 23 = true
          then DC1394_FAILURE else 0)
        [Event.get (uint mode) Format7Reg.VALUE_SETTING
            (quadlet (regs Format7Reg.VALUE_SETTING)) 0,
          Event.set (uint mode) Format7Reg.VALUE_SETTING 0x40000000 0,
          Event.get (uint mode) Format7Reg.VALUE_SETTING
            (quadlet (regs Format7Reg.VALUE_SETTING)) 0] := by
  rw [_dc1394_v130_handshake_run _ _ _ _ _ hv, if_neg hmode, fixed_camera_read_err,
    if_pos rfl, fixed_camera_read_value, if_pos h31, fixed_camera_set, if_pos rfl,
    v130_handshake_loop_succ _ _ _ hv, if_neg hmode, fixed_camera_read_err, if_pos rfl,
    fixed_camera_read_value, if_neg h30]
  by_cases h23 : (quadlet (regs Format7Reg.VALUE_SETTING)).testBit 23 = true
  · rw [handshake_verdict_rejected _ _ _ (by simp [value_setting_fields_eq, h23]), if_pos h23]
    rfl
  · rw [handshake_verdict_accepted _ _ _ (by simp [value_setting_fields_eq, h23]), if_neg h23]
    rfl

theorem flag1_camera_handshake (h : Trace) :
    _dc1394_v130_handshake (fixed_camera flag1_regs) 1 camera_v130 288 h =
      .done DC1394_FAILURE
        [Event.get 288 Format7Reg.VALUE_SETTING 0x80800000 0,
          Event.set 288 Format7Reg.VALUE_SETTING 0x40000000 0,
          Event.get 288 Format7Reg.VALUE_SETTING 0x80800000 0] :=
  fixed_camera_handshake flag1_regs 0 camera_v130 288 h (by decide) (by decide) (by decide)
    (by decide)

theorem fixed_camera_commit_rejected (regs : Format7Reg → Nat) (fuel : Nat)
    (camera : dc1394camera_t) (mode : Nat) (reg : Format7Reg) (value : Nat) (h : Trace)
    (hv : IIDC_VERSION_1_30 ≤ camera.sw_version)
    (hmode : ¬ (uint (sint mode) > MODE_FORMAT7_MAX ∨ uint (sint mode) < MODE_FORMAT7_MIN))
    (h31 : (quadlet (regs Format7Reg.VALUE_SETTING)).testBit 31 = true)
    (h30 : ¬ (quadlet (regs Format7Reg.VALUE_SETTING)).testBit 30 = true)
    (h23 : (quadlet (regs Format7Reg.VALUE_SETTING)).testBit 23 = true) :
    commit_outcome (fixed_camera regs) (fuel + 1) camera mode reg value h =
      .done DC1394_FAILURE
        [Event.set mode reg (quadlet value) 0,
          Event.get (uint (sint mode)) Format7Reg.VALUE_SETTING
            (quadlet (regs Format7Reg.VALUE_SETTING)) 0,
          Event.set (uint (sint mode)) Format7Reg.VALUE_SETTING 0x40000000 0,
          Event.get (uint (sint mode)) Format7Reg.VALUE_SETTING
            (quadlet (regs Format7Reg.VALUE_SETTING)) 0] := by
  rw [commit_outcome, fixed_camera_set, if_pos rfl,
    fixed_camera_handshake regs fuel camera (sint mode) _ hv hmode h31 h30, if_pos h23]
  rfl

theorem fixed_camera_commit_accepted (regs : Format7Reg → Nat) (fuel : Nat)
    (camera : dc1394camera_t) (mode : Nat) (reg : Format7Reg) (value : Nat) (h : Trace)
    (hv : IIDC_VERSION_1_30 ≤ camera.sw_version)
    (hmode : ¬ (uint (sint mode) > MODE_FORMAT7_MAX ∨ uint (sint mode) < MODE_FORMAT7_MIN))
    (h31 : (quadlet (regs Format7Reg.VALUE_SETTING)).testBit 31 = true)
    (h30 : ¬ (quadlet (regs Format7Reg.VALUE_SETTING)).testBit 30 = true)
    (h23 : ¬ (quadlet (regs Format7Reg.VALUE_SETTING)).testBit 23 = true) :
    commit_outcome (fixed_camera regs) (fuel + 1) camera mode reg value h =
      .done 0
        [Event.set mode reg (quadlet value) 0,
          Event.get (uint (sint mode)) Format7Reg.VALUE_SETTING
            (quadlet (regs Format7Reg.VALUE_SETTING)) 0,
          Event.set (uint (sint mode)) Format7Reg.VALUE_SETTING 0x40000000 0,
          Event.get (uint (sint mode)) Format7Reg.VALUE_SETTING
            (quadlet (regs Format7Reg.VALUE_SETTING)) 0] := by
  rw [commit_outcome, fixed_camera_set, if_pos rfl,
    fixed_camera_handshake regs fuel camera (sint mode) _ hv hmode h31 h30, if_neg h23]
  rfl

theorem fixed_camera_commit_old (regs : Format7Reg → Nat) (fuel : Nat)
    (camera : dc1394camera_t) (mode : Nat) (reg : Format7Reg) (value : Nat) (h : Trace)
    (hv : camera.sw_version < IIDC_VERSION_1_30) :
    commit_outcome (fixed_camera regs) fuel camera mode reg value h =
      .done 0 [Event.set mode reg (quadlet value) 0] := by
  rw [commit_outcome, fixed_camera_set, if_pos rfl, _dc1394_v130_handshake_old _ _ _ _ _ hv]
  rfl

/-- What the image-position piece does with a camera that answers every read, given the
outcome of the committing write. -/
theorem fixed_camera_position (regs : Format7Reg → Nat) (fuel : Nat) (camera : dc1394camera_t)
    (mode left top : Int) (h : Trace) (o : Outcome Int)
    (hmode : ¬ (uint mode > MODE_FORMAT7_MAX ∨ uint mode < MODE_FORMAT7_MIN))
    (ho : commit_outcome (fixed_camera regs) fuel camera (uint mode) Format7Reg.IMAGE_POSITION
      (quadlet (uint (if left = QUERY_FROM_CAMERA then
          sint ((quadlet (regs Format7Reg.IMAGE_POSITION) &&& 0xFFFF0000) >>> 16)
        else left) <<< 16) |||
        uint (if top = QUERY_FROM_CAMERA then
          sint (quadlet (regs Format7Reg.IMAGE_POSITION) &&& 0x0000FFFF)
        else top))
      (h ++ [Event.get (uint mode) Format7Reg.IMAGE_POSITION
        (quadlet (regs Format7Reg.IMAGE_POSITION)) 0]) = o) :
    format7_setup_image_position (fixed_camera regs) fuel camera mode left top h =
      (commit_verdict
        (if left = QUERY_FROM_CAMERA then
            sint ((quadlet (regs Format7Reg.IMAGE_POSITION) &&& 0xFFFF0000) >>> 16)
          else left,
         if top = QUERY_FROM_CAMERA then
            sint (quadlet (regs Format7Reg.IMAGE_POSITION) &&& 0x0000FFFF)
          else top) o).after
        [Event.get (uint mode) Format7Reg.IMAGE_POSITION
          (quadlet (regs Format7Reg.IMAGE_POSITION)) 0] := by
  rw [format7_setup_image_position_run, if_neg hmode, fixed_camera_read_err, if_pos rfl,
    fixed_camera_read_value, ho]

theorem flag1_camera_position (h : Trace) :
    format7_setup_image_position (fixed_camera flag1_regs) 1 camera_v130 288 0 0 h =
      .done (.error DC1394_FAILURE)
        [Event.get 288 Format7Reg.IMAGE_POSITION 0 0,
          Event.set 288 Format7Reg.IMAGE_POSITION 0 0,
          Event.get 288 Format7Reg.VALUE_SETTING 0x80800000 0,
          Event.set 288 Format7Reg.VALUE_SETTING 0x40000000 0,
          Event.get 288 Format7Reg.VALUE_SETTING 0x80800000 0] := by
  rw [fixed_camera_position flag1_regs 1 camera_v130 288 0 0 h _ (by decide)
    (fixed_camera_commit_rejected flag1_regs 0 camera_v130 _ _ _ _ (by decide) (by decide)
      (by decide) (by decide) (by decide))]
  rfl

theorem flag1_camera_setup :
    _dc1394_basic_format7_setup (fixed_camera flag1_regs) 1 camera_v130 0 288 2 1024 0 0 640 480
        stale_capture [] =
      .done (DC1394_FAILURE, stale_capture)
        [Event.get_iso_status false 0,
          Event.set_iso_channel_and_speed 0 2 0,
          Event.set_video_format FORMAT_SCALABLE_IMAGE_SIZE 0,
          Event.set_video_mode 288 0,
          Event.get 288 Format7Reg.IMAGE_POSITION 0 0,
          Event.set 288 Format7Reg.IMAGE_POSITION 0 0,
          Event.get 288 Format7Reg.VALUE_SETTING 0x80800000 0,
          Event.set 288 Format7Reg.VALUE_SETTING 0x40000000 0,
          Event.get 288 Format7Reg.VALUE_SETTING 0x80800000 0] := by
  rw [_dc1394_basic_format7_setup]
  rw [Prog.orReturn_ok (fixed_camera_stop_iso _ _)]
  rw [Prog.orReturn_ok (fixed_camera_channel_and_mode _ _ _ _ _)]
  rw [Prog.orReturn_ok (fixed_camera_query_bpp_literal _ _ _ (by decide) _)]
  rw [Prog.orReturn_error (flag1_camera_position _)]
  rfl

theorem fixed_camera_query_size_literal (regs : Format7Reg → Nat) (mode width height : Int)
    (h : Trace) (hq : ¬ (width = QUERY_FROM_CAMERA ∨ height = QUERY_FROM_CAMERA)) :
    format7_setup_query_size (fixed_camera regs) mode width height h =
      .done (.ok (width, height)) [] := by
  rw [format7_setup_query_size_run, if_neg hq]

theorem fixed_camera_max_size_literal (regs : Format7Reg → Nat)
    (mode left top width height : Int) (h : Trace)
    (hq : ¬ (width = USE_MAX_AVAIL ∨ height = USE_MAX_AVAIL)) :
    format7_setup_max_size (fixed_camera regs) mode left top width height h =
      .done (.ok (width, height)) [] := by
  rw [format7_setup_max_size_run, if_neg hq]

/-- What the packet-size piece does with a camera that answers every read, given the result
of the switch and the outcome of the committing write. -/
theorem fixed_camera_packet_size (regs : Format7Reg → Nat) (fuel : Nat)
    (camera : dc1394camera_t) (mode bytes_per_packet : Int) (h : Trace) (b : Int)
    (o : Outcome Int)
    (hmode : ¬ (uint mode > MODE_FORMAT7_MAX ∨ uint mode < MODE_FORMAT7_MIN))
    (hb : format7_packet_size_switch bytes_per_packet
      (quadlet (regs Format7Reg.BYTE_PER_PACKET) &&& 0x0000FFFF)
      ((quadlet (regs Format7Reg.PACKET_PARA_INQ) &&& 0xFFFF0000) >>> 16)
      (quadlet (regs Format7Reg.PACKET_PARA_INQ) &&& 0x0000FFFF) = some b)
    (ho : commit_outcome (fixed_camera regs) fuel camera (uint mode) Format7Reg.BYTE_PER_PACKET
      (quadlet (uint b <<< 16))
      (h ++ [Event.get (uint mode) Format7Reg.BYTE_PER_PACKET
          (quadlet (regs Format7Reg.BYTE_PER_PACKET)) 0,
        Event.get (uint mode) Format7Reg.PACKET_PARA_INQ
          (quadlet (regs Format7Reg.PACKET_PARA_INQ)) 0]) = o) :
    format7_setup_packet_size (fixed_camera regs) fuel camera mode bytes_per_packet h =
      (commit_verdict b o).after
        [Event.get (uint mode) Format7Reg.BYTE_PER_PACKET
            (quadlet (regs Format7Reg.BYTE_PER_PACKET)) 0,
          Event.get (uint mode) Format7Reg.PACKET_PARA_INQ
            (quadlet (regs Format7Reg.PACKET_PARA_INQ)) 0] := by
  rw [format7_setup_packet_size_run, if_neg hmode, fixed_camera_read_err, if_pos rfl,
    fixed_camera_read_err, if_pos rfl]
  simp only [fixed_camera_read_value]
  rw [hb]
  simp only []
  rw [ho]

theorem format7_setup_finish_not_iso (D : Device) (err width height : Int)
    (capture : dc1394capture_t) (h : Trace) :
    format7_setup_finish D err width height false capture h =
      if capture.quadlets_per_frame ≤ 0 then .done (DC1394_FAILURE, capture) []
      else .done (err,
        { capture with frame_width := uint width, frame_height := uint height }) [] := by
  unfold format7_setup_finish
  by_cases hq : capture.quadlets_per_frame ≤ 0
  · rw [if_pos hq, if_pos hq]; rfl
  · rw [if_neg hq, if_neg hq]; rfl

/-- The accounting piece on a camera of version 1.30 or later. -/
theorem format7_setup_accounting_run_v130 (D : Device) (camera : dc1394camera_t)
    (channel mode width height bytes_per_packet : Int) (is_iso_on : Bool)
    (capture : dc1394capture_t) (h : Trace) (hv : IIDC_VERSION_1_30 ≤ camera.sw_version) :
    format7_setup_accounting D camera channel mode width height bytes_per_packet is_iso_on
        capture h =
      if uint mode > MODE_FORMAT7_MAX ∨ uint mode < MODE_FORMAT7_MIN then
        .done (DC1394_FAILURE, capture) []
      else if D.read_err h (uint mode) Format7Reg.BYTE_PER_PACKET = 0 then
        if (D.read_value h (uint mode) Format7Reg.BYTE_PER_PACKET &&& 0xFFFF0000) >>> 16 / 4 ≤ 0
        then
          .done (DC1394_FAILURE,
            { capture with quadlets_per_packet :=
                (D.read_value h (uint mode) Format7Reg.BYTE_PER_PACKET &&& 0xFFFF0000) >>> 16 / 4 })
            [Event.get (uint mode) Format7Reg.BYTE_PER_PACKET
              (D.read_value h (uint mode) Format7Reg.BYTE_PER_PACKET) 0]
        else if D.read_err (h ++ [Event.get (uint mode) Format7Reg.BYTE_PER_PACKET
            (D.read_value h (uint mode) Format7Reg.BYTE_PER_PACKET) 0])
            (uint mode) Format7Reg.PACKET_PER_FRAME_INQ = 0 then
          (format7_setup_finish D 0 width height is_iso_on
            { capture with
              quadlets_per_packet :=
                (D.read_value h (uint mode) Format7Reg.BYTE_PER_PACKET &&& 0xFFFF0000) >>> 16 / 4,
              node := camera.node, frame_rate := 0, channel := uint channel,
              quadlets_per_frame :=
                quadlet (D.read_value (h ++ [Event.get (uint mode) Format7Reg.BYTE_PER_PACKET
                    (D.read_value h (uint mode) Format7Reg.BYTE_PER_PACKET) 0])
                    (uint mode) Format7Reg.PACKET_PER_FRAME_INQ *
                  ((D.read_value h (uint mode) Format7Reg.BYTE_PER_PACKET &&& 0xFFFF0000)
                    >>> 16)) / 4 }
            (h ++ [Event.get (uint mode) Format7Reg.BYTE_PER_PACKET
                (D.read_value h (uint mode) Format7Reg.BYTE_PER_PACKET) 0,
              Event.get (uint mode) Format7Reg.PACKET_PER_FRAME_INQ
                (D.read_value (h ++ [Event.get (uint mode) Format7Reg.BYTE_PER_PACKET
                  (D.read_value h (uint mode) Format7Reg.BYTE_PER_PACKET) 0])
                  (uint mode) Format7Reg.PACKET_PER_FRAME_INQ) 0])).after
            [Event.get (uint mode) Format7Reg.BYTE_PER_PACKET
                (D.read_value h (uint mode) Format7Reg.BYTE_PER_PACKET) 0,
              Event.get (uint mode) Format7Reg.PACKET_PER_FRAME_INQ
                (D.read_value (h ++ [Event.get (uint mode) Format7Reg.BYTE_PER_PACKET
                  (D.read_value h (uint mode) Format7Reg.BYTE_PER_PACKET) 0])
                  (uint mode) Format7Reg.PACKET_PER_FRAME_INQ) 0]
        else
          .done (DC1394_ERR_CHK (D.read_err (h ++ [Event.get (uint mode)
              Format7Reg.BYTE_PER_PACKET
              (D.read_value h (uint mode) Format7Reg.BYTE_PER_PACKET) 0])
              (uint mode) Format7Reg.PACKET_PER_FRAME_INQ),
            { capture with
              quadlets_per_packet :=
                (D.read_value h (uint mode) Format7Reg.BYTE_PER_PACKET &&& 0xFFFF0000) >>> 16 / 4,
              node := camera.node, frame_rate := 0, channel := uint channel })
            [Event.get (uint mode) Format7Reg.BYTE_PER_PACKET
                (D.read_value h (uint mode) Format7Reg.BYTE_PER_PACKET) 0,
              Event.get (uint mode) Format7Reg.PACKET_PER_FRAME_INQ
                (D.read_value (h ++ [Event.get (uint mode) Format7Reg.BYTE_PER_PACKET
                  (D.read_value h (uint mode) Format7Reg.BYTE_PER_PACKET) 0])
                  (uint mode) Format7Reg.PACKET_PER_FRAME_INQ)
                (D.read_err (h ++ [Event.get (uint mode) Format7Reg.BYTE_PER_PACKET
                  (D.read_value h (uint mode) Format7Reg.BYTE_PER_PACKET) 0])
                  (uint mode) Format7Reg.PACKET_PER_FRAME_INQ)]
      else
        .done (DC1394_ERR_CHK (D.read_err h (uint mode) Format7Reg.BYTE_PER_PACKET), capture)
          [Event.get (uint mode) Format7Reg.BYTE_PER_PACKET
            (D.read_value h (uint mode) Format7Reg.BYTE_PER_PACKET)
            (D.read_err h (uint mode) Format7Reg.BYTE_PER_PACKET)] := by
  have hv' : camera.sw_version ≥ IIDC_VERSION_1_30 := hv
  unfold format7_setup_accounting
  simp only [Prog.bind_apply, Prog.ite_apply, Prog.pure_apply,
    dc1394_query_format7_byte_per_packet_run,
    dc1394_query_format7_packet_per_frame_run D camera _ _ _ hv, query_outcome, hv', if_true]
  by_cases h1 : uint mode > MODE_FORMAT7_MAX ∨ uint mode < MODE_FORMAT7_MIN
  · simp [h1]
  · by_cases h2 : D.read_err h (uint mode) Format7Reg.BYTE_PER_PACKET = 0
    · by_cases h3 : (D.read_value h (uint mode) Format7Reg.BYTE_PER_PACKET &&& 0xFFFF0000)
          >>> 16 / 4 ≤ 0
      · simp [h1, h2, h3]
      · by_cases h4 : D.read_err (h ++ [Event.get (uint mode) Format7Reg.BYTE_PER_PACKET
            (D.read_value h (uint mode) Format7Reg.BYTE_PER_PACKET) 0])
            (uint mode) Format7Reg.PACKET_PER_FRAME_INQ = 0
        · simp only [h1, h2, h3, h4, if_false, if_true, ERR_CHK_zero, gt_iff_lt, SUCCESS_eq,
            lt_self_iff_false, Outcome.after_done, List.nil_append, List.append_assoc,
            List.singleton_append]
          generalize format7_setup_finish D 0 width height is_iso_on _ _ = o
          cases o <;> simp
        · simp [h1, h2, h3, h4]
    · simp [h1, h2]

theorem fixed_camera_commit_size (regs : Format7Reg → Nat) (fuel : Nat)
    (camera : dc1394camera_t) (mode width height : Int) (h : Trace) (o : Outcome Int)
    (ho : commit_outcome (fixed_camera regs) fuel camera (uint mode) Format7Reg.IMAGE_SIZE
      (quadlet (uint width <<< 16) ||| uint height) h = o) :
    format7_setup_commit_size (fixed_camera regs) fuel camera mode width height h =
      commit_verdict () o := by
  rw [format7_setup_commit_size_run, ho]

theorem fixed_camera_accounting (regs : Format7Reg → Nat) (camera : dc1394camera_t)
    (channel mode width height bytes_per_packet : Int) (capture : dc1394capture_t) (h : Trace)
    (hv : IIDC_VERSION_1_30 ≤ camera.sw_version)
    (hmode : ¬ (uint mode > MODE_FORMAT7_MAX ∨ uint mode < MODE_FORMAT7_MIN))
    (hp : ¬ (quadlet (regs Format7Reg.BYTE_PER_PACKET) &&& 0xFFFF0000) >>> 16 / 4 ≤ 0)
    (hf : ¬ (quadlet (quadlet (regs Format7Reg.PACKET_PER_FRAME_INQ) *
        ((quadlet (regs Format7Reg.BYTE_PER_PACKET) &&& 0xFFFF0000) >>> 16)) / 4 ≤ 0)) :
    format7_setup_accounting (fixed_camera regs) camera channel mode width height
        bytes_per_packet false capture h =
      .done (0,
        { node := camera.node, channel := uint channel, frame_rate := 0,
          frame_width := uint width, frame_height := uint height,
          quadlets_per_frame := quadlet (quadlet (regs Format7Reg.PACKET_PER_FRAME_INQ) *
            ((quadlet (regs Format7Reg.BYTE_PER_PACKET) &&& 0xFFFF0000) >>> 16)) / 4,
          quadlets_per_packet :=
            (quadlet (regs Format7Reg.BYTE_PER_PACKET) &&& 0xFFFF0000) >>> 16 / 4 })
        [Event.get (uint mode) Format7Reg.BYTE_PER_PACKET
            (quadlet (regs Format7Reg.BYTE_PER_PACKET)) 0,
          Event.get (uint mode) Format7Reg.PACKET_PER_FRAME_INQ
            (quadlet (regs Format7Reg.PACKET_PER_FRAME_INQ)) 0] := by
  rw [format7_setup_accounting_run_v130 _ _ _ _ _ _ _ _ _ _ hv, if_neg hmode,
    fixed_camera_read_err, if_pos rfl, fixed_camera_read_value, if_neg hp,
    fixed_camera_read_err, if_pos rfl, fixed_camera_read_value, format7_setup_finish_not_iso,
    if_neg hf]
  rfl

theorem flag2_camera_setup :
    _dc1394_basic_format7_setup (fixed_camera flag2_regs) 1 camera_v130 0 288 2 1024 0 0 640 480
        stale_capture [] =
      .done (DC1394_SUCCESS,
        { node := 0, channel := 0, frame_rate := 0, frame_width := 640, frame_height := 480,
          quadlets_per_frame := 153600, quadlets_per_packet := 256 })
        [Event.get_iso_status false 0,
          Event.set_iso_channel_and_speed 0 2 0,
          Event.set_video_format FORMAT_SCALABLE_IMAGE_SIZE 0,
          Event.set_video_mode 288 0,
          Event.get 288 Format7Reg.IMAGE_POSITION 0 0,
          Event.set 288 Format7Reg.IMAGE_POSITION 0 0,
          Event.get 288 Format7Reg.VALUE_SETTING 0x80400000 0,
          Event.set 288 Format7Reg.VALUE_SETTING 0x40000000 0,
          Event.get 288 Format7Reg.VALUE_SETTING 0x80400000 0,
          Event.set 288 Format7Reg.IMAGE_SIZE 0x028001E0 0,
          Event.get 288 Format7Reg.VALUE_SETTING 0x80400000 0,
          Event.set 288 Format7Reg.VALUE_SETTING 0x40000000 0,
          Event.get 288 Format7Reg.VALUE_SETTING 0x80400000 0,
          Event.get 288 Format7Reg.BYTE_PER_PACKET 0x04000400 0,
          Event.get 288 Format7Reg.PACKET_PARA_INQ 0x00041000 0,
          Event.set 288 Format7Reg.BYTE_PER_PACKET 0x04000000 0,
          Event.get 288 Format7Reg.VALUE_SETTING 0x80400000 0,
          Event.set 288 Format7Reg.VALUE_SETTING 0x40000000 0,
          Event.get 288 Format7Reg.VALUE_SETTING 0x80400000 0,
          Event.get 288 Format7Reg.BYTE_PER_PACKET 0x04000400 0,
          Event.get 288 Format7Reg.PACKET_PER_FRAME_INQ 600 0] := by
  rw [_dc1394_basic_format7_setup]
  rw [Prog.orReturn_ok (fixed_camera_stop_iso _ _)]
  rw [Prog.orReturn_ok (fixed_camera_channel_and_mode _ _ _ _ _)]
  rw [Prog.orReturn_ok (fixed_camera_query_bpp_literal _ _ _ (by decide) _)]
  rw [Prog.orReturn_ok (a := ((0 : Int), (0 : Int)))
    ((fixed_camera_position flag2_regs 1 camera_v130 288 0 0 _ _ (by decide)
      (fixed_camera_commit_accepted flag2_regs 0 camera_v130 _ _ _ _ (by decide) (by decide)
        (by decide) (by decide) (by decide))).trans rfl)]
  rw [Prog.orReturn_ok (fixed_camera_query_size_literal _ _ _ _ _ (by decide))]
  rw [Prog.orReturn_ok (fixed_camera_max_size_literal _ _ _ _ _ _ _ (by decide))]
  rw [Prog.orReturn_ok (a := ())
    ((fixed_camera_commit_size flag2_regs 1 camera_v130 288 640 480 _ _
      (fixed_camera_commit_accepted flag2_regs 0 camera_v130 _ _ _ _ (by decide) (by decide)
        (by decide) (by decide) (by decide))).trans rfl)]
  rw [Prog.orReturn_ok (a := (1024 : Int))
    ((fixed_camera_packet_size flag2_regs 1 camera_v130 288 1024 _ 1024 _ (by decide)
      (by decide)
      (fixed_camera_commit_accepted flag2_regs 0 camera_v130 _ _ _ _ (by decide) (by decide)
        (by decide) (by decide) (by decide))).trans rfl)]
  rw [fixed_camera_accounting flag2_regs camera_v130 _ _ _ _ _ _ _ (by decide) (by decide)
    (by decide) (by decide)]
  rfl

theorem fixed_camera_query_bpp_query (regs : Format7Reg → Nat) (mode : Int) (h : Trace)
    (hmode : ¬ (uint mode > MODE_FORMAT7_MAX ∨ uint mode < MODE_FORMAT7_MIN)) :
    format7_setup_query_bpp (fixed_camera regs) mode QUERY_FROM_CAMERA h =
      .done (.ok (sint ((quadlet (regs Format7Reg.BYTE_PER_PACKET) &&& 0xFFFF0000) >>> 16)))
        [Event.get (uint mode) Format7Reg.BYTE_PER_PACKET
          (quadlet (regs Format7Reg.BYTE_PER_PACKET)) 0] := by
  rw [format7_setup_query_bpp_run, if_pos rfl, if_neg hmode, fixed_camera_read_err, if_pos rfl,
    fixed_camera_read_value]

theorem fixed_camera_query_size_query (regs : Format7Reg → Nat) (mode width height : Int)
    (h : Trace) (hq : width = QUERY_FROM_CAMERA ∨ height = QUERY_FROM_CAMERA)
    (hmode : ¬ (uint mode > MODE_FORMAT7_MAX ∨ uint mode < MODE_FORMAT7_MIN)) :
    format7_setup_query_size (fixed_camera regs) mode width height h =
      .done (.ok
        (if width = QUERY_FROM_CAMERA then
            if (quadlet (regs Format7Reg.IMAGE_SIZE) &&& 0xFFFF0000) >>> 16 > 0
            then sint ((quadlet (regs Format7Reg.IMAGE_SIZE) &&& 0xFFFF0000) >>> 16)
            else USE_MAX_AVAIL
          else width,
         if height = QUERY_FROM_CAMERA then
            if quadlet (regs Format7Reg.IMAGE_SIZE) &&& 0x0000FFFF > 0
            then sint (quadlet (regs Format7Reg.IMAGE_SIZE) &&& 0x0000FFFF)
            else USE_MAX_AVAIL
          else height))
        [Event.get (uint mode) Format7Reg.IMAGE_SIZE (quadlet (regs Format7Reg.IMAGE_SIZE)) 0]
    := by
  rw [format7_setup_query_size_run, if_pos hq, if_neg hmode, fixed_camera_read_err, if_pos rfl,
    fixed_camera_read_value]

theorem fixed_camera_max_size_query (regs : Format7Reg → Nat)
    (mode left top width height : Int) (h : Trace)
    (hq : width = USE_MAX_AVAIL ∨ height = USE_MAX_AVAIL)
    (hmode : ¬ (uint mode > MODE_FORMAT7_MAX ∨ uint mode < MODE_FORMAT7_MIN)) :
    format7_setup_max_size (fixed_camera regs) mode left top width height h =
      .done (.ok
        (if width = USE_MAX_AVAIL then
            sint (uint ((((quadlet (regs Format7Reg.MAX_IMAGE_SIZE_INQ)
              &&& 0xFFFF0000) >>> 16 : Nat) : Int) - (uint left : Int)))
          else width,
         if height = USE_MAX_AVAIL then
            sint (uint (((quadlet (regs Format7Reg.MAX_IMAGE_SIZE_INQ)
              &&& 0x0000FFFF : Nat) : Int) - (uint top : Int)))
          else height))
        [Event.get (uint mode) Format7Reg.MAX_IMAGE_SIZE_INQ
          (quadlet (regs Format7Reg.MAX_IMAGE_SIZE_INQ)) 0] := by
  rw [format7_setup_max_size_run, if_pos hq, if_neg hmode, fixed_camera_read_err, if_pos rfl,
    fixed_camera_read_value]

/-- The recommended packet size is requested from a camera that recommends 203 bytes. -/
theorem odd_recommended_camera_setup :
    _dc1394_basic_format7_setup (fixed_camera odd_recommended_regs) 1 camera_v130 0 288 2
        USE_RECOMMENDED 0 0 640 480 stale_capture [] =
      .done (DC1394_SUCCESS,
        { node := 0, channel := 0, frame_rate := 0, frame_width := 640, frame_height := 480,
          quadlets_per_frame := 250, quadlets_per_packet := 25 })
        [Event.get_iso_status false 0,
          Event.set_iso_channel_and_speed 0 2 0,
          Event.set_video_format FORMAT_SCALABLE_IMAGE_SIZE 0,
          Event.set_video_mode 288 0,
          Event.get 288 Format7Reg.IMAGE_POSITION 0 0,
          Event.set 288 Format7Reg.IMAGE_POSITION 0 0,
          Event.get 288 Format7Reg.VALUE_SETTING 0x80000000 0,
          Event.set 288 Format7Reg.VALUE_SETTING 0x40000000 0,
          Event.get 288 Format7Reg.VALUE_SETTING 0x80000000 0,
          Event.set 288 Format7Reg.IMAGE_SIZE 0x028001E0 0,
          Event.get 288 Format7Reg.VALUE_SETTING 0x80000000 0,
          Event.set 288 Format7Reg.VALUE_SETTING 0x40000000 0,
          Event.get 288 Format7Reg.VALUE_SETTING 0x80000000 0,
          Event.get 288 Format7Reg.BYTE_PER_PACKET 0x006400CB 0,
          Event.get 288 Format7Reg.PACKET_PARA_INQ 0x00040064 0,
          Event.set 288 Format7Reg.BYTE_PER_PACKET 0x00CB0000 0,
          Event.get 288 Format7Reg.VALUE_SETTING 0x80000000 0,
          Event.set 288 Format7Reg.VALUE_SETTING 0x40000000 0,
          Event.get 288 Format7Reg.VALUE_SETTING 0x80000000 0,
          Event.get 288 Format7Reg.BYTE_PER_PACKET 0x006400CB 0,
          Event.get 288 Format7Reg.PACKET_PER_FRAME_INQ 10 0] := by
  rw [_dc1394_basic_format7_setup]
  rw [Prog.orReturn_ok (fixed_camera_stop_iso _ _)]
  rw [Prog.orReturn_ok (fixed_camera_channel_and_mode _ _ _ _ _)]
  rw [Prog.orReturn_ok (fixed_camera_query_bpp_literal _ _ _ (by decide) _)]
  rw [Prog.orReturn_ok (a := ((0 : Int), (0 : Int)))
    ((fixed_camera_position odd_recommended_regs 1 camera_v130 288 0 0 _ _ (by decide)
      (fixed_camera_commit_accepted odd_recommended_regs 0 camera_v130 _ _ _ _ (by decide)
        (by decide) (by decide) (by decide) (by decide))).trans rfl)]
  rw [Prog.orReturn_ok (fixed_camera_query_size_literal _ _ _ _ _ (by decide))]
  rw [Prog.orReturn_ok (fixed_camera_max_size_literal _ _ _ _ _ _ _ (by decide))]
  rw [Prog.orReturn_ok (a := ())
    ((fixed_camera_commit_size odd_recommended_regs 1 camera_v130 288 640 480 _ _
      (fixed_camera_commit_accepted odd_recommended_regs 0 camera_v130 _ _ _ _ (by decide)
        (by decide) (by decide) (by decide) (by decide))).trans rfl)]
  rw [Prog.orReturn_ok (a := (203 : Int))
    ((fixed_camera_packet_size odd_recommended_regs 1 camera_v130 288 USE_RECOMMENDED _ 203 _
      (by decide) (by decide)
      (fixed_camera_commit_accepted odd_recommended_regs 0 camera_v130 _ _ _ _ (by decide)
        (by decide) (by decide) (by decide) (by decide))).trans rfl)]
  rw [fixed_camera_accounting odd_recommended_regs camera_v130 _ _ _ _ _ _ _ (by decide)
    (by decide) (by decide) (by decide)]
  rfl

/-- The whole image from position (100, 50) and a packet size of 1030 bytes are requested
from a camera with a maximum image size of 640x480 and packet sizes 4, 8, .., 4096. -/
theorem vga_camera_setup_max :
    _dc1394_basic_format7_setup (fixed_camera vga_regs) 1 camera_v130 0 288 2
        1030 100 50 USE_MAX_AVAIL USE_MAX_AVAIL stale_capture [] =
      .done (DC1394_SUCCESS,
        { node := 0, channel := 0, frame_rate := 0, frame_width := 540, frame_height := 430,
          quadlets_per_frame := 153600, quadlets_per_packet := 256 })
        [Event.get_iso_status false 0,
          Event.set_iso_channel_and_speed 0 2 0,
          Event.set_video_format FORMAT_SCALABLE_IMAGE_SIZE 0,
          Event.set_video_mode 288 0,
          Event.get 288 Format7Reg.IMAGE_POSITION 0x00640032 0,
          Event.set 288 Format7Reg.IMAGE_POSITION 0x00640032 0,
          Event.get 288 Format7Reg.VALUE_SETTING 0x80000000 0,
          Event.set 288 Format7Reg.VALUE_SETTING 0x40000000 0,
          Event.get 288 Format7Reg.VALUE_SETTING 0x80000000 0,
          Event.get 288 Format7Reg.MAX_IMAGE_SIZE_INQ 0x028001E0 0,
          Event.set 288 Format7Reg.IMAGE_SIZE 0x021C01AE 0,
          Event.get 288 Format7Reg.VALUE_SETTING 0x80000000 0,
          Event.set 288 Format7Reg.VALUE_SETTING 0x40000000 0,
          Event.get 288 Format7Reg.VALUE_SETTING 0x80000000 0,
          Event.get 288 Format7Reg.BYTE_PER_PACKET 0x04000400 0,
          Event.get 288 Format7Reg.PACKET_PARA_INQ 0x00041000 0,
          Event.set 288 Format7Reg.BYTE_PER_PACKET 0x04040000 0,
          Event.get 288 Format7Reg.VALUE_SETTING 0x80000000 0,
          Event.set 288 Format7Reg.VALUE_SETTING 0x40000000 0,
          Event.get 288 Format7Reg.VALUE_SETTING 0x80000000 0,
          Event.get 288 Format7Reg.BYTE_PER_PACKET 0x04000400 0,
          Event.get 288 Format7Reg.PACKET_PER_FRAME_INQ 600 0] := by
  rw [_dc1394_basic_format7_setup]
  rw [Prog.orReturn_ok (fixed_camera_stop_iso _ _)]
  rw [Prog.orReturn_ok (fixed_camera_channel_and_mode _ _ _ _ _)]
  rw [Prog.orReturn_ok (fixed_camera_query_bpp_literal _ _ _ (by decide) _)]
  rw [Prog.orReturn_ok (a := ((100 : Int), (50 : Int)))
    ((fixed_camera_position vga_regs 1 camera_v130 288 100 50 _ _ (by decide)
      (fixed_camera_commit_accepted vga_regs 0 camera_v130 _ _ _ _ (by decide)
        (by decide) (by decide) (by decide) (by decide))).trans rfl)]
  rw [Prog.orReturn_ok (fixed_camera_query_size_literal _ _ _ _ _ (by decide))]
  rw [Prog.orReturn_ok (a := ((540 : Int), (430 : Int)))
    ((fixed_camera_max_size_query vga_regs 288 100 50 USE_MAX_AVAIL USE_MAX_AVAIL _
      (by decide) (by decide)).trans rfl)]
  rw [Prog.orReturn_ok (a := ())
    ((fixed_camera_commit_size vga_regs 1 camera_v130 288 540 430 _ _
      (fixed_camera_commit_accepted vga_regs 0 camera_v130 _ _ _ _ (by decide)
        (by decide) (by decide) (by decide) (by decide))).trans rfl)]
  rw [Prog.orReturn_ok (a := (1028 : Int))
    ((fixed_camera_packet_size vga_regs 1 camera_v130 288 1030 _ 1028 _
      (by decide) (by decide)
      (fixed_camera_commit_accepted vga_regs 0 camera_v130 _ _ _ _ (by decide)
        (by decide) (by decide) (by decide) (by decide))).trans rfl)]
  rw [fixed_camera_accounting vga_regs camera_v130 _ _ _ _ _ _ _ (by decide)
    (by decide) (by decide) (by decide)]
  rfl

/-- Everything is queried from a camera whose current size is 320x0 at position (100, 50). -/
theorem vga_camera_setup_query :
    _dc1394_basic_format7_setup (fixed_camera vga_regs) 1 camera_v130 0 288 2
        QUERY_FROM_CAMERA QUERY_FROM_CAMERA QUERY_FROM_CAMERA QUERY_FROM_CAMERA
        QUERY_FROM_CAMERA stale_capture [] =
      .done (DC1394_SUCCESS,
        { node := 0, channel := 0, frame_rate := 0, frame_width := 320, frame_height := 430,
          quadlets_per_frame := 153600, quadlets_per_packet := 256 })
        [Event.get_iso_status false 0,
          Event.set_iso_channel_and_speed 0 2 0,
          Event.set_video_format FORMAT_SCALABLE_IMAGE_SIZE 0,
          Event.set_video_mode 288 0,
          Event.get 288 Format7Reg.BYTE_PER_PACKET 0x04000400 0,
          Event.get 288 Format7Reg.IMAGE_POSITION 0x00640032 0,
          Event.set 288 Format7Reg.IMAGE_POSITION 0x00640032 0,
          Event.get 288 Format7Reg.VALUE_SETTING 0x80000000 0,
          Event.set 288 Format7Reg.VALUE_SETTING 0x40000000 0,
          Event.get 288 Format7Reg.VALUE_SETTING 0x80000000 0,
          Event.get 288 Format7Reg.IMAGE_SIZE 0x01400000 0,
          Event.get 288 Format7Reg.MAX_IMAGE_SIZE_INQ 0x028001E0 0,
          Event.set 288 Format7Reg.IMAGE_SIZE 0x014001AE 0,
          Event.get 288 Format7Reg.VALUE_SETTING 0x80000000 0,
          Event.set 288 Format7Reg.VALUE_SETTING 0x40000000 0,
          Event.get 288 Format7Reg.VALUE_SETTING 0x80000000 0,
          Event.get 288 Format7Reg.BYTE_PER_PACKET 0x04000400 0,
          Event.get 288 Format7Reg.PACKET_PARA_INQ 0x00041000 0,
          Event.set 288 Format7Reg.BYTE_PER_PACKET 0x04000000 0,
          Event.get 288 Format7Reg.VALUE_SETTING 0x80000000 0,
          Event.set 288 Format7Reg.VALUE_SETTING 0x40000000 0,
          Event.get 288 Format7Reg.VALUE_SETTING 0x80000000 0,
          Event.get 288 Format7Reg.BYTE_PER_PACKET 0x04000400 0,
          Event.get 288 Format7Reg.PACKET_PER_FRAME_INQ 600 0] := by
  rw [_dc1394_basic_format7_setup]
  rw [Prog.orReturn_ok (fixed_camera_stop_iso _ _)]
  rw [Prog.orReturn_ok (fixed_camera_channel_and_mode _ _ _ _ _)]
  rw [Prog.orReturn_ok (a := (1024 : Int))
    ((fixed_camera_query_bpp_query vga_regs 288 _ (by decide)).trans rfl)]
  rw [Prog.orReturn_ok (a := ((100 : Int), (50 : Int)))
    ((fixed_camera_position vga_regs 1 camera_v130 288 QUERY_FROM_CAMERA QUERY_FROM_CAMERA _ _
      (by decide)
      (fixed_camera_commit_accepted vga_regs 0 camera_v130 _ _ _ _ (by decide)
        (by decide) (by decide) (by decide) (by decide))).trans rfl)]
  rw [Prog.orReturn_ok (a := ((320 : Int), USE_MAX_AVAIL))
    ((fixed_camera_query_size_query vga_regs 288 QUERY_FROM_CAMERA QUERY_FROM_CAMERA _
      (by decide) (by decide)).trans rfl)]
  rw [Prog.orReturn_ok (a := ((320 : Int), (430 : Int)))
    ((fixed_camera_max_size_query vga_regs 288 100 50 320 USE_MAX_AVAIL _
      (by decide) (by decide)).trans rfl)]
  rw [Prog.orReturn_ok (a := ())
    ((fixed_camera_commit_size vga_regs 1 camera_v130 288 320 430 _ _
      (fixed_camera_commit_accepted vga_regs 0 camera_v130 _ _ _ _ (by decide)
        (by decide) (by decide) (by decide) (by decide))).trans rfl)]
  rw [Prog.orReturn_ok (a := (1024 : Int))
    ((fixed_camera_packet_size vga_regs 1 camera_v130 288 1024 _ 1024 _
      (by decide) (by decide)
      (fixed_camera_commit_accepted vga_regs 0 camera_v130 _ _ _ _ (by decide)
        (by decide) (by decide) (by decide) (by decide))).trans rfl)]
  rw [fixed_camera_accounting vga_regs camera_v130 _ _ _ _ _ _ _ (by decide)
    (by decide) (by decide) (by decide)]
  rfl

-- Locating a transaction in the trace of a sequence of steps.

theorem trace_split_after {s t pre post : Trace} {x : Event} (hx : x ∉ s)
    (h : s ++ t = pre ++ x :: post) : ∃ pre2, pre = s ++ pre2 ∧ t = pre2 ++ x :: post := by
  rcases List.append_eq_append_iff.1 h with ⟨a, ha, hb⟩ | ⟨c, hc, hd⟩
  · exact ⟨a, ha, hb⟩
  · cases c with
    | nil =>
      refine ⟨[], ?_, ?_⟩
      · simpa using hc.symm
      · simpa using hd.symm
    | cons y c =>
      simp only [List.cons_append, List.cons.injEq] at hd
      exact absurd (hc ▸ hd.1 ▸ (by simp : y ∈ pre ++ y :: c)) hx

theorem trace_split_before {s t pre post : Trace} {x : Event} (hx : x ∉ t)
    (h : s ++ t = pre ++ x :: post) : ∃ post1, s = pre ++ x :: post1 ∧ post = post1 ++ t := by
  rcases List.append_eq_append_iff.1 h with ⟨a, _, hb⟩ | ⟨c, hc, hd⟩
  · exact absurd (hb ▸ (by simp : x ∈ a ++ x :: post)) hx
  · cases c with
    | nil => exact absurd ((by simpa using hd : x :: post = t) ▸ (by simp : x ∈ x :: post)) hx
    | cons y c =>
      simp only [List.cons_append, List.cons.injEq] at hd
      exact ⟨c, by rw [hc, hd.1], hd.2⟩

theorem Prog.emits_not_mem {α : Type} {L : List (Option (Bool × Format7Reg))} {m : Prog α}
    (hm : Prog.emits L m) {x : Event} (hx : x.access ∉ L) (h : Trace) : x ∉ (m h).seg :=
  fun hmem => hx (hm h x hmem)

/-- A transaction that the step `m` cannot make lies in the continuation, which has run. -/
theorem Prog.orReturn_split_after {α : Type} {L : List (Option (Bool × Format7Reg))}
    {m : Prog (Except Int α)} {capture : dc1394capture_t}
    {k : α → Prog (Int × dc1394capture_t)} {h pre post : Trace} {x : Event}
    (hm : Prog.emits L m) (hx : x.access ∉ L)
    (hseg : ((m.orReturn capture k) h).seg = pre ++ x :: post) :
    ∃ a s pre2, m h = .done (.ok a) s ∧ pre = s ++ pre2 ∧
      (k a (h ++ s)).seg = pre2 ++ x :: post := by
  have hx' := Prog.emits_not_mem hm hx h
  rw [Prog.orReturn_seg] at hseg
  cases hmh : m h with
  | done r s =>
    rw [hmh] at hseg hx'
    cases r with
    | ok a =>
      obtain ⟨pre2, h1, h2⟩ := trace_split_after hx' hseg
      exact ⟨a, s, pre2, rfl, h1, h2⟩
    | error e =>
      obtain ⟨pre2, _, h2⟩ := trace_split_after hx' hseg
      simp at h2
  | spin s =>
    rw [hmh] at hseg hx'
    obtain ⟨pre2, _, h2⟩ := trace_split_after hx' hseg
    simp at h2
  | undef s =>
    rw [hmh] at hseg hx'
    obtain ⟨pre2, _, h2⟩ := trace_split_after hx' hseg
    simp at h2

/-- A transaction that the continuation cannot make lies in the step `m`. -/
theorem Prog.orReturn_split_before {α : Type} {L : List (Option (Bool × Format7Reg))}
    {m : Prog (Except Int α)} {capture : dc1394capture_t}
    {k : α → Prog (Int × dc1394capture_t)} {h pre post : Trace} {x : Event}
    (hk : ∀ a, Prog.emits L (k a)) (hx : x.access ∉ L)
    (hseg : ((m.orReturn capture k) h).seg = pre ++ x :: post) :
    ∃ post1, (m h).seg = pre ++ x :: post1 := by
  rw [Prog.orReturn_seg] at hseg
  have hx' : x ∉ (match m h with
      | .done (.ok a) s => (k a (h ++ s)).seg
      | _ => []) := by
    cases m h with
    | done r s =>
      cases r with
      | ok a => exact Prog.emits_not_mem (hk a) hx _
      | error e => simp
    | spin s => simp
    | undef s => simp
  obtain ⟨post1, h1, _⟩ := trace_split_before hx' hseg
  exact ⟨post1, h1⟩

/-- The trace of a committing write: the write itself, then accesses of the value-setting
register only. -/
theorem commit_outcome_split (D : Device) (fuel : Nat) (camera : dc1394camera_t) (mode : Nat)
    (reg : Format7Reg) (value : Nat) (h : Trace) {pre post : Trace} {x : Event}
    (hx : x.isValueSetting = false)
    (hseg : (commit_outcome D fuel camera mode reg value h).seg = pre ++ x :: post) :
    pre = [] ∧ ∃ err, x = Event.set mode reg (quadlet value) err := by
  obtain ⟨err, rest, h1, _, h3, _⟩ := commit_outcome_seg D fuel camera mode reg value h
  rw [h1] at hseg
  cases pre with
  | nil =>
    simp only [List.nil_append, List.cons.injEq] at hseg
    exact ⟨rfl, err, hseg.1.symm⟩
  | cons y pre =>
    simp only [List.cons_append, List.cons.injEq] at hseg
    have : x ∈ rest := hseg.2 ▸ (by simp : x ∈ pre ++ x :: post)
    rw [h3 x this] at hx
    exact absurd hx (by decide)

-- Where each step of the setup writes, and what it leaves when it succeeds.

theorem format7_setup_image_position_write (D : Device) (fuel : Nat) (camera : dc1394camera_t)
    (mode left top : Int) (h : Trace) {pre post : Trace} {m : Nat} {reg : Format7Reg}
    {v : Nat} {e : Int} (hreg : reg ≠ Format7Reg.VALUE_SETTING)
    (hseg : (format7_setup_image_position D fuel camera mode left top h).seg =
      pre ++ Event.set m reg v e :: post) :
    pre = [Event.get (uint mode) Format7Reg.IMAGE_POSITION
        (D.read_value h (uint mode) Format7Reg.IMAGE_POSITION) 0] ∧
      m = uint mode ∧ reg = Format7Reg.IMAGE_POSITION ∧
      v = quadlet (quadlet (uint (if left = QUERY_FROM_CAMERA then
            sint ((D.read_value h (uint mode) Format7Reg.IMAGE_POSITION &&& 0xFFFF0000) >>> 16)
          else left) <<< 16) |||
          uint (if top = QUERY_FROM_CAMERA then
            sint (D.read_value h (uint mode) Format7Reg.IMAGE_POSITION &&& 0x0000FFFF)
          else top)) := by
  have hx : (Event.set m reg v e).isValueSetting = false := by
    cases reg <;> first | exact absurd rfl hreg | rfl
  rw [format7_setup_image_position_run] at hseg
  by_cases h1 : uint mode > MODE_FORMAT7_MAX ∨ uint mode < MODE_FORMAT7_MIN
  · rw [if_pos h1] at hseg
    simp at hseg
  · rw [if_neg h1] at hseg
    by_cases h2 : D.read_err h (uint mode) Format7Reg.IMAGE_POSITION = 0
    · rw [if_pos h2, Outcome.seg_after, commit_verdict_seg] at hseg
      cases pre with
      | nil => simp at hseg
      | cons y pre =>
        simp only [List.cons_append, List.singleton_append, List.cons.injEq,
          List.nil_append] at hseg
        obtain ⟨hp, err, hxe⟩ := commit_outcome_split D fuel camera _ _ _ _ hx hseg.2
        simp only [Event.set.injEq] at hxe
        exact ⟨by rw [hp, ← hseg.1], hxe.1, hxe.2.1, hxe.2.2.1⟩
    · rw [if_neg h2] at hseg
      cases pre with
      | nil => simp at hseg
      | cons y pre => simp at hseg

theorem format7_setup_commit_size_write (D : Device) (fuel : Nat) (camera : dc1394camera_t)
    (mode width height : Int) (h : Trace) {pre post : Trace} {m : Nat} {reg : Format7Reg}
    {v : Nat} {e : Int} (hreg : reg ≠ Format7Reg.VALUE_SETTING)
    (hseg : (format7_setup_commit_size D fuel camera mode width height h).seg =
      pre ++ Event.set m reg v e :: post) :
    pre = [] ∧ m = uint mode ∧ reg = Format7Reg.IMAGE_SIZE ∧
      v = quadlet (quadlet (uint width <<< 16) ||| uint height) := by
  have hx : (Event.set m reg v e).isValueSetting = false := by
    cases reg <;> first | exact absurd rfl hreg | rfl
  rw [format7_setup_commit_size_run, commit_verdict_seg] at hseg
  obtain ⟨hp, err, hxe⟩ := commit_outcome_split D fuel camera _ _ _ _ hx hseg
  simp only [Event.set.injEq] at hxe
  exact ⟨hp, hxe.1, hxe.2.1, hxe.2.2.1⟩

theorem format7_setup_packet_size_write (D : Device) (fuel : Nat) (camera : dc1394camera_t)
    (mode bytes_per_packet : Int) (h : Trace) {pre post : Trace} {m : Nat} {reg : Format7Reg}
    {v : Nat} {e : Int} (hreg : reg ≠ Format7Reg.VALUE_SETTING)
    (hseg : (format7_setup_packet_size D fuel camera mode bytes_per_packet h).seg =
      pre ++ Event.set m reg v e :: post) :
    ∃ recom para b,
      pre = [Event.get (uint mode) Format7Reg.BYTE_PER_PACKET recom 0,
        Event.get (uint mode) Format7Reg.PACKET_PARA_INQ para 0] ∧
      m = uint mode ∧ reg = Format7Reg.BYTE_PER_PACKET ∧
      format7_packet_size_switch bytes_per_packet (recom &&& 0x0000FFFF)
        ((para &&& 0xFFFF0000) >>> 16) (para &&& 0x0000FFFF) = some b ∧
      v = quadlet (quadlet (uint b <<< 16)) := by
  have hx : (Event.set m reg v e).isValueSetting = false := by
    cases reg <;> first | exact absurd rfl hreg | rfl
  rw [format7_setup_packet_size_run] at hseg
  by_cases h1 : uint mode > MODE_FORMAT7_MAX ∨ uint mode < MODE_FORMAT7_MIN
  · rw [if_pos h1] at hseg
    simp at hseg
  · rw [if_neg h1] at hseg
    by_cases h2 : D.read_err h (uint mode) Format7Reg.BYTE_PER_PACKET = 0
    · rw [if_pos h2] at hseg
      by_cases h3 : D.read_err (h ++ [Event.get (uint mode) Format7Reg.BYTE_PER_PACKET
          (D.read_value h (uint mode) Format7Reg.BYTE_PER_PACKET) 0])
          (uint mode) Format7Reg.PACKET_PARA_INQ = 0
      · rw [if_pos h3] at hseg
        cases hb : format7_packet_size_switch bytes_per_packet
            (D.read_value h (uint mode) Format7Reg.BYTE_PER_PACKET &&& 0x0000FFFF)
            ((D.read_value (h ++ [Event.get (uint mode) Format7Reg.BYTE_PER_PACKET
              (D.read_value h (uint mode) Format7Reg.BYTE_PER_PACKET) 0])
              (uint mode) Format7Reg.PACKET_PARA_INQ &&& 0xFFFF0000) >>> 16)
            (D.read_value (h ++ [Event.get (uint mode) Format7Reg.BYTE_PER_PACKET
              (D.read_value h (uint mode) Format7Reg.BYTE_PER_PACKET) 0])
              (uint mode) Format7Reg.PACKET_PARA_INQ &&& 0x0000FFFF) with
        | none =>
          rw [hb] at hseg
          simp only [Outcome.seg_undef] at hseg
          rcases pre with _ | ⟨y, _ | ⟨z, pre⟩⟩ <;> simp at hseg
        | some b =>
          rw [hb] at hseg
          simp only [Outcome.seg_after, commit_verdict_seg] at hseg
          rcases pre with _ | ⟨y, _ | ⟨z, pre⟩⟩
          · simp at hseg
          · simp at hseg
          · simp only [List.cons_append, List.cons.injEq, List.nil_append] at hseg
            obtain ⟨hp, err, hxe⟩ := commit_outcome_split D fuel camera _ _ _ _ hx hseg.2.2
            simp only [Event.set.injEq] at hxe
            exact ⟨_, _, b, by rw [hp, ← hseg.1, ← hseg.2.1], hxe.1, hxe.2.1, hb, hxe.2.2.1⟩
      · rw [if_neg h3] at hseg
        rcases pre with _ | ⟨y, _ | ⟨z, pre⟩⟩ <;> simp at hseg
    · rw [if_neg h2] at hseg
      rcases pre with _ | ⟨y, pre⟩ <;> simp at hseg

-- The writes of the three committed registers in a run of the whole setup.

theorem Event.set_access_not_mem {L : List (Option (Bool × Format7Reg))} {reg : Format7Reg}
    (h : some (true, reg) ∉ L) (m v : Nat) (e : Int) : (Event.set m reg v e).access ∉ L := h

theorem format7_setup_accounting_emits_tail (D : Device) (camera : dc1394camera_t)
    (channel mode width height bytes_per_packet : Int) (is_iso_on : Bool)
    (capture : dc1394capture_t) :
    Prog.emits [none, some (false, Format7Reg.BYTE_PER_PACKET),
        some (false, Format7Reg.PACKET_PER_FRAME_INQ), some (false, Format7Reg.COLOR_CODING_ID),
        some (false, Format7Reg.TOTAL_BYTES_HI_INQ), some (false, Format7Reg.TOTAL_BYTES_LO_INQ),
        some (false, Format7Reg.PACKET_PARA_INQ), some (true, Format7Reg.BYTE_PER_PACKET),
        some (false, Format7Reg.VALUE_SETTING), some (true, Format7Reg.VALUE_SETTING),
        some (false, Format7Reg.IMAGE_SIZE), some (false, Format7Reg.MAX_IMAGE_SIZE_INQ),
        some (true, Format7Reg.IMAGE_SIZE)]
      (format7_setup_accounting D camera channel mode width height bytes_per_packet is_iso_on
        capture) :=
  Prog.emits_mono (format7_setup_accounting_emits D camera channel mode width height
    bytes_per_packet is_iso_on capture) (by decide)

theorem format7_setup_position_write (D : Device) (fuel : Nat) (camera : dc1394camera_t)
    (channel mode speed bytes_per_packet left top width height : Int)
    (capture : dc1394capture_t) (h : Trace) {pre post : Trace} {m v : Nat} {e : Int}
    (hseg : (_dc1394_basic_format7_setup D fuel camera channel mode speed bytes_per_packet left
      top width height capture h).seg =
        pre ++ Event.set m Format7Reg.IMAGE_POSITION v e :: post) :
    ∃ pre0 cur, pre = pre0 ++ [Event.get (uint mode) Format7Reg.IMAGE_POSITION cur 0] ∧
      m = uint mode ∧
      v = quadlet (quadlet (uint (if left = QUERY_FROM_CAMERA then
            sint ((cur &&& 0xFFFF0000) >>> 16) else left) <<< 16) |||
          uint (if top = QUERY_FROM_CAMERA then sint (cur &&& 0x0000FFFF) else top)) := by
  unfold _dc1394_basic_format7_setup at hseg
  obtain ⟨is_iso_on, s1, p1, -, hp1, hseg⟩ :=
    Prog.orReturn_split_after (format7_setup_stop_iso_emits D) (Event.set_access_not_mem (by decide) _ _ _) hseg
  obtain ⟨-, s2, p2, -, hp2, hseg⟩ :=
    Prog.orReturn_split_after (format7_setup_channel_and_mode_emits D _ _ _) (Event.set_access_not_mem (by decide) _ _ _) hseg
  obtain ⟨bpp, s3, p3, -, hp3, hseg⟩ :=
    Prog.orReturn_split_after (format7_setup_query_bpp_emits D _ _) (Event.set_access_not_mem (by decide) _ _ _) hseg
  obtain ⟨post1, hseg⟩ := Prog.orReturn_split_before
    (L := [none, some (false, Format7Reg.BYTE_PER_PACKET),
        some (false, Format7Reg.PACKET_PER_FRAME_INQ), some (false, Format7Reg.COLOR_CODING_ID),
        some (false, Format7Reg.TOTAL_BYTES_HI_INQ), some (false, Format7Reg.TOTAL_BYTES_LO_INQ),
        some (false, Format7Reg.PACKET_PARA_INQ), some (true, Format7Reg.BYTE_PER_PACKET),
        some (false, Format7Reg.VALUE_SETTING), some (true, Format7Reg.VALUE_SETTING),
        some (false, Format7Reg.IMAGE_SIZE), some (false, Format7Reg.MAX_IMAGE_SIZE_INQ),
        some (true, Format7Reg.IMAGE_SIZE)])
    (fun position =>
      Prog.emits_orReturn (Prog.emits_mono (format7_setup_query_size_emits D _ _ _) (by decide))
      fun size =>
      Prog.emits_orReturn
        (Prog.emits_mono (format7_setup_max_size_emits D _ _ _ _ _) (by decide))
      fun size' =>
      Prog.emits_orReturn
        (Prog.emits_mono (format7_setup_commit_size_emits D fuel camera _ _ _) (by decide))
      fun _ =>
      Prog.emits_orReturn
        (Prog.emits_mono (format7_setup_packet_size_emits D fuel camera _ _) (by decide))
      fun bpp' => format7_setup_accounting_emits_tail D camera _ _ _ _ _ _ _)
    (Event.set_access_not_mem (by decide) _ _ _) hseg
  obtain ⟨h1, h2, -, h4⟩ :=
    format7_setup_image_position_write D fuel camera mode left top _ (by decide) hseg
  exact ⟨s1 ++ (s2 ++ s3), _, by rw [hp1, hp2, hp3, h1]; simp, h2, h4⟩

theorem format7_setup_packet_write (D : Device) (fuel : Nat) (camera : dc1394camera_t)
    (channel mode speed bytes_per_packet left top width height : Int)
    (capture : dc1394capture_t) (h : Trace) {pre post : Trace} {m v : Nat} {e : Int}
    (hseg : (_dc1394_basic_format7_setup D fuel camera channel mode speed bytes_per_packet left
      top width height capture h).seg =
        pre ++ Event.set m Format7Reg.BYTE_PER_PACKET v e :: post) :
    ∃ pre0 h3 request s3 recom para b,
      format7_setup_query_bpp D mode bytes_per_packet h3 = .done (.ok request) s3 ∧
      (∀ x ∈ s3, x ∈ pre0) ∧
      pre = pre0 ++ [Event.get (uint mode) Format7Reg.BYTE_PER_PACKET recom 0,
        Event.get (uint mode) Format7Reg.PACKET_PARA_INQ para 0] ∧
      m = uint mode ∧
      format7_packet_size_switch request (recom &&& 0x0000FFFF)
        ((para &&& 0xFFFF0000) >>> 16) (para &&& 0x0000FFFF) = some b ∧
      v = quadlet (quadlet (uint b <<< 16)) := by
  unfold _dc1394_basic_format7_setup at hseg
  obtain ⟨is_iso_on, s1, p1, -, hp1, hseg⟩ :=
    Prog.orReturn_split_after (format7_setup_stop_iso_emits D) (Event.set_access_not_mem (by decide) _ _ _) hseg
  obtain ⟨-, s2, p2, -, hp2, hseg⟩ :=
    Prog.orReturn_split_after (format7_setup_channel_and_mode_emits D _ _ _) (Event.set_access_not_mem (by decide) _ _ _) hseg
  obtain ⟨request, s3, p3, hq, hp3, hseg⟩ :=
    Prog.orReturn_split_after (format7_setup_query_bpp_emits D _ _) (Event.set_access_not_mem (by decide) _ _ _) hseg
  obtain ⟨position, s4, p4, -, hp4, hseg⟩ :=
    Prog.orReturn_split_after (format7_setup_image_position_emits D fuel camera _ _ _)
      (Event.set_access_not_mem (by decide) _ _ _) hseg
  obtain ⟨size, s5, p5, -, hp5, hseg⟩ :=
    Prog.orReturn_split_after (format7_setup_query_size_emits D _ _ _) (Event.set_access_not_mem (by decide) _ _ _) hseg
  obtain ⟨size', s6, p6, -, hp6, hseg⟩ :=
    Prog.orReturn_split_after (format7_setup_max_size_emits D _ _ _ _ _) (Event.set_access_not_mem (by decide) _ _ _) hseg
  obtain ⟨-, s7, p7, -, hp7, hseg⟩ :=
    Prog.orReturn_split_after (format7_setup_commit_size_emits D fuel camera _ _ _)
      (Event.set_access_not_mem (by decide) _ _ _) hseg
  obtain ⟨post1, hseg⟩ := Prog.orReturn_split_before
    (fun bpp' => format7_setup_accounting_emits D camera _ _ _ _ _ _ _) (Event.set_access_not_mem (by decide) _ _ _) hseg
  obtain ⟨recom, para, b, h1, h2, -, h4, h5⟩ :=
    format7_setup_packet_size_write D fuel camera mode request _ (by decide) hseg
  refine ⟨s1 ++ (s2 ++ (s3 ++ (s4 ++ (s5 ++ (s6 ++ s7))))), _, request, s3, recom, para, b, hq,
    ?_, by rw [hp1, hp2, hp3, hp4, hp5, hp6, hp7, h1]; simp, h2, h4, h5⟩
  intro x hx
  simp [hx]

theorem format7_setup_size_write (D : Device) (fuel : Nat) (camera : dc1394camera_t)
    (channel mode speed bytes_per_packet left top width height : Int)
    (capture : dc1394capture_t) (h : Trace) {pre post : Trace} {m v : Nat} {e : Int}
    (hseg : (_dc1394_basic_format7_setup D fuel camera channel mode speed bytes_per_packet left
      top width height capture h).seg =
        pre ++ Event.set m Format7Reg.IMAGE_SIZE v e :: post) :
    ∃ pre0 h4 position s4 h5 size s5 h6 size' s6,
      format7_setup_image_position D fuel camera mode left top h4 = .done (.ok position) s4 ∧
      format7_setup_query_size D mode width height h5 = .done (.ok size) s5 ∧
      format7_setup_max_size D mode position.1 position.2 size.1 size.2 h6 =
        .done (.ok size') s6 ∧
      pre = pre0 ++ s4 ++ s5 ++ s6 ∧
      m = uint mode ∧
      v = quadlet (quadlet (uint size'.1 <<< 16) ||| uint size'.2) := by
  unfold _dc1394_basic_format7_setup at hseg
  obtain ⟨is_iso_on, s1, p1, -, hp1, hseg⟩ :=
    Prog.orReturn_split_after (format7_setup_stop_iso_emits D) (Event.set_access_not_mem (by decide) _ _ _) hseg
  obtain ⟨-, s2, p2, -, hp2, hseg⟩ :=
    Prog.orReturn_split_after (format7_setup_channel_and_mode_emits D _ _ _) (Event.set_access_not_mem (by decide) _ _ _) hseg
  obtain ⟨request, s3, p3, -, hp3, hseg⟩ :=
    Prog.orReturn_split_after (format7_setup_query_bpp_emits D _ _) (Event.set_access_not_mem (by decide) _ _ _) hseg
  obtain ⟨position, s4, p4, hpos, hp4, hseg⟩ :=
    Prog.orReturn_split_after (format7_setup_image_position_emits D fuel camera _ _ _)
      (Event.set_access_not_mem (by decide) _ _ _) hseg
  obtain ⟨size, s5, p5, hsz, hp5, hseg⟩ :=
    Prog.orReturn_split_after (format7_setup_query_size_emits D _ _ _) (Event.set_access_not_mem (by decide) _ _ _) hseg
  obtain ⟨size', s6, p6, hmx, hp6, hseg⟩ :=
    Prog.orReturn_split_after (format7_setup_max_size_emits D _ _ _ _ _) (Event.set_access_not_mem (by decide) _ _ _) hseg
  obtain ⟨post1, hseg⟩ := Prog.orReturn_split_before
    (L := [none, some (false, Format7Reg.BYTE_PER_PACKET),
        some (false, Format7Reg.PACKET_PER_FRAME_INQ), some (false, Format7Reg.COLOR_CODING_ID),
        some (false, Format7Reg.TOTAL_BYTES_HI_INQ), some (false, Format7Reg.TOTAL_BYTES_LO_INQ),
        some (false, Format7Reg.PACKET_PARA_INQ), some (true, Format7Reg.BYTE_PER_PACKET),
        some (false, Format7Reg.VALUE_SETTING), some (true, Format7Reg.VALUE_SETTING)])
    (fun _ =>
      Prog.emits_orReturn
        (Prog.emits_mono (format7_setup_packet_size_emits D fuel camera _ _) (by decide))
      fun bpp' => Prog.emits_mono (format7_setup_accounting_emits D camera _ _ _ _ _ _ _)
        (by decide))
    (Event.set_access_not_mem (by decide) _ _ _) hseg
  obtain ⟨h1, h2, -, h4⟩ :=
    format7_setup_commit_size_write D fuel camera mode size'.1 size'.2 _ (by decide) hseg
  exact ⟨s1 ++ (s2 ++ s3), _, position, s4, _, size, s5, _, size', s6, hpos, hsz, hmx,
    by rw [hp1, hp2, hp3, hp4, hp5, hp6, h1]; simp, h2, h4⟩

-- What the steps that resolve the requests leave when they succeed.

theorem format7_setup_query_bpp_ok (D : Device) (mode bytes_per_packet : Int) (h : Trace)
    {request : Int} {s : Trace}
    (hq : format7_setup_query_bpp D mode bytes_per_packet h = .done (.ok request) s) :
    (bytes_per_packet ≠ QUERY_FROM_CAMERA → request = bytes_per_packet) ∧
    (bytes_per_packet = QUERY_FROM_CAMERA →
      ∃ cur, s = [Event.get (uint mode) Format7Reg.BYTE_PER_PACKET cur 0] ∧
        request = sint ((cur &&& 0xFFFF0000) >>> 16)) := by
  rw [format7_setup_query_bpp_run] at hq
  by_cases h0 : bytes_per_packet = QUERY_FROM_CAMERA
  · rw [if_pos h0] at hq
    by_cases h1 : uint mode > MODE_FORMAT7_MAX ∨ uint mode < MODE_FORMAT7_MIN
    · rw [if_pos h1] at hq
      simp at hq
    · rw [if_neg h1] at hq
      by_cases h2 : D.read_err h (uint mode) Format7Reg.BYTE_PER_PACKET = 0
      · rw [if_pos h2] at hq
        simp only [Outcome.done.injEq, Except.ok.injEq] at hq
        exact ⟨fun hne => absurd h0 hne, fun _ => ⟨_, hq.2.symm, hq.1.symm⟩⟩
      · rw [if_neg h2] at hq
        simp at hq
  · rw [if_neg h0] at hq
    simp only [Outcome.done.injEq, Except.ok.injEq] at hq
    exact ⟨fun _ => hq.1.symm, fun he => absurd he h0⟩

theorem format7_setup_image_position_ok (D : Device) (fuel : Nat) (camera : dc1394camera_t)
    (mode left top : Int) (h : Trace) {position : Int × Int} {s : Trace}
    (hp : format7_setup_image_position D fuel camera mode left top h =
      .done (.ok position) s) :
    ∃ cur rest, s = Event.get (uint mode) Format7Reg.IMAGE_POSITION cur 0 :: rest ∧
      position = (if left = QUERY_FROM_CAMERA then sint ((cur &&& 0xFFFF0000) >>> 16) else left,
        if top = QUERY_FROM_CAMERA then sint (cur &&& 0x0000FFFF) else top) := by
  rw [format7_setup_image_position_run] at hp
  by_cases h1 : uint mode > MODE_FORMAT7_MAX ∨ uint mode < MODE_FORMAT7_MIN
  · rw [if_pos h1] at hp
    simp at hp
  · rw [if_neg h1] at hp
    by_cases h2 : D.read_err h (uint mode) Format7Reg.IMAGE_POSITION = 0
    · rw [if_pos h2] at hp
      obtain ⟨t, ht, hs⟩ := Outcome.after_eq_done hp
      obtain ⟨-, hpos⟩ := commit_verdict_eq_ok ht
      exact ⟨_, t, hs, hpos⟩
    · rw [if_neg h2] at hp
      simp at hp

theorem format7_setup_query_size_ok (D : Device) (mode width height : Int) (h : Trace)
    {size : Int × Int} {s : Trace}
    (hq : format7_setup_query_size D mode width height h = .done (.ok size) s) :
    ∃ cur,
      (width = QUERY_FROM_CAMERA ∨ height = QUERY_FROM_CAMERA →
        s = [Event.get (uint mode) Format7Reg.IMAGE_SIZE cur 0]) ∧
      (¬ (width = QUERY_FROM_CAMERA ∨ height = QUERY_FROM_CAMERA) → s = []) ∧
      size = (if width = QUERY_FROM_CAMERA then
            if (cur &&& 0xFFFF0000) >>> 16 > 0 then sint ((cur &&& 0xFFFF0000) >>> 16)
            else USE_MAX_AVAIL
          else width,
        if height = QUERY_FROM_CAMERA then
            if cur &&& 0x0000FFFF > 0 then sint (cur &&& 0x0000FFFF) else USE_MAX_AVAIL
          else height) := by
  rw [format7_setup_query_size_run] at hq
  by_cases h0 : width = QUERY_FROM_CAMERA ∨ height = QUERY_FROM_CAMERA
  · rw [if_pos h0] at hq
    by_cases h1 : uint mode > MODE_FORMAT7_MAX ∨ uint mode < MODE_FORMAT7_MIN
    · rw [if_pos h1] at hq
      simp at hq
    · rw [if_neg h1] at hq
      by_cases h2 : D.read_err h (uint mode) Format7Reg.IMAGE_SIZE = 0
      · rw [if_pos h2] at hq
        simp only [Outcome.done.injEq, Except.ok.injEq] at hq
        exact ⟨_, fun _ => hq.2.symm, fun hn => absurd h0 hn, hq.1.symm⟩
      · rw [if_neg h2] at hq
        simp at hq
  · rw [if_neg h0] at hq
    simp only [Outcome.done.injEq, Except.ok.injEq] at hq
    have hw : ¬ width = QUERY_FROM_CAMERA := fun hw => h0 (Or.inl hw)
    have hh : ¬ height = QUERY_FROM_CAMERA := fun hh => h0 (Or.inr hh)
    exact ⟨0, fun hy => absurd hy h0, fun _ => hq.2.symm, by rw [if_neg hw, if_neg hh, hq.1]⟩

theorem format7_setup_max_size_ok (D : Device) (mode left top width height : Int) (h : Trace)
    {size : Int × Int} {s : Trace}
    (hq : format7_setup_max_size D mode left top width height h = .done (.ok size) s) :
    ∃ mx,
      (width = USE_MAX_AVAIL ∨ height = USE_MAX_AVAIL →
        s = [Event.get (uint mode) Format7Reg.MAX_IMAGE_SIZE_INQ mx 0]) ∧
      (¬ (width = USE_MAX_AVAIL ∨ height = USE_MAX_AVAIL) → s = []) ∧
      size = (if width = USE_MAX_AVAIL then
            sint (uint ((((mx &&& 0xFFFF0000) >>> 16 : Nat) : Int) - (uint left : Int)))
          else width,
        if height = USE_MAX_AVAIL then
            sint (uint (((mx &&& 0x0000FFFF : Nat) : Int) - (uint top : Int)))
          else height) := by
  rw [format7_setup_max_size_run] at hq
  by_cases h0 : width = USE_MAX_AVAIL ∨ height = USE_MAX_AVAIL
  · rw [if_pos h0] at hq
    by_cases h1 : uint mode > MODE_FORMAT7_MAX ∨ uint mode < MODE_FORMAT7_MIN
    · rw [if_pos h1] at hq
      simp at hq
    · rw [if_neg h1] at hq
      by_cases h2 : D.read_err h (uint mode) Format7Reg.MAX_IMAGE_SIZE_INQ = 0
      · rw [if_pos h2] at hq
        simp only [Outcome.done.injEq, Except.ok.injEq] at hq
        exact ⟨_, fun _ => hq.2.symm, fun hn => absurd h0 hn, hq.1.symm⟩
      · rw [if_neg h2] at hq
        simp at hq
  · rw [if_neg h0] at hq
    simp only [Outcome.done.injEq, Except.ok.injEq] at hq
    have hw : ¬ width = USE_MAX_AVAIL := fun hw => h0 (Or.inl hw)
    have hh : ¬ height = USE_MAX_AVAIL := fun hh => h0 (Or.inr hh)
    exact ⟨0, fun hy => absurd hy h0, fun _ => hq.2.symm, by rw [if_neg hw, if_neg hh, hq.1]⟩

-- Arithmetic of the conversions between `int`, `unsigned int` and the 16-bit register fields.

theorem uint_natCast (n : Nat) : uint (n : Int) = n % 4294967296 := by
  unfold uint
  omega

theorem uint_of_nonneg {i : Int} (h0 : 0 ≤ i) (h1 : i < 4294967296) : uint i = i.toNat := by
  unfold uint
  omega

theorem uint_natCast_of_lt {n : Nat} (h : n < 4294967296) : uint (n : Int) = n := by
  unfold uint
  omega

theorem sint_of_lt {n : Nat} (h : n < 2147483648) : sint n = (n : Int) := by
  unfold sint
  have : n % 4294967296 = n := Nat.mod_eq_of_lt (by omega)
  rw [this, if_pos h]

theorem uint_sint (n : Nat) : uint (sint n) = n % 4294967296 := by
  unfold uint sint
  split_ifs <;> omega

theorem sint_uint_of_fits {x : Int} (h : int_fits x = true) : sint (uint x) = x := by
  simp only [int_fits, decide_eq_true_eq] at h
  unfold uint sint
  split_ifs <;> omega

theorem uint_sub_uint (a b : Int) : uint (a - (uint b : Int)) = uint (a - b) := by
  unfold uint
  omega

theorem low_field_lt (n : Nat) : n &&& 0x0000FFFF < 65536 :=
  Nat.lt_succ_of_le Nat.and_le_right

theorem high_field_lt (n : Nat) : (n &&& 0xFFFF0000) >>> 16 < 65536 := by
  have h : n &&& 0xFFFF0000 ≤ 0xFFFF0000 := Nat.and_le_right
  rw [Nat.shiftRight_eq_div_pow]
  omega

/-- The quadlet written for a 16-bit packet size. -/
theorem packet_size_quadlet {n : Nat} (h : n < 65536) :
    quadlet (quadlet (uint (sint n) <<< 16)) = n <<< 16 := by
  rw [uint_sint, Nat.shiftLeft_eq, Nat.shiftLeft_eq]
  unfold quadlet
  omega

-- The statement `switch (bytes_per_packet)`.

theorem format7_packet_size_switch_recommended (recom_bpp unit_bytes max_bytes : Nat) :
    format7_packet_size_switch USE_RECOMMENDED recom_bpp unit_bytes max_bytes =
      some (sint (if recom_bpp > 0 then recom_bpp else max_bytes)) := by
  unfold format7_packet_size_switch
  rw [if_pos rfl]
  split_ifs <;> rfl

theorem format7_packet_size_switch_max (recom_bpp unit_bytes max_bytes : Nat) :
    format7_packet_size_switch USE_MAX_AVAIL recom_bpp unit_bytes max_bytes =
      some (sint max_bytes) := by
  unfold format7_packet_size_switch
  rw [if_neg (by decide), if_pos rfl]

/-- The default case of the switch, for a unit that is not 0 after its replacement. -/
theorem format7_packet_size_switch_default (request : Int) (recom_bpp unit_bytes max_bytes : Nat)
    (h1 : request ≠ USE_RECOMMENDED) (h2 : request ≠ USE_MAX_AVAIL)
    (h3 : request ≠ QUERY_FROM_CAMERA) (hmax : max_bytes < 65536) (hunit : unit_bytes < 65536)
    (hu : 0 < (if unit_bytes = 0 then max_bytes else unit_bytes)) :
    format7_packet_size_switch request recom_bpp unit_bytes max_bytes =
      some (((if uint request > max_bytes then max_bytes
        else if uint request < (if unit_bytes = 0 then max_bytes else unit_bytes) then
          (if unit_bytes = 0 then max_bytes else unit_bytes)
        else uint request) -
        (if uint request > max_bytes then max_bytes
        else if uint request < (if unit_bytes = 0 then max_bytes else unit_bytes) then
          (if unit_bytes = 0 then max_bytes else unit_bytes)
        else uint request) % (if unit_bytes = 0 then max_bytes else unit_bytes) : Nat) : Int) := by
  unfold format7_packet_size_switch
  rw [if_neg h1, if_neg h2, if_neg h3]
  generalize hU : (if unit_bytes = 0 then max_bytes else unit_bytes) = U at hu ⊢
  have hU' : U < 65536 := by rw [← hU]; split_ifs <;> assumption
  simp only []
  rw [if_neg (by omega)]
  have hc : uint (if uint request > max_bytes then sint max_bytes
      else if uint request < U then sint U else request) =
      (if uint request > max_bytes then max_bytes
        else if uint request < U then U else uint request) := by
    split_ifs
    · rw [uint_sint]; omega
    · rw [uint_sint]; omega
    · rfl
  rw [hc]
  have hle : (if uint request > max_bytes then max_bytes
        else if uint request < U then U else uint request) ≤ 65536 := by
    split_ifs <;> omega
  rw [sint_of_lt (by omega)]

theorem format7_packet_size_switch_in_range (request : Int)
    (recom_bpp unit_bytes max_bytes : Nat)
    (h1 : request ≠ USE_RECOMMENDED) (h2 : request ≠ USE_MAX_AVAIL)
    (h3 : request ≠ QUERY_FROM_CAMERA) (hmax : max_bytes < 65536) (hunit : unit_bytes < 65536)
    (hpos : 0 < max_bytes) (hle : unit_bytes ≤ max_bytes) :
    ∃ r : Nat, format7_packet_size_switch request recom_bpp unit_bytes max_bytes = some (r : Int) ∧
      unit_bytes ≤ r ∧ r ≤ max_bytes ∧
      (if unit_bytes = 0 then max_bytes else unit_bytes) ∣ r := by
  have hu : 0 < (if unit_bytes = 0 then max_bytes else unit_bytes) := by
    split_ifs <;> omega
  refine ⟨_, format7_packet_size_switch_default request recom_bpp unit_bytes max_bytes h1 h2 h3
    hmax hunit hu, ?_, ?_, Nat.dvd_sub_mod _⟩
  · generalize hU : (if unit_bytes = 0 then max_bytes else unit_bytes) = U at hu ⊢
    have hUle : unit_bytes ≤ U := by rw [← hU]; split_ifs <;> omega
    have hUmax : U ≤ max_bytes := by rw [← hU]; split_ifs <;> omega
    generalize hc : (if uint request > max_bytes then max_bytes
        else if uint request < U then U else uint request) = c
    have hcU : U ≤ c := by rw [← hc]; split_ifs <;> omega
    have hdiv : 0 < c / U := Nat.div_pos hcU hu
    have hmod := Nat.mod_add_div c U
    have hmul : U ≤ U * (c / U) := Nat.le_mul_of_pos_right U hdiv
    omega
  · generalize hU : (if unit_bytes = 0 then max_bytes else unit_bytes) = U at hu ⊢
    have hUmax : U ≤ max_bytes := by rw [← hU]; split_ifs <;> omega
    generalize hc : (if uint request > max_bytes then max_bytes
        else if uint request < U then U else uint request) = c
    have hcm : c ≤ max_bytes := by rw [← hc]; split_ifs <;> omega
    omega

/-- A literal request between 0 and `INT_MAX`, with a unit that is not 0. -/
theorem format7_packet_size_switch_literal (request : Int) (recom_bpp unit_bytes max_bytes : Nat)
    (h0 : 0 ≤ request) (h1 : request ≤ 2147483647) (hmax : max_bytes < 65536)
    (hpos : 0 < unit_bytes) (hle : unit_bytes ≤ max_bytes) :
    format7_packet_size_switch request recom_bpp unit_bytes max_bytes =
      some ((max unit_bytes (min request.toNat max_bytes) / unit_bytes * unit_bytes : Nat) : Int)
    := by
  have hq : request ≠ QUERY_FROM_CAMERA := by unfold QUERY_FROM_CAMERA; omega
  have hm : request ≠ USE_MAX_AVAIL := by unfold USE_MAX_AVAIL; omega
  have hr : request ≠ USE_RECOMMENDED := by unfold USE_RECOMMENDED; omega
  have hU : (if unit_bytes = 0 then max_bytes else unit_bytes) = unit_bytes :=
    if_neg (by omega)
  rw [format7_packet_size_switch_default request recom_bpp unit_bytes max_bytes hr hm hq hmax
    (by omega) (by rw [hU]; exact hpos), hU, uint_of_nonneg h0 (by omega)]
  have hc : (if request.toNat > max_bytes then max_bytes
      else if request.toNat < unit_bytes then unit_bytes else request.toNat) =
      max unit_bytes (min request.toNat max_bytes) := by
    split_ifs <;> omega
  rw [hc]
  have hmod := Nat.mod_add_div (max unit_bytes (min request.toNat max_bytes)) unit_bytes
  have hcomm := Nat.mul_comm unit_bytes
    (max unit_bytes (min request.toNat max_bytes) / unit_bytes)
  congr 2
  omega

/-- A literal request between 0 and `INT_MAX`, with unit 0 and a maximum that is not 0. -/
theorem format7_packet_size_switch_literal_zero_unit (request : Int)
    (recom_bpp max_bytes : Nat) (h0 : 0 ≤ request) (h1 : request ≤ 2147483647)
    (hmax : max_bytes < 65536) (hpos : 0 < max_bytes) :
    format7_packet_size_switch request recom_bpp 0 max_bytes = some (max_bytes : Int) := by
  have hq : request ≠ QUERY_FROM_CAMERA := by unfold QUERY_FROM_CAMERA; omega
  have hm : request ≠ USE_MAX_AVAIL := by unfold USE_MAX_AVAIL; omega
  have hr : request ≠ USE_RECOMMENDED := by unfold USE_RECOMMENDED; omega
  rw [format7_packet_size_switch_default request recom_bpp 0 max_bytes hr hm hq hmax
    (by omega) (by rw [if_pos rfl]; exact hpos), if_pos rfl]
  have hc : (if uint request > max_bytes then max_bytes
      else if uint request < max_bytes then max_bytes else uint request) = max_bytes := by
    split_ifs <;> omega
  rw [hc, Nat.mod_self]
  rfl

/-- How the size written to the image-size register has been resolved: `cur`, `cs` and `mx`
are the contents read from the image-position, image-size and maximum-image-size registers,
`w0` and `h0` the request after lines 221-239, `w1` and `h1` after lines 245-250. -/
theorem format7_setup_size_resolved (D : Device) (fuel : Nat) (camera : dc1394camera_t)
    (channel mode speed bytes_per_packet left top width height : Int)
    (capture : dc1394capture_t) (h : Trace) {pre post : Trace} {m v : Nat} {e : Int}
    (hseg : (_dc1394_basic_format7_setup D fuel camera channel mode speed bytes_per_packet left
      top width height capture h).seg =
        pre ++ Event.set m Format7Reg.IMAGE_SIZE v e :: post) :
    ∃ (cur cs mx : Nat) (w0 h0 w1 h1 : Int),
      Event.get (uint mode) Format7Reg.IMAGE_POSITION cur 0 ∈ pre ∧
      (width = QUERY_FROM_CAMERA ∨ height = QUERY_FROM_CAMERA →
        Event.get (uint mode) Format7Reg.IMAGE_SIZE cs 0 ∈ pre) ∧
      (w0 = USE_MAX_AVAIL ∨ h0 = USE_MAX_AVAIL →
        pre.getLast? = some (Event.get (uint mode) Format7Reg.MAX_IMAGE_SIZE_INQ mx 0)) ∧
      w0 = (if width = QUERY_FROM_CAMERA then
          if (cs &&& 0xFFFF0000) >>> 16 > 0 then sint ((cs &&& 0xFFFF0000) >>> 16)
          else USE_MAX_AVAIL
        else width) ∧
      h0 = (if height = QUERY_FROM_CAMERA then
          if cs &&& 0x0000FFFF > 0 then sint (cs &&& 0x0000FFFF) else USE_MAX_AVAIL
        else height) ∧
      w1 = (if w0 = USE_MAX_AVAIL then
          sint (uint ((((mx &&& 0xFFFF0000) >>> 16 : Nat) : Int) -
            (if left = QUERY_FROM_CAMERA then sint ((cur &&& 0xFFFF0000) >>> 16) else left)))
        else w0) ∧
      h1 = (if h0 = USE_MAX_AVAIL then
          sint (uint (((mx &&& 0x0000FFFF : Nat) : Int) -
            (if top = QUERY_FROM_CAMERA then sint (cur &&& 0x0000FFFF) else top)))
        else h0) ∧
      m = uint mode ∧
      v = quadlet (quadlet (uint w1 <<< 16) ||| uint h1) := by
  obtain ⟨pre0, h4, position, s4, h5, size, s5, h6, size', s6, hpos, hsz, hmx, hpre, hm, hv⟩ :=
    format7_setup_size_write D fuel camera channel mode speed bytes_per_packet left top width
      height capture h hseg
  obtain ⟨cur, rest, hs4, hposition⟩ := format7_setup_image_position_ok _ _ _ _ _ _ _ hpos
  obtain ⟨cs, hs5, -, hsize⟩ := format7_setup_query_size_ok _ _ _ _ _ hsz
  obtain ⟨mx, hs6, -, hsize'⟩ := format7_setup_max_size_ok _ _ _ _ _ _ _ hmx
  refine ⟨cur, cs, mx, size.1, size.2, size'.1, size'.2, ?_, ?_, ?_, ?_, ?_, ?_, ?_, hm, hv⟩
  · rw [hpre, hs4]
    simp
  · intro hq
    rw [hpre, hs5 hq]
    simp
  · intro hq
    rw [hpre, hs6 hq]
    simp
  · rw [hsize]
  · rw [hsize]
  · rw [hsize', hposition]
    simp only [uint_sub_uint]
  · rw [hsize', hposition]
    simp only [uint_sub_uint]

-- The register layouts: two 16-bit fields, and the color coding in the top 8 bits.

theorem high_field_eq_shiftRight {v : Nat} (hv : v < 4294967296) :
    (v &&& 0xFFFF0000) >>> 16 = v >>> 16 := by
  apply Nat.eq_of_testBit_eq
  intro i
  rw [Nat.testBit_shiftRight, Nat.testBit_and, Nat.testBit_shiftRight]
  by_cases hi : i < 16
  · have hm : Nat.testBit 0xFFFF0000 (16 + i) = true := by
      interval_cases i <;> decide
    rw [hm, Bool.and_true]
  · have hlt : v < 2 ^ (16 + i) :=
      lt_of_lt_of_le hv (by
        rw [show (4294967296 : Nat) = 2 ^ 32 by norm_num]
        exact Nat.pow_le_pow_right (by norm_num) (by omega))
    rw [Nat.testBit_lt_two_pow hlt, Bool.false_and]

theorem quadlet_of_lt {v : Nat} (hv : v < 4294967296) : quadlet v = v :=
  Nat.mod_eq_of_lt hv

theorem read_of_get {D : Device} {h : Trace} {mode : Nat} {reg : Format7Reg} {v : Nat}
    (hget : D.GetCameraFormat7Register h mode reg = (0, v)) (hv : v < 4294967296) :
    D.read_err h mode reg = 0 ∧ D.read_value h mode reg = v := by
  unfold Device.read_err Device.read_value
  rw [hget]
  exact ⟨rfl, quadlet_of_lt hv⟩

theorem query_outcome_of_get {α : Type} {D : Device} {h : Trace} {mode : Nat}
    {reg : Format7Reg} {v : Nat} (old : α) (decode : Nat → α)
    (hmode : MODE_FORMAT7_MIN ≤ mode ∧ mode ≤ MODE_FORMAT7_MAX)
    (hget : D.GetCameraFormat7Register h mode reg = (0, v)) (hv : v < 4294967296) :
    query_outcome D mode reg old decode h = .done (0, decode v) [Event.get mode reg v 0] := by
  obtain ⟨he, hval⟩ := read_of_get hget hv
  unfold query_outcome
  rw [if_neg (by omega), if_pos he, hval]

theorem dc1394_query_format7_unit_size_run (D : Device) (mode : Nat) (a b : Nat)
    (h : Trace) :
    dc1394_query_format7_unit_size D mode a b h =
      query_outcome D mode Format7Reg.UNIT_SIZE_INQ (a, b)
        (fun value => ((value &&& 0xFFFF0000) >>> 16, value &&& 0x0000FFFF)) h := by
  unfold dc1394_query_format7_unit_size query_outcome
  simp only [Prog.ite_apply, Prog.bind_apply, Prog.pure_apply,
    GetCameraFormat7Register_apply, gt_iff_lt, SUCCESS_eq, ERR_CHK_pos_iff']
  split_ifs <;> simp_all

theorem dc1394_set_format7_color_coding_id_run (D : Device) (fuel : Nat)
    (camera : dc1394camera_t) (mode color_id : Nat) (h : Trace) :
    dc1394_set_format7_color_coding_id D fuel camera mode color_id h =
      if color_id < COLOR_FORMAT7_MIN ∨ color_id > COLOR_FORMAT7_MAX then
        .done DC1394_FAILURE []
      else
        commit_outcome D fuel camera mode Format7Reg.COLOR_CODING_ID
          (quadlet ((color_id - COLOR_FORMAT7_MIN) <<< 24)) h := by
  unfold dc1394_set_format7_color_coding_id
  by_cases hc : color_id < COLOR_FORMAT7_MIN ∨ color_id > COLOR_FORMAT7_MAX
  · rw [if_pos hc, if_pos hc]
    rfl
  · rw [if_neg hc, if_neg hc]
    exact commit_run D fuel camera mode _ _ h

theorem color_coding_round_trip {color_id : Nat}
    (hc : COLOR_FORMAT7_MIN ≤ color_id ∧ color_id ≤ COLOR_FORMAT7_MAX) :
    quadlet ((color_id - COLOR_FORMAT7_MIN) <<< 24) = (color_id - COLOR_FORMAT7_MIN) <<< 24 ∧
    ((color_id - COLOR_FORMAT7_MIN) <<< 24) >>> 24 + COLOR_FORMAT7_MIN = color_id := by
  have h1 : COLOR_FORMAT7_MIN = 320 := rfl
  have h2 : COLOR_FORMAT7_MAX = 330 := rfl
  rw [h1, h2] at hc
  rw [h1, Nat.shiftLeft_eq, Nat.shiftRight_eq_div_pow]
  unfold quadlet
  omega

/-- The accounting piece on a camera of a version below 1.30. -/
theorem format7_setup_accounting_run_old (D : Device) (camera : dc1394camera_t)
    (channel mode width height bytes_per_packet : Int) (is_iso_on : Bool)
    (capture : dc1394capture_t) (h : Trace) (hv : camera.sw_version < IIDC_VERSION_1_30) :
    format7_setup_accounting D camera channel mode width height bytes_per_packet is_iso_on
        capture h =
      if uint mode > MODE_FORMAT7_MAX ∨ uint mode < MODE_FORMAT7_MIN then
        .done (DC1394_FAILURE, capture) []
      else if D.read_err h (uint mode) Format7Reg.BYTE_PER_PACKET = 0 then
        if (D.read_value h (uint mode) Format7Reg.BYTE_PER_PACKET &&& 0xFFFF0000) >>> 16 / 4 ≤ 0
        then
          .done (DC1394_FAILURE,
            { capture with quadlets_per_packet :=
                (D.read_value h (uint mode) Format7Reg.BYTE_PER_PACKET &&& 0xFFFF0000) >>> 16 / 4 })
            [Event.get (uint mode) Format7Reg.BYTE_PER_PACKET
              (D.read_value h (uint mode) Format7Reg.BYTE_PER_PACKET) 0]
        else if D.read_err (h ++ [Event.get (uint mode) Format7Reg.BYTE_PER_PACKET
            (D.read_value h (uint mode) Format7Reg.BYTE_PER_PACKET) 0])
            (uint mode) Format7Reg.COLOR_CODING_ID = 0 then
          match format7_frame_bytes width height
              (sint (quadlet (D.read_value (h ++ [Event.get (uint mode)
                Format7Reg.BYTE_PER_PACKET
                (D.read_value h (uint mode) Format7Reg.BYTE_PER_PACKET) 0])
                (uint mode) Format7Reg.COLOR_CODING_ID >>> 24 + COLOR_FORMAT7_MIN))) with
          | none =>
            .undef [Event.get (uint mode) Format7Reg.BYTE_PER_PACKET
                (D.read_value h (uint mode) Format7Reg.BYTE_PER_PACKET) 0,
              Event.get (uint mode) Format7Reg.COLOR_CODING_ID
                (D.read_value (h ++ [Event.get (uint mode) Format7Reg.BYTE_PER_PACKET
                  (D.read_value h (uint mode) Format7Reg.BYTE_PER_PACKET) 0])
                  (uint mode) Format7Reg.COLOR_CODING_ID) 0]
          | some frame_bytes =>
            match format7_frame_quadlets frame_bytes bytes_per_packet with
            | none =>
              .undef [Event.get (uint mode) Format7Reg.BYTE_PER_PACKET
                  (D.read_value h (uint mode) Format7Reg.BYTE_PER_PACKET) 0,
                Event.get (uint mode) Format7Reg.COLOR_CODING_ID
                  (D.read_value (h ++ [Event.get (uint mode) Format7Reg.BYTE_PER_PACKET
                    (D.read_value h (uint mode) Format7Reg.BYTE_PER_PACKET) 0])
                    (uint mode) Format7Reg.COLOR_CODING_ID) 0]
            | some pq =>
              (format7_setup_finish D 0 width height is_iso_on
                { capture with
                  quadlets_per_packet :=
                    (D.read_value h (uint mode) Format7Reg.BYTE_PER_PACKET &&& 0xFFFF0000)
                      >>> 16 / 4,
                  node := camera.node, frame_rate := 0, channel := uint channel,
                  quadlets_per_frame := pq.2 }
                (h ++ [Event.get (uint mode) Format7Reg.BYTE_PER_PACKET
                    (D.read_value h (uint mode) Format7Reg.BYTE_PER_PACKET) 0,
                  Event.get (uint mode) Format7Reg.COLOR_CODING_ID
                    (D.read_value (h ++ [Event.get (uint mode) Format7Reg.BYTE_PER_PACKET
                      (D.read_value h (uint mode) Format7Reg.BYTE_PER_PACKET) 0])
                      (uint mode) Format7Reg.COLOR_CODING_ID) 0])).after
                [Event.get (uint mode) Format7Reg.BYTE_PER_PACKET
                    (D.read_value h (uint mode) Format7Reg.BYTE_PER_PACKET) 0,
                  Event.get (uint mode) Format7Reg.COLOR_CODING_ID
                    (D.read_value (h ++ [Event.get (uint mode) Format7Reg.BYTE_PER_PACKET
                      (D.read_value h (uint mode) Format7Reg.BYTE_PER_PACKET) 0])
                      (uint mode) Format7Reg.COLOR_CODING_ID) 0]
        else
          .done (DC1394_ERR_CHK (D.read_err (h ++ [Event.get (uint mode)
              Format7Reg.BYTE_PER_PACKET
              (D.read_value h (uint mode) Format7Reg.BYTE_PER_PACKET) 0])
              (uint mode) Format7Reg.COLOR_CODING_ID),
            { capture with
              quadlets_per_packet :=
                (D.read_value h (uint mode) Format7Reg.BYTE_PER_PACKET &&& 0xFFFF0000) >>> 16 / 4,
              node := camera.node, frame_rate := 0, channel := uint channel })
            [Event.get (uint mode) Format7Reg.BYTE_PER_PACKET
                (D.read_value h (uint mode) Format7Reg.BYTE_PER_PACKET) 0,
              Event.get (uint mode) Format7Reg.COLOR_CODING_ID
                (D.read_value (h ++ [Event.get (uint mode) Format7Reg.BYTE_PER_PACKET
                  (D.read_value h (uint mode) Format7Reg.BYTE_PER_PACKET) 0])
                  (uint mode) Format7Reg.COLOR_CODING_ID)
                (D.read_err (h ++ [Event.get (uint mode) Format7Reg.BYTE_PER_PACKET
                  (D.read_value h (uint mode) Format7Reg.BYTE_PER_PACKET) 0])
                  (uint mode) Format7Reg.COLOR_CODING_ID)]
      else
        .done (DC1394_ERR_CHK (D.read_err h (uint mode) Format7Reg.BYTE_PER_PACKET), capture)
          [Event.get (uint mode) Format7Reg.BYTE_PER_PACKET
            (D.read_value h (uint mode) Format7Reg.BYTE_PER_PACKET)
            (D.read_err h (uint mode) Format7Reg.BYTE_PER_PACKET)] := by
  have hv' : ¬ camera.sw_version ≥ IIDC_VERSION_1_30 := by omega
  unfold format7_setup_accounting
  simp only [Prog.bind_apply, Prog.ite_apply, Prog.pure_apply,
    dc1394_query_format7_byte_per_packet_run,
    dc1394_query_format7_color_coding_id_run, query_outcome, hv', if_false]
  by_cases h1 : uint mode > MODE_FORMAT7_MAX ∨ uint mode < MODE_FORMAT7_MIN
  · simp [h1]
  · by_cases h2 : D.read_err h (uint mode) Format7Reg.BYTE_PER_PACKET = 0
    · by_cases h3 : (D.read_value h (uint mode) Format7Reg.BYTE_PER_PACKET &&& 0xFFFF0000)
          >>> 16 / 4 ≤ 0
      · simp [h1, h2, h3]
      · by_cases h4 : D.read_err (h ++ [Event.get (uint mode) Format7Reg.BYTE_PER_PACKET
            (D.read_value h (uint mode) Format7Reg.BYTE_PER_PACKET) 0])
            (uint mode) Format7Reg.COLOR_CODING_ID = 0
        · simp only [h1, h2, h3, h4, if_false, if_true, ERR_CHK_zero, gt_iff_lt, SUCCESS_eq,
            lt_self_iff_false, Outcome.after_done, List.nil_append, List.append_assoc,
            List.singleton_append]
          cases hfb : format7_frame_bytes width height
              (sint (quadlet (D.read_value (h ++ [Event.get (uint mode)
                Format7Reg.BYTE_PER_PACKET
                (D.read_value h (uint mode) Format7Reg.BYTE_PER_PACKET) 0])
                (uint mode) Format7Reg.COLOR_CODING_ID >>> 24 + COLOR_FORMAT7_MIN))) with
          | none => simp [hfb, Prog.undef]
          | some fb =>
            simp only [hfb]
            cases hfq : format7_frame_quadlets fb bytes_per_packet with
            | none => simp [hfq, Prog.undef]
            | some pq =>
              obtain ⟨p, q⟩ := pq
              simp only [hfq]
              generalize format7_setup_finish D 0 width height is_iso_on _ _ = o
              cases o <;> simp
        · simp [h1, h2, h3, h4]
    · simp [h1, h2]

-- A failed transaction ends the run.

theorem Outcome.failStop_of_zero {α : Type} {failed : α → Prop} {o : Outcome α}
    (hz : ∀ y ∈ o.seg, y.err = 0) : o.failStop failed := by
  intro pre x post hseg hx
  exact absurd (hz x (hseg ▸ (by simp : x ∈ pre ++ x :: post))) hx

theorem Outcome.failStop_done {α : Type} {failed : α → Prop} {a : α} {l : Trace}
    (hz : ∀ y ∈ l.dropLast, y.err = 0)
    (hl : ∀ y, l.getLast? = some y → y.err ≠ 0 → failed a) :
    (Outcome.done a l).failStop failed := by
  intro pre x post hseg hx
  simp only [Outcome.seg_done] at hseg
  cases post with
  | nil =>
    refine ⟨rfl, a, rfl, hl x ?_ hx⟩
    rw [hseg]
    simp
  | cons p post =>
    have hmem : x ∈ l.dropLast := by
      rw [hseg, List.dropLast_append_of_ne_nil _ (by simp),
        List.dropLast_cons_of_ne_nil (by simp)]
      simp
    exact absurd (hz x hmem) hx

theorem Outcome.failStop_after {α : Type} {failed : α → Prop} {o : Outcome α} {s : Trace}
    (hz : ∀ y ∈ s, y.err = 0) (ho : o.failStop failed) : (o.after s).failStop failed := by
  intro pre x post hseg hx
  rw [Outcome.seg_after] at hseg
  have hxs : x ∉ s := fun hmem => hx (hz x hmem)
  obtain ⟨pre2, -, hseg2⟩ := trace_split_after hxs hseg
  obtain ⟨hpost, a, ha, hfa⟩ := ho pre2 x post hseg2 hx
  refine ⟨hpost, a, ?_, hfa⟩
  rw [Outcome.seg_after]
  rw [ha]
  simp

theorem Outcome.failStop_mono {α : Type} {f g : α → Prop} {o : Outcome α}
    (hfg : ∀ a, f a → g a) (ho : o.failStop f) : o.failStop g := by
  intro pre x post hseg hx
  obtain ⟨hpost, a, ha, hfa⟩ := ho pre x post hseg hx
  exact ⟨hpost, a, ha, hfg a hfa⟩

/-- The outcome of one query: its read is the only transaction. -/
theorem query_outcome_failStop {α : Type} (D : Device) (mode : Nat) (reg : Format7Reg)
    (old : α) (decode : Nat → α) (h : Trace) :
    (query_outcome D mode reg old decode h).failStop (fun r => r.1 ≠ 0) := by
  unfold query_outcome
  split_ifs with h1 h2
  · exact Outcome.failStop_of_zero (by simp)
  · exact Outcome.failStop_of_zero (by simp [Event.err])
  · exact Outcome.failStop_done (by simp) (fun _ _ _ => ERR_CHK_ne_zero h2)

theorem v130_handshake_loop_failStop (D : Device) (camera : dc1394camera_t) (mode : Int)
    (hv : IIDC_VERSION_1_30 ≤ camera.sw_version) :
    ∀ (fuel : Nat) (vs : ValueSetting) (h : Trace),
      (v130_handshake_loop D camera mode fuel vs h).failStop
        (fun r => ∃ e, r = .error e ∧ e ≠ 0) := by
  intro fuel
  induction fuel with
  | zero =>
    intro vs h
    exact Outcome.failStop_of_zero (by simp [v130_handshake_loop])
  | succ n ih =>
    intro vs h
    rw [v130_handshake_loop_succ D camera mode hv]
    split_ifs with h1 h2 h3
    · exact Outcome.failStop_of_zero (by simp)
    · exact Outcome.failStop_after (by simp [Event.err]) (ih _ _)
    · exact Outcome.failStop_of_zero (by simp [Event.err])
    · exact Outcome.failStop_done (by simp) (fun _ _ _ => ⟨_, rfl, ERR_CHK_ne_zero h2⟩)

theorem handshake_verdict_failStop {o : Outcome (Except Int (Int × ValueSetting))}
    (ho : o.failStop (fun r => ∃ e, r = .error e ∧ e ≠ 0)) :
    (handshake_verdict o).failStop (fun c => c ≠ 0) := by
  intro pre x post hseg hx
  rw [handshake_verdict_seg] at hseg
  obtain ⟨hpost, a, ha, e, hae, hne⟩ := ho pre x post hseg hx
  refine ⟨hpost, e, ?_, hne⟩
  rw [handshake_verdict_seg]
  rw [ha, hae]
  rfl

theorem _dc1394_v130_handshake_failStop (D : Device) (fuel : Nat) (camera : dc1394camera_t)
    (mode : Int) (h : Trace) :
    (_dc1394_v130_handshake D fuel camera mode h).failStop (fun c => c ≠ 0) := by
  by_cases hv : IIDC_VERSION_1_30 ≤ camera.sw_version
  · rw [_dc1394_v130_handshake_run D fuel camera mode h hv]
    split_ifs with h1 h2 h3 h4
    · exact Outcome.failStop_of_zero (by simp)
    · exact Outcome.failStop_after (by simp [Event.err])
        (handshake_verdict_failStop (v130_handshake_loop_failStop D camera mode hv _ _ _))
    · exact Outcome.failStop_done (by simp [Event.err]) (fun _ _ _ => ERR_CHK_ne_zero h4)
    · exact Outcome.failStop_of_zero (by simp [Event.err])
    · exact Outcome.failStop_done (by simp) (fun _ _ _ => ERR_CHK_ne_zero h2)
  · rw [_dc1394_v130_handshake_old D fuel camera mode h (by omega)]
    exact Outcome.failStop_of_zero (by simp)

theorem commit_outcome_failStop (D : Device) (fuel : Nat) (camera : dc1394camera_t)
    (mode : Nat) (reg : Format7Reg) (value : Nat) (h : Trace) :
    (commit_outcome D fuel camera mode reg value h).failStop (fun c => c ≠ 0) := by
  unfold commit_outcome
  split_ifs with h0
  · have hs := _dc1394_v130_handshake_failStop D fuel camera (sint mode)
      (h ++ [Event.set mode reg (quadlet value) 0])
    cases ho : _dc1394_v130_handshake D fuel camera (sint mode)
        (h ++ [Event.set mode reg (quadlet value) 0]) with
    | done c s =>
      rw [ho] at hs
      show (Outcome.after [Event.set mode reg (quadlet value) 0]
        (Outcome.done (DC1394_ERR_CHK c) s)).failStop _
      refine Outcome.failStop_after (by simp [Event.err]) ?_
      intro pre x post hseg hx
      obtain ⟨hpost, a, ha, hfa⟩ := hs pre x post hseg hx
      simp only [Outcome.done.injEq] at ha
      exact ⟨hpost, _, rfl, ERR_CHK_ne_zero (ha.1 ▸ hfa)⟩
    | spin s =>
      rw [ho] at hs
      show (Outcome.after [Event.set mode reg (quadlet value) 0]
        (Outcome.spin s : Outcome Int)).failStop _
      refine Outcome.failStop_after (by simp [Event.err]) ?_
      intro pre x post hseg hx
      obtain ⟨-, a, ha, -⟩ := hs pre x post hseg hx
      simp at ha
    | undef s =>
      rw [ho] at hs
      show (Outcome.after [Event.set mode reg (quadlet value) 0]
        (Outcome.undef s : Outcome Int)).failStop _
      refine Outcome.failStop_after (by simp [Event.err]) ?_
      intro pre x post hseg hx
      obtain ⟨-, a, ha, -⟩ := hs pre x post hseg hx
      simp at ha
  · exact Outcome.failStop_done (by simp) (fun _ _ _ => ERR_CHK_ne_zero h0)

theorem commit_verdict_failStop {α : Type} (a : α) {o : Outcome Int}
    (ho : o.failStop (fun c => c ≠ 0)) :
    (commit_verdict a o).failStop (fun r => ∃ e, r = .error e ∧ e ≠ 0) := by
  intro pre x post hseg hx
  rw [commit_verdict_seg] at hseg
  obtain ⟨hpost, c, hc, hne⟩ := ho pre x post hseg hx
  refine ⟨hpost, .error (DC1394_ERR_CHK c), ?_, _, rfl, ERR_CHK_ne_zero hne⟩
  rw [commit_verdict_seg, hc]
  simp [commit_verdict, hne]

theorem commit_verdict_error_ne_zero {α : Type} {a : α} {o : Outcome Int} {e : Int}
    {s : Trace} (h : commit_verdict a o = .done (.error e) s) : e ≠ 0 := by
  cases o with
  | done c t =>
    simp only [commit_verdict] at h
    split_ifs at h with hc
    · simp only [Outcome.done.injEq, Except.error.injEq] at h
      rw [← h.1]
      exact ERR_CHK_ne_zero hc
    · simp at h
  | spin t => simp [commit_verdict] at h
  | undef t => simp [commit_verdict] at h

-- Each piece of the setup stops at a failed transaction and never returns 0 as an error.

theorem format7_setup_stop_iso_run (D : Device) (h : Trace) :
    format7_setup_stop_iso D h =
      if (D.dc1394_get_iso_status h).1 = 0 then
        if (D.dc1394_get_iso_status h).2 = true then
          if D.dc1394_stop_iso_transmission (h ++ [Event.get_iso_status true 0]) = 0 then
            .done (.ok true) [Event.get_iso_status true 0, Event.stop_iso_transmission 0]
          else
            .done (.error (DC1394_ERR_CHK
                (D.dc1394_stop_iso_transmission (h ++ [Event.get_iso_status true 0]))))
              [Event.get_iso_status true 0,
                Event.stop_iso_transmission
                  (D.dc1394_stop_iso_transmission (h ++ [Event.get_iso_status true 0]))]
        else
          .done (.ok false) [Event.get_iso_status false 0]
      else
        .done (.error (DC1394_ERR_CHK (D.dc1394_get_iso_status h).1))
          [Event.get_iso_status (D.dc1394_get_iso_status h).2 (D.dc1394_get_iso_status h).1] := by
  unfold format7_setup_stop_iso dc1394_get_iso_status dc1394_stop_iso_transmission
  simp only [Prog.bind_apply, Prog.ite_apply, Prog.pure_apply, gt_iff_lt, SUCCESS_eq,
    ERR_CHK_pos_iff']
  by_cases h1 : (D.dc1394_get_iso_status h).1 = 0
  · by_cases h2 : (D.dc1394_get_iso_status h).2 = true
    · by_cases h3 : D.dc1394_stop_iso_transmission (h ++ [Event.get_iso_status true 0]) = 0
      · simp [h1, h2, h3]
      · simp [h1, h2, h3]
    · simp [h1, h2]
  · simp [h1]

theorem format7_setup_channel_and_mode_run (D : Device) (channel mode speed : Int)
    (h : Trace) :
    format7_setup_channel_and_mode D channel mode speed h =
      if D.dc1394_set_iso_channel_and_speed h channel speed = 0 then
        if D.dc1394_set_video_format (h ++ [Event.set_iso_channel_and_speed channel speed 0])
            FORMAT_SCALABLE_IMAGE_SIZE = 0 then
          if D.dc1394_set_video_mode (h ++ [Event.set_iso_channel_and_speed channel speed 0,
              Event.set_video_format FORMAT_SCALABLE_IMAGE_SIZE 0]) mode = 0 then
            .done (.ok ()) [Event.set_iso_channel_and_speed channel speed 0,
              Event.set_video_format FORMAT_SCALABLE_IMAGE_SIZE 0, Event.set_video_mode mode 0]
          else
            .done (.error (DC1394_ERR_CHK (D.dc1394_set_video_mode
                (h ++ [Event.set_iso_channel_and_speed channel speed 0,
                  Event.set_video_format FORMAT_SCALABLE_IMAGE_SIZE 0]) mode)))
              [Event.set_iso_channel_and_speed channel speed 0,
                Event.set_video_format FORMAT_SCALABLE_IMAGE_SIZE 0,
                Event.set_video_mode mode (D.dc1394_set_video_mode
                  (h ++ [Event.set_iso_channel_and_speed channel speed 0,
                    Event.set_video_format FORMAT_SCALABLE_IMAGE_SIZE 0]) mode)]
        else
          .done (.error (DC1394_ERR_CHK (D.dc1394_set_video_format
              (h ++ [Event.set_iso_channel_and_speed channel speed 0])
              FORMAT_SCALABLE_IMAGE_SIZE)))
            [Event.set_iso_channel_and_speed channel speed 0,
              Event.set_video_format FORMAT_SCALABLE_IMAGE_SIZE
                (D.dc1394_set_video_format
                  (h ++ [Event.set_iso_channel_and_speed channel speed 0])
                  FORMAT_SCALABLE_IMAGE_SIZE)]
      else
        .done (.error (DC1394_ERR_CHK (D.dc1394_set_iso_channel_and_speed h channel speed)))
          [Event.set_iso_channel_and_speed channel speed
            (D.dc1394_set_iso_channel_and_speed h channel speed)] := by
  unfold format7_setup_channel_and_mode dc1394_set_iso_channel_and_speed
    dc1394_set_video_format dc1394_set_video_mode
  simp only [Prog.bind_apply, Prog.ite_apply, Prog.pure_apply, gt_iff_lt, SUCCESS_eq,
    ERR_CHK_pos_iff']
  by_cases h1 : D.dc1394_set_iso_channel_and_speed h channel speed = 0
  · by_cases h2 : D.dc1394_set_video_format
        (h ++ [Event.set_iso_channel_and_speed channel speed 0]) FORMAT_SCALABLE_IMAGE_SIZE = 0
    · by_cases h3 : D.dc1394_set_video_mode
          (h ++ [Event.set_iso_channel_and_speed channel speed 0,
            Event.set_video_format FORMAT_SCALABLE_IMAGE_SIZE 0]) mode = 0
      · simp [h1, h2, h3]
      · simp [h1, h2, h3]
    · simp [h1, h2]
  · simp [h1]

theorem done_error_ne_zero {α : Type} {c e : Int} {s t : Trace} (hc : c ≠ 0)
    (h : (Outcome.done (Except.error c) t : Outcome (Except Int α)) = .done (.error e) s) :
    e ≠ 0 := by
  simp only [Outcome.done.injEq, Except.error.injEq] at h
  exact h.1 ▸ hc

theorem FAILURE_ne_zero : DC1394_FAILURE ≠ 0 := by decide

theorem format7_setup_stop_iso_sound (D : Device) (h : Trace) :
    (format7_setup_stop_iso D h).failStop (fun r => ∃ e, r = .error e ∧ e ≠ 0) ∧
    ∀ e s, format7_setup_stop_iso D h = .done (.error e) s → e ≠ 0 := by
  rw [format7_setup_stop_iso_run]
  split_ifs with h1 h2 h3
  · exact ⟨Outcome.failStop_of_zero (by simp [Event.err]), fun e s he => by simp at he⟩
  · exact ⟨Outcome.failStop_done (by simp [Event.err])
      (fun _ _ _ => ⟨_, rfl, ERR_CHK_ne_zero h3⟩),
      fun e s he => done_error_ne_zero (ERR_CHK_ne_zero h3) he⟩
  · exact ⟨Outcome.failStop_of_zero (by simp [Event.err]), fun e s he => by simp at he⟩
  · exact ⟨Outcome.failStop_done (by simp) (fun _ _ _ => ⟨_, rfl, ERR_CHK_ne_zero h1⟩),
      fun e s he => done_error_ne_zero (ERR_CHK_ne_zero h1) he⟩

theorem format7_setup_channel_and_mode_sound (D : Device) (channel mode speed : Int)
    (h : Trace) :
    (format7_setup_channel_and_mode D channel mode speed h).failStop
      (fun r => ∃ e, r = .error e ∧ e ≠ 0) ∧
    ∀ e s, format7_setup_channel_and_mode D channel mode speed h = .done (.error e) s →
      e ≠ 0 := by
  rw [format7_setup_channel_and_mode_run]
  split_ifs with h1 h2 h3
  · exact ⟨Outcome.failStop_of_zero (by simp [Event.err]), fun e s he => by simp at he⟩
  · exact ⟨Outcome.failStop_done (by simp [Event.err])
      (fun _ _ _ => ⟨_, rfl, ERR_CHK_ne_zero h3⟩),
      fun e s he => done_error_ne_zero (ERR_CHK_ne_zero h3) he⟩
  · exact ⟨Outcome.failStop_done (by simp [Event.err])
      (fun _ _ _ => ⟨_, rfl, ERR_CHK_ne_zero h2⟩),
      fun e s he => done_error_ne_zero (ERR_CHK_ne_zero h2) he⟩
  · exact ⟨Outcome.failStop_done (by simp) (fun _ _ _ => ⟨_, rfl, ERR_CHK_ne_zero h1⟩),
      fun e s he => done_error_ne_zero (ERR_CHK_ne_zero h1) he⟩

theorem format7_setup_query_bpp_sound (D : Device) (mode bytes_per_packet : Int) (h : Trace) :
    (format7_setup_query_bpp D mode bytes_per_packet h).failStop
      (fun r => ∃ e, r = .error e ∧ e ≠ 0) ∧
    ∀ e s, format7_setup_query_bpp D mode bytes_per_packet h = .done (.error e) s →
      e ≠ 0 := by
  rw [format7_setup_query_bpp_run]
  split_ifs with h0 h1 h2
  · exact ⟨Outcome.failStop_of_zero (by simp),
      fun e s he => done_error_ne_zero FAILURE_ne_zero he⟩
  · exact ⟨Outcome.failStop_of_zero (by simp [Event.err]), fun e s he => by simp at he⟩
  · exact ⟨Outcome.failStop_done (by simp) (fun _ _ _ => ⟨_, rfl, ERR_CHK_ne_zero h2⟩),
      fun e s he => done_error_ne_zero (ERR_CHK_ne_zero h2) he⟩
  · exact ⟨Outcome.failStop_of_zero (by simp), fun e s he => by simp at he⟩

theorem format7_setup_query_size_sound (D : Device) (mode width height : Int) (h : Trace) :
    (format7_setup_query_size D mode width height h).failStop
      (fun r => ∃ e, r = .error e ∧ e ≠ 0) ∧
    ∀ e s, format7_setup_query_size D mode width height h = .done (.error e) s →
      e ≠ 0 := by
  rw [format7_setup_query_size_run]
  by_cases h0 : width = QUERY_FROM_CAMERA ∨ height = QUERY_FROM_CAMERA
  · rw [if_pos h0]
    by_cases h1 : uint mode > MODE_FORMAT7_MAX ∨ uint mode < MODE_FORMAT7_MIN
    · rw [if_pos h1]
      exact ⟨Outcome.failStop_of_zero (by simp),
        fun e s he => done_error_ne_zero FAILURE_ne_zero he⟩
    · rw [if_neg h1]
      by_cases h2 : D.read_err h (uint mode) Format7Reg.IMAGE_SIZE = 0
      · rw [if_pos h2]
        exact ⟨Outcome.failStop_of_zero (by simp [Event.err]), fun e s he => by simp at he⟩
      · rw [if_neg h2]
        exact ⟨Outcome.failStop_done (by simp) (fun _ _ _ => ⟨_, rfl, ERR_CHK_ne_zero h2⟩),
          fun e s he => done_error_ne_zero (ERR_CHK_ne_zero h2) he⟩
  · rw [if_neg h0]
    exact ⟨Outcome.failStop_of_zero (by simp), fun e s he => by simp at he⟩

theorem format7_setup_max_size_sound (D : Device) (mode left top width height : Int)
    (h : Trace) :
    (format7_setup_max_size D mode left top width height h).failStop
      (fun r => ∃ e, r = .error e ∧ e ≠ 0) ∧
    ∀ e s, format7_setup_max_size D mode left top width height h = .done (.error e) s →
      e ≠ 0 := by
  rw [format7_setup_max_size_run]
  by_cases h0 : width = USE_MAX_AVAIL ∨ height = USE_MAX_AVAIL
  · rw [if_pos h0]
    by_cases h1 : uint mode > MODE_FORMAT7_MAX ∨ uint mode < MODE_FORMAT7_MIN
    · rw [if_pos h1]
      exact ⟨Outcome.failStop_of_zero (by simp),
        fun e s he => done_error_ne_zero FAILURE_ne_zero he⟩
    · rw [if_neg h1]
      by_cases h2 : D.read_err h (uint mode) Format7Reg.MAX_IMAGE_SIZE_INQ = 0
      · rw [if_pos h2]
        exact ⟨Outcome.failStop_of_zero (by simp [Event.err]), fun e s he => by simp at he⟩
      · rw [if_neg h2]
        exact ⟨Outcome.failStop_done (by simp) (fun _ _ _ => ⟨_, rfl, ERR_CHK_ne_zero h2⟩),
          fun e s he => done_error_ne_zero (ERR_CHK_ne_zero h2) he⟩
  · rw [if_neg h0]
    exact ⟨Outcome.failStop_of_zero (by simp), fun e s he => by simp at he⟩

theorem after_commit_verdict_error_ne_zero {α : Type} {a : α} {o : Outcome Int} {e : Int}
    {s t : Trace} (h : (commit_verdict a o).after t = .done (.error e) s) : e ≠ 0 := by
  obtain ⟨u, hu, -⟩ := Outcome.after_eq_done h
  exact commit_verdict_error_ne_zero hu

theorem format7_setup_image_position_sound (D : Device) (fuel : Nat)
    (camera : dc1394camera_t) (mode left top : Int) (h : Trace) :
    (format7_setup_image_position D fuel camera mode left top h).failStop
      (fun r => ∃ e, r = .error e ∧ e ≠ 0) ∧
    ∀ e s, format7_setup_image_position D fuel camera mode left top h = .done (.error e) s →
      e ≠ 0 := by
  rw [format7_setup_image_position_run]
  by_cases h1 : uint mode > MODE_FORMAT7_MAX ∨ uint mode < MODE_FORMAT7_MIN
  · rw [if_pos h1]
    exact ⟨Outcome.failStop_of_zero (by simp),
      fun e s he => done_error_ne_zero FAILURE_ne_zero he⟩
  · rw [if_neg h1]
    by_cases h2 : D.read_err h (uint mode) Format7Reg.IMAGE_POSITION = 0
    · rw [if_pos h2]
      exact ⟨Outcome.failStop_after (by simp [Event.err])
        (commit_verdict_failStop _ (commit_outcome_failStop _ _ _ _ _ _ _)),
        fun e s he => after_commit_verdict_error_ne_zero he⟩
    · rw [if_neg h2]
      exact ⟨Outcome.failStop_done (by simp) (fun _ _ _ => ⟨_, rfl, ERR_CHK_ne_zero h2⟩),
        fun e s he => done_error_ne_zero (ERR_CHK_ne_zero h2) he⟩

theorem format7_setup_commit_size_sound (D : Device) (fuel : Nat)
    (camera : dc1394camera_t) (mode width height : Int) (h : Trace) :
    (format7_setup_commit_size D fuel camera mode width height h).failStop
      (fun r => ∃ e, r = .error e ∧ e ≠ 0) ∧
    ∀ e s, format7_setup_commit_size D fuel camera mode width height h = .done (.error e) s →
      e ≠ 0 := by
  rw [format7_setup_commit_size_run]
  exact ⟨commit_verdict_failStop _ (commit_outcome_failStop _ _ _ _ _ _ _),
    fun e s he => commit_verdict_error_ne_zero he⟩

theorem format7_setup_packet_size_sound (D : Device) (fuel : Nat)
    (camera : dc1394camera_t) (mode bytes_per_packet : Int) (h : Trace) :
    (format7_setup_packet_size D fuel camera mode bytes_per_packet h).failStop
      (fun r => ∃ e, r = .error e ∧ e ≠ 0) ∧
    ∀ e s, format7_setup_packet_size D fuel camera mode bytes_per_packet h =
      .done (.error e) s → e ≠ 0 := by
  rw [format7_setup_packet_size_run]
  split_ifs with h1 h2 h3
  · exact ⟨Outcome.failStop_of_zero (by simp),
      fun e s he => done_error_ne_zero FAILURE_ne_zero he⟩
  · cases hb : format7_packet_size_switch bytes_per_packet
        (D.read_value h (uint mode) Format7Reg.BYTE_PER_PACKET &&& 0x0000FFFF)
        ((D.read_value (h ++ [Event.get (uint mode) Format7Reg.BYTE_PER_PACKET
          (D.read_value h (uint mode) Format7Reg.BYTE_PER_PACKET) 0])
          (uint mode) Format7Reg.PACKET_PARA_INQ &&& 0xFFFF0000) >>> 16)
        (D.read_value (h ++ [Event.get (uint mode) Format7Reg.BYTE_PER_PACKET
          (D.read_value h (uint mode) Format7Reg.BYTE_PER_PACKET) 0])
          (uint mode) Format7Reg.PACKET_PARA_INQ &&& 0x0000FFFF) with
    | none =>
      exact ⟨Outcome.failStop_of_zero (by simp [Event.err]), fun e s he => by simp at he⟩
    | some b =>
      exact ⟨Outcome.failStop_after (by simp [Event.err])
        (commit_verdict_failStop _ (commit_outcome_failStop _ _ _ _ _ _ _)),
        fun e s he => after_commit_verdict_error_ne_zero he⟩
  · exact ⟨Outcome.failStop_done (by simp [Event.err])
      (fun _ _ _ => ⟨_, rfl, ERR_CHK_ne_zero h3⟩),
      fun e s he => done_error_ne_zero (ERR_CHK_ne_zero h3) he⟩
  · exact ⟨Outcome.failStop_done (by simp) (fun _ _ _ => ⟨_, rfl, ERR_CHK_ne_zero h2⟩),
      fun e s he => done_error_ne_zero (ERR_CHK_ne_zero h2) he⟩

theorem format7_setup_finish_run (D : Device) (err width height : Int) (is_iso_on : Bool)
    (capture : dc1394capture_t) (h : Trace) :
    format7_setup_finish D err width height is_iso_on capture h =
      if capture.quadlets_per_frame ≤ 0 then .done (DC1394_FAILURE, capture) []
      else if is_iso_on = true then
        .done (DC1394_ERR_CHK (D.dc1394_start_iso_transmission h),
          { capture with frame_width := uint width, frame_height := uint height })
          [Event.start_iso_transmission (D.dc1394_start_iso_transmission h)]
      else
        .done (err, { capture with frame_width := uint width, frame_height := uint height })
          [] := by
  unfold format7_setup_finish
  by_cases hq : capture.quadlets_per_frame ≤ 0
  · rw [if_pos hq, if_pos hq]
    rfl
  · rw [if_neg hq, if_neg hq]
    cases is_iso_on with
    | false => rfl
    | true =>
      simp only [if_true, dc1394_start_iso_transmission, Prog.bind_apply, Prog.ite_apply,
        Prog.pure_apply]
      split_ifs <;> simp

theorem format7_setup_finish_failStop (D : Device) (width height : Int) (is_iso_on : Bool)
    (capture : dc1394capture_t) (h : Trace) :
    (format7_setup_finish D 0 width height is_iso_on capture h).failStop
      (fun r => r.1 ≠ 0) := by
  rw [format7_setup_finish_run]
  split_ifs with h1 h2
  · exact Outcome.failStop_of_zero (by simp)
  · exact Outcome.failStop_done (by simp) (fun y hy hne => by
      simp only [List.getLast?_singleton, Option.some.injEq] at hy
      subst hy
      exact ERR_CHK_ne_zero hne)
  · exact Outcome.failStop_of_zero (by simp)

theorem format7_setup_accounting_failStop (D : Device) (camera : dc1394camera_t)
    (channel mode width height bytes_per_packet : Int) (is_iso_on : Bool)
    (capture : dc1394capture_t) (h : Trace) :
    (format7_setup_accounting D camera channel mode width height bytes_per_packet is_iso_on
      capture h).failStop (fun r => r.1 ≠ 0) := by
  by_cases hv : IIDC_VERSION_1_30 ≤ camera.sw_version
  · rw [format7_setup_accounting_run_v130 D camera channel mode width height bytes_per_packet
      is_iso_on capture h hv]
    split_ifs with h1 h2 h3 h4
    · exact Outcome.failStop_of_zero (by simp)
    · exact Outcome.failStop_of_zero (by simp [Event.err])
    · exact Outcome.failStop_after (by simp [Event.err])
        (format7_setup_finish_failStop D _ _ _ _ _)
    · exact Outcome.failStop_done (by simp [Event.err]) (fun _ _ _ => ERR_CHK_ne_zero h4)
    · exact Outcome.failStop_done (by simp) (fun _ _ _ => ERR_CHK_ne_zero h2)
  · rw [format7_setup_accounting_run_old D camera channel mode width height bytes_per_packet
      is_iso_on capture h (by omega)]
    split_ifs with h1 h2 h3 h4
    · exact Outcome.failStop_of_zero (by simp)
    · exact Outcome.failStop_of_zero (by simp [Event.err])
    · split
      · exact Outcome.failStop_of_zero (by simp [Event.err])
      · split
        · exact Outcome.failStop_of_zero (by simp [Event.err])
        · exact Outcome.failStop_after (by simp [Event.err])
            (format7_setup_finish_failStop D _ _ _ _ _)
    · exact Outcome.failStop_done (by simp [Event.err]) (fun _ _ _ => ERR_CHK_ne_zero h4)
    · exact Outcome.failStop_done (by simp) (fun _ _ _ => ERR_CHK_ne_zero h2)

theorem trace_split_cases {s t pre post : Trace} {x : Event}
    (h : s ++ t = pre ++ x :: post) :
    (∃ post1, s = pre ++ x :: post1 ∧ post = post1 ++ t) ∨
    (∃ pre2, pre = s ++ pre2 ∧ t = pre2 ++ x :: post) := by
  rcases List.append_eq_append_iff.1 h with ⟨a, ha, hb⟩ | ⟨c, hc, hd⟩
  · exact Or.inr ⟨a, ha, hb⟩
  · cases c with
    | nil =>
      refine Or.inr ⟨[], ?_, ?_⟩
      · simpa using hc.symm
      · simpa using hd.symm
    | cons y c =>
      simp only [List.cons_append, List.cons.injEq] at hd
      exact Or.inl ⟨c, by rw [hc, hd.1], hd.2⟩

/-- A sequence of two steps stops at a failed transaction when both do. -/
theorem Prog.orReturn_failStop {α : Type} {m : Prog (Except Int α)}
    {capture : dc1394capture_t} {k : α → Prog (Int × dc1394capture_t)} {h : Trace}
    (hm : (m h).failStop (fun r => ∃ e, r = .error e ∧ e ≠ 0))
    (hk : ∀ a s, (k a (h ++ s)).failStop (fun r => r.1 ≠ 0)) :
    ((m.orReturn capture k) h).failStop (fun r => r.1 ≠ 0) := by
  intro pre x post hseg hx
  cases hmh : m h with
  | done r s =>
    rw [hmh] at hm
    cases r with
    | ok a =>
      have happ : (m.orReturn capture k) h = (k a (h ++ s)).after s := Prog.orReturn_ok hmh
      rw [happ, Outcome.seg_after] at hseg
      rcases trace_split_cases hseg with ⟨post1, h1, -⟩ | ⟨pre2, -, h2⟩
      · obtain ⟨-, r, hr, e, hre, -⟩ := hm pre x post1 h1 hx
        rw [hre] at hr
        simp at hr
      · obtain ⟨hpost, b, hb, hne⟩ := hk a s pre2 x post h2 hx
        refine ⟨hpost, b, ?_, hne⟩
        rw [happ, Outcome.seg_after, hb]
        simp
    | error e =>
      have happ : (m.orReturn capture k) h = .done (e, capture) s := Prog.orReturn_error hmh
      rw [happ] at hseg ⊢
      obtain ⟨hpost, r, hr, e', hre, hne⟩ := hm pre x post hseg hx
      rw [hre] at hr
      simp only [Outcome.seg_done, Outcome.done.injEq, Except.error.injEq, and_true] at hr
      exact ⟨hpost, (e, capture), rfl, hr ▸ hne⟩
  | spin s =>
    rw [hmh] at hm
    have happ : (m.orReturn capture k) h = .spin s := by rw [Prog.orReturn_apply, hmh]
    rw [happ] at hseg
    obtain ⟨-, r, hr, -⟩ := hm pre x post hseg hx
    simp at hr
  | undef s =>
    rw [hmh] at hm
    have happ : (m.orReturn capture k) h = .undef s := by rw [Prog.orReturn_apply, hmh]
    rw [happ] at hseg
    obtain ⟨-, r, hr, -⟩ := hm pre x post hseg hx
    simp at hr

/-- A sequence of two steps that returns `DC1394_SUCCESS` has run both. -/
theorem Prog.orReturn_success {α : Type} {m : Prog (Except Int α)}
    {capture cap : dc1394capture_t} {k : α → Prog (Int × dc1394capture_t)} {h seg : Trace}
    (hen : ∀ e s, m h = .done (.error e) s → e ≠ 0)
    (hrun : (m.orReturn capture k) h = .done (0, cap) seg) :
    ∃ a s1 s2, m h = .done (.ok a) s1 ∧ k a (h ++ s1) = .done (0, cap) s2 ∧
      seg = s1 ++ s2 := by
  rw [Prog.orReturn_apply] at hrun
  cases hmh : m h with
  | done r s =>
    rw [hmh] at hrun
    cases r with
    | ok a =>
      simp only [] at hrun
      obtain ⟨t, ht, hs⟩ := Outcome.after_eq_done hrun
      exact ⟨a, s, t, rfl, ht, hs⟩
    | error e =>
      simp only [Outcome.done.injEq, Prod.mk.injEq] at hrun
      exact absurd hrun.1.1 (hen e s hmh)
  | spin s =>
    rw [hmh] at hrun
    simp at hrun
  | undef s =>
    rw [hmh] at hrun
    simp at hrun

-- What a successful run of the setup has done.

/-- A committing write that returned 0: the write succeeded, and what follows it is the
handshake, which is empty below version 1.30. -/
theorem commit_outcome_ok (D : Device) (fuel : Nat) (camera : dc1394camera_t) (mode : Nat)
    (reg : Format7Reg) (value : Nat) (h : Trace) {s : Trace}
    (ho : commit_outcome D fuel camera mode reg value h = .done 0 s) :
    ∃ rest, s = Event.set mode reg (quadlet value) 0 :: rest ∧
      (∀ x ∈ rest, x.isValueSetting = true) ∧
      (camera.sw_version < IIDC_VERSION_1_30 → rest = []) := by
  unfold commit_outcome at ho
  split_ifs at ho with h0
  · cases hh : _dc1394_v130_handshake D fuel camera (sint mode)
        (h ++ [Event.set mode reg (quadlet value) 0]) with
    | done c t =>
      rw [hh] at ho
      simp only [Outcome.done.injEq] at ho
      refine ⟨t, ho.2.symm, ?_, ?_⟩
      · have := _dc1394_v130_handshake_alphabet D fuel camera (sint mode)
          (h ++ [Event.set mode reg (quadlet value) 0])
        rw [hh] at this
        exact this
      · intro hv
        rw [_dc1394_v130_handshake_old D fuel camera (sint mode) _ hv] at hh
        simp only [Outcome.done.injEq] at hh
        exact hh.2.symm
    | spin t =>
      rw [hh] at ho
      simp at ho
    | undef t =>
      rw [hh] at ho
      simp at ho
  · simp only [Outcome.done.injEq] at ho
    exact absurd ho.1 (ERR_CHK_ne_zero h0)

theorem format7_setup_commit_size_ok (D : Device) (fuel : Nat) (camera : dc1394camera_t)
    (mode width height : Int) (h : Trace) {s : Trace}
    (hp : format7_setup_commit_size D fuel camera mode width height h = .done (.ok ()) s) :
    ∃ rest, s = Event.set (uint mode) Format7Reg.IMAGE_SIZE
        (quadlet (quadlet (uint width <<< 16) ||| uint height)) 0 :: rest ∧
      (∀ x ∈ rest, x.isValueSetting = true) ∧
      (camera.sw_version < IIDC_VERSION_1_30 → rest = []) := by
  rw [format7_setup_commit_size_run] at hp
  exact commit_outcome_ok D fuel camera _ _ _ h (commit_verdict_eq_ok hp).1

theorem format7_setup_packet_size_ok (D : Device) (fuel : Nat) (camera : dc1394camera_t)
    (mode bytes_per_packet : Int) (h : Trace) {b : Int} {s : Trace}
    (hp : format7_setup_packet_size D fuel camera mode bytes_per_packet h =
      .done (.ok b) s) :
    ∃ recom para rest,
      s = Event.get (uint mode) Format7Reg.BYTE_PER_PACKET recom 0 ::
        Event.get (uint mode) Format7Reg.PACKET_PARA_INQ para 0 ::
        Event.set (uint mode) Format7Reg.BYTE_PER_PACKET (quadlet (quadlet (uint b <<< 16))) 0
          :: rest ∧
      format7_packet_size_switch bytes_per_packet (recom &&& 0x0000FFFF)
        ((para &&& 0xFFFF0000) >>> 16) (para &&& 0x0000FFFF) = some b ∧
      (∀ x ∈ rest, x.isValueSetting = true) ∧
      (camera.sw_version < IIDC_VERSION_1_30 → rest = []) := by
  rw [format7_setup_packet_size_run] at hp
  by_cases h1 : uint mode > MODE_FORMAT7_MAX ∨ uint mode < MODE_FORMAT7_MIN
  · rw [if_pos h1] at hp
    simp at hp
  · rw [if_neg h1] at hp
    by_cases h2 : D.read_err h (uint mode) Format7Reg.BYTE_PER_PACKET = 0
    · rw [if_pos h2] at hp
      by_cases h3 : D.read_err (h ++ [Event.get (uint mode) Format7Reg.BYTE_PER_PACKET
          (D.read_value h (uint mode) Format7Reg.BYTE_PER_PACKET) 0])
          (uint mode) Format7Reg.PACKET_PARA_INQ = 0
      · rw [if_pos h3] at hp
        cases hb : format7_packet_size_switch bytes_per_packet
            (D.read_value h (uint mode) Format7Reg.BYTE_PER_PACKET &&& 0x0000FFFF)
            ((D.read_value (h ++ [Event.get (uint mode) Format7Reg.BYTE_PER_PACKET
              (D.read_value h (uint mode) Format7Reg.BYTE_PER_PACKET) 0])
              (uint mode) Format7Reg.PACKET_PARA_INQ &&& 0xFFFF0000) >>> 16)
            (D.read_value (h ++ [Event.get (uint mode) Format7Reg.BYTE_PER_PACKET
              (D.read_value h (uint mode) Format7Reg.BYTE_PER_PACKET) 0])
              (uint mode) Format7Reg.PACKET_PARA_INQ &&& 0x0000FFFF) with
        | none =>
          rw [hb] at hp
          simp at hp
        | some b' =>
          rw [hb] at hp
          simp only [] at hp
          obtain ⟨t, ht, hs⟩ := Outcome.after_eq_done hp
          obtain ⟨ho, hbb⟩ := commit_verdict_eq_ok ht
          obtain ⟨rest, hrest, hvs, hold⟩ := commit_outcome_ok D fuel camera _ _ _ _ ho
          subst hbb
          exact ⟨_, _, rest, by rw [hs, hrest]; rfl, hb, hvs, hold⟩
      · rw [if_neg h3] at hp
        simp at hp
    · rw [if_neg h2] at hp
      simp at hp

/-- A successful run of the accounting piece on a camera of version 1.30 or later. -/
theorem format7_setup_accounting_success_v130 (D : Device) (camera : dc1394camera_t)
    (channel mode width height bytes_per_packet : Int) (is_iso_on : Bool)
    (capture cap : dc1394capture_t) (h s : Trace)
    (hv : IIDC_VERSION_1_30 ≤ camera.sw_version)
    (hrun : format7_setup_accounting D camera channel mode width height bytes_per_packet
      is_iso_on capture h = .done (0, cap) s) :
    ∃ pb ppf fin,
      s = Event.get (uint mode) Format7Reg.BYTE_PER_PACKET pb 0 ::
        Event.get (uint mode) Format7Reg.PACKET_PER_FRAME_INQ ppf 0 :: fin ∧
      fin = (if is_iso_on = true then [Event.start_iso_transmission 0] else []) ∧
      0 < (pb &&& 0xFFFF0000) >>> 16 / 4 ∧
      0 < quadlet (ppf * ((pb &&& 0xFFFF0000) >>> 16)) / 4 ∧
      cap = { node := camera.node, channel := uint channel, frame_rate := 0,
              frame_width := uint width, frame_height := uint height,
              quadlets_per_frame := quadlet (ppf * ((pb &&& 0xFFFF0000) >>> 16)) / 4,
              quadlets_per_packet := (pb &&& 0xFFFF0000) >>> 16 / 4 } := by
  rw [format7_setup_accounting_run_v130 D camera channel mode width height bytes_per_packet
    is_iso_on capture h hv] at hrun
  by_cases h1 : uint mode > MODE_FORMAT7_MAX ∨ uint mode < MODE_FORMAT7_MIN
  · rw [if_pos h1] at hrun
    simp [DC1394_FAILURE] at hrun
  · rw [if_neg h1] at hrun
    by_cases h2 : D.read_err h (uint mode) Format7Reg.BYTE_PER_PACKET = 0
    · rw [if_pos h2] at hrun
      by_cases h3 : (D.read_value h (uint mode) Format7Reg.BYTE_PER_PACKET &&& 0xFFFF0000)
          >>> 16 / 4 ≤ 0
      · rw [if_pos h3] at hrun
        simp [DC1394_FAILURE] at hrun
      · rw [if_neg h3] at hrun
        by_cases h4 : D.read_err (h ++ [Event.get (uint mode) Format7Reg.BYTE_PER_PACKET
            (D.read_value h (uint mode) Format7Reg.BYTE_PER_PACKET) 0])
            (uint mode) Format7Reg.PACKET_PER_FRAME_INQ = 0
        · rw [if_pos h4] at hrun
          obtain ⟨t, ht, hs⟩ := Outcome.after_eq_done hrun
          rw [format7_setup_finish_run] at ht
          by_cases h5 : quadlet (D.read_value (h ++ [Event.get (uint mode)
              Format7Reg.BYTE_PER_PACKET
              (D.read_value h (uint mode) Format7Reg.BYTE_PER_PACKET) 0])
              (uint mode) Format7Reg.PACKET_PER_FRAME_INQ *
              ((D.read_value h (uint mode) Format7Reg.BYTE_PER_PACKET &&& 0xFFFF0000)
                >>> 16)) / 4 ≤ 0
          · rw [if_pos h5] at ht
            simp [DC1394_FAILURE] at ht
          · rw [if_neg h5] at ht
            refine ⟨_, _, t, hs, ?_, by omega, by omega, ?_⟩
            · cases is_iso_on with
              | false =>
                simp only [Bool.false_eq_true, if_false, Outcome.done.injEq] at ht ⊢
                exact ht.2.symm
              | true =>
                simp only [if_true, Outcome.done.injEq, Prod.mk.injEq] at ht ⊢
                rw [← ht.2, (ERR_CHK_eq_zero_iff _).1 ht.1.1]
            · cases is_iso_on with
              | false =>
                simp only [Bool.false_eq_true, if_false, Outcome.done.injEq,
                  Prod.mk.injEq] at ht
                exact ht.1.2.symm
              | true =>
                simp only [if_true, Outcome.done.injEq, Prod.mk.injEq] at ht
                exact ht.1.2.symm
        · rw [if_neg h4] at hrun
          simp only [Outcome.done.injEq, Prod.mk.injEq] at hrun
          exact absurd hrun.1.1 (ERR_CHK_ne_zero h4)
    · rw [if_neg h2] at hrun
      simp only [Outcome.done.injEq, Prod.mk.injEq] at hrun
      exact absurd hrun.1.1 (ERR_CHK_ne_zero h2)

/-- A successful run of the accounting piece on a camera of a version below 1.30. -/
theorem format7_setup_accounting_success_old (D : Device) (camera : dc1394camera_t)
    (channel mode width height bytes_per_packet : Int) (is_iso_on : Bool)
    (capture cap : dc1394capture_t) (h s : Trace)
    (hv : camera.sw_version < IIDC_VERSION_1_30)
    (hrun : format7_setup_accounting D camera channel mode width height bytes_per_packet
      is_iso_on capture h = .done (0, cap) s) :
    ∃ pb cc fin frame_bytes packets_per_frame quadlets_per_frame,
      s = Event.get (uint mode) Format7Reg.BYTE_PER_PACKET pb 0 ::
        Event.get (uint mode) Format7Reg.COLOR_CODING_ID cc 0 :: fin ∧
      fin = (if is_iso_on = true then [Event.start_iso_transmission 0] else []) ∧
      format7_frame_bytes width height (sint (quadlet (cc >>> 24 + COLOR_FORMAT7_MIN))) =
        some frame_bytes ∧
      format7_frame_quadlets frame_bytes bytes_per_packet =
        some (packets_per_frame, quadlets_per_frame) ∧
      0 < (pb &&& 0xFFFF0000) >>> 16 / 4 ∧
      0 < quadlets_per_frame ∧
      cap = { node := camera.node, channel := uint channel, frame_rate := 0,
              frame_width := uint width, frame_height := uint height,
              quadlets_per_frame := quadlets_per_frame,
              quadlets_per_packet := (pb &&& 0xFFFF0000) >>> 16 / 4 } := by
  rw [format7_setup_accounting_run_old D camera channel mode width height bytes_per_packet
    is_iso_on capture h hv] at hrun
  by_cases h1 : uint mode > MODE_FORMAT7_MAX ∨ uint mode < MODE_FORMAT7_MIN
  · rw [if_pos h1] at hrun
    simp [DC1394_FAILURE] at hrun
  · rw [if_neg h1] at hrun
    by_cases h2 : D.read_err h (uint mode) Format7Reg.BYTE_PER_PACKET = 0
    · rw [if_pos h2] at hrun
      by_cases h3 : (D.read_value h (uint mode) Format7Reg.BYTE_PER_PACKET &&& 0xFFFF0000)
          >>> 16 / 4 ≤ 0
      · rw [if_pos h3] at hrun
        simp [DC1394_FAILURE] at hrun
      · rw [if_neg h3] at hrun
        by_cases h4 : D.read_err (h ++ [Event.get (uint mode) Format7Reg.BYTE_PER_PACKET
            (D.read_value h (uint mode) Format7Reg.BYTE_PER_PACKET) 0])
            (uint mode) Format7Reg.COLOR_CODING_ID = 0
        · rw [if_pos h4] at hrun
          cases hfb : format7_frame_bytes width height
              (sint (quadlet (D.read_value (h ++ [Event.get (uint mode)
                Format7Reg.BYTE_PER_PACKET
                (D.read_value h (uint mode) Format7Reg.BYTE_PER_PACKET) 0])
                (uint mode) Format7Reg.COLOR_CODING_ID >>> 24 + COLOR_FORMAT7_MIN))) with
          | none =>
            rw [hfb] at hrun
            simp at hrun
          | some fb =>
            rw [hfb] at hrun
            simp only [] at hrun
            cases hfq : format7_frame_quadlets fb bytes_per_packet with
            | none =>
              rw [hfq] at hrun
              simp at hrun
            | some pq =>
              obtain ⟨pk, q⟩ := pq
              rw [hfq] at hrun
              simp only [] at hrun
              obtain ⟨t, ht, hs⟩ := Outcome.after_eq_done hrun
              rw [format7_setup_finish_run] at ht
              by_cases h5 : q ≤ 0
              · rw [if_pos h5] at ht
                simp [DC1394_FAILURE] at ht
              · rw [if_neg h5] at ht
                refine ⟨_, _, t, fb, pk, q, hs, ?_, hfb, hfq, by omega, by omega, ?_⟩
                · cases is_iso_on with
                  | false =>
                    simp only [Bool.false_eq_true, if_false, Outcome.done.injEq] at ht ⊢
                    exact ht.2.symm
                  | true =>
                    simp only [if_true, Outcome.done.injEq, Prod.mk.injEq] at ht ⊢
                    rw [← ht.2, (ERR_CHK_eq_zero_iff _).1 ht.1.1]
                · cases is_iso_on with
                  | false =>
                    simp only [Bool.false_eq_true, if_false, Outcome.done.injEq,
                      Prod.mk.injEq] at ht
                    exact ht.1.2.symm
                  | true =>
                    simp only [if_true, Outcome.done.injEq, Prod.mk.injEq] at ht
                    exact ht.1.2.symm
        · rw [if_neg h4] at hrun
          simp only [Outcome.done.injEq, Prod.mk.injEq] at hrun
          exact absurd hrun.1.1 (ERR_CHK_ne_zero h4)
    · rw [if_neg h2] at hrun
      simp only [Outcome.done.injEq, Prod.mk.injEq] at hrun
      exact absurd hrun.1.1 (ERR_CHK_ne_zero h2)

/-- Every run of the setup stops at a failed transaction. -/
theorem format7_setup_failStop (D : Device) (fuel : Nat) (camera : dc1394camera_t)
    (channel mode speed bytes_per_packet left top width height : Int)
    (capture : dc1394capture_t) (h : Trace) :
    (_dc1394_basic_format7_setup D fuel camera channel mode speed bytes_per_packet left top
      width height capture h).failStop (fun r => r.1 ≠ 0) := by
  unfold _dc1394_basic_format7_setup
  refine Prog.orReturn_failStop (format7_setup_stop_iso_sound D h).1 fun is_iso_on s1 => ?_
  refine Prog.orReturn_failStop (format7_setup_channel_and_mode_sound D _ _ _ _).1
    fun _ s2 => ?_
  refine Prog.orReturn_failStop (format7_setup_query_bpp_sound D _ _ _).1 fun request s3 => ?_
  refine Prog.orReturn_failStop (format7_setup_image_position_sound D fuel camera _ _ _ _).1
    fun position s4 => ?_
  refine Prog.orReturn_failStop (format7_setup_query_size_sound D _ _ _ _).1 fun size0 s5 => ?_
  refine Prog.orReturn_failStop (format7_setup_max_size_sound D _ _ _ _ _ _).1
    fun size s6 => ?_
  refine Prog.orReturn_failStop (format7_setup_commit_size_sound D fuel camera _ _ _ _).1
    fun _ s7 => ?_
  refine Prog.orReturn_failStop (format7_setup_packet_size_sound D fuel camera _ _ _).1
    fun b s8 => ?_
  exact format7_setup_accounting_failStop D camera _ _ _ _ _ _ _ _

/-- The steps of a run of the setup that returned `DC1394_SUCCESS`. -/
theorem format7_setup_success (D : Device) (fuel : Nat) (camera : dc1394camera_t)
    (channel mode speed bytes_per_packet left top width height : Int)
    (capture cap : dc1394capture_t) (h seg : Trace)
    (hrun : _dc1394_basic_format7_setup D fuel camera channel mode speed bytes_per_packet left
      top width height capture h = .done (0, cap) seg) :
    ∃ is_iso_on s1 s2 request s3 position s4 size0 s5 size s6 s7 b s8 s9,
      format7_setup_stop_iso D h = .done (.ok is_iso_on) s1 ∧
      format7_setup_channel_and_mode D channel mode speed (h ++ s1) = .done (.ok ()) s2 ∧
      format7_setup_query_bpp D mode bytes_per_packet (h ++ s1 ++ s2) =
        .done (.ok request) s3 ∧
      format7_setup_image_position D fuel camera mode left top (h ++ s1 ++ s2 ++ s3) =
        .done (.ok position) s4 ∧
      format7_setup_query_size D mode width height (h ++ s1 ++ s2 ++ s3 ++ s4) =
        .done (.ok size0) s5 ∧
      format7_setup_max_size D mode position.1 position.2 size0.1 size0.2
        (h ++ s1 ++ s2 ++ s3 ++ s4 ++ s5) = .done (.ok size) s6 ∧
      format7_setup_commit_size D fuel camera mode size.1 size.2
        (h ++ s1 ++ s2 ++ s3 ++ s4 ++ s5 ++ s6) = .done (.ok ()) s7 ∧
      format7_setup_packet_size D fuel camera mode request
        (h ++ s1 ++ s2 ++ s3 ++ s4 ++ s5 ++ s6 ++ s7) = .done (.ok b) s8 ∧
      format7_setup_accounting D camera channel mode size.1 size.2 b is_iso_on capture
        (h ++ s1 ++ s2 ++ s3 ++ s4 ++ s5 ++ s6 ++ s7 ++ s8) = .done (0, cap) s9 ∧
      seg = s1 ++ (s2 ++ (s3 ++ (s4 ++ (s5 ++ (s6 ++ (s7 ++ (s8 ++ s9))))))) := by
  unfold _dc1394_basic_format7_setup at hrun
  obtain ⟨is_iso_on, s1, t1, h1, hrun, e1⟩ :=
    Prog.orReturn_success (format7_setup_stop_iso_sound D h).2 hrun
  obtain ⟨u, s2, t2, h2, hrun, e2⟩ :=
    Prog.orReturn_success (format7_setup_channel_and_mode_sound D _ _ _ _).2 hrun
  obtain ⟨request, s3, t3, h3, hrun, e3⟩ :=
    Prog.orReturn_success (format7_setup_query_bpp_sound D _ _ _).2 hrun
  obtain ⟨position, s4, t4, h4, hrun, e4⟩ :=
    Prog.orReturn_success (format7_setup_image_position_sound D fuel camera _ _ _ _).2 hrun
  obtain ⟨size0, s5, t5, h5, hrun, e5⟩ :=
    Prog.orReturn_success (format7_setup_query_size_sound D _ _ _ _).2 hrun
  obtain ⟨size, s6, t6, h6, hrun, e6⟩ :=
    Prog.orReturn_success (format7_setup_max_size_sound D _ _ _ _ _ _).2 hrun
  obtain ⟨u', s7, t7, h7, hrun, e7⟩ :=
    Prog.orReturn_success (format7_setup_commit_size_sound D fuel camera _ _ _ _).2 hrun
  obtain ⟨b, s8, t8, h8, hrun, e8⟩ :=
    Prog.orReturn_success (format7_setup_packet_size_sound D fuel camera _ _ _).2 hrun
  exact ⟨is_iso_on, s1, s2, request, s3, position, s4, size0, s5, size, s6, s7, b, s8, t8,
    h1, h2, h3, h4, h5, h6, h7, h8, hrun, by rw [e1, e2, e3, e4, e5, e6, e7, e8]⟩

-- The `float` arithmetic of the accounting below version 1.30.

theorem float_round_small {n : Int} (h : n.natAbs < 16777216) : float_round n = n := by
  unfold float_round
  have hbits : (if n.natAbs = 0 then 0 else Nat.log2 n.natAbs + 1) ≤ 24 := by
    split_ifs with h0
    · omega
    · have : Nat.log2 n.natAbs < 24 := (Nat.log2_lt h0).2 (by norm_num; exact h)
      omega
  simp only [hbits, if_true]

theorem float_round_even {n : Int} (h : n.natAbs < 33554432) (heven : n.natAbs % 2 = 0) :
    float_round n = n := by
  by_cases hs : n.natAbs < 16777216
  · exact float_round_small hs
  · have h0 : n.natAbs ≠ 0 := by omega
    have hlog : Nat.log2 n.natAbs = 24 := by
      have h1 : Nat.log2 n.natAbs < 25 := (Nat.log2_lt h0).2 (by norm_num; exact h)
      have h2 : ¬ Nat.log2 n.natAbs < 24 := fun hl => hs (by
        have := (Nat.log2_lt h0).1 hl
        norm_num at this
        exact this)
      omega
    unfold float_round
    simp only [h0, if_false, hlog]
    rw [if_neg (by decide), show 24 + 1 - 24 = 1 from rfl, pow_one, heven,
      if_neg (by omega)]
    have hq : n.natAbs / 2 * 2 = n.natAbs := by omega
    rw [hq]
    exact Int.sign_mul_natAbs n

theorem ite_table (P : ℚ → Prop) {c : Prop} [Decidable c] {a b : ℚ} (ha : P a) (hb : P b) :
    P (if c then a else b) := by
  split_ifs <;> assumption

theorem Format7BytePerPixel_twice (color_coding : Int) :
    ∃ k : Int, 2 * _Format7BytePerPixel color_coding = (k : ℚ) ∧
      (k = 2 ∨ k = 3 ∨ k = 4 ∨ k = 6 ∨ k = 12 ∨ k = -2) := by
  unfold _Format7BytePerPixel
  have h1 : ∃ k : Int, 2 * (1 : ℚ) = (k : ℚ) ∧
      (k = 2 ∨ k = 3 ∨ k = 4 ∨ k = 6 ∨ k = 12 ∨ k = -2) := ⟨2, by norm_num, by omega⟩
  have h15 : ∃ k : Int, 2 * (3 / 2 : ℚ) = (k : ℚ) ∧
      (k = 2 ∨ k = 3 ∨ k = 4 ∨ k = 6 ∨ k = 12 ∨ k = -2) := ⟨3, by norm_num, by omega⟩
  have h2 : ∃ k : Int, 2 * (2 : ℚ) = (k : ℚ) ∧
      (k = 2 ∨ k = 3 ∨ k = 4 ∨ k = 6 ∨ k = 12 ∨ k = -2) := ⟨4, by norm_num, by omega⟩
  have h3 : ∃ k : Int, 2 * (3 : ℚ) = (k : ℚ) ∧
      (k = 2 ∨ k = 3 ∨ k = 4 ∨ k = 6 ∨ k = 12 ∨ k = -2) := ⟨6, by norm_num, by omega⟩
  have h6 : ∃ k : Int, 2 * (6 : ℚ) = (k : ℚ) ∧
      (k = 2 ∨ k = 3 ∨ k = 4 ∨ k = 6 ∨ k = 12 ∨ k = -2) := ⟨12, by norm_num, by omega⟩
  have hm : ∃ k : Int, 2 * (-1 : ℚ) = (k : ℚ) ∧
      (k = 2 ∨ k = 3 ∨ k = 4 ∨ k = 6 ∨ k = 12 ∨ k = -2) := ⟨-2, by norm_num, by omega⟩
  refine ite_table (fun p => ∃ k : Int, 2 * p = (k : ℚ) ∧
      (k = 2 ∨ k = 3 ∨ k = 4 ∨ k = 6 ∨ k = 12 ∨ k = -2)) h1 ?_
  refine ite_table (fun p => ∃ k : Int, 2 * p = (k : ℚ) ∧
      (k = 2 ∨ k = 3 ∨ k = 4 ∨ k = 6 ∨ k = 12 ∨ k = -2)) h15 ?_
  refine ite_table (fun p => ∃ k : Int, 2 * p = (k : ℚ) ∧
      (k = 2 ∨ k = 3 ∨ k = 4 ∨ k = 6 ∨ k = 12 ∨ k = -2)) h2 ?_
  refine ite_table (fun p => ∃ k : Int, 2 * p = (k : ℚ) ∧
      (k = 2 ∨ k = 3 ∨ k = 4 ∨ k = 6 ∨ k = 12 ∨ k = -2)) h3 ?_
  refine ite_table (fun p => ∃ k : Int, 2 * p = (k : ℚ) ∧
      (k = 2 ∨ k = 3 ∨ k = 4 ∨ k = 6 ∨ k = 12 ∨ k = -2)) h3 ?_
  refine ite_table (fun p => ∃ k : Int, 2 * p = (k : ℚ) ∧
      (k = 2 ∨ k = 3 ∨ k = 4 ∨ k = 6 ∨ k = 12 ∨ k = -2)) h2 ?_
  refine ite_table (fun p => ∃ k : Int, 2 * p = (k : ℚ) ∧
      (k = 2 ∨ k = 3 ∨ k = 4 ∨ k = 6 ∨ k = 12 ∨ k = -2)) h6 ?_
  refine ite_table (fun p => ∃ k : Int, 2 * p = (k : ℚ) ∧
      (k = 2 ∨ k = 3 ∨ k = 4 ∨ k = 6 ∨ k = 12 ∨ k = -2)) h2 ?_
  refine ite_table (fun p => ∃ k : Int, 2 * p = (k : ℚ) ∧
      (k = 2 ∨ k = 3 ∨ k = 4 ∨ k = 6 ∨ k = 12 ∨ k = -2)) h6 ?_
  refine ite_table (fun p => ∃ k : Int, 2 * p = (k : ℚ) ∧
      (k = 2 ∨ k = 3 ∨ k = 4 ∨ k = 6 ∨ k = 12 ∨ k = -2)) h1 ?_
  exact ite_table (fun p => ∃ k : Int, 2 * p = (k : ℚ) ∧
      (k = 2 ∨ k = 3 ∨ k = 4 ∨ k = 6 ∨ k = 12 ∨ k = -2)) h2 hm

/-- The frame size in terms of integers: `k` is twice the table value. -/
theorem format7_frame_bytes_of_twice (width height color_coding k : Int)
    (hk : 2 * _Format7BytePerPixel color_coding = (k : ℚ)) :
    format7_frame_bytes width height color_coding =
      if int_fits (width * height) then
        if int_fits (Int.tdiv (float_round (float_round (width * height) * k)) 2) then
          some (Int.tdiv (float_round (float_round (width * height) * k)) 2)
        else none
      else none := by
  unfold format7_frame_bytes
  have hfloor : (2 * ((float_round (width * height) : Int) : ℚ) *
      _Format7BytePerPixel color_coding).floor = float_round (width * height) * k := by
    rw [mul_assoc, mul_left_comm, hk, ← Int.cast_mul]
    exact @Int.floor_intCast ℚ _ _ _
  simp only [hfloor]

/-- When `width * height` times the table value is a whole number below 2^24, the `float`
arithmetic is exact and the frame size is that number. -/
theorem format7_frame_bytes_exact (width height color_coding : Int) (N : Nat)
    (hN : ((width * height : Int) : ℚ) * _Format7BytePerPixel color_coding = (N : ℚ))
    (hlt : N < 16777216) :
    format7_frame_bytes width height color_coding = some (N : Int) := by
  obtain ⟨k, hk, hcases⟩ := Format7BytePerPixel_twice color_coding
  have hAk : width * height * k = 2 * (N : Int) := by
    have : ((width * height * k : Int) : ℚ) = ((2 * (N : Int) : Int) : ℚ) := by
      push_cast
      rw [← hk]
      push_cast at hN
      linear_combination 2 * hN
    exact_mod_cast this
  have hA : (width * height).natAbs ≤ N := by
    generalize width * height = A at hAk
    rcases hcases with rfl | rfl | rfl | rfl | rfl | rfl <;> omega
  have hfit : ∀ x : Int, x.natAbs < 16777216 → int_fits x = true := by
    intro x hx
    simp only [int_fits, decide_eq_true_eq]
    omega
  rw [format7_frame_bytes_of_twice _ _ _ k hk, if_pos (hfit _ (by omega)),
    float_round_small (n := width * height) (by omega), hAk,
    float_round_even (by omega) (by omega),
    Int.mul_tdiv_cancel_left _ (by decide), if_pos (hfit _ (by omega))]

-- Runs on the scripted cameras with a camera version below 1.30 and literal position and size.

theorem scripted_camera_read_err (regs : Format7Reg → Nat) (iso : Bool)
    (write_err : Format7Reg → Int) (h : Trace) (mode : Nat) (reg : Format7Reg) :
    (scripted_camera regs iso write_err).read_err h mode reg = 0 := rfl

theorem scripted_camera_read_value (regs : Format7Reg → Nat) (iso : Bool)
    (write_err : Format7Reg → Int) (h : Trace) (mode : Nat) (reg : Format7Reg) :
    (scripted_camera regs iso write_err).read_value h mode reg = quadlet (regs reg) := rfl

theorem scripted_camera_stop_iso (regs : Format7Reg → Nat) (iso : Bool)
    (write_err : Format7Reg → Int) (h : Trace) :
    format7_setup_stop_iso (scripted_camera regs iso write_err) h =
      .done (.ok iso)
        (if iso = true then [Event.get_iso_status true 0, Event.stop_iso_transmission 0]
          else [Event.get_iso_status false 0]) := by
  rw [format7_setup_stop_iso_run]
  cases iso <;> rfl

theorem scripted_camera_channel_and_mode (regs : Format7Reg → Nat) (iso : Bool)
    (write_err : Format7Reg → Int) (channel mode speed : Int) (h : Trace) :
    format7_setup_channel_and_mode (scripted_camera regs iso write_err) channel mode speed h =
      .done (.ok ()) [Event.set_iso_channel_and_speed channel speed 0,
        Event.set_video_format FORMAT_SCALABLE_IMAGE_SIZE 0, Event.set_video_mode mode 0] := by
  rw [format7_setup_channel_and_mode_run]
  rfl

/-- A committing write to a scripted camera of a version below 1.30: the write alone. -/
theorem scripted_camera_commit_old (regs : Format7Reg → Nat) (iso : Bool)
    (write_err : Format7Reg → Int) (fuel : Nat) (camera : dc1394camera_t) (mode : Nat)
    (reg : Format7Reg) (value : Nat) (h : Trace) (hv : camera.sw_version < IIDC_VERSION_1_30) :
    commit_outcome (scripted_camera regs iso write_err) fuel camera mode reg value h =
      if write_err reg = 0 then .done 0 [Event.set mode reg (quadlet value) 0]
      else .done (DC1394_ERR_CHK (write_err reg))
        [Event.set mode reg (quadlet value) (write_err reg)] := by
  unfold commit_outcome
  rw [show (scripted_camera regs iso write_err).SetCameraFormat7Register h mode reg
    (quadlet value) = write_err reg from rfl, _dc1394_v130_handshake_old _ _ _ _ _ hv]
  rfl

theorem scripted_camera_position (regs : Format7Reg → Nat) (iso : Bool)
    (write_err : Format7Reg → Int) (fuel : Nat) (camera : dc1394camera_t)
    (mode left top : Int) (h : Trace) (hv : camera.sw_version < IIDC_VERSION_1_30)
    (hmode : ¬ (uint mode > MODE_FORMAT7_MAX ∨ uint mode < MODE_FORMAT7_MIN))
    (hw : write_err Format7Reg.IMAGE_POSITION = 0)
    (hl : left ≠ QUERY_FROM_CAMERA) (ht : top ≠ QUERY_FROM_CAMERA) :
    format7_setup_image_position (scripted_camera regs iso write_err) fuel camera mode left
        top h =
      .done (.ok (left, top))
        [Event.get (uint mode) Format7Reg.IMAGE_POSITION
            (quadlet (regs Format7Reg.IMAGE_POSITION)) 0,
          Event.set (uint mode) Format7Reg.IMAGE_POSITION
            (quadlet (quadlet (uint left <<< 16) ||| uint top)) 0] := by
  rw [format7_setup_image_position_run, if_neg hmode, scripted_camera_read_err, if_pos rfl,
    scripted_camera_commit_old _ _ _ _ _ _ _ _ _ hv, if_pos hw]
  simp only [if_neg hl, if_neg ht]
  rfl

theorem scripted_camera_commit_size (regs : Format7Reg → Nat) (iso : Bool)
    (write_err : Format7Reg → Int) (fuel : Nat) (camera : dc1394camera_t)
    (mode width height : Int) (h : Trace) (hv : camera.sw_version < IIDC_VERSION_1_30)
    (hw : write_err Format7Reg.IMAGE_SIZE = 0) :
    format7_setup_commit_size (scripted_camera regs iso write_err) fuel camera mode width
        height h =
      .done (.ok ()) [Event.set (uint mode) Format7Reg.IMAGE_SIZE
        (quadlet (quadlet (uint width <<< 16) ||| uint height)) 0] := by
  rw [format7_setup_commit_size_run, scripted_camera_commit_old _ _ _ _ _ _ _ _ _ hv,
    if_pos hw]
  rfl

theorem scripted_camera_commit_size_fault (regs : Format7Reg → Nat) (iso : Bool)
    (write_err : Format7Reg → Int) (fuel : Nat) (camera : dc1394camera_t)
    (mode width height : Int) (h : Trace) (hv : camera.sw_version < IIDC_VERSION_1_30)
    (hw : write_err Format7Reg.IMAGE_SIZE = DC1394_FAILURE) :
    format7_setup_commit_size (scripted_camera regs iso write_err) fuel camera mode width
        height h =
      .done (.error DC1394_FAILURE) [Event.set (uint mode) Format7Reg.IMAGE_SIZE
        (quadlet (quadlet (uint width <<< 16) ||| uint height)) DC1394_FAILURE] := by
  rw [format7_setup_commit_size_run, scripted_camera_commit_old _ _ _ _ _ _ _ _ _ hv, hw,
    if_neg (by decide)]
  rfl

theorem scripted_camera_packet_size (regs : Format7Reg → Nat) (iso : Bool)
    (write_err : Format7Reg → Int) (fuel : Nat) (camera : dc1394camera_t)
    (mode bytes_per_packet : Int) (h : Trace) (b : Int)
    (hv : camera.sw_version < IIDC_VERSION_1_30)
    (hmode : ¬ (uint mode > MODE_FORMAT7_MAX ∨ uint mode < MODE_FORMAT7_MIN))
    (hw : write_err Format7Reg.BYTE_PER_PACKET = 0)
    (hb : format7_packet_size_switch bytes_per_packet
      (quadlet (regs Format7Reg.BYTE_PER_PACKET) &&& 0x0000FFFF)
      ((quadlet (regs Format7Reg.PACKET_PARA_INQ) &&& 0xFFFF0000) >>> 16)
      (quadlet (regs Format7Reg.PACKET_PARA_INQ) &&& 0x0000FFFF) = some b) :
    format7_setup_packet_size (scripted_camera regs iso write_err) fuel camera mode
        bytes_per_packet h =
      .done (.ok b)
        [Event.get (uint mode) Format7Reg.BYTE_PER_PACKET
            (quadlet (regs Format7Reg.BYTE_PER_PACKET)) 0,
          Event.get (uint mode) Format7Reg.PACKET_PARA_INQ
            (quadlet (regs Format7Reg.PACKET_PARA_INQ)) 0,
          Event.set (uint mode) Format7Reg.BYTE_PER_PACKET (quadlet (quadlet (uint b <<< 16)))
            0] := by
  rw [format7_setup_packet_size_run, if_neg hmode, scripted_camera_read_err, if_pos rfl,
    scripted_camera_read_err, if_pos rfl]
  simp only [scripted_camera_read_value]
  rw [hb]
  simp only []
  rw [scripted_camera_commit_old _ _ _ _ _ _ _ _ _ hv, if_pos hw]
  rfl

/-- The accounting piece on a scripted camera of a version below 1.30, given the results of
the two steps of its arithmetic. -/
theorem scripted_camera_accounting_old (regs : Format7Reg → Nat) (iso : Bool)
    (write_err : Format7Reg → Int) (camera : dc1394camera_t)
    (channel mode width height bytes_per_packet : Int) (capture : dc1394capture_t) (h : Trace)
    (frame_bytes packets_per_frame : Int) (quadlets_per_frame : Nat)
    (hv : camera.sw_version < IIDC_VERSION_1_30)
    (hmode : ¬ (uint mode > MODE_FORMAT7_MAX ∨ uint mode < MODE_FORMAT7_MIN))
    (hp : ¬ (quadlet (regs Format7Reg.BYTE_PER_PACKET) &&& 0xFFFF0000) >>> 16 / 4 ≤ 0)
    (hfb : format7_frame_bytes width height
      (sint (quadlet (quadlet (regs Format7Reg.COLOR_CODING_ID) >>> 24 + COLOR_FORMAT7_MIN))) =
        some frame_bytes)
    (hfq : format7_frame_quadlets frame_bytes bytes_per_packet =
      some (packets_per_frame, quadlets_per_frame))
    (hf : ¬ quadlets_per_frame ≤ 0) :
    format7_setup_accounting (scripted_camera regs iso write_err) camera channel mode width
        height bytes_per_packet iso capture h =
      .done (0,
        { node := camera.node, channel := uint channel, frame_rate := 0,
          frame_width := uint width, frame_height := uint height,
          quadlets_per_frame := quadlets_per_frame,
          quadlets_per_packet :=
            (quadlet (regs Format7Reg.BYTE_PER_PACKET) &&& 0xFFFF0000) >>> 16 / 4 })
        (Event.get (uint mode) Format7Reg.BYTE_PER_PACKET
            (quadlet (regs Format7Reg.BYTE_PER_PACKET)) 0 ::
          Event.get (uint mode) Format7Reg.COLOR_CODING_ID
            (quadlet (regs Format7Reg.COLOR_CODING_ID)) 0 ::
          (if iso = true then [Event.start_iso_transmission 0] else [])) := by
  rw [format7_setup_accounting_run_old _ _ _ _ _ _ _ _ _ _ hv, if_neg hmode,
    scripted_camera_read_err, if_pos rfl, scripted_camera_read_value, if_neg hp,
    scripted_camera_read_err, if_pos rfl, scripted_camera_read_value, hfb]
  simp only []
  rw [hfq]
  simp only []
  rw [format7_setup_finish_run, if_neg hf]
  cases iso <;> rfl

/-- The whole setup on a scripted camera of a version below 1.30 that accepts every write,
for a literal position and size, given the result of the switch and of the two steps of the
frame arithmetic. -/
theorem scripted_camera_setup_old (regs : Format7Reg → Nat) (iso : Bool) (fuel : Nat)
    (camera : dc1394camera_t) (channel mode speed request left top width height : Int)
    (capture : dc1394capture_t) (h : Trace)
    (b frame_bytes packets_per_frame : Int) (quadlets_per_frame : Nat)
    (hv : camera.sw_version < IIDC_VERSION_1_30)
    (hmode : ¬ (uint mode > MODE_FORMAT7_MAX ∨ uint mode < MODE_FORMAT7_MIN))
    (hreq : request ≠ QUERY_FROM_CAMERA)
    (hl : left ≠ QUERY_FROM_CAMERA) (ht : top ≠ QUERY_FROM_CAMERA)
    (hq : ¬ (width = QUERY_FROM_CAMERA ∨ height = QUERY_FROM_CAMERA))
    (hm : ¬ (width = USE_MAX_AVAIL ∨ height = USE_MAX_AVAIL))
    (hb : format7_packet_size_switch request
      (quadlet (regs Format7Reg.BYTE_PER_PACKET) &&& 0x0000FFFF)
      ((quadlet (regs Format7Reg.PACKET_PARA_INQ) &&& 0xFFFF0000) >>> 16)
      (quadlet (regs Format7Reg.PACKET_PARA_INQ) &&& 0x0000FFFF) = some b)
    (hp : ¬ (quadlet (regs Format7Reg.BYTE_PER_PACKET) &&& 0xFFFF0000) >>> 16 / 4 ≤ 0)
    (hfb : format7_frame_bytes width height
      (sint (quadlet (quadlet (regs Format7Reg.COLOR_CODING_ID) >>> 24 + COLOR_FORMAT7_MIN))) =
        some frame_bytes)
    (hfq : format7_frame_quadlets frame_bytes b = some (packets_per_frame, quadlets_per_frame))
    (hf : ¬ quadlets_per_frame ≤ 0) :
    _dc1394_basic_format7_setup (scripted_camera regs iso no_write_fault) fuel camera channel
        mode speed request left top width height capture h =
      .done (DC1394_SUCCESS,
        { node := camera.node, channel := uint channel, frame_rate := 0,
          frame_width := uint width, frame_height := uint height,
          quadlets_per_frame := quadlets_per_frame,
          quadlets_per_packet :=
            (quadlet (regs Format7Reg.BYTE_PER_PACKET) &&& 0xFFFF0000) >>> 16 / 4 })
        ((if iso = true then [Event.get_iso_status true 0, Event.stop_iso_transmission 0]
            else [Event.get_iso_status false 0]) ++
          [Event.set_iso_channel_and_speed channel speed 0,
            Event.set_video_format FORMAT_SCALABLE_IMAGE_SIZE 0,
            Event.set_video_mode mode 0,
            Event.get (uint mode) Format7Reg.IMAGE_POSITION
              (quadlet (regs Format7Reg.IMAGE_POSITION)) 0,
            Event.set (uint mode) Format7Reg.IMAGE_POSITION
              (quadlet (quadlet (uint left <<< 16) ||| uint top)) 0,
            Event.set (uint mode) Format7Reg.IMAGE_SIZE
              (quadlet (quadlet (uint width <<< 16) ||| uint height)) 0,
            Event.get (uint mode) Format7Reg.BYTE_PER_PACKET
              (quadlet (regs Format7Reg.BYTE_PER_PACKET)) 0,
            Event.get (uint mode) Format7Reg.PACKET_PARA_INQ
              (quadlet (regs Format7Reg.PACKET_PARA_INQ)) 0,
            Event.set (uint mode) Format7Reg.BYTE_PER_PACKET
              (quadlet (quadlet (uint b <<< 16))) 0,
            Event.get (uint mode) Format7Reg.BYTE_PER_PACKET
              (quadlet (regs Format7Reg.BYTE_PER_PACKET)) 0,
            Event.get (uint mode) Format7Reg.COLOR_CODING_ID
              (quadlet (regs Format7Reg.COLOR_CODING_ID)) 0] ++
          (if iso = true then [Event.start_iso_transmission 0] else [])) := by
  rw [_dc1394_basic_format7_setup]
  rw [Prog.orReturn_ok (scripted_camera_stop_iso _ _ _ _)]
  rw [Prog.orReturn_ok (scripted_camera_channel_and_mode _ _ _ _ _ _ _)]
  rw [Prog.orReturn_ok ((format7_setup_query_bpp_run _ _ _ _).trans (if_neg hreq))]
  rw [Prog.orReturn_ok (scripted_camera_position _ _ _ _ _ _ _ _ _ hv hmode rfl hl ht)]
  rw [Prog.orReturn_ok ((format7_setup_query_size_run _ _ _ _ _).trans (if_neg hq))]
  rw [Prog.orReturn_ok ((format7_setup_max_size_run _ _ _ _ _ _ _).trans (if_neg hm))]
  rw [Prog.orReturn_ok (scripted_camera_commit_size _ _ _ _ _ _ _ _ _ hv rfl)]
  rw [Prog.orReturn_ok (scripted_camera_packet_size _ _ _ _ _ _ _ _ _ hv hmode rfl hb)]
  rw [scripted_camera_accounting_old _ _ _ _ _ _ _ _ _ _ _ _ _ _ hv hmode hp hfb hfq hf]
  cases iso <;> rfl

/-- The setup on a scripted camera of a version below 1.30 whose image-size write fails:
the function returns the failure after that write. -/
theorem scripted_camera_setup_size_fault (regs : Format7Reg → Nat) (iso : Bool) (fuel : Nat)
    (camera : dc1394camera_t) (channel mode speed request left top width height : Int)
    (capture : dc1394capture_t) (h : Trace)
    (hv : camera.sw_version < IIDC_VERSION_1_30)
    (hmode : ¬ (uint mode > MODE_FORMAT7_MAX ∨ uint mode < MODE_FORMAT7_MIN))
    (hreq : request ≠ QUERY_FROM_CAMERA)
    (hl : left ≠ QUERY_FROM_CAMERA) (ht : top ≠ QUERY_FROM_CAMERA)
    (hq : ¬ (width = QUERY_FROM_CAMERA ∨ height = QUERY_FROM_CAMERA))
    (hm : ¬ (width = USE_MAX_AVAIL ∨ height = USE_MAX_AVAIL)) :
    _dc1394_basic_format7_setup (scripted_camera regs iso size_write_fault) fuel camera channel
        mode speed request left top width height capture h =
      .done (DC1394_FAILURE, capture)
        ((if iso = true then [Event.get_iso_status true 0, Event.stop_iso_transmission 0]
            else [Event.get_iso_status false 0]) ++
          [Event.set_iso_channel_and_speed channel speed 0,
            Event.set_video_format FORMAT_SCALABLE_IMAGE_SIZE 0,
            Event.set_video_mode mode 0,
            Event.get (uint mode) Format7Reg.IMAGE_POSITION
              (quadlet (regs Format7Reg.IMAGE_POSITION)) 0,
            Event.set (uint mode) Format7Reg.IMAGE_POSITION
              (quadlet (quadlet (uint left <<< 16) ||| uint top)) 0,
            Event.set (uint mode) Format7Reg.IMAGE_SIZE
              (quadlet (quadlet (uint width <<< 16) ||| uint height)) DC1394_FAILURE]) := by
  rw [_dc1394_basic_format7_setup]
  rw [Prog.orReturn_ok (scripted_camera_stop_iso _ _ _ _)]
  rw [Prog.orReturn_ok (scripted_camera_channel_and_mode _ _ _ _ _ _ _)]
  rw [Prog.orReturn_ok ((format7_setup_query_bpp_run _ _ _ _).trans (if_neg hreq))]
  rw [Prog.orReturn_ok (scripted_camera_position _ _ _ _ _ _ _ _ _ hv hmode rfl hl ht)]
  rw [Prog.orReturn_ok ((format7_setup_query_size_run _ _ _ _ _).trans (if_neg hq))]
  rw [Prog.orReturn_ok ((format7_setup_max_size_run _ _ _ _ _ _ _).trans (if_neg hm))]
  rw [Prog.orReturn_error (scripted_camera_commit_size_fault _ _ _ _ _ _ _ _ _ hv rfl)]
  cases iso <;> rfl

-- Concrete runs on cameras of version 1.20.

theorem unit8_color_coding :
    sint (quadlet (quadlet (unit8_regs Format7Reg.COLOR_CODING_ID) >>> 24 + COLOR_FORMAT7_MIN)) =
      COLOR_FORMAT7_YUV422 := by
  decide

theorem yuv411_color_coding :
    sint (quadlet (quadlet (yuv411_regs Format7Reg.COLOR_CODING_ID) >>> 24 +
      COLOR_FORMAT7_MIN)) = COLOR_FORMAT7_YUV411 := by
  decide

theorem Format7BytePerPixel_yuv422 : _Format7BytePerPixel COLOR_FORMAT7_YUV422 = 2 := by
  norm_num [_Format7BytePerPixel, COLOR_FORMAT7_MONO8, COLOR_FORMAT7_YUV411,
    COLOR_FORMAT7_YUV422]

theorem Format7BytePerPixel_yuv411 : _Format7BytePerPixel COLOR_FORMAT7_YUV411 = 3 / 2 := by
  norm_num [_Format7BytePerPixel, COLOR_FORMAT7_MONO8, COLOR_FORMAT7_YUV411]

/-- 640x480 pixels of YUV422 are 614400 bytes. -/
theorem format7_frame_bytes_vga_yuv422 :
    format7_frame_bytes 640 480 COLOR_FORMAT7_YUV422 = some 614400 :=
  format7_frame_bytes_exact 640 480 _ 614400
    (by rw [Format7BytePerPixel_yuv422]; norm_num) (by decide)

/-- 1001x7 pixels of YUV422 are 14014 bytes. -/
theorem format7_frame_bytes_1001x7_yuv422 :
    format7_frame_bytes 1001 7 COLOR_FORMAT7_YUV422 = some 14014 :=
  format7_frame_bytes_exact 1001 7 _ 14014
    (by rw [Format7BytePerPixel_yuv422]; norm_num) (by decide)

/-- 3x1 pixels of YUV411 are 4.5 bytes, which the conversion to `int` truncates to 4. -/
theorem format7_frame_bytes_3x1_yuv411 :
    format7_frame_bytes 3 1 COLOR_FORMAT7_YUV411 = some 4 := by
  rw [format7_frame_bytes_of_twice 3 1 _ 3
    (by rw [Format7BytePerPixel_yuv411]; norm_num),
    float_round_small (n := 3 * 1) (by decide), float_round_small (n := 3 * 1 * 3) (by decide)]
  decide

/-- A packet size of 1024 bytes and 640x480 pixels are requested from a camera of version
1.20 with YUV422 as color coding. -/
theorem unit8_camera_setup_1024 :
    _dc1394_basic_format7_setup (scripted_camera unit8_regs false no_write_fault) 1 camera_v120
        0 288 2 1024 0 0 640 480 stale_capture [] =
      .done (DC1394_SUCCESS,
        { node := 0, channel := 0, frame_rate := 0, frame_width := 640, frame_height := 480,
          quadlets_per_frame := 153600, quadlets_per_packet := 256 })
        [Event.get_iso_status false 0,
          Event.set_iso_channel_and_speed 0 2 0,
          Event.set_video_format FORMAT_SCALABLE_IMAGE_SIZE 0,
          Event.set_video_mode 288 0,
          Event.get 288 Format7Reg.IMAGE_POSITION 0 0,
          Event.set 288 Format7Reg.IMAGE_POSITION 0 0,
          Event.set 288 Format7Reg.IMAGE_SIZE 0x028001E0 0,
          Event.get 288 Format7Reg.BYTE_PER_PACKET 0x04000400 0,
          Event.get 288 Format7Reg.PACKET_PARA_INQ 0x00041000 0,
          Event.set 288 Format7Reg.BYTE_PER_PACKET 0x04000000 0,
          Event.get 288 Format7Reg.BYTE_PER_PACKET 0x04000400 0,
          Event.get 288 Format7Reg.COLOR_CODING_ID 0x02000000 0] :=
  (scripted_camera_setup_old unit8_regs false 1 camera_v120 0 288 2 1024 0 0 640 480
    stale_capture [] 1024 614400 600 153600 (by decide) (by decide) (by decide) (by decide)
    (by decide) (by decide) (by decide) (by decide) (by decide)
    (by rw [unit8_color_coding]; exact format7_frame_bytes_vga_yuv422) (by decide)
    (by decide)).trans rfl

/-- A packet size of 1000 bytes is requested from the same camera, whose packet-size register
reads 1024 before and after the write. -/
theorem unit8_camera_setup_1000 :
    _dc1394_basic_format7_setup (scripted_camera unit8_regs false no_write_fault) 1 camera_v120
        0 288 2 1000 0 0 640 480 stale_capture [] =
      .done (DC1394_SUCCESS,
        { node := 0, channel := 0, frame_rate := 0, frame_width := 640, frame_height := 480,
          quadlets_per_frame := 153750, quadlets_per_packet := 256 })
        [Event.get_iso_status false 0,
          Event.set_iso_channel_and_speed 0 2 0,
          Event.set_video_format FORMAT_SCALABLE_IMAGE_SIZE 0,
          Event.set_video_mode 288 0,
          Event.get 288 Format7Reg.IMAGE_POSITION 0 0,
          Event.set 288 Format7Reg.IMAGE_POSITION 0 0,
          Event.set 288 Format7Reg.IMAGE_SIZE 0x028001E0 0,
          Event.get 288 Format7Reg.BYTE_PER_PACKET 0x04000400 0,
          Event.get 288 Format7Reg.PACKET_PARA_INQ 0x00041000 0,
          Event.set 288 Format7Reg.BYTE_PER_PACKET 0x03E80000 0,
          Event.get 288 Format7Reg.BYTE_PER_PACKET 0x04000400 0,
          Event.get 288 Format7Reg.COLOR_CODING_ID 0x02000000 0] :=
  (scripted_camera_setup_old unit8_regs false 1 camera_v120 0 288 2 1000 0 0 640 480
    stale_capture [] 1000 614400 615 153750 (by decide) (by decide) (by decide) (by decide)
    (by decide) (by decide) (by decide) (by decide) (by decide)
    (by rw [unit8_color_coding]; exact format7_frame_bytes_vga_yuv422) (by decide)
    (by decide)).trans rfl

/-- The same request as in `unit8_camera_setup_1024` while the camera is transmitting. -/
theorem streaming_camera_setup :
    _dc1394_basic_format7_setup (scripted_camera unit8_regs true no_write_fault) 1 camera_v120
        0 288 2 1024 0 0 640 480 stale_capture [] =
      .done (DC1394_SUCCESS,
        { node := 0, channel := 0, frame_rate := 0, frame_width := 640, frame_height := 480,
          quadlets_per_frame := 153600, quadlets_per_packet := 256 })
        [Event.get_iso_status true 0,
          Event.stop_iso_transmission 0,
          Event.set_iso_channel_and_speed 0 2 0,
          Event.set_video_format FORMAT_SCALABLE_IMAGE_SIZE 0,
          Event.set_video_mode 288 0,
          Event.get 288 Format7Reg.IMAGE_POSITION 0 0,
          Event.set 288 Format7Reg.IMAGE_POSITION 0 0,
          Event.set 288 Format7Reg.IMAGE_SIZE 0x028001E0 0,
          Event.get 288 Format7Reg.BYTE_PER_PACKET 0x04000400 0,
          Event.get 288 Format7Reg.PACKET_PARA_INQ 0x00041000 0,
          Event.set 288 Format7Reg.BYTE_PER_PACKET 0x04000000 0,
          Event.get 288 Format7Reg.BYTE_PER_PACKET 0x04000400 0,
          Event.get 288 Format7Reg.COLOR_CODING_ID 0x02000000 0,
          Event.start_iso_transmission 0] :=
  (scripted_camera_setup_old unit8_regs true 1 camera_v120 0 288 2 1024 0 0 640 480
    stale_capture [] 1024 614400 600 153600 (by decide) (by decide) (by decide) (by decide)
    (by decide) (by decide) (by decide) (by decide) (by decide)
    (by rw [unit8_color_coding]; exact format7_frame_bytes_vga_yuv422) (by decide)
    (by decide)).trans rfl

/-- A position of (3, 5) and a size of 1001x7 are requested from the camera of 640x480 pixels
whose position and size go in units of 8x8 pixels. -/
theorem unit8_camera_setup_unchecked :
    _dc1394_basic_format7_setup (scripted_camera unit8_regs false no_write_fault) 1 camera_v120
        0 288 2 1024 3 5 1001 7 stale_capture [] =
      .done (DC1394_SUCCESS,
        { node := 0, channel := 0, frame_rate := 0, frame_width := 1001, frame_height := 7,
          quadlets_per_frame := 3584, quadlets_per_packet := 256 })
        [Event.get_iso_status false 0,
          Event.set_iso_channel_and_speed 0 2 0,
          Event.set_video_format FORMAT_SCALABLE_IMAGE_SIZE 0,
          Event.set_video_mode 288 0,
          Event.get 288 Format7Reg.IMAGE_POSITION 0 0,
          Event.set 288 Format7Reg.IMAGE_POSITION 0x00030005 0,
          Event.set 288 Format7Reg.IMAGE_SIZE 0x03E90007 0,
          Event.get 288 Format7Reg.BYTE_PER_PACKET 0x04000400 0,
          Event.get 288 Format7Reg.PACKET_PARA_INQ 0x00041000 0,
          Event.set 288 Format7Reg.BYTE_PER_PACKET 0x04000000 0,
          Event.get 288 Format7Reg.BYTE_PER_PACKET 0x04000400 0,
          Event.get 288 Format7Reg.COLOR_CODING_ID 0x02000000 0] :=
  (scripted_camera_setup_old unit8_regs false 1 camera_v120 0 288 2 1024 3 5 1001 7
    stale_capture [] 1024 14014 14 3584 (by decide) (by decide) (by decide) (by decide)
    (by decide) (by decide) (by decide) (by decide) (by decide)
    (by rw [unit8_color_coding]; exact format7_frame_bytes_1001x7_yuv422) (by decide)
    (by decide)).trans rfl

/-- A horizontal position of `USE_MAX_AVAIL` is requested from the same camera. -/
theorem unit8_camera_setup_position_max :
    _dc1394_basic_format7_setup (scripted_camera unit8_regs false no_write_fault) 1 camera_v120
        0 288 2 1024 USE_MAX_AVAIL 0 640 480 stale_capture [] =
      .done (DC1394_SUCCESS,
        { node := 0, channel := 0, frame_rate := 0, frame_width := 640, frame_height := 480,
          quadlets_per_frame := 153600, quadlets_per_packet := 256 })
        [Event.get_iso_status false 0,
          Event.set_iso_channel_and_speed 0 2 0,
          Event.set_video_format FORMAT_SCALABLE_IMAGE_SIZE 0,
          Event.set_video_mode 288 0,
          Event.get 288 Format7Reg.IMAGE_POSITION 0 0,
          Event.set 288 Format7Reg.IMAGE_POSITION 0xFFFE0000 0,
          Event.set 288 Format7Reg.IMAGE_SIZE 0x028001E0 0,
          Event.get 288 Format7Reg.BYTE_PER_PACKET 0x04000400 0,
          Event.get 288 Format7Reg.PACKET_PARA_INQ 0x00041000 0,
          Event.set 288 Format7Reg.BYTE_PER_PACKET 0x04000000 0,
          Event.get 288 Format7Reg.BYTE_PER_PACKET 0x04000400 0,
          Event.get 288 Format7Reg.COLOR_CODING_ID 0x02000000 0] :=
  (scripted_camera_setup_old unit8_regs false 1 camera_v120 0 288 2 1024 USE_MAX_AVAIL 0 640
    480 stale_capture [] 1024 614400 600 153600 (by decide) (by decide) (by decide) (by decide)
    (by decide) (by decide) (by decide) (by decide) (by decide)
    (by rw [unit8_color_coding]; exact format7_frame_bytes_vga_yuv422) (by decide)
    (by decide)).trans rfl

/-- A packet size of 4 bytes and 3x1 pixels are requested from a camera of version 1.20 with
YUV411 as color coding. -/
theorem yuv411_camera_setup :
    _dc1394_basic_format7_setup (scripted_camera yuv411_regs false no_write_fault) 1
        camera_v120 0 288 2 4 0 0 3 1 stale_capture [] =
      .done (DC1394_SUCCESS,
        { node := 0, channel := 0, frame_rate := 0, frame_width := 3, frame_height := 1,
          quadlets_per_frame := 1, quadlets_per_packet := 1 })
        [Event.get_iso_status false 0,
          Event.set_iso_channel_and_speed 0 2 0,
          Event.set_video_format FORMAT_SCALABLE_IMAGE_SIZE 0,
          Event.set_video_mode 288 0,
          Event.get 288 Format7Reg.IMAGE_POSITION 0 0,
          Event.set 288 Format7Reg.IMAGE_POSITION 0 0,
          Event.set 288 Format7Reg.IMAGE_SIZE 0x00030001 0,
          Event.get 288 Format7Reg.BYTE_PER_PACKET 0x00040004 0,
          Event.get 288 Format7Reg.PACKET_PARA_INQ 0x00040004 0,
          Event.set 288 Format7Reg.BYTE_PER_PACKET 0x00040000 0,
          Event.get 288 Format7Reg.BYTE_PER_PACKET 0x00040004 0,
          Event.get 288 Format7Reg.COLOR_CODING_ID 0x01000000 0] :=
  (scripted_camera_setup_old yuv411_regs false 1 camera_v120 0 288 2 4 0 0 3 1
    stale_capture [] 4 4 1 1 (by decide) (by decide) (by decide) (by decide)
    (by decide) (by decide) (by decide) (by decide) (by decide)
    (by rw [yuv411_color_coding]; exact format7_frame_bytes_3x1_yuv411) (by decide)
    (by decide)).trans rfl

/-- The request of `unit8_camera_setup_1024` to a camera whose image-size write fails. -/
theorem size_fault_camera_setup :
    _dc1394_basic_format7_setup (scripted_camera unit8_regs false size_write_fault) 1
        camera_v120 0 288 2 1024 0 0 640 480 stale_capture [] =
      .done (DC1394_FAILURE, stale_capture)
        [Event.get_iso_status false 0,
          Event.set_iso_channel_and_speed 0 2 0,
          Event.set_video_format FORMAT_SCALABLE_IMAGE_SIZE 0,
          Event.set_video_mode 288 0,
          Event.get 288 Format7Reg.IMAGE_POSITION 0 0,
          Event.set 288 Format7Reg.IMAGE_POSITION 0 0,
          Event.set 288 Format7Reg.IMAGE_SIZE 0x028001E0 DC1394_FAILURE] :=
  (scripted_camera_setup_size_fault unit8_regs false 1 camera_v120 0 288 2 1024 0 0 640 480
    stale_capture [] (by decide) (by decide) (by decide) (by decide) (by decide) (by decide)
    (by decide)).trans rfl

-- The resolved values of a successful run.

theorem int_fits_sint (n : Nat) : int_fits (sint n) = true := by
  unfold int_fits sint
  simp only [decide_eq_true_eq]
  split_ifs <;> omega

theorem int_fits_sentinel : int_fits USE_MAX_AVAIL = true := by decide

/-- The switch never leaves a packet size outside 0..65535, except that it passes on a
request of `QUERY_FROM_CAMERA`. -/
theorem format7_packet_size_switch_range (request : Int) (recom_bpp unit_bytes max_bytes : Nat)
    {b : Int} (hq : request ≠ QUERY_FROM_CAMERA) (hrecom : recom_bpp < 65536)
    (hunit : unit_bytes < 65536) (hmax : max_bytes < 65536)
    (hb : format7_packet_size_switch request recom_bpp unit_bytes max_bytes = some b) :
    0 ≤ b ∧ b < 65536 := by
  have hs : ∀ n : Nat, n < 65536 → (0 : Int) ≤ sint n ∧ sint n < 65536 := by
    intro n hn
    rw [sint_of_lt (by omega)]
    omega
  unfold format7_packet_size_switch at hb
  by_cases h1 : request = USE_RECOMMENDED
  · rw [if_pos h1] at hb
    by_cases h2 : recom_bpp > 0
    · rw [if_pos h2] at hb
      cases hb
      exact hs _ hrecom
    · rw [if_neg h2] at hb
      cases hb
      exact hs _ hmax
  · rw [if_neg h1] at hb
    by_cases h2 : request = USE_MAX_AVAIL
    · rw [if_pos h2] at hb
      cases hb
      exact hs _ hmax
    · rw [if_neg h2, if_neg hq] at hb
      simp only [] at hb
      by_cases h3 : (if unit_bytes = 0 then max_bytes else unit_bytes) = 0
      · rw [if_pos h3] at hb
        cases hb
      · rw [if_neg h3] at hb
        cases hb
        have hU : (if unit_bytes = 0 then max_bytes else unit_bytes) < 65536 := by
          split_ifs <;> omega
        generalize (if unit_bytes = 0 then max_bytes else unit_bytes) = U at hU h3 ⊢
        have hx : uint (if uint request > max_bytes then sint max_bytes
            else if uint request < U then sint U else request) < 65536 := by
          by_cases c1 : uint request > max_bytes
          · rw [if_pos c1, uint_sint]
            omega
          · rw [if_neg c1]
            by_cases c2 : uint request < U
            · rw [if_pos c2, uint_sint]
              omega
            · rw [if_neg c2]
              omega
        generalize uint (if uint request > max_bytes then sint max_bytes
            else if uint request < U then sint U else request) = x at hx ⊢
        exact hs _ (by omega)

/-- The packet size can be read off the quadlet that is written for it. -/
theorem packet_size_of_quadlet {b : Int} (h0 : 0 ≤ b) (h1 : b < 65536) :
    ((quadlet (quadlet (uint b <<< 16)) >>> 16 : Nat) : Int) = b := by
  obtain ⟨n, rfl⟩ := Int.eq_ofNat_of_zero_le h0
  have hn : n < 65536 := by omega
  rw [uint_natCast_of_lt (by omega), Nat.shiftLeft_eq, Nat.shiftRight_eq_div_pow]
  unfold quadlet
  congr 1
  omega

theorem Event.access_of_isWrite {x : Event} {reg : Format7Reg} (h : x.isWrite reg = true) :
    x.access = some (true, reg) := by
  cases x <;> simp_all [Event.isWrite, Event.access]

theorem Event.access_of_isRead {x : Event} {reg : Format7Reg} (h : x.isRead reg = true) :
    x.access = some (false, reg) := by
  cases x <;> simp_all [Event.isRead, Event.access]

theorem Prog.emits_not_isWrite {α : Type} {L : List (Option (Bool × Format7Reg))}
    {m : Prog α} (hm : Prog.emits L m) {reg : Format7Reg} (hL : some (true, reg) ∉ L)
    {h : Trace} {a : α} {s : Trace} (hrun : m h = .done a s) :
    ∀ x ∈ s, x.isWrite reg = false := by
  intro x hx
  cases hw : x.isWrite reg with
  | false => rfl
  | true =>
    have hmem := hm h x (by rw [hrun]; exact hx)
    rw [Event.access_of_isWrite hw] at hmem
    exact absurd hmem hL

theorem Prog.emits_not_isRead {α : Type} {L : List (Option (Bool × Format7Reg))}
    {m : Prog α} (hm : Prog.emits L m) {reg : Format7Reg} (hL : some (false, reg) ∉ L)
    {h : Trace} {a : α} {s : Trace} (hrun : m h = .done a s) :
    ∀ x ∈ s, x.isRead reg = false := by
  intro x hx
  cases hw : x.isRead reg with
  | false => rfl
  | true =>
    have hmem := hm h x (by rw [hrun]; exact hx)
    rw [Event.access_of_isRead hw] at hmem
    exact absurd hmem hL

/-- The size that lines 221-250 resolve fits an `int` when the requested size does. -/
theorem format7_setup_resolved_size_fits (D : Device) (mode left top width height : Int)
    (h1 h2 : Trace) {size0 size : Int × Int} {s5 s6 : Trace}
    (hw : int_fits width = true) (hh : int_fits height = true)
    (hq : format7_setup_query_size D mode width height h1 = .done (.ok size0) s5)
    (hm : format7_setup_max_size D mode left top size0.1 size0.2 h2 = .done (.ok size) s6) :
    int_fits size.1 = true ∧ int_fits size.2 = true := by
  obtain ⟨cs, -, -, hs0⟩ := format7_setup_query_size_ok _ _ _ _ _ hq
  obtain ⟨mx, -, -, hs⟩ := format7_setup_max_size_ok _ _ _ _ _ _ _ hm
  have h0 : int_fits size0.1 = true ∧ int_fits size0.2 = true := by
    rw [hs0]
    constructor
    · show int_fits (if _ then _ else _) = true
      split_ifs
      · exact int_fits_sint _
      · exact int_fits_sentinel
      · exact hw
    · show int_fits (if _ then _ else _) = true
      split_ifs
      · exact int_fits_sint _
      · exact int_fits_sentinel
      · exact hh
  rw [hs]
  constructor
  · show int_fits (if _ then _ else _) = true
    split_ifs
    · exact int_fits_sint _
    · exact h0.1
  · show int_fits (if _ then _ else _) = true
    split_ifs
    · exact int_fits_sint _
    · exact h0.2

/-- The shape of a successful run around the packet size: no write of the packet-size
register before the committing one, the packet size `b` of the switch in 0..65535, the
handshake, and the accounting piece run on the resolved size and on `b`. -/
theorem format7_setup_success_tail (D : Device) (fuel : Nat) (camera : dc1394camera_t)
    (channel mode speed bytes_per_packet left top width height : Int)
    (capture cap : dc1394capture_t) (h seg : Trace)
    (hrun : _dc1394_basic_format7_setup D fuel camera channel mode speed bytes_per_packet left
      top width height capture h = .done (0, cap) seg) :
    ∃ (is_iso_on : Bool) (size : Int × Int) (b : Int) (pre rest s9 hist : Trace),
      seg = pre ++ Event.set (uint mode) Format7Reg.BYTE_PER_PACKET
        (quadlet (quadlet (uint b <<< 16))) 0 :: (rest ++ s9) ∧
      (∀ x ∈ pre, x.isWrite Format7Reg.BYTE_PER_PACKET = false) ∧
      (∀ x ∈ rest, x.isValueSetting = true) ∧
      (camera.sw_version < IIDC_VERSION_1_30 → rest = []) ∧
      0 ≤ b ∧ b < 65536 ∧
      (int_fits width = true → int_fits height = true →
        int_fits size.1 = true ∧ int_fits size.2 = true) ∧
      format7_setup_accounting D camera channel mode size.1 size.2 b is_iso_on capture hist =
        .done (0, cap) s9 := by
  obtain ⟨is_iso_on, s1, s2, request, s3, position, s4, size0, s5, size, s6, s7, b, s8, s9,
    h1, h2, h3, h4, h5, h6, h7, h8, h9, hseg⟩ :=
    format7_setup_success D fuel camera channel mode speed bytes_per_packet left top width
      height capture cap h seg hrun
  obtain ⟨recom, para, rest, hs8, hsw, hrest, hold⟩ := format7_setup_packet_size_ok _ _ _ _ _ _ h8
  have hreq : request ≠ QUERY_FROM_CAMERA := by
    obtain ⟨ha, hb⟩ := format7_setup_query_bpp_ok _ _ _ _ h3
    by_cases hq : bytes_per_packet = QUERY_FROM_CAMERA
    · obtain ⟨cur, -, hr⟩ := hb hq
      rw [hr, sint_of_lt (by have := high_field_lt cur; omega)]
      unfold QUERY_FROM_CAMERA
      omega
    · rw [ha hq]
      exact hq
  obtain ⟨hb0, hb1⟩ := format7_packet_size_switch_range request _ _ _ hreq (low_field_lt _)
    (high_field_lt _) (low_field_lt _) hsw
  refine ⟨is_iso_on, size, b,
    s1 ++ (s2 ++ (s3 ++ (s4 ++ (s5 ++ (s6 ++ (s7 ++
      [Event.get (uint mode) Format7Reg.BYTE_PER_PACKET recom 0,
        Event.get (uint mode) Format7Reg.PACKET_PARA_INQ para 0])))))),
    rest, s9, _, ?_, ?_, hrest, hold, hb0, hb1, ?_, h9⟩
  · rw [hseg, hs8]
    simp
  · intro x hx
    simp only [List.mem_append, List.mem_cons, List.mem_singleton, List.not_mem_nil,
      or_false] at hx
    rcases hx with hx | hx | hx | hx | hx | hx | hx | hx | hx
    · exact Prog.emits_not_isWrite (format7_setup_stop_iso_emits D) (by decide) h1 x hx
    · exact Prog.emits_not_isWrite (format7_setup_channel_and_mode_emits D _ _ _) (by decide)
        h2 x hx
    · exact Prog.emits_not_isWrite (format7_setup_query_bpp_emits D _ _) (by decide) h3 x hx
    · exact Prog.emits_not_isWrite (format7_setup_image_position_emits D fuel camera _ _ _)
        (by decide) h4 x hx
    · exact Prog.emits_not_isWrite (format7_setup_query_size_emits D _ _ _) (by decide) h5 x hx
    · exact Prog.emits_not_isWrite (format7_setup_max_size_emits D _ _ _ _ _) (by decide)
        h6 x hx
    · exact Prog.emits_not_isWrite (format7_setup_commit_size_emits D fuel camera _ _ _)
        (by decide) h7 x hx
    · rw [hx]; rfl
    · rw [hx]; rfl
  · intro hw hh
    exact format7_setup_resolved_size_fits D mode _ _ width height _ _ hw hh h5 h6

/-- The `int` arithmetic of lines 347-349 on a frame of `N` bytes and a packet size of `B > 0`
bytes: the number of packets is `N / B` rounded up. -/
theorem format7_frame_quadlets_ceil (N B : Nat) (hB : 0 < B) {pk : Int} {qpf : Nat}
    (hq : format7_frame_quadlets (N : Int) (B : Int) = some (pk, qpf)) :
    pk = (((N + B - 1) / B : Nat) : Int) ∧ qpf = (N + B - 1) / B * B / 4 := by
  unfold format7_frame_quadlets at hq
  have hT : (N : Int) + (B : Int) - 1 = ((N + B - 1 : Nat) : Int) := by omega
  have hdiv : Int.tdiv ((N : Int) + (B : Int) - 1) (B : Int) = (((N + B - 1) / B : Nat) : Int) := by
    rw [hT, Int.tdiv_eq_ediv (Int.ofNat_nonneg _) (Int.ofNat_nonneg _)]
    exact (Int.ofNat_ediv _ _).symm
  by_cases h1 : int_fits ((N : Int) + (B : Int)) = true ∧
      int_fits ((N : Int) + (B : Int) - 1) = true ∧ (B : Int) ≠ 0
  · rw [if_pos h1] at hq
    simp only [] at hq
    rw [hdiv] at hq
    by_cases h2 : int_fits (((N + B - 1) / B : Nat) : Int) = true ∧
        int_fits ((((N + B - 1) / B : Nat) : Int) * (B : Int)) = true
    · rw [if_pos h2] at hq
      simp only [Option.some.injEq, Prod.mk.injEq] at hq
      refine ⟨hq.1.symm, ?_⟩
      rw [← hq.2]
      have h3 := h2.2
      simp only [int_fits, decide_eq_true_eq] at h3
      have hc : (((N + B - 1) / B : Nat) : Int) * (B : Int) = (((N + B - 1) / B * B : Nat) : Int) := by
        push_cast
        rfl
      rw [hc] at h3 ⊢
      rw [Int.tdiv_eq_ediv (Int.ofNat_nonneg _) (by decide),
        show ((((N + B - 1) / B * B : Nat) : Int) / 4) = ((((N + B - 1) / B * B / 4 : Nat)) : Int)
          from (Int.ofNat_ediv _ 4).symm,
        uint_natCast_of_lt (by omega)]
    · rw [if_neg h2] at hq
      cases hq
  · rw [if_neg h1] at hq
    cases hq

/-- Rounding up: the characterisation of `(N + B - 1) / B`. -/
theorem ceil_div_bounds (N B : Nat) (hB : 0 < B) :
    N ≤ (N + B - 1) / B * B ∧ (N + B - 1) / B * B < N + B := by
  have h1 := Nat.div_add_mod (N + B - 1) B
  have h2 := Nat.mod_lt (N + B - 1) hB
  rw [Nat.mul_comm] at h1
  constructor <;> omega

/-- A write of the byte-per-packet register in a successful run is the committing one. -/
theorem format7_setup_success_packet_write (D : Device) (fuel : Nat) (camera : dc1394camera_t)
    (channel mode speed bytes_per_packet left top width height : Int)
    (capture cap : dc1394capture_t) (h seg pre post : Trace) (v : Nat)
    (hrun : _dc1394_basic_format7_setup D fuel camera channel mode speed bytes_per_packet left
      top width height capture h = .done (0, cap) seg)
    (hseg : seg = pre ++ Event.set (uint mode) Format7Reg.BYTE_PER_PACKET v 0 :: post) :
    ∃ (is_iso_on : Bool) (size : Int × Int) (b : Int) (rest s9 hist : Trace),
      post = rest ++ s9 ∧
      (∀ x ∈ rest, x.isValueSetting = true) ∧
      (camera.sw_version < IIDC_VERSION_1_30 → rest = []) ∧
      0 ≤ b ∧ b < 65536 ∧ ((v >>> 16 : Nat) : Int) = b ∧
      (int_fits width = true → int_fits height = true →
        int_fits size.1 = true ∧ int_fits size.2 = true) ∧
      format7_setup_accounting D camera channel mode size.1 size.2 b is_iso_on capture hist =
        .done (0, cap) s9 := by
  obtain ⟨is_iso_on, size, b, pre1, rest, s9, hist, hseg1, hpre, hrest, hold, hb0, hb1, hfit,
    hacc⟩ := format7_setup_success_tail D fuel camera channel mode speed bytes_per_packet left
      top width height capture cap h seg hrun
  have hx : Event.set (uint mode) Format7Reg.BYTE_PER_PACKET v 0 ∉ pre1 := by
    intro hmem
    have := hpre _ hmem
    simp [Event.isWrite] at this
  rw [hseg1] at hseg
  obtain ⟨pre2, -, h2⟩ := trace_split_after hx hseg
  have hs9 : ∀ x ∈ rest ++ s9, x.isWrite Format7Reg.BYTE_PER_PACKET = false := by
    intro x hx
    rcases List.mem_append.1 hx with hx | hx
    · have := hrest x hx
      cases x <;> simp_all [Event.isValueSetting, Event.isWrite, Event.isRead]
    · exact Prog.emits_not_isWrite (format7_setup_accounting_emits D camera _ _ _ _ _ _ _)
        (by decide) hacc x hx
  cases pre2 with
  | nil =>
    simp only [List.nil_append, List.cons.injEq, Event.set.injEq, true_and, and_true] at h2
    refine ⟨is_iso_on, size, b, rest, s9, hist, h2.2.symm, hrest, hold, hb0, hb1, ?_, hfit,
      hacc⟩
    rw [← h2.1]
    exact packet_size_of_quadlet hb0 hb1
  | cons y p2 =>
    simp only [List.cons_append, List.cons.injEq] at h2
    have hmem : Event.set (uint mode) Format7Reg.BYTE_PER_PACKET v 0 ∈ rest ++ s9 := by
      rw [h2.2]
      simp
    have := hs9 _ hmem
    simp [Event.isWrite] at this

-- The stop and the restart of the iso transmission.

theorem start_only_last_nil (b : Bool) : start_only_last b [] := by
  refine ⟨fun x hx => (by cases hx), fun pre x post h _ => ?_⟩
  cases pre <;> cases h

theorem start_only_last_append {b : Bool} {s t : Trace}
    (hs : ∀ x ∈ s, x.isStop = false ∧ x.isStart = false) (ht : start_only_last b t) :
    start_only_last b (s ++ t) := by
  refine ⟨fun x hx => ?_, fun pre x post h hx => ?_⟩
  · rcases List.mem_append.1 hx with hx | hx
    · exact (hs x hx).1
    · exact ht.1 x hx
  · rcases trace_split_cases h with ⟨post1, h1, -⟩ | ⟨pre2, -, h2⟩
    · have := (hs x (h1 ▸ (by simp : x ∈ pre ++ x :: post1))).2
      rw [this] at hx
      cases hx
    · exact ht.2 pre2 x post h2 hx

theorem Prog.emits_quiet {α : Type} {L : List (Option (Bool × Format7Reg))} {m : Prog α}
    (hm : Prog.emits L m) (hL : none ∉ L) (h : Trace) :
    ∀ x ∈ (m h).seg, x.isStop = false ∧ x.isStart = false := by
  intro x hx
  have hmem := hm h x hx
  cases x <;> first
    | exact ⟨rfl, rfl⟩
    | exact absurd hmem hL

theorem start_only_last_bind {α β : Type} {b : Bool} {m : Prog α} {k : α → Prog β}
    (hm : ∀ h, ∀ x ∈ (m h).seg, x.isStop = false ∧ x.isStart = false)
    (hk : ∀ a h, start_only_last b (k a h).seg) (h : Trace) :
    start_only_last b ((m >>= k) h).seg := by
  rw [Prog.bind_seg]
  refine start_only_last_append (hm h) ?_
  cases m h with
  | done a s => exact hk a _
  | spin s => exact start_only_last_nil b
  | undef s => exact start_only_last_nil b

theorem start_only_last_orReturn {α : Type} {b : Bool} {m : Prog (Except Int α)}
    {capture : dc1394capture_t} {k : α → Prog (Int × dc1394capture_t)} {h : Trace}
    (hm : ∀ x ∈ (m h).seg, x.isStop = false ∧ x.isStart = false)
    (hk : ∀ a s, start_only_last b (k a (h ++ s)).seg) :
    start_only_last b ((m.orReturn capture k) h).seg := by
  rw [Prog.orReturn_seg]
  refine start_only_last_append hm ?_
  cases m h with
  | done r s =>
    cases r with
    | ok a => exact hk a s
    | error e => exact start_only_last_nil b
  | spin s => exact start_only_last_nil b
  | undef s => exact start_only_last_nil b

theorem format7_setup_channel_and_mode_quiet (D : Device) (channel mode speed : Int)
    (h : Trace) :
    ∀ x ∈ (format7_setup_channel_and_mode D channel mode speed h).seg,
      x.isStop = false ∧ x.isStart = false := by
  intro x hx
  rw [format7_setup_channel_and_mode_run] at hx
  split_ifs at hx <;> simp at hx <;> rcases hx with rfl | rfl | rfl <;> exact ⟨rfl, rfl⟩

theorem format7_setup_finish_start_only_last (D : Device) (err width height : Int)
    (is_iso_on : Bool) (capture : dc1394capture_t) (h : Trace) :
    start_only_last is_iso_on (format7_setup_finish D err width height is_iso_on capture h).seg
    := by
  rw [format7_setup_finish_run]
  by_cases hq : capture.quadlets_per_frame ≤ 0
  · rw [if_pos hq]
    exact start_only_last_nil _
  · rw [if_neg hq]
    by_cases hi : is_iso_on = true
    · rw [if_pos hi]
      refine ⟨fun x hx => ?_, fun pre x post hs _ => ?_⟩
      · rw [List.mem_singleton.1 hx]
        rfl
      · cases pre with
        | nil =>
          simp only [Outcome.seg_done, List.nil_append, List.cons.injEq] at hs
          exact ⟨hs.2.symm, hi⟩
        | cons y p =>
          simp only [Outcome.seg_done, List.cons_append, List.cons.injEq] at hs
          cases p <;> cases hs.2
    · rw [if_neg hi]
      exact start_only_last_nil _

theorem start_only_last_ite {b : Bool} {α : Type} (c : Prop) [Decidable c] {f g : Prog α}
    (hf : ∀ h, start_only_last b (f h).seg) (hg : ∀ h, start_only_last b (g h).seg) (h : Trace) :
    start_only_last b ((if c then f else g) h).seg := by
  split
  · exact hf h
  · exact hg h

theorem start_only_last_pure {b : Bool} {α : Type} (a : α) (h : Trace) :
    start_only_last b ((pure a : Prog α) h).seg :=
  start_only_last_nil b

theorem format7_setup_accounting_start_only_last (D : Device) (camera : dc1394camera_t)
    (channel mode width height bytes_per_packet : Int) (is_iso_on : Bool)
    (capture : dc1394capture_t) (h : Trace) :
    start_only_last is_iso_on (format7_setup_accounting D camera channel mode width height
      bytes_per_packet is_iso_on capture h).seg := by
  revert h
  unfold format7_setup_accounting
  refine start_only_last_bind
    (Prog.emits_quiet (dc1394_query_format7_byte_per_packet_emits _ _ _) (by decide)) ?_
  rintro ⟨err, packet_bytes⟩
  dsimp only
  refine start_only_last_ite _ (start_only_last_pure _) ?_
  refine start_only_last_ite _ (start_only_last_pure _) ?_
  refine start_only_last_ite _ ?_ ?_
  · refine start_only_last_bind
      (Prog.emits_quiet (dc1394_query_format7_packet_per_frame_emits _ _ _ _) (by decide)) ?_
    rintro ⟨err, ppf⟩
    dsimp only
    refine start_only_last_ite _ (start_only_last_pure _) ?_
    exact format7_setup_finish_start_only_last _ _ _ _ _ _
  · refine start_only_last_bind
      (Prog.emits_quiet (dc1394_query_format7_color_coding_id_emits _ _ _) (by decide)) ?_
    rintro ⟨err, color_coding⟩
    dsimp only
    refine start_only_last_ite _ (start_only_last_pure _) ?_
    intro h
    cases format7_frame_bytes width height (sint color_coding) with
    | none => exact start_only_last_nil _
    | some frame_bytes =>
      dsimp only
      cases format7_frame_quadlets frame_bytes bytes_per_packet with
      | none => exact start_only_last_nil _
      | some pq =>
        obtain ⟨pk, qpf⟩ := pq
        exact format7_setup_finish_start_only_last _ _ _ _ _ _ _

/-- The trace of the whole setup: the piece that queries the iso status and stops the
transmission, then a trace without a stop in which a start is the last transaction and is
made only when the piece found the transmission on. -/
theorem format7_setup_seg_split (D : Device) (fuel : Nat) (camera : dc1394camera_t)
    (channel mode speed bytes_per_packet left top width height : Int)
    (capture : dc1394capture_t) (h : Trace) :
    ∃ T, (_dc1394_basic_format7_setup D fuel camera channel mode speed bytes_per_packet left
        top width height capture h).seg = (format7_setup_stop_iso D h).seg ++ T ∧
      ((∃ a s, format7_setup_stop_iso D h = .done (.ok a) s ∧ start_only_last a T) ∨
        ((∀ a s, format7_setup_stop_iso D h ≠ .done (.ok a) s) ∧ T = [])) := by
  unfold _dc1394_basic_format7_setup
  rw [Prog.orReturn_seg]
  refine ⟨_, rfl, ?_⟩
  cases hst : format7_setup_stop_iso D h with
  | done r s =>
    cases r with
    | ok a =>
      refine Or.inl ⟨a, s, rfl, ?_⟩
      show start_only_last a (Outcome.seg _)
      refine start_only_last_orReturn (format7_setup_channel_and_mode_quiet D _ _ _ _)
        fun _ s2 => ?_
      refine start_only_last_orReturn
        (Prog.emits_quiet (format7_setup_query_bpp_emits D _ _) (by decide) _) fun _ s3 => ?_
      refine start_only_last_orReturn
        (Prog.emits_quiet (format7_setup_image_position_emits D fuel camera _ _ _) (by decide) _)
        fun _ s4 => ?_
      refine start_only_last_orReturn
        (Prog.emits_quiet (format7_setup_query_size_emits D _ _ _) (by decide) _) fun _ s5 => ?_
      refine start_only_last_orReturn
        (Prog.emits_quiet (format7_setup_max_size_emits D _ _ _ _ _) (by decide) _)
        fun _ s6 => ?_
      refine start_only_last_orReturn
        (Prog.emits_quiet (format7_setup_commit_size_emits D fuel camera _ _ _) (by decide) _)
        fun _ s7 => ?_
      refine start_only_last_orReturn
        (Prog.emits_quiet (format7_setup_packet_size_emits D fuel camera _ _) (by decide) _)
        fun _ s8 => ?_
      exact format7_setup_accounting_start_only_last _ _ _ _ _ _ _ _ _ _
    | error e => exact Or.inr ⟨fun a s hne => (by cases hne), rfl⟩
  | spin s => exact Or.inr ⟨fun a s hne => (by cases hne), rfl⟩
  | undef s => exact Or.inr ⟨fun a s hne => (by cases hne), rfl⟩

-- The sign of the resolved position and size.

theorem resolved_position_nonneg (request : Int) (field : Nat) (hf : field < 65536)
    (h : 0 ≤ request ∨ request = QUERY_FROM_CAMERA) :
    0 ≤ (if request = QUERY_FROM_CAMERA then sint field else request) := by
  by_cases hq : request = QUERY_FROM_CAMERA
  · rw [if_pos hq, sint_of_lt (by omega)]
    omega
  · rw [if_neg hq]
    rcases h with h | h
    · exact h
    · exact absurd h hq

theorem resolved_size_nonneg (request : Int) (current maximum : Nat) (p : Int) {w0 w : Int}
    (hc : current < 65536) (hm : maximum < 65536)
    (hreq : 0 ≤ request ∨ request = QUERY_FROM_CAMERA ∨ request = USE_MAX_AVAIL)
    (hp : 0 ≤ p)
    (hw0 : w0 = (if request = QUERY_FROM_CAMERA then
        if current > 0 then sint current else USE_MAX_AVAIL
      else request))
    (hw : w = (if w0 = USE_MAX_AVAIL then sint (uint ((maximum : Int) - p)) else w0))
    (hle : w0 = USE_MAX_AVAIL → p ≤ maximum) : 0 ≤ w := by
  by_cases hmax : w0 = USE_MAX_AVAIL
  · rw [hw, if_pos hmax]
    have h1 := hle hmax
    rw [sint_uint_of_fits (by simp only [int_fits, decide_eq_true_eq]; omega)]
    omega
  · rw [hw, if_neg hmax]
    rw [hw0] at hmax ⊢
    by_cases hq : request = QUERY_FROM_CAMERA
    · rw [if_pos hq] at hmax ⊢
      by_cases hcur : current > 0
      · rw [if_pos hcur, sint_of_lt (by omega)]
        omega
      · rw [if_neg hcur] at hmax
        exact absurd rfl hmax
    · rw [if_neg hq] at hmax ⊢
      rcases hreq with h | h | h
      · exact h
      · exact absurd h hq
      · exact absurd h hmax

-- The remaining queries: what each does, and the check of the mode.

theorem dc1394_query_format7_pixel_number_run (D : Device) (mode : Nat) (a : Nat) (h : Trace) :
    dc1394_query_format7_pixel_number D mode a h =
      query_outcome D mode Format7Reg.PIXEL_NUMBER_INQ a (fun value => value) h := by
  unfold dc1394_query_format7_pixel_number query_outcome
  simp only [Prog.ite_apply, Prog.bind_apply, Prog.pure_apply,
    GetCameraFormat7Register_apply, gt_iff_lt, SUCCESS_eq, ERR_CHK_pos_iff']
  split_ifs <;> simp_all

theorem dc1394_query_format7_unit_position_run (D : Device) (camera : dc1394camera_t)
    (mode : Nat) (a b : Nat) (h : Trace) :
    dc1394_query_format7_unit_position D camera mode a b h =
      query_outcome D mode
        (if camera.sw_version ≥ IIDC_VERSION_1_30 then Format7Reg.UNIT_POSITION_INQ
          else Format7Reg.UNIT_SIZE_INQ) (a, b)
        (fun value => ((value &&& 0xFFFF0000) >>> 16, value &&& 0x0000FFFF)) h := by
  unfold dc1394_query_format7_unit_position query_outcome
  by_cases hv : camera.sw_version ≥ IIDC_VERSION_1_30
  · simp only [hv, if_true, Prog.ite_apply, Prog.bind_apply, Prog.pure_apply,
      GetCameraFormat7Register_apply, gt_iff_lt, SUCCESS_eq, ERR_CHK_pos_iff']
    split_ifs <;> simp_all
  · simp only [hv, if_false, Prog.ite_apply, Prog.bind_apply, Prog.pure_apply,
      GetCameraFormat7Register_apply, gt_iff_lt, SUCCESS_eq, ERR_CHK_pos_iff']
    split_ifs <;> simp_all

theorem dc1394_query_format7_frame_interval_run (D : Device) (mode : Nat) (a : ℚ)
    (h : Trace) :
    dc1394_query_format7_frame_interval D mode a h =
      query_outcome D mode Format7Reg.FRAME_INTERVAL_INQ a
        (fun value => ((float_round (value : Int) : Int) : ℚ)) h := by
  unfold dc1394_query_format7_frame_interval query_outcome
  simp only [Prog.ite_apply, Prog.bind_apply, Prog.pure_apply,
    GetCameraFormat7Register_apply, gt_iff_lt, SUCCESS_eq, ERR_CHK_pos_iff']
  split_ifs <;> simp_all

theorem dc1394_query_format7_data_depth_run (D : Device) (mode : Nat) (a : Nat) (h : Trace) :
    dc1394_query_format7_data_depth D mode a h =
      query_outcome D mode Format7Reg.DATA_DEPTH_INQ a (fun value => value >>> 24) h := by
  unfold dc1394_query_format7_data_depth query_outcome
  simp only [Prog.ite_apply, Prog.bind_apply, Prog.pure_apply,
    GetCameraFormat7Register_apply, gt_iff_lt, SUCCESS_eq, ERR_CHK_pos_iff']
  split_ifs <;> simp_all

theorem dc1394_query_format7_color_filter_id_run (D : Device) (mode : Nat) (a : Nat)
    (h : Trace) :
    dc1394_query_format7_color_filter_id D mode a h =
      query_outcome D mode Format7Reg.COLOR_FILTER_ID a
        (fun value => quadlet (value >>> 24 + COLOR_FORMAT7_MIN)) h := by
  unfold dc1394_query_format7_color_filter_id query_outcome
  simp only [Prog.ite_apply, Prog.bind_apply, Prog.pure_apply,
    GetCameraFormat7Register_apply, gt_iff_lt, SUCCESS_eq, ERR_CHK_pos_iff']
  split_ifs <;> simp_all

/-- The query that hands its out-pointer to the register read. -/
theorem dc1394_query_format7_color_coding_run (D : Device) (mode : Nat) (a : Nat)
    (h : Trace) :
    dc1394_query_format7_color_coding D mode a h =
      if mode > MODE_FORMAT7_MAX ∨ mode < MODE_FORMAT7_MIN then
        .done (DC1394_FAILURE, a) []
      else
        .done (DC1394_ERR_CHK (D.read_err h mode Format7Reg.COLOR_CODING_INQ),
            D.read_value h mode Format7Reg.COLOR_CODING_INQ)
          [Event.get mode Format7Reg.COLOR_CODING_INQ
            (D.read_value h mode Format7Reg.COLOR_CODING_INQ)
            (D.read_err h mode Format7Reg.COLOR_CODING_INQ)] := by
  unfold dc1394_query_format7_color_coding
  simp only [Prog.ite_apply, Prog.bind_apply, Prog.pure_apply,
    GetCameraFormat7Register_apply, gt_iff_lt, SUCCESS_eq, ERR_CHK_pos_iff']
  split_ifs <;> simp_all

/-- The two reads of `dc1394_query_format7_total_bytes`. -/
theorem dc1394_query_format7_total_bytes_run (D : Device) (mode : Nat) (a : Nat) (h : Trace) :
    dc1394_query_format7_total_bytes D mode a h =
      if mode > MODE_FORMAT7_MAX ∨ mode < MODE_FORMAT7_MIN then
        .done (DC1394_FAILURE, a) []
      else if D.read_err h mode Format7Reg.TOTAL_BYTES_HI_INQ = 0 then
        if D.read_err (h ++ [Event.get mode Format7Reg.TOTAL_BYTES_HI_INQ
            (D.read_value h mode Format7Reg.TOTAL_BYTES_HI_INQ) 0]) mode
            Format7Reg.TOTAL_BYTES_LO_INQ = 0 then
          .done (0,
              D.read_value (h ++ [Event.get mode Format7Reg.TOTAL_BYTES_HI_INQ
                (D.read_value h mode Format7Reg.TOTAL_BYTES_HI_INQ) 0]) mode
                Format7Reg.TOTAL_BYTES_LO_INQ |||
              ((D.read_value h mode Format7Reg.TOTAL_BYTES_HI_INQ <<< 32) %
                18446744073709551616))
            [Event.get mode Format7Reg.TOTAL_BYTES_HI_INQ
                (D.read_value h mode Format7Reg.TOTAL_BYTES_HI_INQ) 0,
              Event.get mode Format7Reg.TOTAL_BYTES_LO_INQ
                (D.read_value (h ++ [Event.get mode Format7Reg.TOTAL_BYTES_HI_INQ
                  (D.read_value h mode Format7Reg.TOTAL_BYTES_HI_INQ) 0]) mode
                  Format7Reg.TOTAL_BYTES_LO_INQ) 0]
        else
          .done (DC1394_ERR_CHK (D.read_err (h ++ [Event.get mode
                Format7Reg.TOTAL_BYTES_HI_INQ
                (D.read_value h mode Format7Reg.TOTAL_BYTES_HI_INQ) 0]) mode
                Format7Reg.TOTAL_BYTES_LO_INQ), a)
            [Event.get mode Format7Reg.TOTAL_BYTES_HI_INQ
                (D.read_value h mode Format7Reg.TOTAL_BYTES_HI_INQ) 0,
              Event.get mode Format7Reg.TOTAL_BYTES_LO_INQ
                (D.read_value (h ++ [Event.get mode Format7Reg.TOTAL_BYTES_HI_INQ
                  (D.read_value h mode Format7Reg.TOTAL_BYTES_HI_INQ) 0]) mode
                  Format7Reg.TOTAL_BYTES_LO_INQ)
                (D.read_err (h ++ [Event.get mode Format7Reg.TOTAL_BYTES_HI_INQ
                  (D.read_value h mode Format7Reg.TOTAL_BYTES_HI_INQ) 0]) mode
                  Format7Reg.TOTAL_BYTES_LO_INQ)]
      else
        .done (DC1394_ERR_CHK (D.read_err h mode Format7Reg.TOTAL_BYTES_HI_INQ), a)
          [Event.get mode Format7Reg.TOTAL_BYTES_HI_INQ
            (D.read_value h mode Format7Reg.TOTAL_BYTES_HI_INQ)
            (D.read_err h mode Format7Reg.TOTAL_BYTES_HI_INQ)] := by
  unfold dc1394_query_format7_total_bytes
  simp only [Prog.ite_apply, Prog.bind_apply, Prog.pure_apply,
    GetCameraFormat7Register_apply, gt_iff_lt, SUCCESS_eq, ERR_CHK_pos_iff']
  by_cases h0 : mode > MODE_FORMAT7_MAX ∨ mode < MODE_FORMAT7_MIN
  · simp [h0]
  · by_cases h1 : D.read_err h mode Format7Reg.TOTAL_BYTES_HI_INQ = 0
    · by_cases h2 : D.read_err (h ++ [Event.get mode Format7Reg.TOTAL_BYTES_HI_INQ
          (D.read_value h mode Format7Reg.TOTAL_BYTES_HI_INQ) 0]) mode
          Format7Reg.TOTAL_BYTES_LO_INQ = 0
      · simp [h0, h1, h2]
      · simp [h0, h1, h2]
    · simp [h0, h1]

theorem query_outcome_mode_checked {α : Type} (D : Device) (mode : Nat) (reg : Format7Reg)
    (old : α) (decode : Nat → α) (h : Trace) :
    mode_checked D mode reg h (query_outcome D mode reg old decode h) := by
  unfold mode_checked query_outcome
  refine ⟨fun hm => ⟨old, by rw [if_pos hm]⟩, fun hm => ?_⟩
  rw [if_neg hm]
  by_cases he : D.read_err h mode reg = 0
  · rw [if_pos he, he]
    exact ⟨0, _, rfl, by simp⟩
  · rw [if_neg he]
    exact ⟨_, _, rfl, by simp [he]⟩

-- `dc1394_setup_format7_capture`, and the negotiation with the packet size of the camera.

/-- After a successful negotiation the function asks for one buffer of
`quadlets_per_frame * 4` bytes. -/
theorem dc1394_setup_format7_capture_success (D : Device) (malloc : Nat → Option Nat)
    (fuel : Nat) (camera : dc1394camera_t) (channel mode speed bytes_per_packet : Int)
    (left top width height : Nat) (capture : dc1394capture_t) (capture_buffer : Option Nat)
    (h : Trace) {cap : dc1394capture_t} {s : Trace}
    (hs : _dc1394_basic_format7_setup D fuel camera channel mode speed bytes_per_packet
      (sint left) (sint top) (sint width) (sint height) capture h =
        .done (DC1394_SUCCESS, cap) s) :
    dc1394_setup_format7_capture D malloc fuel camera channel mode speed bytes_per_packet left
        top width height capture capture_buffer h =
      .done
        (match malloc (quadlet (cap.quadlets_per_frame * 4)) with
          | none =>
            { err := DC1394_FAILURE, capture := cap,
              requested := [quadlet (cap.quadlets_per_frame * 4)], capture_buffer := none }
          | some address =>
            { err := DC1394_SUCCESS, capture := cap,
              requested := [quadlet (cap.quadlets_per_frame * 4)],
              capture_buffer := some address }) s := by
  unfold dc1394_setup_format7_capture
  rw [Prog.bind_apply, hs]
  have h0 : ¬ DC1394_ERR_CHK DC1394_SUCCESS > DC1394_SUCCESS := by decide
  have h1 : DC1394_ERR_CHK DC1394_SUCCESS = DC1394_SUCCESS := by decide
  have h2 : ¬ DC1394_SUCCESS > DC1394_SUCCESS := by decide
  simp only [h0, h1, h2, if_false]
  cases hm : malloc (quadlet (cap.quadlets_per_frame * 4)) <;>
    simp [Outcome.after]

/-- After a failed negotiation the function returns without asking for memory. -/
theorem dc1394_setup_format7_capture_failure (D : Device) (malloc : Nat → Option Nat)
    (fuel : Nat) (camera : dc1394camera_t) (channel mode speed bytes_per_packet : Int)
    (left top width height : Nat) (capture : dc1394capture_t) (capture_buffer : Option Nat)
    (h : Trace) {err : Int} {cap : dc1394capture_t} {s : Trace}
    (hs : _dc1394_basic_format7_setup D fuel camera channel mode speed bytes_per_packet
      (sint left) (sint top) (sint width) (sint height) capture h = .done (err, cap) s)
    (herr : DC1394_ERR_CHK err > DC1394_SUCCESS) :
    dc1394_setup_format7_capture D malloc fuel camera channel mode speed bytes_per_packet left
        top width height capture capture_buffer h =
      .done { err := DC1394_ERR_CHK err, capture := cap, requested := [],
              capture_buffer := capture_buffer } s := by
  unfold dc1394_setup_format7_capture
  rw [Prog.bind_apply, hs]
  simp only [herr, if_true, Prog.pure_apply, Outcome.after, List.append_nil]

-- The scan of `dc1394_iso_allocate_channel`.

/-- The first hit of a scan over `0, 1, ..., n - 1` is the lowest number that qualifies. -/
theorem range_find_some {p : Nat → Bool} {n c : Nat}
    (h : (List.range n).find? p = some c) :
    c < n ∧ p c = true ∧ ∀ c', c' < c → p c' = false := by
  induction n with
  | zero => simp at h
  | succ n ih =>
    rw [List.range_succ, List.find?_append] at h
    cases hf : (List.range n).find? p with
    | some a =>
      rw [hf] at h
      simp only [Option.or_some, Option.some.injEq] at h
      subst h
      obtain ⟨h1, h2, h3⟩ := ih hf
      exact ⟨by omega, h2, h3⟩
    | none =>
      rw [hf] at h
      simp only [Option.none_or] at h
      have hnone := List.find?_eq_none.1 hf
      by_cases hp : p n = true
      · simp only [List.find?_cons, hp, Option.some.injEq] at h
        subst h
        refine ⟨by omega, hp, fun c' hc' => ?_⟩
        have := hnone c' (List.mem_range.2 hc')
        simpa using this
      · simp [List.find?_cons, hp] at h

/-- The scan over `0, 1, ..., n - 1` finds nothing exactly when no number qualifies. -/
theorem range_find_none {p : Nat → Bool} {n : Nat} :
    (List.range n).find? p = none ↔ ∀ c, c < n → p c = false := by
  rw [List.find?_eq_none]
  constructor
  · intro h c hc
    have := h c (List.mem_range.2 hc)
    simpa using this
  · intro h c hc
    rw [h c (List.mem_range.1 hc)]
    simp

-- The poll loop of the handshake, and the value-setting feature reported absent.

theorem poll_events_cons (mode : Nat) (p : Nat) (ps : List Nat) :
    poll_events mode (p :: ps) =
      Event.get mode Format7Reg.VALUE_SETTING p 0 :: poll_events mode ps := rfl

/-- The loop leaves at the first poll whose pending bit is clear. -/
theorem v130_handshake_loop_polls (D : Device) (camera : dc1394camera_t) (mode : Int)
    (hv : IIDC_VERSION_1_30 ≤ camera.sw_version)
    (hmode : ¬ (uint mode > MODE_FORMAT7_MAX ∨ uint mode < MODE_FORMAT7_MIN)) :
    ∀ (ps : List Nat) (final : Nat) (fuel : Nat) (vs : ValueSetting) (h : Trace),
      polls_until D (uint mode) h ps final → ps.length < fuel →
      v130_handshake_loop D camera mode fuel vs h =
        .done (.ok (0, value_setting_fields final)) (poll_events (uint mode) (ps ++ [final]))
    := by
  intro ps
  induction ps with
  | nil =>
    intro final fuel vs h hp hf
    obtain ⟨n, rfl⟩ : ∃ n, fuel = n + 1 := ⟨fuel - 1, by simp at hf; omega⟩
    obtain ⟨h1, h2, h3⟩ := hp
    rw [v130_handshake_loop_succ D camera mode hv, if_neg hmode, if_pos h1, h2,
      if_neg (by rw [h3]; simp)]
    rfl
  | cons p ps ih =>
    intro final fuel vs h hp hf
    obtain ⟨n, rfl⟩ : ∃ n, fuel = n + 1 := ⟨fuel - 1, by simp at hf; omega⟩
    obtain ⟨h1, h2, h3, h4⟩ := hp
    rw [v130_handshake_loop_succ D camera mode hv, if_neg hmode, if_pos h1, h2, if_pos h3,
      ih final n _ _ h4 (by simp at hf; omega), Outcome.after_done]
    rfl

/-- The handshake on a camera that reports the feature present and accepts the write of the
pending bit: one read, one write, then the polls up to the first one whose pending bit is
clear; error flag 1 of that poll decides the result. -/
theorem _dc1394_v130_handshake_polls (D : Device) (fuel : Nat) (camera : dc1394camera_t)
    (mode : Int) (h : Trace) (first : Nat) (ps : List Nat) (final : Nat)
    (hv : IIDC_VERSION_1_30 ≤ camera.sw_version)
    (hmode : ¬ (uint mode > MODE_FORMAT7_MAX ∨ uint mode < MODE_FORMAT7_MIN))
    (herr : D.read_err h (uint mode) Format7Reg.VALUE_SETTING = 0)
    (hfirst : D.read_value h (uint mode) Format7Reg.VALUE_SETTING = first)
    (hpresent : first.testBit 31 = true)
    (hset : D.SetCameraFormat7Register
      (h ++ [Event.get (uint mode) Format7Reg.VALUE_SETTING first 0]) (uint mode)
      Format7Reg.VALUE_SETTING 0x40000000 = 0)
    (hpolls : polls_until D (uint mode)
      (h ++ [Event.get (uint mode) Format7Reg.VALUE_SETTING first 0,
        Event.set (uint mode) Format7Reg.VALUE_SETTING 0x40000000 0]) ps final)
    (hfuel : ps.length < fuel) :
    _dc1394_v130_handshake D fuel camera mode h =
      .done (if final.testBit 23 = true then DC1394_FAILURE else DC1394_SUCCESS)
        (Event.get (uint mode) Format7Reg.VALUE_SETTING first 0 ::
          Event.set (uint mode) Format7Reg.VALUE_SETTING 0x40000000 0 ::
            poll_events (uint mode) (ps ++ [final])) := by
  rw [_dc1394_v130_handshake_run D fuel camera mode h hv, if_neg hmode, if_pos herr, hfirst,
    if_pos hpresent, if_pos hset,
    v130_handshake_loop_polls D camera mode hv hmode ps final fuel _ _ hpolls hfuel]
  by_cases hb : final.testBit 23 = true
  · rw [if_pos hb, handshake_verdict_rejected _ _ _
      (by rw [value_setting_fields_eq]; simp [hb])]
    rfl
  · rw [if_neg hb, handshake_verdict_accepted _ _ _
      (by rw [value_setting_fields_eq]; simp [hb])]
    rfl

theorem _dc1394_v130_errflag2_run (D : Device) (camera : dc1394camera_t) (mode : Int)
    (h : Trace) (hv : IIDC_VERSION_1_30 ≤ camera.sw_version) :
    _dc1394_v130_errflag2 D camera mode h =
      if uint mode > MODE_FORMAT7_MAX ∨ uint mode < MODE_FORMAT7_MIN then
        .done DC1394_FAILURE []
      else if D.read_err h (uint mode) Format7Reg.VALUE_SETTING = 0 then
        .done
          (if (D.read_value h (uint mode) Format7Reg.VALUE_SETTING).testBit 31 = true ∧
              (D.read_value h (uint mode) Format7Reg.VALUE_SETTING).testBit 22 = true then
            DC1394_FAILURE else DC1394_SUCCESS)
          [Event.get (uint mode) Format7Reg.VALUE_SETTING
            (D.read_value h (uint mode) Format7Reg.VALUE_SETTING) 0]
      else
        .done (DC1394_ERR_CHK (D.read_err h (uint mode) Format7Reg.VALUE_SETTING))
          [Event.get (uint mode) Format7Reg.VALUE_SETTING
            (D.read_value h (uint mode) Format7Reg.VALUE_SETTING)
            (D.read_err h (uint mode) Format7Reg.VALUE_SETTING)] := by
  have hv' : camera.sw_version ≥ IIDC_VERSION_1_30 := hv
  unfold _dc1394_v130_errflag2
  simp only [hv', if_true, Prog.bind_apply, Prog.ite_apply, Prog.pure_apply,
    dc1394_query_format7_value_setting_run D camera _ _ _ hv, query_outcome]
  by_cases h1 : uint mode > MODE_FORMAT7_MAX ∨ uint mode < MODE_FORMAT7_MIN
  · simp [h1]
  · by_cases h2 : D.read_err h (uint mode) Format7Reg.VALUE_SETTING = 0
    · simp only [h1, h2, if_false, if_true, value_setting_fields_eq, ERR_CHK_zero, gt_iff_lt,
        SUCCESS_eq, lt_self_iff_false, Outcome.after_done, List.append_nil]
      cases h31 : (D.read_value h (uint mode) Format7Reg.VALUE_SETTING).testBit 31 <;>
        cases h22 : (D.read_value h (uint mode) Format7Reg.VALUE_SETTING).testBit 22 <;>
        rfl
    · have hpos : DC1394_ERR_CHK (D.read_err h (uint mode) Format7Reg.VALUE_SETTING) >
          DC1394_SUCCESS := (ERR_CHK_pos_iff _).2 h2
      simp only [h1, h2, if_false, ERR_CHK_idem, hpos, if_true, Outcome.after_done,
        List.append_nil]

theorem poll_events_countP_isWrite (mode : Nat) (values : List Nat) :
    (poll_events mode values).countP (fun e => e.isWrite Format7Reg.VALUE_SETTING) = 0 := by
  induction values with
  | nil => rfl
  | cons v vs ih =>
    rw [poll_events_cons, List.countP_cons_of_neg _ _ (by simp [Event.isWrite])]
    exact ih

theorem poll_events_length (mode : Nat) (values : List Nat) :
    (poll_events mode values).length = values.length := by
  simp [poll_events]

-- Branches of `_dc1394_basic_format7_setup` that no run takes.

/-- A continuation matters only at the values that the step hands over. -/
theorem Prog.orReturn_congr {α : Type} {m : Prog (Except Int α)} {capture : dc1394capture_t}
    {k k' : α → Prog (Int × dc1394capture_t)} {h : Trace}
    (hk : ∀ a s, m h = .done (.ok a) s → k a (h ++ s) = k' a (h ++ s)) :
    (m.orReturn capture k) h = (m.orReturn capture k') h := by
  rw [Prog.orReturn_apply, Prog.orReturn_apply]
  cases hm : m h with
  | done r s =>
    cases r with
    | ok a => simp only [hk a s hm]
    | error e => rfl
  | spin s => rfl
  | undef s => rfl

/-- The request that the first step hands over is never `QUERY_FROM_CAMERA`. -/
theorem format7_setup_query_bpp_ne_query (D : Device) (mode bytes_per_packet : Int) (h : Trace)
    {request : Int} {s : Trace}
    (hq : format7_setup_query_bpp D mode bytes_per_packet h = .done (.ok request) s) :
    request ≠ QUERY_FROM_CAMERA ∧
    (bytes_per_packet = QUERY_FROM_CAMERA → 0 ≤ request ∧ request < 65536) := by
  obtain ⟨ha, hb⟩ := format7_setup_query_bpp_ok D mode bytes_per_packet h hq
  have hcase : bytes_per_packet = QUERY_FROM_CAMERA → 0 ≤ request ∧ request < 65536 := by
    intro hc
    obtain ⟨cur, -, hr⟩ := hb hc
    have := high_field_lt cur
    rw [hr, sint_of_lt (by omega)]
    omega
  refine ⟨?_, hcase⟩
  by_cases hc : bytes_per_packet = QUERY_FROM_CAMERA
  · have := hcase hc
    unfold QUERY_FROM_CAMERA
    omega
  · rw [ha hc]
    exact hc

/-- With a maximum that is not 0 and a unit that does not exceed it, the switch makes no
division by zero and its result is not 0. -/
theorem format7_packet_size_switch_nonzero (request : Int) (recom_bpp unit_bytes max_bytes : Nat)
    (hrecom : recom_bpp < 65536) (hmax : max_bytes < 65536) (hpos : 0 < max_bytes)
    (hle : unit_bytes ≤ max_bytes) :
    (if unit_bytes = 0 then max_bytes else unit_bytes) ≠ 0 ∧
    ∃ b, format7_packet_size_switch request recom_bpp unit_bytes max_bytes = some b ∧ b ≠ 0 ∧
      (request ≠ QUERY_FROM_CAMERA → 0 < b) := by
  have hu : 0 < (if unit_bytes = 0 then max_bytes else unit_bytes) := by
    split_ifs <;> omega
  refine ⟨by omega, ?_⟩
  by_cases h1 : request = USE_RECOMMENDED
  · rw [h1, format7_packet_size_switch_recommended]
    have hv : (if recom_bpp > 0 then recom_bpp else max_bytes) < 65536 := by
      split_ifs <;> omega
    have hp : 0 < (if recom_bpp > 0 then recom_bpp else max_bytes) := by
      split_ifs <;> omega
    refine ⟨_, rfl, ?_, fun _ => ?_⟩ <;> rw [sint_of_lt (by omega)] <;> omega
  by_cases h2 : request = USE_MAX_AVAIL
  · rw [h2, format7_packet_size_switch_max]
    refine ⟨_, rfl, ?_, fun _ => ?_⟩ <;> rw [sint_of_lt (by omega)] <;> omega
  by_cases h3 : request = QUERY_FROM_CAMERA
  · refine ⟨request, ?_, by rw [h3]; decide, fun hne => absurd h3 hne⟩
    unfold format7_packet_size_switch
    rw [if_neg h1, if_neg h2, if_pos h3]
  rw [format7_packet_size_switch_default request recom_bpp unit_bytes max_bytes h1 h2 h3 hmax
    (by omega) hu]
  generalize hU : (if unit_bytes = 0 then max_bytes else unit_bytes) = U at hu ⊢
  have hUm : U ≤ max_bytes := by rw [← hU]; split_ifs <;> omega
  generalize hc : (if uint request > max_bytes then max_bytes
      else if uint request < U then U else uint request) = c
  have hcU : U ≤ c := by rw [← hc]; split_ifs <;> omega
  have hdiv : 1 ≤ c / U := Nat.div_pos hcU hu
  have hmod := Nat.div_add_mod c U
  have hge : U ≤ c - c % U := by
    have : U * 1 ≤ U * (c / U) := Nat.mul_le_mul_left U hdiv
    omega
  refine ⟨_, rfl, ?_, fun _ => ?_⟩ <;> omega

theorem Outcome.isUndef_after {α : Type} (s : Trace) (o : Outcome α) :
    (o.after s).isUndef = o.isUndef := by
  cases o <;> rfl

theorem v130_handshake_loop_isUndef (D : Device) (camera : dc1394camera_t) (mode : Int)
    (hv : IIDC_VERSION_1_30 ≤ camera.sw_version) :
    ∀ (fuel : Nat) (vs : ValueSetting) (h : Trace),
      (v130_handshake_loop D camera mode fuel vs h).isUndef = false := by
  intro fuel
  induction fuel with
  | zero => intro vs h; rfl
  | succ n ih =>
    intro vs h
    rw [v130_handshake_loop_succ D camera mode hv]
    split_ifs
    · rfl
    · rw [Outcome.isUndef_after]
      exact ih _ _
    · rfl
    · rfl

theorem handshake_verdict_isUndef (o : Outcome (Except Int (Int × ValueSetting))) :
    (handshake_verdict o).isUndef = o.isUndef := by
  cases o with
  | done r s =>
    cases r with
    | error e => rfl
    | ok a =>
      obtain ⟨err, vs⟩ := a
      simp only [handshake_verdict]
      split_ifs <;> rfl
  | spin s => rfl
  | undef s => rfl

/-- The handshake has no undefined behaviour. -/
theorem _dc1394_v130_handshake_isUndef (D : Device) (fuel : Nat) (camera : dc1394camera_t)
    (mode : Int) (h : Trace) : (_dc1394_v130_handshake D fuel camera mode h).isUndef = false := by
  by_cases hv : IIDC_VERSION_1_30 ≤ camera.sw_version
  · rw [_dc1394_v130_handshake_run D fuel camera mode h hv]
    split_ifs
    · rfl
    · rw [Outcome.isUndef_after, handshake_verdict_isUndef]
      exact v130_handshake_loop_isUndef D camera mode hv _ _ _
    · rfl
    · rfl
    · rfl
  · rw [_dc1394_v130_handshake_old D fuel camera mode h (by omega)]
    rfl

theorem commit_outcome_isUndef (D : Device) (fuel : Nat) (camera : dc1394camera_t) (mode : Nat)
    (reg : Format7Reg) (value : Nat) (h : Trace) :
    (commit_outcome D fuel camera mode reg value h).isUndef = false := by
  unfold commit_outcome
  split_ifs
  · have hh := _dc1394_v130_handshake_isUndef D fuel camera (sint mode)
      (h ++ [Event.set mode reg (quadlet value) 0])
    cases ho : _dc1394_v130_handshake D fuel camera (sint mode)
        (h ++ [Event.set mode reg (quadlet value) 0]) with
    | done e s => rfl
    | spin s => rfl
    | undef s => rw [ho] at hh; cases hh
  · rfl

theorem commit_verdict_isUndef {α : Type} (a : α) (o : Outcome Int) :
    (commit_verdict a o).isUndef = o.isUndef := by
  cases o with
  | done e s =>
    simp only [commit_verdict]
    split_ifs <;> rfl
  | spin s => rfl
  | undef s => rfl

/-- On a camera whose packet parameters have a maximum that is not 0 and a unit that does
not exceed it, the step that resolves the packet size has no undefined behaviour, and the
packet size it hands over is not 0. -/
theorem format7_setup_packet_size_nonzero (D : Device) (fuel : Nat) (camera : dc1394camera_t)
    (mode request : Int) (h : Trace)
    (hpara : ∀ h', 0 < D.read_value h' (uint mode) Format7Reg.PACKET_PARA_INQ &&& 0x0000FFFF ∧
      (D.read_value h' (uint mode) Format7Reg.PACKET_PARA_INQ &&& 0xFFFF0000) >>> 16 ≤
        D.read_value h' (uint mode) Format7Reg.PACKET_PARA_INQ &&& 0x0000FFFF) :
    (format7_setup_packet_size D fuel camera mode request h).isUndef = false ∧
    ∀ b s, format7_setup_packet_size D fuel camera mode request h = .done (.ok b) s → b ≠ 0 := by
  refine ⟨?_, ?_⟩
  · rw [format7_setup_packet_size_run]
    split_ifs with h1 h2 h3
    · rfl
    · obtain ⟨hp, hl⟩ := hpara (h ++ [Event.get (uint mode) Format7Reg.BYTE_PER_PACKET
        (D.read_value h (uint mode) Format7Reg.BYTE_PER_PACKET) 0])
      obtain ⟨-, b, hb, -, -⟩ := format7_packet_size_switch_nonzero request
        (D.read_value h (uint mode) Format7Reg.BYTE_PER_PACKET &&& 0x0000FFFF) _ _
        (low_field_lt _) (low_field_lt _) hp hl
      rw [hb]
      simp only [Outcome.isUndef_after, commit_verdict_isUndef, commit_outcome_isUndef]
    · rfl
    · rfl
  · intro b s hs
    obtain ⟨recom, para, rest, hseg, hsw, -, -⟩ :=
      format7_setup_packet_size_ok D fuel camera mode request h hs
    rw [format7_setup_packet_size_run] at hs
    by_cases h1 : uint mode > MODE_FORMAT7_MAX ∨ uint mode < MODE_FORMAT7_MIN
    · rw [if_pos h1] at hs
      simp at hs
    rw [if_neg h1] at hs
    by_cases h2 : D.read_err h (uint mode) Format7Reg.BYTE_PER_PACKET = 0
    swap
    · rw [if_neg h2] at hs
      simp at hs
    rw [if_pos h2] at hs
    by_cases h3 : D.read_err (h ++ [Event.get (uint mode) Format7Reg.BYTE_PER_PACKET
        (D.read_value h (uint mode) Format7Reg.BYTE_PER_PACKET) 0])
        (uint mode) Format7Reg.PACKET_PARA_INQ = 0
    swap
    · rw [if_neg h3] at hs
      simp at hs
    rw [if_pos h3] at hs
    obtain ⟨hp, hl⟩ := hpara (h ++ [Event.get (uint mode) Format7Reg.BYTE_PER_PACKET
      (D.read_value h (uint mode) Format7Reg.BYTE_PER_PACKET) 0])
    obtain ⟨-, b', hb', hne, -⟩ := format7_packet_size_switch_nonzero request
      (D.read_value h (uint mode) Format7Reg.BYTE_PER_PACKET &&& 0x0000FFFF) _ _
      (low_field_lt _) (low_field_lt _) hp hl
    rw [hb'] at hs
    obtain ⟨t, ht, -⟩ := Outcome.after_eq_done hs
    have hbb : b = b' := by
      cases hc : commit_outcome D fuel camera (uint mode) Format7Reg.BYTE_PER_PACKET
          (quadlet (uint b' <<< 16))
          (h ++ [Event.get (uint mode) Format7Reg.BYTE_PER_PACKET
              (D.read_value h (uint mode) Format7Reg.BYTE_PER_PACKET) 0,
            Event.get (uint mode) Format7Reg.PACKET_PARA_INQ
              (D.read_value (h ++ [Event.get (uint mode) Format7Reg.BYTE_PER_PACKET
                (D.read_value h (uint mode) Format7Reg.BYTE_PER_PACKET) 0])
                (uint mode) Format7Reg.PACKET_PARA_INQ) 0]) with
      | done e u =>
        rw [hc] at ht
        simp only [commit_verdict] at ht
        split_ifs at ht
        · cases ht
        · simp only [Outcome.done.injEq, Except.ok.injEq] at ht
          exact ht.1.symm
      | spin u => rw [hc] at ht; cases ht
      | undef u => rw [hc] at ht; cases ht
    rw [hbb]
    exact hne

-- Registers that store what is written, and the layout of two 16-bit fields.

theorem pack_fields_eq_add (upper : Nat) {lower : Nat} (hl : lower < 65536) :
    upper <<< 16 ||| lower = 65536 * upper + lower := by
  rw [Nat.shiftLeft_eq, Nat.mul_comm,
    Nat.mul_add_lt_is_or (show lower < 2 ^ 16 by omega) upper]

theorem pack_fields_lt {upper lower : Nat} (hu : upper < 65536) (hl : lower < 65536) :
    upper <<< 16 ||| lower < 4294967296 := by
  rw [pack_fields_eq_add upper hl]
  omega

theorem pack_fields_quadlet {upper lower : Nat} (hu : upper < 65536) (hl : lower < 65536) :
    quadlet (quadlet (upper <<< 16) ||| lower) = upper <<< 16 ||| lower := by
  have h1 : quadlet (upper <<< 16) = upper <<< 16 := by
    unfold quadlet
    rw [Nat.shiftLeft_eq]
    omega
  rw [h1]
  exact quadlet_of_lt (pack_fields_lt hu hl)

theorem pack_fields_upper {upper lower : Nat} (hu : upper < 65536) (hl : lower < 65536) :
    ((upper <<< 16 ||| lower) &&& 0xFFFF0000) >>> 16 = upper := by
  rw [high_field_eq_shiftRight (pack_fields_lt hu hl), pack_fields_eq_add upper hl,
    Nat.shiftRight_eq_div_pow]
  omega

theorem pack_fields_lower {upper lower : Nat} (hl : lower < 65536) :
    (upper <<< 16 ||| lower) &&& 0x0000FFFF = lower := by
  rw [pack_fields_eq_add upper hl,
    show (0x0000FFFF : Nat) = 2 ^ 16 - 1 by norm_num, Nat.and_pow_two_sub_one_eq_mod]
  omega

theorem Event.isWrite_eq_false_of_isValueSetting {x : Event} {reg : Format7Reg}
    (hreg : reg ≠ Format7Reg.VALUE_SETTING) (hx : x.isValueSetting = true) :
    x.isWrite reg = false := by
  cases x with
  | set m r v e =>
    simp only [Event.isValueSetting, Event.isRead, Event.isWrite, Bool.false_or,
      beq_iff_eq] at hx
    simp only [Event.isWrite, beq_eq_false_iff_ne, ne_eq]
    rw [hx]
    exact fun hh => hreg hh.symm
  | _ => rfl

/-- What a committing write leaves in a register that stores the written quadlet. -/
theorem commit_outcome_stored (D : Device) (fuel : Nat) (camera : dc1394camera_t) (mode : Nat)
    (reg : Format7Reg) (value : Nat) (h : Trace) {s : Trace}
    (hreg : reg ≠ Format7Reg.VALUE_SETTING) (hD : D.stores mode reg)
    (ho : commit_outcome D fuel camera mode reg value h = .done 0 s) :
    (∃ rest, s = Event.set mode reg (quadlet value) 0 :: rest) ∧
    D.GetCameraFormat7Register (h ++ s) mode reg = (0, quadlet value) := by
  obtain ⟨rest, hs, hrest, -⟩ := commit_outcome_ok D fuel camera mode reg value h ho
  refine ⟨⟨rest, hs⟩, ?_⟩
  rw [hs]
  exact hD h (quadlet value) rest (Nat.mod_lt _ (by decide))
    (fun x hx => Event.isWrite_eq_false_of_isValueSetting hreg (hrest x hx))

theorem stored_value_append_set (init : Format7Reg → Nat) (mode : Nat) (reg : Format7Reg)
    (h : Trace) (v : Nat) :
    ∀ rest : Trace, (∀ x ∈ rest, x.isWrite reg = false) →
      stored_value init mode reg (h ++ Event.set mode reg v 0 :: rest) = v := by
  intro rest
  induction rest using List.reverseRecOn with
  | nil =>
    intro _
    unfold stored_value
    rw [List.foldl_append]
    simp
  | append_singleton rest x ih =>
    intro hx
    have hrest := ih (fun y hy => hx y (by simp [hy]))
    have hlast := hx x (by simp)
    unfold stored_value at hrest ⊢
    rw [show h ++ Event.set mode reg v 0 :: (rest ++ [x]) =
      (h ++ Event.set mode reg v 0 :: rest) ++ [x] by simp, List.foldl_append, hrest]
    cases x with
    | set m r w e =>
      have hr : ¬ r = reg := by simpa [Event.isWrite] using hlast
      simp [hr]
    | _ => rfl

/-- The example camera stores the written quadlet in every register but the value-setting
register. -/
theorem storing_camera_stores (init : Format7Reg → Nat) (mode : Nat) (reg : Format7Reg)
    (hreg : reg ≠ Format7Reg.VALUE_SETTING) : (storing_camera init).stores mode reg := by
  intro h v rest _ hrest
  show (if reg = Format7Reg.VALUE_SETTING then ((0 : Int), init reg)
    else (0, stored_value init mode reg (h ++ Event.set mode reg v 0 :: rest))) = (0, v)
  rw [if_neg hreg, stored_value_append_set init mode reg h v rest hrest]

-- The packets per frame below version 1.30, and the resolution of a literal packet size.

/-- The two cases of the source give the quotient rounded up. -/
theorem ceil_div_cases (N B : Nat) (hB : 0 < B) :
    (if N % B ≠ 0 then N / B + 1 else N / B) = (N + B - 1) / B := by
  have h1 := Nat.div_add_mod N B
  have h2 := Nat.mod_lt N hB
  by_cases hr : N % B = 0
  · rw [if_neg (by simpa using hr)]
    have e : N + B - 1 = (B - 1) + B * (N / B) := by omega
    rw [e, Nat.add_mul_div_left _ _ hB, Nat.div_eq_of_lt (show B - 1 < B by omega)]
    omega
  · rw [if_pos hr]
    have e : N + B - 1 = (N % B - 1) + B * (N / B + 1) := by rw [Nat.mul_add]; omega
    rw [e, Nat.add_mul_div_left _ _ hB, Nat.div_eq_of_lt (show N % B - 1 < B by omega)]
    omega

/-- The quotient rounded up is the least number of packets that hold the frame. -/
theorem ceil_div_least (N B : Nat) (hB : 0 < B) :
    N ≤ (N + B - 1) / B * B ∧ ∀ n, N ≤ n * B → (N + B - 1) / B ≤ n := by
  refine ⟨(ceil_div_bounds N B hB).1, fun n hn => ?_⟩
  have h := (ceil_div_bounds N B hB).2
  by_contra hlt
  have h3 : (n + 1) * B ≤ (N + B - 1) / B * B := Nat.mul_le_mul_right B (by omega)
  rw [Nat.add_mul] at h3
  omega

/-- Below version 1.30 and with a current packet size of 0, the query fails after the read
of the packet size. -/
theorem dc1394_query_format7_packet_per_frame_old_zero (D : Device) (camera : dc1394camera_t)
    (mode : Nat) (a : Nat) (h : Trace) (vb : Nat)
    (hv : camera.sw_version < IIDC_VERSION_1_30)
    (hmode : MODE_FORMAT7_MIN ≤ mode ∧ mode ≤ MODE_FORMAT7_MAX)
    (hb : D.GetCameraFormat7Register h mode Format7Reg.BYTE_PER_PACKET = (0, vb))
    (hvb : vb < 4294967296) (hz : (vb &&& 0xFFFF0000) >>> 16 = 0) :
    dc1394_query_format7_packet_per_frame D camera mode a h =
      .done (DC1394_FAILURE, a) [Event.get mode Format7Reg.BYTE_PER_PACKET vb 0] := by
  have hv' : ¬ camera.sw_version ≥ IIDC_VERSION_1_30 := by omega
  unfold dc1394_query_format7_packet_per_frame
  simp only [hv', if_false, Prog.bind_apply, dc1394_query_format7_byte_per_packet_run,
    query_outcome_of_get _ _ hmode hb hvb, hz, ERR_CHK_zero, gt_iff_lt, SUCCESS_eq,
    lt_self_iff_false, Prog.ite_apply, Prog.pure_apply, beq_self_eq_true, if_true,
    Outcome.after_done, List.append_nil]

/-- Below version 1.30 and with a current packet size that is not 0, the query reads the two
total-bytes registers and returns the quotient rounded up, as an `unsigned int`. -/
theorem dc1394_query_format7_packet_per_frame_old_ceil (D : Device) (camera : dc1394camera_t)
    (mode : Nat) (a : Nat) (h : Trace) (vb hi lo : Nat)
    (hv : camera.sw_version < IIDC_VERSION_1_30)
    (hmode : MODE_FORMAT7_MIN ≤ mode ∧ mode ≤ MODE_FORMAT7_MAX)
    (hb : D.GetCameraFormat7Register h mode Format7Reg.BYTE_PER_PACKET = (0, vb))
    (hvb : vb < 4294967296) (hnz : (vb &&& 0xFFFF0000) >>> 16 ≠ 0)
    (hhi : D.GetCameraFormat7Register (h ++ [Event.get mode Format7Reg.BYTE_PER_PACKET vb 0])
      mode Format7Reg.TOTAL_BYTES_HI_INQ = (0, hi)) (hhi32 : hi < 4294967296)
    (hlo : D.GetCameraFormat7Register
      (h ++ [Event.get mode Format7Reg.BYTE_PER_PACKET vb 0] ++
        [Event.get mode Format7Reg.TOTAL_BYTES_HI_INQ hi 0])
      mode Format7Reg.TOTAL_BYTES_LO_INQ = (0, lo)) (hlo32 : lo < 4294967296) :
    dc1394_query_format7_packet_per_frame D camera mode a h =
      .done (DC1394_SUCCESS,
          quadlet (((lo ||| hi <<< 32) + (vb &&& 0xFFFF0000) >>> 16 - 1) /
            ((vb &&& 0xFFFF0000) >>> 16)))
        [Event.get mode Format7Reg.BYTE_PER_PACKET vb 0,
          Event.get mode Format7Reg.TOTAL_BYTES_HI_INQ hi 0,
          Event.get mode Format7Reg.TOTAL_BYTES_LO_INQ lo 0] := by
  have hv' : ¬ camera.sw_version ≥ IIDC_VERSION_1_30 := by omega
  obtain ⟨e1, v1⟩ := read_of_get hhi hhi32
  obtain ⟨e2, v2⟩ := read_of_get hlo hlo32
  have hshift : (hi <<< 32) % 18446744073709551616 = hi <<< 32 := by
    rw [Nat.shiftLeft_eq]
    omega
  have hbeq : (((vb &&& 0xFFFF0000) >>> 16 == 0) = true) = False := by
    simp [hnz]
  unfold dc1394_query_format7_packet_per_frame
  simp only [hv', if_false, Prog.bind_apply, dc1394_query_format7_byte_per_packet_run,
    query_outcome_of_get _ _ hmode hb hvb, ERR_CHK_zero, gt_iff_lt, SUCCESS_eq,
    lt_self_iff_false, Prog.ite_apply, Prog.pure_apply, hbeq, if_false,
    dc1394_query_format7_total_bytes_run, if_neg (show ¬ (mode > MODE_FORMAT7_MAX ∨
      mode < MODE_FORMAT7_MIN) by omega), e1, v1, e2, v2, if_true, hshift,
    Outcome.after_done, List.append_nil]
  rw [← ceil_div_cases _ _ (Nat.pos_of_ne_zero hnz)]
  by_cases hr : (lo ||| hi <<< 32) % ((vb &&& 0xFFFF0000) >>> 16) = 0
  · simp [hr]
  · simp [hr]

/-- A literal request between 0 and `INT_MAX`, with a maximum that is not 0 and a unit that
does not exceed it: the request is clamped into `[U, max_bytes]` and rounded down to a
multiple of `U`, where `U` is the unit, or the maximum when the unit is 0. -/
theorem format7_packet_size_switch_literal_closed (request : Int)
    (recom_bpp unit_bytes max_bytes : Nat) (h0 : 0 ≤ request) (h1 : request ≤ 2147483647)
    (hmax : max_bytes < 65536) (hpos : 0 < max_bytes) (hle : unit_bytes ≤ max_bytes) :
    format7_packet_size_switch request recom_bpp unit_bytes max_bytes =
      some ((max (if unit_bytes = 0 then max_bytes else unit_bytes)
          (min request.toNat max_bytes) /
        (if unit_bytes = 0 then max_bytes else unit_bytes) *
        (if unit_bytes = 0 then max_bytes else unit_bytes) : Nat) : Int) := by
  by_cases hu : unit_bytes = 0
  · subst hu
    rw [format7_packet_size_switch_literal_zero_unit request recom_bpp max_bytes h0 h1 hmax hpos,
      if_pos rfl, Nat.max_eq_left (Nat.min_le_right _ _), Nat.div_self hpos, Nat.one_mul]
  · rw [if_neg hu]
    exact format7_packet_size_switch_literal request recom_bpp unit_bytes max_bytes h0 h1 hmax
      (Nat.pos_of_ne_zero hu) hle

/-- Clamping into `[U, M]` and rounding down to a multiple of `U`: the result is a multiple of
`U` in `[U, M]`, it is a fixed point, and the operation is monotone. -/
theorem clamp_round_facts (U M : Nat) (hU : 0 < U) (hUM : U ≤ M) (x y : Nat) (hxy : x ≤ y) :
    U ≤ max U (min x M) / U * U ∧ max U (min x M) / U * U ≤ M ∧
    max U (min (max U (min x M) / U * U) M) / U * U = max U (min x M) / U * U ∧
    max U (min x M) / U * U ≤ max U (min y M) / U * U := by
  have hc : U ≤ max U (min x M) := Nat.le_max_left _ _
  have hcM : max U (min x M) ≤ M := Nat.max_le.2 ⟨hUM, Nat.min_le_right _ _⟩
  have hge : U ≤ max U (min x M) / U * U := by
    have h1 : 1 ≤ max U (min x M) / U := Nat.div_pos hc hU
    calc U = 1 * U := (Nat.one_mul U).symm
      _ ≤ max U (min x M) / U * U := Nat.mul_le_mul_right U h1
  have hle : max U (min x M) / U * U ≤ max U (min x M) := Nat.div_mul_le_self _ _
  refine ⟨hge, le_trans hle hcM, ?_, ?_⟩
  · rw [Nat.min_eq_left (le_trans hle hcM), Nat.max_eq_right hge,
      Nat.mul_div_cancel _ hU]
  · exact Nat.mul_le_mul_right U (Nat.div_le_div_right
      (max_le_max (le_refl U) (min_le_min hxy (le_refl M))))

-- Runs on a camera of version 1.20: a position beyond 16 bits, an unknown color coding.

/-- The setup with the position (4, 65541): the quadlet written is `0x00050005`. -/
theorem unit8_camera_setup_position_overflow :
    _dc1394_basic_format7_setup (scripted_camera unit8_regs false no_write_fault) 1 camera_v120
        0 288 2 1024 4 65541 640 480 stale_capture [] =
      .done (DC1394_SUCCESS,
        { node := 0, channel := 0, frame_rate := 0, frame_width := 640, frame_height := 480,
          quadlets_per_frame := 153600, quadlets_per_packet := 256 })
        [Event.get_iso_status false 0,
          Event.set_iso_channel_and_speed 0 2 0,
          Event.set_video_format FORMAT_SCALABLE_IMAGE_SIZE 0,
          Event.set_video_mode 288 0,
          Event.get 288 Format7Reg.IMAGE_POSITION 0 0,
          Event.set 288 Format7Reg.IMAGE_POSITION 0x00050005 0,
          Event.set 288 Format7Reg.IMAGE_SIZE 0x028001E0 0,
          Event.get 288 Format7Reg.BYTE_PER_PACKET 0x04000400 0,
          Event.get 288 Format7Reg.PACKET_PARA_INQ 0x00041000 0,
          Event.set 288 Format7Reg.BYTE_PER_PACKET 0x04000000 0,
          Event.get 288 Format7Reg.BYTE_PER_PACKET 0x04000400 0,
          Event.get 288 Format7Reg.COLOR_CODING_ID 0x02000000 0] :=
  (scripted_camera_setup_old unit8_regs false 1 camera_v120 0 288 2 1024 4 65541 640 480
    stale_capture [] 1024 614400 600 153600 (by decide) (by decide) (by decide) (by decide)
    (by decide) (by decide) (by decide) (by decide) (by decide)
    (by rw [unit8_color_coding]; exact format7_frame_bytes_vga_yuv422) (by decide)
    (by decide)).trans rfl

/-- The table of `_Format7BytePerPixel` has no entry for the id 575: the default is -1. -/
theorem Format7BytePerPixel_unknown : _Format7BytePerPixel 575 = -1 := by
  norm_num [_Format7BytePerPixel, COLOR_FORMAT7_MONO8, COLOR_FORMAT7_YUV411,
    COLOR_FORMAT7_YUV422, COLOR_FORMAT7_YUV444, COLOR_FORMAT7_RGB8, COLOR_FORMAT7_MONO16,
    COLOR_FORMAT7_RGB16, COLOR_FORMAT7_MONO16S, COLOR_FORMAT7_RGB16S, COLOR_FORMAT7_RAW8,
    COLOR_FORMAT7_RAW16]

/-- 640x480 pixels at -1 bytes per pixel: the frame size is -307200. -/
theorem format7_frame_bytes_vga_unknown : format7_frame_bytes 640 480 575 = some (-307200) := by
  rw [format7_frame_bytes_of_twice 640 480 575 (-2)
    (by rw [Format7BytePerPixel_unknown]; norm_num),
    float_round_small (n := 640 * 480) (by decide),
    float_round_small (n := 640 * 480 * -2) (by decide)]
  decide

/-- The setup of 640x480 pixels at 1024 bytes per packet on the camera with the unknown color
coding: the frame arithmetic gives -299 packets and -76544 quadlets, stored as 4294890752,
and the function returns success. -/
theorem unknown_coding_camera_setup :
    _dc1394_basic_format7_setup (scripted_camera unknown_coding_regs false no_write_fault) 1
        camera_v120 0 288 2 1024 0 0 640 480 stale_capture [] =
      .done (DC1394_SUCCESS,
        { node := 0, channel := 0, frame_rate := 0, frame_width := 640, frame_height := 480,
          quadlets_per_frame := 4294890752, quadlets_per_packet := 256 })
        [Event.get_iso_status false 0,
          Event.set_iso_channel_and_speed 0 2 0,
          Event.set_video_format FORMAT_SCALABLE_IMAGE_SIZE 0,
          Event.set_video_mode 288 0,
          Event.get 288 Format7Reg.IMAGE_POSITION 0 0,
          Event.set 288 Format7Reg.IMAGE_POSITION 0 0,
          Event.set 288 Format7Reg.IMAGE_SIZE 0x028001E0 0,
          Event.get 288 Format7Reg.BYTE_PER_PACKET 0x04000400 0,
          Event.get 288 Format7Reg.PACKET_PARA_INQ 0x00041000 0,
          Event.set 288 Format7Reg.BYTE_PER_PACKET 0x04000000 0,
          Event.get 288 Format7Reg.BYTE_PER_PACKET 0x04000400 0,
          Event.get 288 Format7Reg.COLOR_CODING_ID 0xFF000000 0] :=
  (scripted_camera_setup_old unknown_coding_regs false 1 camera_v120 0 288 2 1024 0 0 640 480
    stale_capture [] 1024 (-307200) (-299) 4294890752 (by decide) (by decide) (by decide)
    (by decide) (by decide) (by decide) (by decide) (by decide) (by decide)
    (by
      rw [show sint (quadlet (quadlet (unknown_coding_regs Format7Reg.COLOR_CODING_ID) >>> 24 +
        COLOR_FORMAT7_MIN)) = 575 from by decide]
      exact format7_frame_bytes_vga_unknown)
    (by decide) (by decide)).trans rfl

/-- A resolved position or size component that is queried from a 16-bit register field, or
given as a literal in [0, 65535], is stored in an unsigned variable without change. -/
theorem resolved_component_fits (x : Int) (f : Nat) (hf : f < 65536)
    (hx : x = QUERY_FROM_CAMERA ∨ (0 ≤ x ∧ x < 65536)) :
    uint (if x = QUERY_FROM_CAMERA then sint f else x) < 65536 ∧
      ((uint (if x = QUERY_FROM_CAMERA then sint f else x) : Nat) : Int) =
        (if x = QUERY_FROM_CAMERA then sint f else x) := by
  by_cases hq : x = QUERY_FROM_CAMERA
  · rw [if_pos hq, sint_of_lt (show f < 2147483648 by omega),
      uint_natCast_of_lt (show f < 4294967296 by omega)]
    exact ⟨hf, rfl⟩
  · rw [if_neg hq]
    rcases hx with hx | ⟨h0, h1⟩
    · exact absurd hx hq
    · rw [uint_of_nonneg h0 (by omega)]
      omega

-- The handshake of version 1.30 and the rejection of a committing write.

/-- C10: on a camera whose protocol version is below 1.30, `_dc1394_v130_handshake` returns
`DC1394_SUCCESS` and makes no transaction with the camera (no register is read, none is
written), for every device, every mode, every earlier history and every bound on the
polling. -/
theorem handshake_is_noop_below_v130 (D : Device) (fuel : Nat) (camera : dc1394camera_t)
    (mode : Int) (h : Trace) (hv : camera.sw_version < IIDC_VERSION_1_30) :
    _dc1394_v130_handshake D fuel camera mode h = .done DC1394_SUCCESS [] :=
  _dc1394_v130_handshake_old D fuel camera mode h hv

/-- Witness of C10: a camera of version 1.20 whose value-setting register would report
error flag 1, with no polling allowed at all. -/
theorem handshake_is_noop_below_v130_witness :
    camera_v120.sw_version < IIDC_VERSION_1_30 ∧
      _dc1394_v130_handshake (fixed_camera flag1_regs) 0 camera_v120 288 [] =
        .done DC1394_SUCCESS [] :=
  ⟨by decide,
    handshake_is_noop_below_v130 (fixed_camera flag1_regs) 0 camera_v120 288 [] (by decide)⟩

/-- C8: on a camera of version 1.30 whose value-setting register reads `0x80800000` (feature
present, nothing pending, error flag 1 set), `_dc1394_v130_handshake` returns the generic
`DC1394_FAILURE` (1), which is not the code `DC1394_FORMAT7_ERROR_FLAG_1` (20) that the
header declares for this protocol violation; `_dc1394_basic_format7_setup` returns the same
generic code. -/
theorem handshake_flag1_returns_generic_failure :
    _dc1394_v130_handshake (fixed_camera flag1_regs) 1 camera_v130 288 [] =
        .done DC1394_FAILURE
          [Event.get 288 Format7Reg.VALUE_SETTING 0x80800000 0,
            Event.set 288 Format7Reg.VALUE_SETTING 0x40000000 0,
            Event.get 288 Format7Reg.VALUE_SETTING 0x80800000 0] ∧
      DC1394_FAILURE ≠ DC1394_FORMAT7_ERROR_FLAG_1 ∧
      ∃ seg, _dc1394_basic_format7_setup (fixed_camera flag1_regs) 1 camera_v130 0 288 2 1024
          0 0 640 480 stale_capture [] = .done (DC1394_FAILURE, stale_capture) seg :=
  ⟨flag1_camera_handshake [], by decide, _, flag1_camera_setup⟩

/-- C9: on a camera of version 1.30 whose value-setting register always reads `0x80400000`
(feature present, nothing pending, error flag 1 clear, error flag 2 set), also after the
commit of the packet size, `_dc1394_basic_format7_setup` returns `DC1394_SUCCESS` and fills
the capture structure: no step of the negotiation looks at error flag 2. -/
theorem setup_succeeds_with_error_flag2 :
    Nat.testBit (flag2_regs Format7Reg.VALUE_SETTING) 22 = true ∧
      _dc1394_basic_format7_setup (fixed_camera flag2_regs) 1 camera_v130 0 288 2 1024 0 0
          640 480 stale_capture [] =
        .done (DC1394_SUCCESS,
          { node := 0, channel := 0, frame_rate := 0, frame_width := 640, frame_height := 480,
            quadlets_per_frame := 153600, quadlets_per_packet := 256 })
          [Event.get_iso_status false 0,
            Event.set_iso_channel_and_speed 0 2 0,
            Event.set_video_format FORMAT_SCALABLE_IMAGE_SIZE 0,
            Event.set_video_mode 288 0,
            Event.get 288 Format7Reg.IMAGE_POSITION 0 0,
            Event.set 288 Format7Reg.IMAGE_POSITION 0 0,
            Event.get 288 Format7Reg.VALUE_SETTING 0x80400000 0,
            Event.set 288 Format7Reg.VALUE_SETTING 0x40000000 0,
            Event.get 288 Format7Reg.VALUE_SETTING 0x80400000 0,
            Event.set 288 Format7Reg.IMAGE_SIZE 0x028001E0 0,
            Event.get 288 Format7Reg.VALUE_SETTING 0x80400000 0,
            Event.set 288 Format7Reg.VALUE_SETTING 0x40000000 0,
            Event.get 288 Format7Reg.VALUE_SETTING 0x80400000 0,
            Event.get 288 Format7Reg.BYTE_PER_PACKET 0x04000400 0,
            Event.get 288 Format7Reg.PACKET_PARA_INQ 0x00041000 0,
            Event.set 288 Format7Reg.BYTE_PER_PACKET 0x04000000 0,
            Event.get 288 Format7Reg.VALUE_SETTING 0x80400000 0,
            Event.set 288 Format7Reg.VALUE_SETTING 0x40000000 0,
            Event.get 288 Format7Reg.VALUE_SETTING 0x80400000 0,
            Event.get 288 Format7Reg.BYTE_PER_PACKET 0x04000400 0,
            Event.get 288 Format7Reg.PACKET_PER_FRAME_INQ 600 0] :=
  ⟨by decide, flag2_camera_setup⟩

-- The resolution of the image position and of the image size.

/-- C6, counterexample: on a camera of version 1.20 the setup called with the literal position
(4, 65541) succeeds and writes the quadlet `0x00050005` to the image-position register:
`(4 << 16) | 65541` has bit 16 of `top` in the field of `left`.  The register pair written
is (5, 5), not the resolved (4, 65541), and it is the quadlet that the position (5, 5)
gives. -/
theorem setup_position_fields_overflow :
    _dc1394_basic_format7_setup (scripted_camera unit8_regs false no_write_fault) 1 camera_v120
        0 288 2 1024 4 65541 640 480 stale_capture [] =
      .done (DC1394_SUCCESS,
        { node := 0, channel := 0, frame_rate := 0, frame_width := 640, frame_height := 480,
          quadlets_per_frame := 153600, quadlets_per_packet := 256 })
        [Event.get_iso_status false 0,
          Event.set_iso_channel_and_speed 0 2 0,
          Event.set_video_format FORMAT_SCALABLE_IMAGE_SIZE 0,
          Event.set_video_mode 288 0,
          Event.get 288 Format7Reg.IMAGE_POSITION 0 0,
          Event.set 288 Format7Reg.IMAGE_POSITION 0x00050005 0,
          Event.set 288 Format7Reg.IMAGE_SIZE 0x028001E0 0,
          Event.get 288 Format7Reg.BYTE_PER_PACKET 0x04000400 0,
          Event.get 288 Format7Reg.PACKET_PARA_INQ 0x00041000 0,
          Event.set 288 Format7Reg.BYTE_PER_PACKET 0x04000000 0,
          Event.get 288 Format7Reg.BYTE_PER_PACKET 0x04000400 0,
          Event.get 288 Format7Reg.COLOR_CODING_ID 0x02000000 0] ∧
    (4 : Int) ≠ QUERY_FROM_CAMERA ∧ (65541 : Int) ≠ QUERY_FROM_CAMERA ∧
    quadlet (quadlet (uint 4 <<< 16) ||| uint 65541) = 0x00050005 ∧
    (((0x00050005 &&& 0xFFFF0000) >>> 16 : Nat) : Int) = 5 ∧
    (((0x00050005 &&& 0x0000FFFF) : Nat) : Int) = 5 ∧
    ((5 : Int), (5 : Int)) ≠ (4, 65541) ∧
    quadlet (quadlet (uint 5 <<< 16) ||| uint 5) = 0x00050005 :=
  ⟨unit8_camera_setup_position_overflow, by decide, by decide, by decide, by decide, by decide,
    by decide, by decide⟩

/-- C6 as amended: in every run of `_dc1394_basic_format7_setup`, whatever `left` and `top`
are, the write of the image-position register comes right after a successful read of that
register, and the value written is `(left << 16) | top`, cut to 32 bits, for the resolved
pair: a component given as `QUERY_FROM_CAMERA` is the field of the value just read (upper
16 bits for `left`, lower 16 bits for `top`), any other component is the argument itself.
When each of `left` and `top` is `QUERY_FROM_CAMERA` or a literal in [0, 65535], the two
16-bit fields of the quadlet written are exactly the resolved `left` and the resolved
`top`. -/
theorem setup_position_is_read_then_written (D : Device) (fuel : Nat)
    (camera : dc1394camera_t)
    (channel mode speed bytes_per_packet left top width height : Int)
    (capture : dc1394capture_t) (h pre post : Trace) (m v : Nat) (e : Int)
    (hseg : (_dc1394_basic_format7_setup D fuel camera channel mode speed bytes_per_packet left
      top width height capture h).seg =
        pre ++ Event.set m Format7Reg.IMAGE_POSITION v e :: post) :
    ∃ pre0 cur,
      (pre : Trace) =
        pre0 ++ [Event.get (uint mode) Format7Reg.IMAGE_POSITION cur 0] ∧
      m = uint mode ∧
      v = quadlet (quadlet (uint (if left = QUERY_FROM_CAMERA then
            sint ((cur &&& 0xFFFF0000) >>> 16)
          else left) <<< 16) |||
        uint (if top = QUERY_FROM_CAMERA then
            sint (cur &&& 0x0000FFFF)
          else top)) ∧
      ((left = QUERY_FROM_CAMERA ∨ (0 ≤ left ∧ left < 65536)) →
        (top = QUERY_FROM_CAMERA ∨ (0 ≤ top ∧ top < 65536)) →
        (((v &&& 0xFFFF0000) >>> 16 : Nat) : Int) = (if left = QUERY_FROM_CAMERA then
            sint ((cur &&& 0xFFFF0000) >>> 16)
          else left) ∧
        (((v &&& 0x0000FFFF) : Nat) : Int) = (if top = QUERY_FROM_CAMERA then
            sint (cur &&& 0x0000FFFF)
          else top)) := by
  obtain ⟨pre0, cur, hpre, hm, hv⟩ := format7_setup_position_write D fuel camera channel mode
    speed bytes_per_packet left top width height capture h hseg
  refine ⟨pre0, cur, hpre, hm, hv, ?_⟩
  intro hl ht
  obtain ⟨hl1, hl2⟩ := resolved_component_fits left ((cur &&& 0xFFFF0000) >>> 16)
    (high_field_lt cur) hl
  obtain ⟨ht1, ht2⟩ := resolved_component_fits top (cur &&& 0x0000FFFF) (low_field_lt cur) ht
  rw [hv, pack_fields_quadlet hl1 ht1, pack_fields_upper hl1 ht1, pack_fields_lower ht1]
  exact ⟨hl2, ht2⟩

/-- Witness of C6 as amended: both components are queried from a camera at position
(100, 50). -/
theorem setup_position_is_read_then_written_witness :
    (_dc1394_basic_format7_setup (fixed_camera vga_regs) 1 camera_v130 0 288 2
        QUERY_FROM_CAMERA QUERY_FROM_CAMERA QUERY_FROM_CAMERA QUERY_FROM_CAMERA
        QUERY_FROM_CAMERA stale_capture []).seg =
      [Event.get_iso_status false 0,
       Event.set_iso_channel_and_speed 0 2 0,
       Event.set_video_format FORMAT_SCALABLE_IMAGE_SIZE 0,
       Event.set_video_mode 288 0,
       Event.get 288 Format7Reg.BYTE_PER_PACKET 0x04000400 0,
       Event.get 288 Format7Reg.IMAGE_POSITION 0x00640032 0] ++
      Event.set 288 Format7Reg.IMAGE_POSITION 0x00640032 0 ::
        [Event.get 288 Format7Reg.VALUE_SETTING 0x80000000 0,
         Event.set 288 Format7Reg.VALUE_SETTING 0x40000000 0,
         Event.get 288 Format7Reg.VALUE_SETTING 0x80000000 0,
         Event.get 288 Format7Reg.IMAGE_SIZE 0x01400000 0,
         Event.get 288 Format7Reg.MAX_IMAGE_SIZE_INQ 0x028001E0 0,
         Event.set 288 Format7Reg.IMAGE_SIZE 0x014001AE 0,
         Event.get 288 Format7Reg.VALUE_SETTING 0x80000000 0,
         Event.set 288 Format7Reg.VALUE_SETTING 0x40000000 0,
         Event.get 288 Format7Reg.VALUE_SETTING 0x80000000 0,
         Event.get 288 Format7Reg.BYTE_PER_PACKET 0x04000400 0,
         Event.get 288 Format7Reg.PACKET_PARA_INQ 0x00041000 0,
         Event.set 288 Format7Reg.BYTE_PER_PACKET 0x04000000 0,
         Event.get 288 Format7Reg.VALUE_SETTING 0x80000000 0,
         Event.set 288 Format7Reg.VALUE_SETTING 0x40000000 0,
         Event.get 288 Format7Reg.VALUE_SETTING 0x80000000 0,
         Event.get 288 Format7Reg.BYTE_PER_PACKET 0x04000400 0,
         Event.get 288 Format7Reg.PACKET_PER_FRAME_INQ 600 0] ∧
    ∃ pre0 cur,
      (
      [Event.get_iso_status false 0,
       Event.set_iso_channel_and_speed 0 2 0,
       Event.set_video_format FORMAT_SCALABLE_IMAGE_SIZE 0,
       Event.set_video_mode 288 0,
       Event.get 288 Format7Reg.BYTE_PER_PACKET 0x04000400 0,
       Event.get 288 Format7Reg.IMAGE_POSITION 0x00640032 0] : Trace) =
        pre0 ++ [Event.get (uint 288) Format7Reg.IMAGE_POSITION cur 0] ∧
      288 = uint 288 ∧
      0x00640032 = quadlet (quadlet (uint (if QUERY_FROM_CAMERA = QUERY_FROM_CAMERA then
            sint ((cur &&& 0xFFFF0000) >>> 16)
          else QUERY_FROM_CAMERA) <<< 16) |||
        uint (if QUERY_FROM_CAMERA = QUERY_FROM_CAMERA then
            sint (cur &&& 0x0000FFFF)
          else QUERY_FROM_CAMERA)) ∧
      ((QUERY_FROM_CAMERA = QUERY_FROM_CAMERA ∨ (0 ≤ QUERY_FROM_CAMERA ∧ QUERY_FROM_CAMERA < 65536)) →
        (QUERY_FROM_CAMERA = QUERY_FROM_CAMERA ∨ (0 ≤ QUERY_FROM_CAMERA ∧ QUERY_FROM_CAMERA < 65536)) →
        (((0x00640032 &&& 0xFFFF0000) >>> 16 : Nat) : Int) = (if QUERY_FROM_CAMERA = QUERY_FROM_CAMERA then
            sint ((cur &&& 0xFFFF0000) >>> 16)
          else QUERY_FROM_CAMERA) ∧
        (((0x00640032 &&& 0x0000FFFF) : Nat) : Int) = (if QUERY_FROM_CAMERA = QUERY_FROM_CAMERA then
            sint (cur &&& 0x0000FFFF)
          else QUERY_FROM_CAMERA)) := by
  have hseg := congrArg Outcome.seg vga_camera_setup_query
  exact ⟨hseg,
    setup_position_is_read_then_written _ _ _ _ _ _ _ _ _ _ _ _ _ _ _ _ _ _ hseg⟩

/-- C4: in every run of `_dc1394_basic_format7_setup` the value written to the image-size
register is `(w << 16) | ht`, where a dimension requested as `USE_MAX_AVAIL` is the maximum
read from the maximum-image-size register just before the write (upper 16 bits for the
width, lower 16 bits for the height) minus the resolved position on the same axis, computed
as the source does in 32-bit arithmetic and equal to the integer difference whenever that
fits an `int`; a dimension given as a literal is written as given.  The resolved position is
the one of C6, `cur` being the value read from the image-position register. -/
theorem setup_size_use_max_avail (D : Device) (fuel : Nat)
    (camera : dc1394camera_t)
    (channel mode speed bytes_per_packet left top width height : Int)
    (capture : dc1394capture_t) (h pre post : Trace) (m v : Nat) (e : Int)
    (hseg : (_dc1394_basic_format7_setup D fuel camera channel mode speed bytes_per_packet left
      top width height capture h).seg =
        pre ++ Event.set m Format7Reg.IMAGE_SIZE v e :: post) :
    ∃ (cur mx : Nat) (w ht : Int),
      Event.get (uint mode) Format7Reg.IMAGE_POSITION cur 0 ∈ (pre : Trace) ∧
      m = uint mode ∧
      v = quadlet (quadlet (uint w <<< 16) ||| uint ht) ∧
      (width = USE_MAX_AVAIL →
        List.getLast? (pre : Trace) =
          some (Event.get (uint mode) Format7Reg.MAX_IMAGE_SIZE_INQ mx 0) ∧
        w = sint (uint ((((mx &&& 0xFFFF0000) >>> 16 : Nat) : Int) -
          (if left = QUERY_FROM_CAMERA then
              sint ((cur &&& 0xFFFF0000) >>> 16)
            else left))) ∧
        (int_fits ((((mx &&& 0xFFFF0000) >>> 16 : Nat) : Int) -
            (if left = QUERY_FROM_CAMERA then
              sint ((cur &&& 0xFFFF0000) >>> 16)
            else left)) = true →
          w = (((mx &&& 0xFFFF0000) >>> 16 : Nat) : Int) -
            (if left = QUERY_FROM_CAMERA then
              sint ((cur &&& 0xFFFF0000) >>> 16)
            else left))) ∧
      (height = USE_MAX_AVAIL →
        List.getLast? (pre : Trace) =
          some (Event.get (uint mode) Format7Reg.MAX_IMAGE_SIZE_INQ mx 0) ∧
        ht = sint (uint (((mx &&& 0x0000FFFF : Nat) : Int) -
          (if top = QUERY_FROM_CAMERA then
              sint (cur &&& 0x0000FFFF)
            else top))) ∧
        (int_fits (((mx &&& 0x0000FFFF : Nat) : Int) -
            (if top = QUERY_FROM_CAMERA then
              sint (cur &&& 0x0000FFFF)
            else top)) = true →
          ht = ((mx &&& 0x0000FFFF : Nat) : Int) -
            (if top = QUERY_FROM_CAMERA then
              sint (cur &&& 0x0000FFFF)
            else top))) ∧
      (width ≠ USE_MAX_AVAIL →
        width ≠ QUERY_FROM_CAMERA → w = width) ∧
      (height ≠ USE_MAX_AVAIL →
        height ≠ QUERY_FROM_CAMERA → ht = height) := by
  obtain ⟨cur, cs, mx, w0, h0, w1, h1, hIP, -, hMX, hw0, hh0, hw1, hh1, hm, hv⟩ :=
    format7_setup_size_resolved D fuel camera channel mode speed bytes_per_packet left top width
      height capture h hseg
  have hne : USE_MAX_AVAIL ≠ QUERY_FROM_CAMERA := by decide
  refine ⟨cur, mx, w1, h1, hIP, hm, hv, ?_, ?_, ?_, ?_⟩
  · intro hw
    have hw0' : w0 = USE_MAX_AVAIL := by rw [hw0, if_neg (hw ▸ hne), hw]
    rw [hw0', if_pos rfl] at hw1
    exact ⟨hMX (Or.inl hw0'), hw1, fun hfit => by rw [hw1, sint_uint_of_fits hfit]⟩
  · intro hh
    have hh0' : h0 = USE_MAX_AVAIL := by rw [hh0, if_neg (hh ▸ hne), hh]
    rw [hh0', if_pos rfl] at hh1
    exact ⟨hMX (Or.inr hh0'), hh1, fun hfit => by rw [hh1, sint_uint_of_fits hfit]⟩
  · intro hw hq
    rw [if_neg hq] at hw0
    rw [hw1, hw0, if_neg hw]
  · intro hh hq
    rw [if_neg hq] at hh0
    rw [hh1, hh0, if_neg hh]

/-- Witness of C4: position (100, 50) against a maximum of 640x480; the size written is
`0x021C01AE`, that is 540x430. -/
theorem setup_size_use_max_avail_witness :
    (_dc1394_basic_format7_setup (fixed_camera vga_regs) 1 camera_v130 0 288 2
        1030 100 50 USE_MAX_AVAIL USE_MAX_AVAIL stale_capture []).seg =
      [Event.get_iso_status false 0,
       Event.set_iso_channel_and_speed 0 2 0,
       Event.set_video_format FORMAT_SCALABLE_IMAGE_SIZE 0,
       Event.set_video_mode 288 0,
       Event.get 288 Format7Reg.IMAGE_POSITION 0x00640032 0,
       Event.set 288 Format7Reg.IMAGE_POSITION 0x00640032 0,
       Event.get 288 Format7Reg.VALUE_SETTING 0x80000000 0,
       Event.set 288 Format7Reg.VALUE_SETTING 0x40000000 0,
       Event.get 288 Format7Reg.VALUE_SETTING 0x80000000 0,
       Event.get 288 Format7Reg.MAX_IMAGE_SIZE_INQ 0x028001E0 0] ++
      Event.set 288 Format7Reg.IMAGE_SIZE 0x021C01AE 0 ::
        [Event.get 288 Format7Reg.VALUE_SETTING 0x80000000 0,
         Event.set 288 Format7Reg.VALUE_SETTING 0x40000000 0,
         Event.get 288 Format7Reg.VALUE_SETTING 0x80000000 0,
         Event.get 288 Format7Reg.BYTE_PER_PACKET 0x04000400 0,
         Event.get 288 Format7Reg.PACKET_PARA_INQ 0x00041000 0,
         Event.set 288 Format7Reg.BYTE_PER_PACKET 0x04040000 0,
         Event.get 288 Format7Reg.VALUE_SETTING 0x80000000 0,
         Event.set 288 Format7Reg.VALUE_SETTING 0x40000000 0,
         Event.get 288 Format7Reg.VALUE_SETTING 0x80000000 0,
         Event.get 288 Format7Reg.BYTE_PER_PACKET 0x04000400 0,
         Event.get 288 Format7Reg.PACKET_PER_FRAME_INQ 600 0] ∧
    ∃ (cur mx : Nat) (w ht : Int),
      Event.get (uint 288) Format7Reg.IMAGE_POSITION cur 0 ∈ (
      [Event.get_iso_status false 0,
       Event.set_iso_channel_and_speed 0 2 0,
       Event.set_video_format FORMAT_SCALABLE_IMAGE_SIZE 0,
       Event.set_video_mode 288 0,
       Event.get 288 Format7Reg.IMAGE_POSITION 0x00640032 0,
       Event.set 288 Format7Reg.IMAGE_POSITION 0x00640032 0,
       Event.get 288 Format7Reg.VALUE_SETTING 0x80000000 0,
       Event.set 288 Format7Reg.VALUE_SETTING 0x40000000 0,
       Event.get 288 Format7Reg.VALUE_SETTING 0x80000000 0,
       Event.get 288 Format7Reg.MAX_IMAGE_SIZE_INQ 0x028001E0 0] : Trace) ∧
      288 = uint 288 ∧
      0x021C01AE = quadlet (quadlet (uint w <<< 16) ||| uint ht) ∧
      (USE_MAX_AVAIL = USE_MAX_AVAIL →
        List.getLast? (
      [Event.get_iso_status false 0,
       Event.set_iso_channel_and_speed 0 2 0,
       Event.set_video_format FORMAT_SCALABLE_IMAGE_SIZE 0,
       Event.set_video_mode 288 0,
       Event.get 288 Format7Reg.IMAGE_POSITION 0x00640032 0,
       Event.set 288 Format7Reg.IMAGE_POSITION 0x00640032 0,
       Event.get 288 Format7Reg.VALUE_SETTING 0x80000000 0,
       Event.set 288 Format7Reg.VALUE_SETTING 0x40000000 0,
       Event.get 288 Format7Reg.VALUE_SETTING 0x80000000 0,
       Event.get 288 Format7Reg.MAX_IMAGE_SIZE_INQ 0x028001E0 0] : Trace) =
          some (Event.get (uint 288) Format7Reg.MAX_IMAGE_SIZE_INQ mx 0) ∧
        w = sint (uint ((((mx &&& 0xFFFF0000) >>> 16 : Nat) : Int) -
          (if 100 = QUERY_FROM_CAMERA then
              sint ((cur &&& 0xFFFF0000) >>> 16)
            else 100))) ∧
        (int_fits ((((mx &&& 0xFFFF0000) >>> 16 : Nat) : Int) -
            (if 100 = QUERY_FROM_CAMERA then
              sint ((cur &&& 0xFFFF0000) >>> 16)
            else 100)) = true →
          w = (((mx &&& 0xFFFF0000) >>> 16 : Nat) : Int) -
            (if 100 = QUERY_FROM_CAMERA then
              sint ((cur &&& 0xFFFF0000) >>> 16)
            else 100))) ∧
      (USE_MAX_AVAIL = USE_MAX_AVAIL →
        List.getLast? (
      [Event.get_iso_status false 0,
       Event.set_iso_channel_and_speed 0 2 0,
       Event.set_video_format FORMAT_SCALABLE_IMAGE_SIZE 0,
       Event.set_video_mode 288 0,
       Event.get 288 Format7Reg.IMAGE_POSITION 0x00640032 0,
       Event.set 288 Format7Reg.IMAGE_POSITION 0x00640032 0,
       Event.get 288 Format7Reg.VALUE_SETTING 0x80000000 0,
       Event.set 288 Format7Reg.VALUE_SETTING 0x40000000 0,
       Event.get 288 Format7Reg.VALUE_SETTING 0x80000000 0,
       Event.get 288 Format7Reg.MAX_IMAGE_SIZE_INQ 0x028001E0 0] : Trace) =
          some (Event.get (uint 288) Format7Reg.MAX_IMAGE_SIZE_INQ mx 0) ∧
        ht = sint (uint (((mx &&& 0x0000FFFF : Nat) : Int) -
          (if 50 = QUERY_FROM_CAMERA then
              sint (cur &&& 0x0000FFFF)
            else 50))) ∧
        (int_fits (((mx &&& 0x0000FFFF : Nat) : Int) -
            (if 50 = QUERY_FROM_CAMERA then
              sint (cur &&& 0x0000FFFF)
            else 50)) = true →
          ht = ((mx &&& 0x0000FFFF : Nat) : Int) -
            (if 50 = QUERY_FROM_CAMERA then
              sint (cur &&& 0x0000FFFF)
            else 50))) ∧
      (USE_MAX_AVAIL ≠ USE_MAX_AVAIL →
        USE_MAX_AVAIL ≠ QUERY_FROM_CAMERA → w = USE_MAX_AVAIL) ∧
      (USE_MAX_AVAIL ≠ USE_MAX_AVAIL →
        USE_MAX_AVAIL ≠ QUERY_FROM_CAMERA → ht = USE_MAX_AVAIL) := by
  have hseg := congrArg Outcome.seg vga_camera_setup_max
  exact ⟨hseg,
    setup_size_use_max_avail _ _ _ _ _ _ _ _ _ _ _ _ _ _ _ _ _ _ hseg⟩

/-- C5: in every run of `_dc1394_basic_format7_setup` the value written to the image-size
register is `(w << 16) | ht`, where a dimension requested as `QUERY_FROM_CAMERA` is the
field of the value `cs` read from the image-size register (upper 16 bits for the width,
lower 16 bits for the height) when that field is above 0, and otherwise, as for
`USE_MAX_AVAIL`, the maximum read from the maximum-image-size register just before the
write minus the resolved position on the same axis; a dimension given as a literal is
written as given. -/
theorem setup_size_query_from_camera (D : Device) (fuel : Nat)
    (camera : dc1394camera_t)
    (channel mode speed bytes_per_packet left top width height : Int)
    (capture : dc1394capture_t) (h pre post : Trace) (m v : Nat) (e : Int)
    (hseg : (_dc1394_basic_format7_setup D fuel camera channel mode speed bytes_per_packet left
      top width height capture h).seg =
        pre ++ Event.set m Format7Reg.IMAGE_SIZE v e :: post) :
    ∃ (cur cs mx : Nat) (w ht : Int),
      Event.get (uint mode) Format7Reg.IMAGE_POSITION cur 0 ∈ (pre : Trace) ∧
      m = uint mode ∧
      v = quadlet (quadlet (uint w <<< 16) ||| uint ht) ∧
      (width = QUERY_FROM_CAMERA →
        Event.get (uint mode) Format7Reg.IMAGE_SIZE cs 0 ∈ (pre : Trace) ∧
        (0 < (cs &&& 0xFFFF0000) >>> 16 → w = (((cs &&& 0xFFFF0000) >>> 16 : Nat) : Int)) ∧
        ((cs &&& 0xFFFF0000) >>> 16 = 0 →
          List.getLast? (pre : Trace) =
            some (Event.get (uint mode) Format7Reg.MAX_IMAGE_SIZE_INQ mx 0) ∧
          w = sint (uint ((((mx &&& 0xFFFF0000) >>> 16 : Nat) : Int) -
            (if left = QUERY_FROM_CAMERA then
              sint ((cur &&& 0xFFFF0000) >>> 16)
            else left))))) ∧
      (height = QUERY_FROM_CAMERA →
        Event.get (uint mode) Format7Reg.IMAGE_SIZE cs 0 ∈ (pre : Trace) ∧
        (0 < cs &&& 0x0000FFFF → ht = ((cs &&& 0x0000FFFF : Nat) : Int)) ∧
        (cs &&& 0x0000FFFF = 0 →
          List.getLast? (pre : Trace) =
            some (Event.get (uint mode) Format7Reg.MAX_IMAGE_SIZE_INQ mx 0) ∧
          ht = sint (uint (((mx &&& 0x0000FFFF : Nat) : Int) -
            (if top = QUERY_FROM_CAMERA then
              sint (cur &&& 0x0000FFFF)
            else top))))) ∧
      (width ≠ QUERY_FROM_CAMERA →
        width ≠ USE_MAX_AVAIL → w = width) ∧
      (height ≠ QUERY_FROM_CAMERA →
        height ≠ USE_MAX_AVAIL → ht = height) := by
  obtain ⟨cur, cs, mx, w0, h0, w1, h1, hIP, hIS, hMX, hw0, hh0, hw1, hh1, hm, hv⟩ :=
    format7_setup_size_resolved D fuel camera channel mode speed bytes_per_packet left top width
      height capture h hseg
  refine ⟨cur, cs, mx, w1, h1, hIP, hm, hv, ?_, ?_, ?_, ?_⟩
  · intro hw
    rw [if_pos hw] at hw0
    refine ⟨hIS (Or.inl hw), ?_, ?_⟩
    · intro hpos
      rw [if_pos hpos, sint_of_lt (by have := high_field_lt cs; omega)] at hw0
      have hw0' : w0 ≠ USE_MAX_AVAIL := by
        rw [hw0]
        unfold USE_MAX_AVAIL
        omega
      rw [hw1, if_neg hw0', hw0]
    · intro hzero
      rw [if_neg (by omega)] at hw0
      rw [hw0, if_pos rfl] at hw1
      exact ⟨hMX (Or.inl hw0), hw1⟩
  · intro hh
    rw [if_pos hh] at hh0
    refine ⟨hIS (Or.inr hh), ?_, ?_⟩
    · intro hpos
      rw [if_pos hpos, sint_of_lt (by have := low_field_lt cs; omega)] at hh0
      have hh0' : h0 ≠ USE_MAX_AVAIL := by
        rw [hh0]
        unfold USE_MAX_AVAIL
        omega
      rw [hh1, if_neg hh0', hh0]
    · intro hzero
      rw [if_neg (by omega)] at hh0
      rw [hh0, if_pos rfl] at hh1
      exact ⟨hMX (Or.inr hh0), hh1⟩
  · intro hq hw
    rw [if_neg hq] at hw0
    rw [hw1, hw0, if_neg hw]
  · intro hq hh
    rw [if_neg hq] at hh0
    rw [hh1, hh0, if_neg hh]

/-- Witness of C5: both dimensions are queried from a camera whose current size is 320x0, at
position (100, 50) against a maximum of 640x480; the size written is `0x014001AE`, that is
320x430. -/
theorem setup_size_query_from_camera_witness :
    (_dc1394_basic_format7_setup (fixed_camera vga_regs) 1 camera_v130 0 288 2
        QUERY_FROM_CAMERA QUERY_FROM_CAMERA QUERY_FROM_CAMERA QUERY_FROM_CAMERA
        QUERY_FROM_CAMERA stale_capture []).seg =
      [Event.get_iso_status false 0,
       Event.set_iso_channel_and_speed 0 2 0,
       Event.set_video_format FORMAT_SCALABLE_IMAGE_SIZE 0,
       Event.set_video_mode 288 0,
       Event.get 288 Format7Reg.BYTE_PER_PACKET 0x04000400 0,
       Event.get 288 Format7Reg.IMAGE_POSITION 0x00640032 0,
       Event.set 288 Format7Reg.IMAGE_POSITION 0x00640032 0,
       Event.get 288 Format7Reg.VALUE_SETTING 0x80000000 0,
       Event.set 288 Format7Reg.VALUE_SETTING 0x40000000 0,
       Event.get 288 Format7Reg.VALUE_SETTING 0x80000000 0,
       Event.get 288 Format7Reg.IMAGE_SIZE 0x01400000 0,
       Event.get 288 Format7Reg.MAX_IMAGE_SIZE_INQ 0x028001E0 0] ++
      Event.set 288 Format7Reg.IMAGE_SIZE 0x014001AE 0 ::
        [Event.get 288 Format7Reg.VALUE_SETTING 0x80000000 0,
         Event.set 288 Format7Reg.VALUE_SETTING 0x40000000 0,
         Event.get 288 Format7Reg.VALUE_SETTING 0x80000000 0,
         Event.get 288 Format7Reg.BYTE_PER_PACKET 0x04000400 0,
         Event.get 288 Format7Reg.PACKET_PARA_INQ 0x00041000 0,
         Event.set 288 Format7Reg.BYTE_PER_PACKET 0x04000000 0,
         Event.get 288 Format7Reg.VALUE_SETTING 0x80000000 0,
         Event.set 288 Format7Reg.VALUE_SETTING 0x40000000 0,
         Event.get 288 Format7Reg.VALUE_SETTING 0x80000000 0,
         Event.get 288 Format7Reg.BYTE_PER_PACKET 0x04000400 0,
         Event.get 288 Format7Reg.PACKET_PER_FRAME_INQ 600 0] ∧
    ∃ (cur cs mx : Nat) (w ht : Int),
      Event.get (uint 288) Format7Reg.IMAGE_POSITION cur 0 ∈ (
      [Event.get_iso_status false 0,
       Event.set_iso_channel_and_speed 0 2 0,
       Event.set_video_format FORMAT_SCALABLE_IMAGE_SIZE 0,
       Event.set_video_mode 288 0,
       Event.get 288 Format7Reg.BYTE_PER_PACKET 0x04000400 0,
       Event.get 288 Format7Reg.IMAGE_POSITION 0x00640032 0,
       Event.set 288 Format7Reg.IMAGE_POSITION 0x00640032 0,
       Event.get 288 Format7Reg.VALUE_SETTING 0x80000000 0,
       Event.set 288 Format7Reg.VALUE_SETTING 0x40000000 0,
       Event.get 288 Format7Reg.VALUE_SETTING 0x80000000 0,
       Event.get 288 Format7Reg.IMAGE_SIZE 0x01400000 0,
       Event.get 288 Format7Reg.MAX_IMAGE_SIZE_INQ 0x028001E0 0] : Trace) ∧
      288 = uint 288 ∧
      0x014001AE = quadlet (quadlet (uint w <<< 16) ||| uint ht) ∧
      (QUERY_FROM_CAMERA = QUERY_FROM_CAMERA →
        Event.get (uint 288) Format7Reg.IMAGE_SIZE cs 0 ∈ (
      [Event.get_iso_status false 0,
       Event.set_iso_channel_and_speed 0 2 0,
       Event.set_video_format FORMAT_SCALABLE_IMAGE_SIZE 0,
       Event.set_video_mode 288 0,
       Event.get 288 Format7Reg.BYTE_PER_PACKET 0x04000400 0,
       Event.get 288 Format7Reg.IMAGE_POSITION 0x00640032 0,
       Event.set 288 Format7Reg.IMAGE_POSITION 0x00640032 0,
       Event.get 288 Format7Reg.VALUE_SETTING 0x80000000 0,
       Event.set 288 Format7Reg.VALUE_SETTING 0x40000000 0,
       Event.get 288 Format7Reg.VALUE_SETTING 0x80000000 0,
       Event.get 288 Format7Reg.IMAGE_SIZE 0x01400000 0,
       Event.get 288 Format7Reg.MAX_IMAGE_SIZE_INQ 0x028001E0 0] : Trace) ∧
        (0 < (cs &&& 0xFFFF0000) >>> 16 → w = (((cs &&& 0xFFFF0000) >>> 16 : Nat) : Int)) ∧
        ((cs &&& 0xFFFF0000) >>> 16 = 0 →
          List.getLast? (
      [Event.get_iso_status false 0,
       Event.set_iso_channel_and_speed 0 2 0,
       Event.set_video_format FORMAT_SCALABLE_IMAGE_SIZE 0,
       Event.set_video_mode 288 0,
       Event.get 288 Format7Reg.BYTE_PER_PACKET 0x04000400 0,
       Event.get 288 Format7Reg.IMAGE_POSITION 0x00640032 0,
       Event.set 288 Format7Reg.IMAGE_POSITION 0x00640032 0,
       Event.get 288 Format7Reg.VALUE_SETTING 0x80000000 0,
       Event.set 288 Format7Reg.VALUE_SETTING 0x40000000 0,
       Event.get 288 Format7Reg.VALUE_SETTING 0x80000000 0,
       Event.get 288 Format7Reg.IMAGE_SIZE 0x01400000 0,
       Event.get 288 Format7Reg.MAX_IMAGE_SIZE_INQ 0x028001E0 0] : Trace) =
            some (Event.get (uint 288) Format7Reg.MAX_IMAGE_SIZE_INQ mx 0) ∧
          w = sint (uint ((((mx &&& 0xFFFF0000) >>> 16 : Nat) : Int) -
            (if QUERY_FROM_CAMERA = QUERY_FROM_CAMERA then
              sint ((cur &&& 0xFFFF0000) >>> 16)
            else QUERY_FROM_CAMERA))))) ∧
      (QUERY_FROM_CAMERA = QUERY_FROM_CAMERA →
        Event.get (uint 288) Format7Reg.IMAGE_SIZE cs 0 ∈ (
      [Event.get_iso_status false 0,
       Event.set_iso_channel_and_speed 0 2 0,
       Event.set_video_format FORMAT_SCALABLE_IMAGE_SIZE 0,
       Event.set_video_mode 288 0,
       Event.get 288 Format7Reg.BYTE_PER_PACKET 0x04000400 0,
       Event.get 288 Format7Reg.IMAGE_POSITION 0x00640032 0,
       Event.set 288 Format7Reg.IMAGE_POSITION 0x00640032 0,
       Event.get 288 Format7Reg.VALUE_SETTING 0x80000000 0,
       Event.set 288 Format7Reg.VALUE_SETTING 0x40000000 0,
       Event.get 288 Format7Reg.VALUE_SETTING 0x80000000 0,
       Event.get 288 Format7Reg.IMAGE_SIZE 0x01400000 0,
       Event.get 288 Format7Reg.MAX_IMAGE_SIZE_INQ 0x028001E0 0] : Trace) ∧
        (0 < cs &&& 0x0000FFFF → ht = ((cs &&& 0x0000FFFF : Nat) : Int)) ∧
        (cs &&& 0x0000FFFF = 0 →
          List.getLast? (
      [Event.get_iso_status false 0,
       Event.set_iso_channel_and_speed 0 2 0,
       Event.set_video_format FORMAT_SCALABLE_IMAGE_SIZE 0,
       Event.set_video_mode 288 0,
       Event.get 288 Format7Reg.BYTE_PER_PACKET 0x04000400 0,
       Event.get 288 Format7Reg.IMAGE_POSITION 0x00640032 0,
       Event.set 288 Format7Reg.IMAGE_POSITION 0x00640032 0,
       Event.get 288 Format7Reg.VALUE_SETTING 0x80000000 0,
       Event.set 288 Format7Reg.VALUE_SETTING 0x40000000 0,
       Event.get 288 Format7Reg.VALUE_SETTING 0x80000000 0,
       Event.get 288 Format7Reg.IMAGE_SIZE 0x01400000 0,
       Event.get 288 Format7Reg.MAX_IMAGE_SIZE_INQ 0x028001E0 0] : Trace) =
            some (Event.get (uint 288) Format7Reg.MAX_IMAGE_SIZE_INQ mx 0) ∧
          ht = sint (uint (((mx &&& 0x0000FFFF : Nat) : Int) -
            (if QUERY_FROM_CAMERA = QUERY_FROM_CAMERA then
              sint (cur &&& 0x0000FFFF)
            else QUERY_FROM_CAMERA))))) ∧
      (QUERY_FROM_CAMERA ≠ QUERY_FROM_CAMERA →
        QUERY_FROM_CAMERA ≠ USE_MAX_AVAIL → w = QUERY_FROM_CAMERA) ∧
      (QUERY_FROM_CAMERA ≠ QUERY_FROM_CAMERA →
        QUERY_FROM_CAMERA ≠ USE_MAX_AVAIL → ht = QUERY_FROM_CAMERA) := by
  have hseg := congrArg Outcome.seg vga_camera_setup_query
  exact ⟨hseg,
    setup_size_query_from_camera _ _ _ _ _ _ _ _ _ _ _ _ _ _ _ _ _ _ hseg⟩

-- The resolution of the packet size.

/-- C1, counterexample: the recommended packet size is requested from a camera that reports
a recommended size of 203 bytes with `min_bytes` 4 and `max_bytes` 100.  The size written to
the byte-per-packet register is 203: above `max_bytes` and not a multiple of `min_bytes`.
The switch of the function shows two more cases: with `min_bytes` 8 and `max_bytes` 100,
`USE_MAX_AVAIL` (and `USE_RECOMMENDED` with a recommended size of 0) resolves to 100, which
is not a multiple of 8; with `min_bytes` 8 above `max_bytes` 4, where the interval is empty,
the literal 50 resolves to 0; with `min_bytes` and `max_bytes` both 0 the literal 50 has no
result, the remainder of line 306 divides by zero. -/
theorem setup_use_recommended_out_of_range :
    (_dc1394_basic_format7_setup (fixed_camera odd_recommended_regs) 1 camera_v130 0 288 2
        USE_RECOMMENDED 0 0 640 480 stale_capture []).seg =
      [Event.get_iso_status false 0,
       Event.set_iso_channel_and_speed 0 2 0,
       Event.set_video_format FORMAT_SCALABLE_IMAGE_SIZE 0,
       Event.set_video_mode 288 0,
       Event.get 288 Format7Reg.IMAGE_POSITION 0 0,
       Event.set 288 Format7Reg.IMAGE_POSITION 0 0,
       Event.get 288 Format7Reg.VALUE_SETTING 0x80000000 0,
       Event.set 288 Format7Reg.VALUE_SETTING 0x40000000 0,
       Event.get 288 Format7Reg.VALUE_SETTING 0x80000000 0,
       Event.set 288 Format7Reg.IMAGE_SIZE 0x028001E0 0,
       Event.get 288 Format7Reg.VALUE_SETTING 0x80000000 0,
       Event.set 288 Format7Reg.VALUE_SETTING 0x40000000 0,
       Event.get 288 Format7Reg.VALUE_SETTING 0x80000000 0,
       Event.get 288 Format7Reg.BYTE_PER_PACKET 0x006400CB 0,
       Event.get 288 Format7Reg.PACKET_PARA_INQ 0x00040064 0] ++
      Event.set 288 Format7Reg.BYTE_PER_PACKET (203 <<< 16) 0 ::
        [Event.get 288 Format7Reg.VALUE_SETTING 0x80000000 0,
         Event.set 288 Format7Reg.VALUE_SETTING 0x40000000 0,
         Event.get 288 Format7Reg.VALUE_SETTING 0x80000000 0,
         Event.get 288 Format7Reg.BYTE_PER_PACKET 0x006400CB 0,
         Event.get 288 Format7Reg.PACKET_PER_FRAME_INQ 10 0] ∧
    (0x00040064 &&& 0x0000FFFF) < 203 ∧
    ¬ ((0x00040064 &&& 0xFFFF0000) >>> 16 ∣ 203) ∧
    format7_packet_size_switch USE_MAX_AVAIL 0 8 100 = some 100 ∧
    format7_packet_size_switch USE_RECOMMENDED 0 8 100 = some 100 ∧
    ¬ ((8 : Nat) ∣ 100) ∧
    format7_packet_size_switch 50 0 8 4 = some 0 ∧
    format7_packet_size_switch 50 0 0 0 = none :=
  ⟨congrArg Outcome.seg odd_recommended_camera_setup, by decide, by decide, by decide,
    by decide, by decide, by decide, by decide⟩

/-- C1, amended: in every run of `_dc1394_basic_format7_setup`, whatever the packet-size
request is, the write of the byte-per-packet register comes right after the reads of the
recommended size and of the packet parameters, and when these report `max_bytes > 0` and
`min_bytes <= max_bytes` the size `r` written (upper 16 bits of the value) is as follows.
For a literal or `QUERY_FROM_CAMERA`, `r` lies in `[min_bytes, max_bytes]` and is a multiple
of `min_bytes`, of `max_bytes` when `min_bytes` is 0.  For `USE_MAX_AVAIL`, and for
`USE_RECOMMENDED` when the recommended size is 0, `r` is `max_bytes`, which lies in
`[min_bytes, max_bytes]`.  For `USE_RECOMMENDED` with a recommended size that is not 0, `r` is
the recommended size as the camera reports it. -/
theorem setup_packet_size_in_range (D : Device) (fuel : Nat)
    (camera : dc1394camera_t)
    (channel mode speed bytes_per_packet left top width height : Int)
    (capture : dc1394capture_t) (h pre post : Trace) (m v : Nat) (e : Int)
    (hseg : (_dc1394_basic_format7_setup D fuel camera channel mode speed bytes_per_packet left
      top width height capture h).seg =
        pre ++ Event.set m Format7Reg.BYTE_PER_PACKET v e :: post) :
    ∃ pre0 recom para,
      (pre : Trace) =
        pre0 ++ [Event.get (uint mode) Format7Reg.BYTE_PER_PACKET recom 0,
          Event.get (uint mode) Format7Reg.PACKET_PARA_INQ para 0] ∧
      m = uint mode ∧
      (0 < (para &&& 0x0000FFFF) →
        (para &&& 0xFFFF0000) >>> 16 ≤ (para &&& 0x0000FFFF) →
        ∃ r : Nat, v = r <<< 16 ∧
          (bytes_per_packet ≠ USE_RECOMMENDED → bytes_per_packet ≠ USE_MAX_AVAIL →
            (para &&& 0xFFFF0000) >>> 16 ≤ r ∧
            r ≤ (para &&& 0x0000FFFF) ∧
            (if (para &&& 0xFFFF0000) >>> 16 = 0 then (para &&& 0x0000FFFF)
              else (para &&& 0xFFFF0000) >>> 16) ∣ r) ∧
          (bytes_per_packet = USE_MAX_AVAIL ∨
              (bytes_per_packet = USE_RECOMMENDED ∧ recom &&& 0x0000FFFF = 0) →
            r = (para &&& 0x0000FFFF) ∧
            (para &&& 0xFFFF0000) >>> 16 ≤ r ∧
            r ≤ (para &&& 0x0000FFFF)) ∧
          (bytes_per_packet = USE_RECOMMENDED → 0 < recom &&& 0x0000FFFF →
            r = recom &&& 0x0000FFFF)) := by
  obtain ⟨pre0, h3, request, s3, recom, para, b, hq, -, hpre, hm, hsw, hv⟩ :=
    format7_setup_packet_write D fuel camera channel mode speed bytes_per_packet left top width
      height capture h hseg
  obtain ⟨hlit, hqry⟩ := format7_setup_query_bpp_ok D mode bytes_per_packet h3 hq
  refine ⟨pre0, recom, para, hpre, hm, ?_⟩
  intro hpos hle
  have hmaxlt := low_field_lt para
  have hreclt := low_field_lt recom
  have hnr : USE_RECOMMENDED ≠ QUERY_FROM_CAMERA := by decide
  have hnm : USE_MAX_AVAIL ≠ QUERY_FROM_CAMERA := by decide
  have hrm : USE_RECOMMENDED ≠ USE_MAX_AVAIL := by decide
  by_cases hR : bytes_per_packet = USE_RECOMMENDED
  · have hreq : request = USE_RECOMMENDED := by rw [hlit (by rw [hR]; exact hnr), hR]
    rw [hreq, format7_packet_size_switch_recommended] at hsw
    have hb : b = sint (if recom &&& 0x0000FFFF > 0 then recom &&& 0x0000FFFF
        else para &&& 0x0000FFFF) := (Option.some.inj hsw).symm
    have hlt : (if recom &&& 0x0000FFFF > 0 then recom &&& 0x0000FFFF
        else para &&& 0x0000FFFF) < 65536 := by split_ifs <;> omega
    refine ⟨_, by rw [hv, hb, packet_size_quadlet hlt], fun hne => absurd hR hne, ?_, ?_⟩
    · rintro (hM | ⟨-, h0⟩)
      · exact absurd (hR.symm.trans hM) hrm
      · rw [if_neg (by omega)]
        exact ⟨rfl, hle, le_refl _⟩
    · intro _ hp
      rw [if_pos hp]
  by_cases hM : bytes_per_packet = USE_MAX_AVAIL
  · have hreq : request = USE_MAX_AVAIL := by rw [hlit (by rw [hM]; exact hnm), hM]
    rw [hreq, format7_packet_size_switch_max] at hsw
    have hb : b = sint (para &&& 0x0000FFFF) := (Option.some.inj hsw).symm
    exact ⟨_, by rw [hv, hb, packet_size_quadlet hmaxlt], fun _ hne => absurd hM hne,
      fun _ => ⟨rfl, hle, le_refl _⟩, fun hne => absurd hne hR⟩
  have hreq : request ≠ USE_RECOMMENDED ∧ request ≠ USE_MAX_AVAIL ∧
      request ≠ QUERY_FROM_CAMERA := by
    by_cases hb : bytes_per_packet = QUERY_FROM_CAMERA
    · obtain ⟨cur, -, hr⟩ := hqry hb
      rw [sint_of_lt (by have := high_field_lt cur; omega)] at hr
      rw [hr]
      unfold USE_RECOMMENDED USE_MAX_AVAIL QUERY_FROM_CAMERA
      omega
    · rw [hlit hb]
      exact ⟨hR, hM, hb⟩
  obtain ⟨r, hr, h1, h2, h3⟩ := format7_packet_size_switch_in_range request
    (recom &&& 0x0000FFFF) ((para &&& 0xFFFF0000) >>> 16) (para &&& 0x0000FFFF)
    hreq.1 hreq.2.1 hreq.2.2 (low_field_lt para) (high_field_lt para) hpos hle
  rw [hr] at hsw
  have hb : b = (r : Int) := (Option.some.inj hsw).symm
  have hlt : r < 65536 := lt_of_le_of_lt h2 (low_field_lt para)
  refine ⟨r, ?_, fun _ _ => ⟨h1, h2, h3⟩, ?_, fun hne => absurd hne hR⟩
  · rw [hv, hb, ← sint_of_lt (by omega : r < 2147483648), packet_size_quadlet hlt]
  · rintro (hm' | ⟨hr', -⟩)
    · exact absurd hm' hM
    · exact absurd hr' hR

/-- Witness of C1 as amended: the packet size is queried from a camera whose current size is
1024 bytes, with `min_bytes` 4 and `max_bytes` 4096; the value written is `0x04000000`. -/
theorem setup_packet_size_in_range_witness :
    (_dc1394_basic_format7_setup (fixed_camera vga_regs) 1 camera_v130 0 288 2
        QUERY_FROM_CAMERA QUERY_FROM_CAMERA QUERY_FROM_CAMERA QUERY_FROM_CAMERA
        QUERY_FROM_CAMERA stale_capture []).seg =
      [Event.get_iso_status false 0,
       Event.set_iso_channel_and_speed 0 2 0,
       Event.set_video_format FORMAT_SCALABLE_IMAGE_SIZE 0,
       Event.set_video_mode 288 0,
       Event.get 288 Format7Reg.BYTE_PER_PACKET 0x04000400 0,
       Event.get 288 Format7Reg.IMAGE_POSITION 0x00640032 0,
       Event.set 288 Format7Reg.IMAGE_POSITION 0x00640032 0,
       Event.get 288 Format7Reg.VALUE_SETTING 0x80000000 0,
       Event.set 288 Format7Reg.VALUE_SETTING 0x40000000 0,
       Event.get 288 Format7Reg.VALUE_SETTING 0x80000000 0,
       Event.get 288 Format7Reg.IMAGE_SIZE 0x01400000 0,
       Event.get 288 Format7Reg.MAX_IMAGE_SIZE_INQ 0x028001E0 0,
       Event.set 288 Format7Reg.IMAGE_SIZE 0x014001AE 0,
       Event.get 288 Format7Reg.VALUE_SETTING 0x80000000 0,
       Event.set 288 Format7Reg.VALUE_SETTING 0x40000000 0,
       Event.get 288 Format7Reg.VALUE_SETTING 0x80000000 0,
       Event.get 288 Format7Reg.BYTE_PER_PACKET 0x04000400 0,
       Event.get 288 Format7Reg.PACKET_PARA_INQ 0x00041000 0] ++
      Event.set 288 Format7Reg.BYTE_PER_PACKET 0x04000000 0 ::
        [Event.get 288 Format7Reg.VALUE_SETTING 0x80000000 0,
         Event.set 288 Format7Reg.VALUE_SETTING 0x40000000 0,
         Event.get 288 Format7Reg.VALUE_SETTING 0x80000000 0,
         Event.get 288 Format7Reg.BYTE_PER_PACKET 0x04000400 0,
         Event.get 288 Format7Reg.PACKET_PER_FRAME_INQ 600 0] ∧
    ∃ pre0 recom para,
      ([Event.get_iso_status false 0,
       Event.set_iso_channel_and_speed 0 2 0,
       Event.set_video_format FORMAT_SCALABLE_IMAGE_SIZE 0,
       Event.set_video_mode 288 0,
       Event.get 288 Format7Reg.BYTE_PER_PACKET 0x04000400 0,
       Event.get 288 Format7Reg.IMAGE_POSITION 0x00640032 0,
       Event.set 288 Format7Reg.IMAGE_POSITION 0x00640032 0,
       Event.get 288 Format7Reg.VALUE_SETTING 0x80000000 0,
       Event.set 288 Format7Reg.VALUE_SETTING 0x40000000 0,
       Event.get 288 Format7Reg.VALUE_SETTING 0x80000000 0,
       Event.get 288 Format7Reg.IMAGE_SIZE 0x01400000 0,
       Event.get 288 Format7Reg.MAX_IMAGE_SIZE_INQ 0x028001E0 0,
       Event.set 288 Format7Reg.IMAGE_SIZE 0x014001AE 0,
       Event.get 288 Format7Reg.VALUE_SETTING 0x80000000 0,
       Event.set 288 Format7Reg.VALUE_SETTING 0x40000000 0,
       Event.get 288 Format7Reg.VALUE_SETTING 0x80000000 0,
       Event.get 288 Format7Reg.BYTE_PER_PACKET 0x04000400 0,
       Event.get 288 Format7Reg.PACKET_PARA_INQ 0x00041000 0] : Trace) =
        pre0 ++ [Event.get (uint 288) Format7Reg.BYTE_PER_PACKET recom 0,
          Event.get (uint 288) Format7Reg.PACKET_PARA_INQ para 0] ∧
      288 = uint 288 ∧
      (0 < (para &&& 0x0000FFFF) →
        (para &&& 0xFFFF0000) >>> 16 ≤ (para &&& 0x0000FFFF) →
        ∃ r : Nat, (0x04000000 : Nat) = r <<< 16 ∧
          (QUERY_FROM_CAMERA ≠ USE_RECOMMENDED → QUERY_FROM_CAMERA ≠ USE_MAX_AVAIL →
            (para &&& 0xFFFF0000) >>> 16 ≤ r ∧
            r ≤ (para &&& 0x0000FFFF) ∧
            (if (para &&& 0xFFFF0000) >>> 16 = 0 then (para &&& 0x0000FFFF)
              else (para &&& 0xFFFF0000) >>> 16) ∣ r) ∧
          (QUERY_FROM_CAMERA = USE_MAX_AVAIL ∨
              (QUERY_FROM_CAMERA = USE_RECOMMENDED ∧ recom &&& 0x0000FFFF = 0) →
            r = (para &&& 0x0000FFFF) ∧
            (para &&& 0xFFFF0000) >>> 16 ≤ r ∧
            r ≤ (para &&& 0x0000FFFF)) ∧
          (QUERY_FROM_CAMERA = USE_RECOMMENDED → 0 < recom &&& 0x0000FFFF →
            r = recom &&& 0x0000FFFF)) := by
  have hseg := congrArg Outcome.seg vga_camera_setup_query
  exact ⟨hseg,
    setup_packet_size_in_range _ _ _ _ _ _ _ _ _ _ _ _ _ _ _ _ _ _ hseg⟩

/-- C2: in every run of `_dc1394_basic_format7_setup` with a literal packet-size request
`bytes_per_packet` between 0 and `INT_MAX`, the write of the byte-per-packet register comes
right after the reads of the recommended size and of the packet parameters `para`; with
`0 < min_bytes <= max_bytes` the size written (upper 16 bits of the value) is the request
clamped to `[min_bytes, max_bytes]` and rounded down to a multiple of `min_bytes`, and with
`min_bytes = 0 < max_bytes` it is `max_bytes`. -/
theorem setup_packet_size_literal (D : Device) (fuel : Nat)
    (camera : dc1394camera_t)
    (channel mode speed bytes_per_packet left top width height : Int)
    (capture : dc1394capture_t) (h pre post : Trace) (m v : Nat) (e : Int)
    (h0 : 0 ≤ bytes_per_packet) (h1 : bytes_per_packet ≤ 2147483647)
    (hseg : (_dc1394_basic_format7_setup D fuel camera channel mode speed bytes_per_packet left
      top width height capture h).seg =
        pre ++ Event.set m Format7Reg.BYTE_PER_PACKET v e :: post) :
    ∃ pre0 recom para,
      (pre : Trace) =
        pre0 ++ [Event.get (uint mode) Format7Reg.BYTE_PER_PACKET recom 0,
          Event.get (uint mode) Format7Reg.PACKET_PARA_INQ para 0] ∧
      m = uint mode ∧
      (0 < (para &&& 0xFFFF0000) >>> 16 →
        (para &&& 0xFFFF0000) >>> 16 ≤ (para &&& 0x0000FFFF) →
        v =
          (max ((para &&& 0xFFFF0000) >>> 16)
              (min (Int.toNat bytes_per_packet) (para &&& 0x0000FFFF)) /
            ((para &&& 0xFFFF0000) >>> 16) * ((para &&& 0xFFFF0000) >>> 16)) <<< 16) ∧
      ((para &&& 0xFFFF0000) >>> 16 = 0 → 0 < (para &&& 0x0000FFFF) →
        v = (para &&& 0x0000FFFF) <<< 16) := by
  obtain ⟨pre0, h3, request, s3, recom, para, b, hq, -, hpre, hm, hsw, hv⟩ :=
    format7_setup_packet_write D fuel camera channel mode speed bytes_per_packet left top width
      height capture h hseg
  have hb : bytes_per_packet ≠ QUERY_FROM_CAMERA := by
    unfold QUERY_FROM_CAMERA
    omega
  rw [(format7_setup_query_bpp_ok D mode bytes_per_packet h3 hq).1 hb] at hsw
  refine ⟨pre0, recom, para, hpre, hm, ?_, ?_⟩
  · intro hpos hle
    rw [format7_packet_size_switch_literal bytes_per_packet _ _ _ h0 h1 (low_field_lt para)
      hpos hle] at hsw
    have hle' : max ((para &&& 0xFFFF0000) >>> 16)
        (min bytes_per_packet.toNat (para &&& 0x0000FFFF)) / ((para &&& 0xFFFF0000) >>> 16) *
        ((para &&& 0xFFFF0000) >>> 16) < 65536 := by
      have hmul := Nat.div_mul_le_self (max ((para &&& 0xFFFF0000) >>> 16)
        (min bytes_per_packet.toNat (para &&& 0x0000FFFF))) ((para &&& 0xFFFF0000) >>> 16)
      have hlow := low_field_lt para
      omega
    rw [hv, ← Option.some.inj hsw, ← sint_of_lt (lt_trans hle' (by decide)),
      packet_size_quadlet hle']
  · intro hzero hpos
    rw [hzero, format7_packet_size_switch_literal_zero_unit bytes_per_packet _ _ h0 h1
      (low_field_lt para) hpos] at hsw
    rw [hv, ← Option.some.inj hsw, ← sint_of_lt (lt_trans (low_field_lt para) (by decide)),
      packet_size_quadlet (low_field_lt para)]

/-- Witness of C2: 1030 bytes are requested from a camera with `min_bytes` 4 and `max_bytes`
4096; the value written is `0x04040000`, that is 1028 bytes. -/
theorem setup_packet_size_literal_witness :
    (0 : Int) ≤ 1030 ∧
    (1030 : Int) ≤ 2147483647 ∧
    (_dc1394_basic_format7_setup (fixed_camera vga_regs) 1 camera_v130 0 288 2
        1030 100 50 USE_MAX_AVAIL USE_MAX_AVAIL stale_capture []).seg =
      [Event.get_iso_status false 0,
       Event.set_iso_channel_and_speed 0 2 0,
       Event.set_video_format FORMAT_SCALABLE_IMAGE_SIZE 0,
       Event.set_video_mode 288 0,
       Event.get 288 Format7Reg.IMAGE_POSITION 0x00640032 0,
       Event.set 288 Format7Reg.IMAGE_POSITION 0x00640032 0,
       Event.get 288 Format7Reg.VALUE_SETTING 0x80000000 0,
       Event.set 288 Format7Reg.VALUE_SETTING 0x40000000 0,
       Event.get 288 Format7Reg.VALUE_SETTING 0x80000000 0,
       Event.get 288 Format7Reg.MAX_IMAGE_SIZE_INQ 0x028001E0 0,
       Event.set 288 Format7Reg.IMAGE_SIZE 0x021C01AE 0,
       Event.get 288 Format7Reg.VALUE_SETTING 0x80000000 0,
       Event.set 288 Format7Reg.VALUE_SETTING 0x40000000 0,
       Event.get 288 Format7Reg.VALUE_SETTING 0x80000000 0,
       Event.get 288 Format7Reg.BYTE_PER_PACKET 0x04000400 0,
       Event.get 288 Format7Reg.PACKET_PARA_INQ 0x00041000 0] ++
      Event.set 288 Format7Reg.BYTE_PER_PACKET 0x04040000 0 ::
        [Event.get 288 Format7Reg.VALUE_SETTING 0x80000000 0,
         Event.set 288 Format7Reg.VALUE_SETTING 0x40000000 0,
         Event.get 288 Format7Reg.VALUE_SETTING 0x80000000 0,
         Event.get 288 Format7Reg.BYTE_PER_PACKET 0x04000400 0,
         Event.get 288 Format7Reg.PACKET_PER_FRAME_INQ 600 0] ∧
    ∃ pre0 recom para,
      (
      [Event.get_iso_status false 0,
       Event.set_iso_channel_and_speed 0 2 0,
       Event.set_video_format FORMAT_SCALABLE_IMAGE_SIZE 0,
       Event.set_video_mode 288 0,
       Event.get 288 Format7Reg.IMAGE_POSITION 0x00640032 0,
       Event.set 288 Format7Reg.IMAGE_POSITION 0x00640032 0,
       Event.get 288 Format7Reg.VALUE_SETTING 0x80000000 0,
       Event.set 288 Format7Reg.VALUE_SETTING 0x40000000 0,
       Event.get 288 Format7Reg.VALUE_SETTING 0x80000000 0,
       Event.get 288 Format7Reg.MAX_IMAGE_SIZE_INQ 0x028001E0 0,
       Event.set 288 Format7Reg.IMAGE_SIZE 0x021C01AE 0,
       Event.get 288 Format7Reg.VALUE_SETTING 0x80000000 0,
       Event.set 288 Format7Reg.VALUE_SETTING 0x40000000 0,
       Event.get 288 Format7Reg.VALUE_SETTING 0x80000000 0,
       Event.get 288 Format7Reg.BYTE_PER_PACKET 0x04000400 0,
       Event.get 288 Format7Reg.PACKET_PARA_INQ 0x00041000 0] : Trace) =
        pre0 ++ [Event.get (uint 288) Format7Reg.BYTE_PER_PACKET recom 0,
          Event.get (uint 288) Format7Reg.PACKET_PARA_INQ para 0] ∧
      288 = uint 288 ∧
      (0 < (para &&& 0xFFFF0000) >>> 16 →
        (para &&& 0xFFFF0000) >>> 16 ≤ (para &&& 0x0000FFFF) →
        0x04040000 =
          (max ((para &&& 0xFFFF0000) >>> 16)
              (min (Int.toNat 1030) (para &&& 0x0000FFFF)) /
            ((para &&& 0xFFFF0000) >>> 16) * ((para &&& 0xFFFF0000) >>> 16)) <<< 16) ∧
      ((para &&& 0xFFFF0000) >>> 16 = 0 → 0 < (para &&& 0x0000FFFF) →
        0x04040000 = (para &&& 0x0000FFFF) <<< 16) := by
  have hseg := congrArg Outcome.seg vga_camera_setup_max
  exact ⟨by decide, by decide, hseg,
    setup_packet_size_literal _ _ _ _ _ _ _ _ _ _ _ _ _ _ _ _ _ _ (by decide) (by decide) hseg⟩

/-- C3: in every run of `_dc1394_basic_format7_setup` with the packet-size request
`USE_RECOMMENDED`, the write of the byte-per-packet register comes right after the reads of
that register (`recom`) and of the packet parameters (`para`), and the size written (upper
16 bits of the value) is the recommended size, the lower 16 bits of `recom`, when that is
above 0, and `max_bytes`, the lower 16 bits of `para`, when it is 0; `min_bytes` plays no
part. -/
theorem setup_packet_size_use_recommended (D : Device) (fuel : Nat)
    (camera : dc1394camera_t)
    (channel mode speed left top width height : Int)
    (capture : dc1394capture_t) (h pre post : Trace) (m v : Nat) (e : Int)
    (hseg : (_dc1394_basic_format7_setup D fuel camera channel mode speed USE_RECOMMENDED left
      top width height capture h).seg =
        pre ++ Event.set m Format7Reg.BYTE_PER_PACKET v e :: post) :
    ∃ pre0 recom para,
      (pre : Trace) =
        pre0 ++ [Event.get (uint mode) Format7Reg.BYTE_PER_PACKET recom 0,
          Event.get (uint mode) Format7Reg.PACKET_PARA_INQ para 0] ∧
      m = uint mode ∧
      v = (if recom &&& 0x0000FFFF > 0 then recom &&& 0x0000FFFF else para &&& 0x0000FFFF)
        <<< 16 := by
  obtain ⟨pre0, h3, request, s3, recom, para, b, hq, -, hpre, hm, hsw, hv⟩ :=
    format7_setup_packet_write D fuel camera channel mode speed USE_RECOMMENDED left top width
      height capture h hseg
  rw [(format7_setup_query_bpp_ok D mode USE_RECOMMENDED h3 hq).1 (by decide),
    format7_packet_size_switch_recommended] at hsw
  refine ⟨pre0, recom, para, hpre, hm, ?_⟩
  have hlt : (if recom &&& 0x0000FFFF > 0 then recom &&& 0x0000FFFF else para &&& 0x0000FFFF)
      < 65536 := by
    split_ifs
    · exact low_field_lt recom
    · exact low_field_lt para
  rw [hv, ← Option.some.inj hsw, packet_size_quadlet hlt]

/-- Witness of C3: the camera recommends 203 bytes; the value written is `0x00CB0000`. -/
theorem setup_packet_size_use_recommended_witness :
    (_dc1394_basic_format7_setup (fixed_camera odd_recommended_regs) 1 camera_v130 0 288 2
        USE_RECOMMENDED 0 0 640 480 stale_capture []).seg =
      [Event.get_iso_status false 0,
       Event.set_iso_channel_and_speed 0 2 0,
       Event.set_video_format FORMAT_SCALABLE_IMAGE_SIZE 0,
       Event.set_video_mode 288 0,
       Event.get 288 Format7Reg.IMAGE_POSITION 0 0,
       Event.set 288 Format7Reg.IMAGE_POSITION 0 0,
       Event.get 288 Format7Reg.VALUE_SETTING 0x80000000 0,
       Event.set 288 Format7Reg.VALUE_SETTING 0x40000000 0,
       Event.get 288 Format7Reg.VALUE_SETTING 0x80000000 0,
       Event.set 288 Format7Reg.IMAGE_SIZE 0x028001E0 0,
       Event.get 288 Format7Reg.VALUE_SETTING 0x80000000 0,
       Event.set 288 Format7Reg.VALUE_SETTING 0x40000000 0,
       Event.get 288 Format7Reg.VALUE_SETTING 0x80000000 0,
       Event.get 288 Format7Reg.BYTE_PER_PACKET 0x006400CB 0,
       Event.get 288 Format7Reg.PACKET_PARA_INQ 0x00040064 0] ++
      Event.set 288 Format7Reg.BYTE_PER_PACKET 0x00CB0000 0 ::
        [Event.get 288 Format7Reg.VALUE_SETTING 0x80000000 0,
         Event.set 288 Format7Reg.VALUE_SETTING 0x40000000 0,
         Event.get 288 Format7Reg.VALUE_SETTING 0x80000000 0,
         Event.get 288 Format7Reg.BYTE_PER_PACKET 0x006400CB 0,
         Event.get 288 Format7Reg.PACKET_PER_FRAME_INQ 10 0] ∧
    ∃ pre0 recom para,
      (
      [Event.get_iso_status false 0,
       Event.set_iso_channel_and_speed 0 2 0,
       Event.set_video_format FORMAT_SCALABLE_IMAGE_SIZE 0,
       Event.set_video_mode 288 0,
       Event.get 288 Format7Reg.IMAGE_POSITION 0 0,
       Event.set 288 Format7Reg.IMAGE_POSITION 0 0,
       Event.get 288 Format7Reg.VALUE_SETTING 0x80000000 0,
       Event.set 288 Format7Reg.VALUE_SETTING 0x40000000 0,
       Event.get 288 Format7Reg.VALUE_SETTING 0x80000000 0,
       Event.set 288 Format7Reg.IMAGE_SIZE 0x028001E0 0,
       Event.get 288 Format7Reg.VALUE_SETTING 0x80000000 0,
       Event.set 288 Format7Reg.VALUE_SETTING 0x40000000 0,
       Event.get 288 Format7Reg.VALUE_SETTING 0x80000000 0,
       Event.get 288 Format7Reg.BYTE_PER_PACKET 0x006400CB 0,
       Event.get 288 Format7Reg.PACKET_PARA_INQ 0x00040064 0] : Trace) =
        pre0 ++ [Event.get (uint 288) Format7Reg.BYTE_PER_PACKET recom 0,
          Event.get (uint 288) Format7Reg.PACKET_PARA_INQ para 0] ∧
      288 = uint 288 ∧
      0x00CB0000 = (if recom &&& 0x0000FFFF > 0 then recom &&& 0x0000FFFF else para &&& 0x0000FFFF)
        <<< 16 := by
  have hseg := congrArg Outcome.seg odd_recommended_camera_setup
  exact ⟨hseg,
    setup_packet_size_use_recommended _ _ _ _ _ _ _ _ _ _ _ _ _ _ _ _ _ hseg⟩

-- The layout of the registers.

/-- C19: for a Format_7 mode and a register that delivers the 32-bit value `v`, the queries
of the image position, the image size, the maximum image size, the unit size and the packet
parameters each make one read and return `DC1394_SUCCESS` with the pair
`(v >> 16, v & 0xFFFF)`: upper 16 bits first (left, width, horizontal maximum, horizontal
unit, minimum bytes), lower 16 bits second; both are below 65536. -/
theorem queries_split_register_fields (D : Device) (mode : Nat) (h : Trace) (a b v : Nat)
    (hmode : MODE_FORMAT7_MIN ≤ mode ∧ mode ≤ MODE_FORMAT7_MAX) (hv : v < 4294967296) :
    (D.GetCameraFormat7Register h mode Format7Reg.IMAGE_POSITION = (0, v) →
      dc1394_query_format7_image_position D mode a b h =
        .done (DC1394_SUCCESS, v >>> 16, v &&& 0xFFFF)
          [Event.get mode Format7Reg.IMAGE_POSITION v 0]) ∧
    (D.GetCameraFormat7Register h mode Format7Reg.IMAGE_SIZE = (0, v) →
      dc1394_query_format7_image_size D mode a b h =
        .done (DC1394_SUCCESS, v >>> 16, v &&& 0xFFFF)
          [Event.get mode Format7Reg.IMAGE_SIZE v 0]) ∧
    (D.GetCameraFormat7Register h mode Format7Reg.MAX_IMAGE_SIZE_INQ = (0, v) →
      dc1394_query_format7_max_image_size D mode a b h =
        .done (DC1394_SUCCESS, v >>> 16, v &&& 0xFFFF)
          [Event.get mode Format7Reg.MAX_IMAGE_SIZE_INQ v 0]) ∧
    (D.GetCameraFormat7Register h mode Format7Reg.UNIT_SIZE_INQ = (0, v) →
      dc1394_query_format7_unit_size D mode a b h =
        .done (DC1394_SUCCESS, v >>> 16, v &&& 0xFFFF)
          [Event.get mode Format7Reg.UNIT_SIZE_INQ v 0]) ∧
    (D.GetCameraFormat7Register h mode Format7Reg.PACKET_PARA_INQ = (0, v) →
      dc1394_query_format7_packet_para D mode a b h =
        .done (DC1394_SUCCESS, v >>> 16, v &&& 0xFFFF)
          [Event.get mode Format7Reg.PACKET_PARA_INQ v 0]) ∧
    v >>> 16 < 65536 ∧ v &&& 0xFFFF < 65536 := by
  have hhi := high_field_eq_shiftRight hv
  refine ⟨?_, ?_, ?_, ?_, ?_, ?_, low_field_lt v⟩
  · intro hget
    rw [dc1394_query_format7_image_position_run, query_outcome_of_get _ _ hmode hget hv, hhi]
    rfl
  · intro hget
    rw [dc1394_query_format7_image_size_run, query_outcome_of_get _ _ hmode hget hv, hhi]
    rfl
  · intro hget
    rw [dc1394_query_format7_max_image_size_run, query_outcome_of_get _ _ hmode hget hv, hhi]
    rfl
  · intro hget
    rw [dc1394_query_format7_unit_size_run, query_outcome_of_get _ _ hmode hget hv, hhi]
    rfl
  · intro hget
    rw [dc1394_query_format7_packet_para_run, query_outcome_of_get _ _ hmode hget hv, hhi]
    rfl
  · rw [← hhi]
    exact high_field_lt v

/-- Witness of C19: mode 288 on cameras whose registers hold position (100, 50), size
320x0, maximum 640x480, unit 8x8 and packet parameters (4, 4096). -/
theorem queries_split_register_fields_witness :
    (MODE_FORMAT7_MIN ≤ 288 ∧ 288 ≤ MODE_FORMAT7_MAX) ∧
    dc1394_query_format7_image_position (fixed_camera vga_regs) 288 0 0 [] =
      .done (DC1394_SUCCESS, 100, 50) [Event.get 288 Format7Reg.IMAGE_POSITION 0x00640032 0] ∧
    dc1394_query_format7_image_size (fixed_camera vga_regs) 288 0 0 [] =
      .done (DC1394_SUCCESS, 320, 0) [Event.get 288 Format7Reg.IMAGE_SIZE 0x01400000 0] ∧
    dc1394_query_format7_max_image_size (fixed_camera vga_regs) 288 0 0 [] =
      .done (DC1394_SUCCESS, 640, 480)
        [Event.get 288 Format7Reg.MAX_IMAGE_SIZE_INQ 0x028001E0 0] ∧
    dc1394_query_format7_unit_size (fixed_camera unit8_regs) 288 0 0 [] =
      .done (DC1394_SUCCESS, 8, 8) [Event.get 288 Format7Reg.UNIT_SIZE_INQ 0x00080008 0] ∧
    dc1394_query_format7_packet_para (fixed_camera vga_regs) 288 0 0 [] =
      .done (DC1394_SUCCESS, 4, 4096) [Event.get 288 Format7Reg.PACKET_PARA_INQ 0x00041000 0] :=
  ⟨by decide,
    (queries_split_register_fields (fixed_camera vga_regs) 288 [] 0 0 0x00640032
      (by decide) (by decide)).1 rfl,
    (queries_split_register_fields (fixed_camera vga_regs) 288 [] 0 0 0x01400000
      (by decide) (by decide)).2.1 rfl,
    (queries_split_register_fields (fixed_camera vga_regs) 288 [] 0 0 0x028001E0
      (by decide) (by decide)).2.2.1 rfl,
    (queries_split_register_fields (fixed_camera unit8_regs) 288 [] 0 0 0x00080008
      (by decide) (by decide)).2.2.2.1 rfl,
    (queries_split_register_fields (fixed_camera vga_regs) 288 [] 0 0 0x00041000
      (by decide) (by decide)).2.2.2.2.1 rfl⟩

/-- C20: the color coding is kept in the top 8 bits of its register, counted from
`COLOR_FORMAT7_MIN`.  For a Format_7 mode: (1) when the register delivers the 32-bit value
`v`, `dc1394_query_format7_color_coding_id` returns `(v >> 24) + COLOR_FORMAT7_MIN`; (2)
`dc1394_set_format7_color_coding_id` returns `DC1394_FAILURE` without any transaction for an
id outside `[COLOR_FORMAT7_MIN, COLOR_FORMAT7_MAX]`; (3) for an id inside, its first
transaction is the write of `(id - COLOR_FORMAT7_MIN) << 24`; (4) a query that reads the
value written returns the id. -/
theorem color_coding_id_layout (D : Device) (fuel : Nat) (camera : dc1394camera_t)
    (mode : Nat) (h : Trace) (a v color_id : Nat)
    (hmode : MODE_FORMAT7_MIN ≤ mode ∧ mode ≤ MODE_FORMAT7_MAX) (hv : v < 4294967296) :
    (D.GetCameraFormat7Register h mode Format7Reg.COLOR_CODING_ID = (0, v) →
      dc1394_query_format7_color_coding_id D mode a h =
        .done (DC1394_SUCCESS, v >>> 24 + COLOR_FORMAT7_MIN)
          [Event.get mode Format7Reg.COLOR_CODING_ID v 0]) ∧
    (color_id < COLOR_FORMAT7_MIN ∨ color_id > COLOR_FORMAT7_MAX →
      dc1394_set_format7_color_coding_id D fuel camera mode color_id h =
        .done DC1394_FAILURE []) ∧
    (COLOR_FORMAT7_MIN ≤ color_id ∧ color_id ≤ COLOR_FORMAT7_MAX →
      (∃ e rest, (dc1394_set_format7_color_coding_id D fuel camera mode color_id h).seg =
        Event.set mode Format7Reg.COLOR_CODING_ID ((color_id - COLOR_FORMAT7_MIN) <<< 24) e
          :: rest) ∧
      ∀ (D' : Device) (h' : Trace),
        D'.GetCameraFormat7Register h' mode Format7Reg.COLOR_CODING_ID =
          ((0 : Int), (color_id - COLOR_FORMAT7_MIN) <<< 24) →
        dc1394_query_format7_color_coding_id D' mode a h' =
          .done (DC1394_SUCCESS, color_id)
            [Event.get mode Format7Reg.COLOR_CODING_ID
              ((color_id - COLOR_FORMAT7_MIN) <<< 24) 0]) := by
  have hquery : ∀ (D' : Device) (h' : Trace) (w : Nat), w < 4294967296 →
      D'.GetCameraFormat7Register h' mode Format7Reg.COLOR_CODING_ID = (0, w) →
      dc1394_query_format7_color_coding_id D' mode a h' =
        .done (DC1394_SUCCESS, w >>> 24 + COLOR_FORMAT7_MIN)
          [Event.get mode Format7Reg.COLOR_CODING_ID w 0] := by
    intro D' h' w hw hget
    rw [dc1394_query_format7_color_coding_id_run, query_outcome_of_get _ _ hmode hget hw]
    have hlt : w >>> 24 + COLOR_FORMAT7_MIN < 4294967296 := by
      have h1 : COLOR_FORMAT7_MIN = 320 := rfl
      rw [h1, Nat.shiftRight_eq_div_pow]
      omega
    simp only [quadlet_of_lt hlt]
    rfl
  refine ⟨hquery D h v hv, ?_, ?_⟩
  · intro hc
    rw [dc1394_set_format7_color_coding_id_run, if_pos hc]
  · intro hc
    obtain ⟨hq, hrt⟩ := color_coding_round_trip hc
    refine ⟨?_, ?_⟩
    · rw [dc1394_set_format7_color_coding_id_run, if_neg (by omega)]
      obtain ⟨err, rest, hseg, -, -, -⟩ := commit_outcome_seg D fuel camera mode
        Format7Reg.COLOR_CODING_ID (quadlet ((color_id - COLOR_FORMAT7_MIN) <<< 24)) h
      refine ⟨err, rest, ?_⟩
      rw [hseg, hq, hq]
    · intro D' h' hget
      have hw : (color_id - COLOR_FORMAT7_MIN) <<< 24 < 4294967296 := by
        rw [← hq]
        exact Nat.mod_lt _ (by norm_num)
      have := hquery D' h' _ hw hget
      rw [hrt] at this
      exact this

/-- Witness of C20: YUV422 (322) is set on a camera of version 1.20 and read back from a
camera whose register holds `0x02000000`; 7 is rejected. -/
theorem color_coding_id_layout_witness :
    (MODE_FORMAT7_MIN ≤ 288 ∧ 288 ≤ MODE_FORMAT7_MAX) ∧
    dc1394_query_format7_color_coding_id (fixed_camera unit8_regs) 288 0 [] =
      .done (DC1394_SUCCESS, COLOR_FORMAT7_YUV422)
        [Event.get 288 Format7Reg.COLOR_CODING_ID 0x02000000 0] ∧
    dc1394_set_format7_color_coding_id (fixed_camera unit8_regs) 0 camera_v120 288 7 [] =
      .done DC1394_FAILURE [] ∧
    (∃ e rest, (dc1394_set_format7_color_coding_id (fixed_camera unit8_regs) 0 camera_v120 288
        COLOR_FORMAT7_YUV422 []).seg =
      Event.set 288 Format7Reg.COLOR_CODING_ID 0x02000000 e :: rest) :=
  ⟨by decide,
    (color_coding_id_layout (fixed_camera unit8_regs) 0 camera_v120 288 [] 0 0x02000000 7
      (by decide) (by decide)).1 rfl,
    (color_coding_id_layout (fixed_camera unit8_regs) 0 camera_v120 288 [] 0 0x02000000 7
      (by decide) (by decide)).2.1 (by decide),
    ((color_coding_id_layout (fixed_camera unit8_regs) 0 camera_v120 288 [] 0 0x02000000
      COLOR_FORMAT7_YUV422 (by decide) (by decide)).2.2 (by decide)).1⟩

-- The frame accounting.

/-- C11, counterexample: a camera of version 1.20 with YUV411 (1.5 bytes per pixel) as color
coding, a resolved size of 3x1 pixels and a resolved packet size of 4 bytes.  The frame has
4.5 bytes, `ceil(4.5 / 4)` is 2 packets and `2*4/4` is 2 quadlets, but the run leaves
`quadlets_per_frame = 1`: the conversion to `int` truncates 4.5 to 4 before the division. -/
theorem setup_old_accounting_truncates :
    _dc1394_basic_format7_setup (scripted_camera yuv411_regs false no_write_fault) 1
        camera_v120 0 288 2 4 0 0 3 1 stale_capture [] =
      .done (DC1394_SUCCESS,
        { node := 0, channel := 0, frame_rate := 0, frame_width := 3, frame_height := 1,
          quadlets_per_frame := 1, quadlets_per_packet := 1 })
        [Event.get_iso_status false 0,
          Event.set_iso_channel_and_speed 0 2 0,
          Event.set_video_format FORMAT_SCALABLE_IMAGE_SIZE 0,
          Event.set_video_mode 288 0,
          Event.get 288 Format7Reg.IMAGE_POSITION 0 0,
          Event.set 288 Format7Reg.IMAGE_POSITION 0 0,
          Event.set 288 Format7Reg.IMAGE_SIZE 0x00030001 0,
          Event.get 288 Format7Reg.BYTE_PER_PACKET 0x00040004 0,
          Event.get 288 Format7Reg.PACKET_PARA_INQ 0x00040004 0,
          Event.set 288 Format7Reg.BYTE_PER_PACKET 0x00040000 0,
          Event.get 288 Format7Reg.BYTE_PER_PACKET 0x00040004 0,
          Event.get 288 Format7Reg.COLOR_CODING_ID 0x01000000 0] ∧
    _Format7BytePerPixel (sint (0x01000000 >>> 24 + COLOR_FORMAT7_MIN)) = 3 / 2 ∧
    ⌈((3 * 1 : Int) : ℚ) * (3 / 2) / 4⌉ = 2 ∧
    (1 : Nat) ≠ 2 * 4 / 4 := by
  refine ⟨yuv411_camera_setup, ?_, ?_, by decide⟩
  · rw [show sint (0x01000000 >>> 24 + COLOR_FORMAT7_MIN) = COLOR_FORMAT7_YUV411 from by decide]
    exact Format7BytePerPixel_yuv411
  · rw [Int.ceil_eq_iff]
    norm_num

/-- C11, amended: a successful run of `_dc1394_basic_format7_setup` on a camera of a version
below 1.30, with `int` arguments, in which the camera reads back the packet size that the
function wrote (`hsame`: the upper 16 bits of the value re-read from the byte-per-packet
register are those of the value written).  Let `B` be that packet size, `w` and `h` the
resolved width and height (as stored in the capture structure), `p` the bytes per pixel of
the color coding read from the camera.  Then `B > 0`, and when `w*h*p` is a whole number `N`
below 2^24 the number of packets is `N / B` rounded up, and `quadlets_per_frame` is that
number times `B`, divided by 4. -/
theorem setup_old_frame_accounting (D : Device) (fuel : Nat) (camera : dc1394camera_t)
    (channel mode speed bytes_per_packet left top width height : Int)
    (capture cap : dc1394capture_t) (h seg pre post : Trace) (v pb cc N : Nat)
    (hv : camera.sw_version < IIDC_VERSION_1_30)
    (hw : int_fits width = true) (hh : int_fits height = true)
    (hrun : _dc1394_basic_format7_setup D fuel camera channel mode speed bytes_per_packet left
      top width height capture h = .done (DC1394_SUCCESS, cap) seg)
    (hseg : seg = pre ++ Event.set (uint mode) Format7Reg.BYTE_PER_PACKET v 0 ::
      Event.get (uint mode) Format7Reg.BYTE_PER_PACKET pb 0 ::
      Event.get (uint mode) Format7Reg.COLOR_CODING_ID cc 0 :: post)
    (hN : ((sint cap.frame_width * sint cap.frame_height : Int) : ℚ) *
      _Format7BytePerPixel (sint (quadlet (cc >>> 24 + COLOR_FORMAT7_MIN))) = (N : ℚ))
    (hlt : N < 16777216)
    (hsame : (pb &&& 0xFFFF0000) >>> 16 = v >>> 16) :
    0 < (pb &&& 0xFFFF0000) >>> 16 ∧
    ∃ packets_per_frame : Nat,
      N ≤ packets_per_frame * ((pb &&& 0xFFFF0000) >>> 16) ∧
      packets_per_frame * ((pb &&& 0xFFFF0000) >>> 16) < N + (pb &&& 0xFFFF0000) >>> 16 ∧
      cap.quadlets_per_frame = packets_per_frame * ((pb &&& 0xFFFF0000) >>> 16) / 4 := by
  rw [hsame]
  obtain ⟨is_iso_on, size, b, rest, s9, hist, hpost, -, hold, hb0, hb1, hvb, hfit, hacc⟩ :=
    format7_setup_success_packet_write D fuel camera channel mode speed bytes_per_packet left
      top width height capture cap h seg pre _ v hrun hseg
  obtain ⟨hf1, hf2⟩ := hfit hw hh
  obtain ⟨pb', cc', fin, frame_bytes, pk, qpf, hs9, -, hfb, hfq, -, -, hcap⟩ :=
    format7_setup_accounting_success_old D camera channel mode size.1 size.2 b is_iso_on
      capture cap hist s9 hv hacc
  rw [hold hv, List.nil_append, hs9] at hpost
  simp only [List.cons.injEq, Event.get.injEq, true_and, and_true] at hpost
  obtain ⟨-, hcc, -⟩ := hpost
  subst hcc
  have hwid : sint cap.frame_width = size.1 := by
    rw [hcap]
    exact sint_uint_of_fits hf1
  have hhei : sint cap.frame_height = size.2 := by
    rw [hcap]
    exact sint_uint_of_fits hf2
  rw [hwid, hhei] at hN
  rw [format7_frame_bytes_exact size.1 size.2 _ N hN hlt] at hfb
  cases hfb
  rw [← hvb] at hfq
  have hB : 0 < v >>> 16 := by
    rcases Nat.eq_zero_or_pos (v >>> 16) with h0 | h0
    · rw [h0] at hfq
      simp [format7_frame_quadlets] at hfq
    · exact h0
  obtain ⟨-, hq⟩ := format7_frame_quadlets_ceil N (v >>> 16) hB hfq
  obtain ⟨hc1, hc2⟩ := ceil_div_bounds N (v >>> 16) hB
  refine ⟨hB, (N + v >>> 16 - 1) / (v >>> 16), hc1, hc2, ?_⟩
  rw [hcap]
  exact hq

/-- Witness of C11 as amended: 640x480 pixels of YUV422 (2 bytes per pixel) and a packet size
of 1024 bytes, written and read back, on a camera of version 1.20 give 614400 bytes, 600
packets and 153600 quadlets per frame. -/
theorem setup_old_frame_accounting_witness :
    camera_v120.sw_version < IIDC_VERSION_1_30 ∧
    int_fits 640 = true ∧ int_fits 480 = true ∧
    _dc1394_basic_format7_setup (scripted_camera unit8_regs false no_write_fault) 1 camera_v120
        0 288 2 1024 0 0 640 480 stale_capture [] =
      .done (DC1394_SUCCESS,
        { node := 0, channel := 0, frame_rate := 0, frame_width := 640, frame_height := 480,
          quadlets_per_frame := 153600, quadlets_per_packet := 256 })
        ([Event.get_iso_status false 0,
          Event.set_iso_channel_and_speed 0 2 0,
          Event.set_video_format FORMAT_SCALABLE_IMAGE_SIZE 0,
          Event.set_video_mode 288 0,
          Event.get 288 Format7Reg.IMAGE_POSITION 0 0,
          Event.set 288 Format7Reg.IMAGE_POSITION 0 0,
          Event.set 288 Format7Reg.IMAGE_SIZE 0x028001E0 0,
          Event.get 288 Format7Reg.BYTE_PER_PACKET 0x04000400 0,
          Event.get 288 Format7Reg.PACKET_PARA_INQ 0x00041000 0] ++
          Event.set 288 Format7Reg.BYTE_PER_PACKET 0x04000000 0 ::
          Event.get 288 Format7Reg.BYTE_PER_PACKET 0x04000400 0 ::
          Event.get 288 Format7Reg.COLOR_CODING_ID 0x02000000 0 :: []) ∧
    ((640 * 480 : Int) : ℚ) * _Format7BytePerPixel COLOR_FORMAT7_YUV422 = ((614400 : Nat) : ℚ) ∧
    (0x04000400 &&& 0xFFFF0000) >>> 16 = 0x04000000 >>> 16 ∧
    (0x04000400 &&& 0xFFFF0000) >>> 16 = 1024 ∧
    ∃ packets_per_frame : Nat,
      614400 ≤ packets_per_frame * 1024 ∧
      packets_per_frame * 1024 < 614400 + 1024 ∧
      153600 = packets_per_frame * 1024 / 4 := by
  have hN : ((640 * 480 : Int) : ℚ) * _Format7BytePerPixel COLOR_FORMAT7_YUV422 =
      ((614400 : Nat) : ℚ) := by
    rw [Format7BytePerPixel_yuv422]
    norm_num
  exact ⟨by decide, by decide, by decide, unit8_camera_setup_1024, hN, by decide, by decide,
    (setup_old_frame_accounting (scripted_camera unit8_regs false no_write_fault) 1 camera_v120
      0 288 2 1024 0 0 640 480 stale_capture _ [] _
      [Event.get_iso_status false 0,
        Event.set_iso_channel_and_speed 0 2 0,
        Event.set_video_format FORMAT_SCALABLE_IMAGE_SIZE 0,
        Event.set_video_mode 288 0,
        Event.get 288 Format7Reg.IMAGE_POSITION 0 0,
        Event.set 288 Format7Reg.IMAGE_POSITION 0 0,
        Event.set 288 Format7Reg.IMAGE_SIZE 0x028001E0 0,
        Event.get 288 Format7Reg.BYTE_PER_PACKET 0x04000400 0,
        Event.get 288 Format7Reg.PACKET_PARA_INQ 0x00041000 0]
      [] 0x04000000 0x04000400 0x02000000
      614400 (by decide) (by decide) (by decide) unit8_camera_setup_1024 rfl hN
      (by decide) (by decide)).2⟩

/-- C12: a successful run of `_dc1394_basic_format7_setup` on a camera of version 1.30 or
later ends with the committing write of the packet size, its handshake, a read of the
byte-per-packet register and a read of the packets-per-frame register (and the restart of
the transmission, if any).  With `bytes` the upper 16 bits of the packet size read back and
`ppf` the value of the packets-per-frame register, `quadlets_per_packet = bytes / 4` and
`quadlets_per_frame = (ppf * bytes mod 2^32) / 4`. -/
theorem setup_v130_frame_accounting (D : Device) (fuel : Nat) (camera : dc1394camera_t)
    (channel mode speed bytes_per_packet left top width height : Int)
    (capture cap : dc1394capture_t) (h seg : Trace)
    (hv : IIDC_VERSION_1_30 ≤ camera.sw_version)
    (hrun : _dc1394_basic_format7_setup D fuel camera channel mode speed bytes_per_packet left
      top width height capture h = .done (DC1394_SUCCESS, cap) seg) :
    ∃ (pre handshake fin : Trace) (v pb ppf : Nat),
      seg = pre ++ Event.set (uint mode) Format7Reg.BYTE_PER_PACKET v 0 ::
        (handshake ++ Event.get (uint mode) Format7Reg.BYTE_PER_PACKET pb 0 ::
          Event.get (uint mode) Format7Reg.PACKET_PER_FRAME_INQ ppf 0 :: fin) ∧
      (∀ x ∈ pre, x.isWrite Format7Reg.BYTE_PER_PACKET = false) ∧
      (∀ x ∈ handshake, x.isValueSetting = true) ∧
      (∀ x ∈ fin, x.isStart = true) ∧
      cap.quadlets_per_packet = (pb &&& 0xFFFF0000) >>> 16 / 4 ∧
      cap.quadlets_per_frame = (ppf * ((pb &&& 0xFFFF0000) >>> 16)) % 4294967296 / 4 := by
  obtain ⟨is_iso_on, size, b, pre, rest, s9, hist, hseg, hpre, hrest, -, -, -, -, hacc⟩ :=
    format7_setup_success_tail D fuel camera channel mode speed bytes_per_packet left
      top width height capture cap h seg hrun
  obtain ⟨pb, ppf, fin, hs9, hfin, -, -, hcap⟩ :=
    format7_setup_accounting_success_v130 D camera channel mode size.1 size.2 b is_iso_on
      capture cap hist s9 hv hacc
  refine ⟨pre, rest, fin, quadlet (quadlet (uint b <<< 16)), pb, ppf, ?_, hpre, hrest, ?_, ?_,
    ?_⟩
  · rw [hseg, hs9]
  · rw [hfin]
    intro x hx
    split_ifs at hx
    · rw [List.mem_singleton.1 hx]
      rfl
    · cases hx
  · rw [hcap]
  · rw [hcap]
    rfl

/-- Witness of C12: a camera of version 1.30 whose byte-per-packet register reads 100 bytes
and whose packets-per-frame register reads 10, after a write of 203 bytes: 25 quadlets per
packet and `10 * 100 / 4 = 250` quadlets per frame. -/
theorem setup_v130_frame_accounting_witness :
    IIDC_VERSION_1_30 ≤ camera_v130.sw_version ∧
    _dc1394_basic_format7_setup (fixed_camera odd_recommended_regs) 1 camera_v130 0 288 2
        USE_RECOMMENDED 0 0 640 480 stale_capture [] =
      .done (DC1394_SUCCESS,
        { node := 0, channel := 0, frame_rate := 0, frame_width := 640, frame_height := 480,
          quadlets_per_frame := 250, quadlets_per_packet := 25 })
        [Event.get_iso_status false 0,
          Event.set_iso_channel_and_speed 0 2 0,
          Event.set_video_format FORMAT_SCALABLE_IMAGE_SIZE 0,
          Event.set_video_mode 288 0,
          Event.get 288 Format7Reg.IMAGE_POSITION 0 0,
          Event.set 288 Format7Reg.IMAGE_POSITION 0 0,
          Event.get 288 Format7Reg.VALUE_SETTING 0x80000000 0,
          Event.set 288 Format7Reg.VALUE_SETTING 0x40000000 0,
          Event.get 288 Format7Reg.VALUE_SETTING 0x80000000 0,
          Event.set 288 Format7Reg.IMAGE_SIZE 0x028001E0 0,
          Event.get 288 Format7Reg.VALUE_SETTING 0x80000000 0,
          Event.set 288 Format7Reg.VALUE_SETTING 0x40000000 0,
          Event.get 288 Format7Reg.VALUE_SETTING 0x80000000 0,
          Event.get 288 Format7Reg.BYTE_PER_PACKET 0x006400CB 0,
          Event.get 288 Format7Reg.PACKET_PARA_INQ 0x00040064 0,
          Event.set 288 Format7Reg.BYTE_PER_PACKET 0x00CB0000 0,
          Event.get 288 Format7Reg.VALUE_SETTING 0x80000000 0,
          Event.set 288 Format7Reg.VALUE_SETTING 0x40000000 0,
          Event.get 288 Format7Reg.VALUE_SETTING 0x80000000 0,
          Event.get 288 Format7Reg.BYTE_PER_PACKET 0x006400CB 0,
          Event.get 288 Format7Reg.PACKET_PER_FRAME_INQ 10 0] ∧
    ∃ (pre handshake fin : Trace) (v pb ppf : Nat),
      [Event.get_iso_status false 0,
          Event.set_iso_channel_and_speed 0 2 0,
          Event.set_video_format FORMAT_SCALABLE_IMAGE_SIZE 0,
          Event.set_video_mode 288 0,
          Event.get 288 Format7Reg.IMAGE_POSITION 0 0,
          Event.set 288 Format7Reg.IMAGE_POSITION 0 0,
          Event.get 288 Format7Reg.VALUE_SETTING 0x80000000 0,
          Event.set 288 Format7Reg.VALUE_SETTING 0x40000000 0,
          Event.get 288 Format7Reg.VALUE_SETTING 0x80000000 0,
          Event.set 288 Format7Reg.IMAGE_SIZE 0x028001E0 0,
          Event.get 288 Format7Reg.VALUE_SETTING 0x80000000 0,
          Event.set 288 Format7Reg.VALUE_SETTING 0x40000000 0,
          Event.get 288 Format7Reg.VALUE_SETTING 0x80000000 0,
          Event.get 288 Format7Reg.BYTE_PER_PACKET 0x006400CB 0,
          Event.get 288 Format7Reg.PACKET_PARA_INQ 0x00040064 0,
          Event.set 288 Format7Reg.BYTE_PER_PACKET 0x00CB0000 0,
          Event.get 288 Format7Reg.VALUE_SETTING 0x80000000 0,
          Event.set 288 Format7Reg.VALUE_SETTING 0x40000000 0,
          Event.get 288 Format7Reg.VALUE_SETTING 0x80000000 0,
          Event.get 288 Format7Reg.BYTE_PER_PACKET 0x006400CB 0,
          Event.get 288 Format7Reg.PACKET_PER_FRAME_INQ 10 0] =
        pre ++ Event.set (uint 288) Format7Reg.BYTE_PER_PACKET v 0 ::
          (handshake ++ Event.get (uint 288) Format7Reg.BYTE_PER_PACKET pb 0 ::
            Event.get (uint 288) Format7Reg.PACKET_PER_FRAME_INQ ppf 0 :: fin) ∧
      (∀ x ∈ pre, x.isWrite Format7Reg.BYTE_PER_PACKET = false) ∧
      (∀ x ∈ handshake, x.isValueSetting = true) ∧
      (∀ x ∈ fin, x.isStart = true) ∧
      25 = (pb &&& 0xFFFF0000) >>> 16 / 4 ∧
      250 = (ppf * ((pb &&& 0xFFFF0000) >>> 16)) % 4294967296 / 4 :=
  ⟨by decide, odd_recommended_camera_setup,
    setup_v130_frame_accounting (fixed_camera odd_recommended_regs) 1 camera_v130 0 288 2
      USE_RECOMMENDED 0 0 640 480 stale_capture _ [] _ (by decide)
      odd_recommended_camera_setup⟩

/-- C13, the run that shows the divergence: 1000 bytes per packet are requested from a camera
of version 1.20 (YUV422, 640x480) whose byte-per-packet register reads 1024 after the write
of 1000.  `quadlets_per_packet` follows the value read back (`1024 / 4 = 256`), but
`quadlets_per_frame` is computed from the 1000 that was written (`615 * 1000 / 4 = 153750`)
and not from the 1024 of the camera (`600 * 1024 / 4 = 153600`). -/
theorem setup_old_accounting_ignores_reread :
    _dc1394_basic_format7_setup (scripted_camera unit8_regs false no_write_fault) 1 camera_v120
        0 288 2 1000 0 0 640 480 stale_capture [] =
      .done (DC1394_SUCCESS,
        { node := 0, channel := 0, frame_rate := 0, frame_width := 640, frame_height := 480,
          quadlets_per_frame := 153750, quadlets_per_packet := 256 })
        [Event.get_iso_status false 0,
          Event.set_iso_channel_and_speed 0 2 0,
          Event.set_video_format FORMAT_SCALABLE_IMAGE_SIZE 0,
          Event.set_video_mode 288 0,
          Event.get 288 Format7Reg.IMAGE_POSITION 0 0,
          Event.set 288 Format7Reg.IMAGE_POSITION 0 0,
          Event.set 288 Format7Reg.IMAGE_SIZE 0x028001E0 0,
          Event.get 288 Format7Reg.BYTE_PER_PACKET 0x04000400 0,
          Event.get 288 Format7Reg.PACKET_PARA_INQ 0x00041000 0,
          Event.set 288 Format7Reg.BYTE_PER_PACKET (1000 <<< 16) 0,
          Event.get 288 Format7Reg.BYTE_PER_PACKET (1024 <<< 16 ||| 1024) 0,
          Event.get 288 Format7Reg.COLOR_CODING_ID 0x02000000 0] ∧
    format7_frame_bytes 640 480 COLOR_FORMAT7_YUV422 = some 614400 ∧
    format7_frame_quadlets 614400 1000 = some (615, 153750) ∧
    format7_frame_quadlets 614400 1024 = some (600, 153600) :=
  ⟨unit8_camera_setup_1000, format7_frame_bytes_vga_yuv422, by decide, by decide⟩

/-- C14, the run that shows the divergence: on a camera of version 1.20 whose color-coding
register holds an id that `_Format7BytePerPixel` does not know (`0xFF000000`, the id 575),
the bytes per pixel are -1, the frame of 640x480 pixels has -307200 bytes, and with 1024
bytes per packet the `int` arithmetic of lines 347-349 gives -299 packets and
`(-299*1024)/4 = -76544` quadlets per frame: not strictly positive.  The value is stored
into the unsigned field `quadlets_per_frame` as 4294890752, the test `<= 0` of line 361
does not fire, and the function returns `DC1394_SUCCESS`. -/
theorem setup_succeeds_with_negative_frame_size :
    _dc1394_basic_format7_setup (scripted_camera unknown_coding_regs false no_write_fault) 1
        camera_v120 0 288 2 1024 0 0 640 480 stale_capture [] =
      .done (DC1394_SUCCESS,
        { node := 0, channel := 0, frame_rate := 0, frame_width := 640, frame_height := 480,
          quadlets_per_frame := 4294890752, quadlets_per_packet := 256 })
        [Event.get_iso_status false 0,
          Event.set_iso_channel_and_speed 0 2 0,
          Event.set_video_format FORMAT_SCALABLE_IMAGE_SIZE 0,
          Event.set_video_mode 288 0,
          Event.get 288 Format7Reg.IMAGE_POSITION 0 0,
          Event.set 288 Format7Reg.IMAGE_POSITION 0 0,
          Event.set 288 Format7Reg.IMAGE_SIZE 0x028001E0 0,
          Event.get 288 Format7Reg.BYTE_PER_PACKET 0x04000400 0,
          Event.get 288 Format7Reg.PACKET_PARA_INQ 0x00041000 0,
          Event.set 288 Format7Reg.BYTE_PER_PACKET 0x04000000 0,
          Event.get 288 Format7Reg.BYTE_PER_PACKET 0x04000400 0,
          Event.get 288 Format7Reg.COLOR_CODING_ID 0xFF000000 0] ∧
    camera_v120.sw_version < IIDC_VERSION_1_30 ∧
    sint (quadlet (quadlet 0xFF000000 >>> 24 + COLOR_FORMAT7_MIN)) = 575 ∧
    _Format7BytePerPixel 575 = -1 ∧
    format7_frame_bytes 640 480 575 = some (-307200) ∧
    format7_frame_quadlets (-307200) 1024 = some (-299, 4294890752) ∧
    Int.tdiv (-299 * 1024) 4 = -76544 ∧
    ¬ (0 : Int) < -76544 ∧
    uint (-76544) = 4294890752 ∧
    ¬ (4294890752 : Nat) ≤ 0 :=
  ⟨unknown_coding_camera_setup, by decide, by decide, Format7BytePerPixel_unknown,
    format7_frame_bytes_vga_unknown, by decide, by decide, by decide, by decide, by decide⟩

/-- The unsigned fields that a successful run of `_dc1394_basic_format7_setup` stores are not
zero: `quadlets_per_packet`, the packet size of the last read of the byte-per-packet
register (upper 16 bits) divided by 4, and `quadlets_per_frame`, the value of the frame
arithmetic cut to 32 bits. -/
theorem setup_success_positive_accounting (D : Device) (fuel : Nat) (camera : dc1394camera_t)
    (channel mode speed bytes_per_packet left top width height : Int)
    (capture cap : dc1394capture_t) (h seg : Trace)
    (hrun : _dc1394_basic_format7_setup D fuel camera channel mode speed bytes_per_packet left
      top width height capture h = .done (DC1394_SUCCESS, cap) seg) :
    0 < cap.quadlets_per_packet ∧ 0 < cap.quadlets_per_frame ∧
    ∃ (pre post : Trace) (pb : Nat),
      seg = pre ++ Event.get (uint mode) Format7Reg.BYTE_PER_PACKET pb 0 :: post ∧
      (∀ x ∈ post, x.isRead Format7Reg.BYTE_PER_PACKET = false) ∧
      cap.quadlets_per_packet = (pb &&& 0xFFFF0000) >>> 16 / 4 := by
  obtain ⟨is_iso_on, size, b, pre, rest, s9, hist, hseg, -, -, -, -, -, -, hacc⟩ :=
    format7_setup_success_tail D fuel camera channel mode speed bytes_per_packet left
      top width height capture cap h seg hrun
  have hstart : ∀ x ∈ (if is_iso_on = true then [Event.start_iso_transmission 0] else []),
      x.isRead Format7Reg.BYTE_PER_PACKET = false := by
    intro x hx
    split_ifs at hx
    · rw [List.mem_singleton.1 hx]
      rfl
    · cases hx
  by_cases hv : IIDC_VERSION_1_30 ≤ camera.sw_version
  · obtain ⟨pb, ppf, fin, hs9, hfin, hp, hf, hcap⟩ :=
      format7_setup_accounting_success_v130 D camera channel mode size.1 size.2 b is_iso_on
        capture cap hist s9 hv hacc
    refine ⟨by rw [hcap]; exact hp, by rw [hcap]; exact hf,
      pre ++ Event.set (uint mode) Format7Reg.BYTE_PER_PACKET
        (quadlet (quadlet (uint b <<< 16))) 0 :: rest,
      Event.get (uint mode) Format7Reg.PACKET_PER_FRAME_INQ ppf 0 :: fin, pb, ?_, ?_,
      by rw [hcap]⟩
    · rw [hseg, hs9]
      simp
    · intro x hx
      rcases List.mem_cons.1 hx with hx | hx
      · rw [hx]
        rfl
      · exact hstart x (hfin ▸ hx)
  · obtain ⟨pb, cc, fin, frame_bytes, pk, qpf, hs9, hfin, -, -, hp, hf, hcap⟩ :=
      format7_setup_accounting_success_old D camera channel mode size.1 size.2 b is_iso_on
        capture cap hist s9 (by omega) hacc
    refine ⟨by rw [hcap]; exact hp, by rw [hcap]; exact hf,
      pre ++ Event.set (uint mode) Format7Reg.BYTE_PER_PACKET
        (quadlet (quadlet (uint b <<< 16))) 0 :: rest,
      Event.get (uint mode) Format7Reg.COLOR_CODING_ID cc 0 :: fin, pb, ?_, ?_,
      by rw [hcap]⟩
    · rw [hseg, hs9]
      simp
    · intro x hx
      rcases List.mem_cons.1 hx with hx | hx
      · rw [hx]
        rfl
      · exact hstart x (hfin ▸ hx)

/-- An instance of the theorem above: the successful run on the camera of version 1.30 whose
packet size reads back as 1024 bytes, with 600 packets per frame. -/
theorem setup_success_positive_accounting_witness :
    (∃ cap seg, _dc1394_basic_format7_setup (fixed_camera flag2_regs) 1 camera_v130 0 288 2
        1024 0 0 640 480 stale_capture [] = .done (DC1394_SUCCESS, cap) seg ∧
      cap.quadlets_per_packet = 256 ∧ cap.quadlets_per_frame = 153600) ∧
    (0 : Nat) < 256 ∧ (0 : Nat) < 153600 :=
  ⟨⟨_, _, flag2_camera_setup, rfl, rfl⟩,
    (setup_success_positive_accounting (fixed_camera flag2_regs) 1 camera_v130 0 288 2 1024
      0 0 640 480 stale_capture _ [] _ flag2_camera_setup).1,
    (setup_success_positive_accounting (fixed_camera flag2_regs) 1 camera_v130 0 288 2 1024
      0 0 640 480 stale_capture _ [] _ flag2_camera_setup).2.1⟩

-- The order of the transactions.

/-- C15: a run of `_dc1394_basic_format7_setup` whose first transaction, the query of the iso
status, succeeds.  If the transmission is on, the next transaction is the stop of the
transmission, so it precedes every configuration write; no later transaction is a stop, a
start is the last transaction of the run, so no configuration write comes after a start,
and a successful run ends with the start.  If the transmission is off, no transaction of
the run is a stop or a start. -/
theorem setup_stops_and_restarts_iso (D : Device) (fuel : Nat) (camera : dc1394camera_t)
    (channel mode speed bytes_per_packet left top width height : Int)
    (capture : dc1394capture_t) (h rest : Trace) (is_iso_on : Bool)
    (hseg : (_dc1394_basic_format7_setup D fuel camera channel mode speed bytes_per_packet left
      top width height capture h).seg = Event.get_iso_status is_iso_on 0 :: rest) :
    (is_iso_on = true →
      ∃ e rest2, rest = Event.stop_iso_transmission e :: rest2 ∧
        (∀ x ∈ rest2, x.isStop = false) ∧
        (∀ pre x post, rest2 = pre ++ x :: post → x.isStart = true → post = []) ∧
        (∀ pre x post, rest2 = pre ++ x :: post → x.isConfigWrite = true →
          ∀ y ∈ pre, y.isStart = false) ∧
        (∀ cap seg, _dc1394_basic_format7_setup D fuel camera channel mode speed
            bytes_per_packet left top width height capture h = .done (DC1394_SUCCESS, cap) seg →
          ∃ mid, rest2 = mid ++ [Event.start_iso_transmission 0])) ∧
    (is_iso_on = false → ∀ x ∈ rest, x.isStop = false ∧ x.isStart = false) := by
  obtain ⟨T, hT, hcase⟩ := format7_setup_seg_split D fuel camera channel mode speed
    bytes_per_packet left top width height capture h
  rw [hT] at hseg
  have hrun1 := format7_setup_stop_iso_run D h
  have key : ∀ {b : Bool} {t : Trace}, start_only_last b t →
      (∀ x ∈ t, x.isStop = false) ∧
      (∀ pre x post, t = pre ++ x :: post → x.isStart = true → post = []) ∧
      (∀ pre x post, t = pre ++ x :: post → x.isConfigWrite = true →
        ∀ y ∈ pre, y.isStart = false) := by
    intro b t ht
    refine ⟨ht.1, fun pre x post hs hx => (ht.2 pre x post hs hx).1, ?_⟩
    intro pre x post hs _ y hy
    cases hys : y.isStart with
    | false => rfl
    | true =>
      obtain ⟨p1, p2, hp⟩ := List.append_of_mem hy
      have := (ht.2 p1 y (p2 ++ x :: post) (by rw [hs, hp]; simp) hys).1
      simp at this
  by_cases h1 : (D.dc1394_get_iso_status h).1 = 0
  · rw [if_pos h1] at hrun1
    by_cases h2 : (D.dc1394_get_iso_status h).2 = true
    · rw [if_pos h2] at hrun1
      by_cases h3 : D.dc1394_stop_iso_transmission (h ++ [Event.get_iso_status true 0]) = 0
      · rw [if_pos h3] at hrun1
        rw [hrun1] at hseg hcase
        simp only [Outcome.seg_done, List.cons_append, List.nil_append, List.cons.injEq,
          Event.get_iso_status.injEq, and_true] at hseg
        obtain ⟨hb, hrest⟩ := hseg
        rcases hcase with ⟨a, s, ha, hsol⟩ | ⟨hne, -⟩
        · simp only [Outcome.done.injEq, Except.ok.injEq] at ha
          obtain ⟨ha1, -⟩ := ha
          subst ha1
          refine ⟨fun _ => ⟨0, T, hrest.symm, (key hsol).1, (key hsol).2.1, (key hsol).2.2,
            ?_⟩, fun hf => ?_⟩
          · intro cap seg hsucc
            obtain ⟨io, s1, s2, request, s3, position, s4, size0, s5, size, s6, s7, b, s8, s9,
              e1, -, -, -, -, -, -, -, e9, hsegs⟩ :=
              format7_setup_success D fuel camera channel mode speed bytes_per_packet left top
                width height capture cap h seg hsucc
            rw [hrun1] at e1
            simp only [Outcome.done.injEq, Except.ok.injEq] at e1
            obtain ⟨hio, hs1⟩ := e1
            subst hio
            have hseg2 := congrArg Outcome.seg hsucc
            rw [hT, hrun1] at hseg2
            simp only [Outcome.seg_done, hsegs, ← hs1, List.cons_append, List.nil_append,
              List.cons.injEq, true_and] at hseg2
            have hfin : ∃ front, s9 = front ++ [Event.start_iso_transmission 0] := by
              by_cases hv : IIDC_VERSION_1_30 ≤ camera.sw_version
              · obtain ⟨pb, ppf, fin, hs9, hfin, -⟩ :=
                  format7_setup_accounting_success_v130 D camera channel mode size.1 size.2 b
                    true capture cap _ s9 hv e9
                rw [if_pos rfl] at hfin
                exact ⟨[Event.get (uint mode) Format7Reg.BYTE_PER_PACKET pb 0,
                  Event.get (uint mode) Format7Reg.PACKET_PER_FRAME_INQ ppf 0],
                  by rw [hs9, hfin]; rfl⟩
              · obtain ⟨pb, cc, fin, fb, pk, qpf, hs9, hfin, -⟩ :=
                  format7_setup_accounting_success_old D camera channel mode size.1 size.2 b
                    true capture cap _ s9 (by omega) e9
                rw [if_pos rfl] at hfin
                exact ⟨[Event.get (uint mode) Format7Reg.BYTE_PER_PACKET pb 0,
                  Event.get (uint mode) Format7Reg.COLOR_CODING_ID cc 0],
                  by rw [hs9, hfin]; rfl⟩
            obtain ⟨front, hfront⟩ := hfin
            refine ⟨s2 ++ (s3 ++ (s4 ++ (s5 ++ (s6 ++ (s7 ++ (s8 ++ front)))))), ?_⟩
            rw [hseg2, hfront]
            simp
          · rw [hf] at hb
            cases hb
        · exact absurd rfl (hne true _)
      · rw [if_neg h3] at hrun1
        rw [hrun1] at hseg hcase
        rcases hcase with ⟨a, s, ha, -⟩ | ⟨-, hTnil⟩
        · cases ha
        · rw [hTnil] at hseg
          simp only [Outcome.seg_done, List.cons_append, List.nil_append, List.cons.injEq,
            Event.get_iso_status.injEq, and_true] at hseg
          obtain ⟨hb, hrest⟩ := hseg
          refine ⟨fun _ => ⟨_, [], hrest.symm, fun x hx => (by cases hx),
            fun pre x post hs _ => (by cases pre <;> cases hs),
            fun pre x post hs _ => (by cases pre <;> cases hs), ?_⟩, fun hf => ?_⟩
          · intro cap seg hsucc
            obtain ⟨io, s1, s2, request, s3, position, s4, size0, s5, size, s6, s7, b, s8, s9,
              e1, -⟩ :=
              format7_setup_success D fuel camera channel mode speed bytes_per_packet left top
                width height capture cap h seg hsucc
            rw [hrun1] at e1
            cases e1
          · rw [hf] at hb
            cases hb
    · rw [if_neg h2] at hrun1
      rw [hrun1] at hseg hcase
      simp only [Outcome.seg_done, List.cons_append, List.nil_append, List.cons.injEq,
        Event.get_iso_status.injEq, and_true] at hseg
      obtain ⟨hb, hrest⟩ := hseg
      rcases hcase with ⟨a, s, ha, hsol⟩ | ⟨hne, -⟩
      · simp only [Outcome.done.injEq, Except.ok.injEq] at ha
        obtain ⟨ha1, -⟩ := ha
        subst ha1
        refine ⟨fun ht => ?_, fun _ x hx => ?_⟩
        · rw [ht] at hb
          cases hb
        · rw [← hrest] at hx
          refine ⟨hsol.1 x hx, ?_⟩
          cases hxs : x.isStart with
          | false => rfl
          | true =>
            obtain ⟨p1, p2, hp⟩ := List.append_of_mem hx
            exact absurd (hsol.2 p1 x p2 hp hxs).2 (by decide)
      · exact absurd rfl (hne false _)
  · rw [if_neg h1] at hrun1
    rw [hrun1] at hseg
    simp only [Outcome.seg_done, List.cons_append, List.nil_append, List.cons.injEq,
      Event.get_iso_status.injEq] at hseg
    exact absurd hseg.1.2 h1

/-- Witness of C15: the camera of version 1.20 that is transmitting at entry.  The run is
the query of the status, the stop, the reconfiguration, the start. -/
theorem setup_stops_and_restarts_iso_witness :
    (_dc1394_basic_format7_setup (scripted_camera unit8_regs true no_write_fault) 1 camera_v120
        0 288 2 1024 0 0 640 480 stale_capture []).seg =
      Event.get_iso_status true 0 ::
        [Event.stop_iso_transmission 0,
          Event.set_iso_channel_and_speed 0 2 0,
          Event.set_video_format FORMAT_SCALABLE_IMAGE_SIZE 0,
          Event.set_video_mode 288 0,
          Event.get 288 Format7Reg.IMAGE_POSITION 0 0,
          Event.set 288 Format7Reg.IMAGE_POSITION 0 0,
          Event.set 288 Format7Reg.IMAGE_SIZE 0x028001E0 0,
          Event.get 288 Format7Reg.BYTE_PER_PACKET 0x04000400 0,
          Event.get 288 Format7Reg.PACKET_PARA_INQ 0x00041000 0,
          Event.set 288 Format7Reg.BYTE_PER_PACKET 0x04000000 0,
          Event.get 288 Format7Reg.BYTE_PER_PACKET 0x04000400 0,
          Event.get 288 Format7Reg.COLOR_CODING_ID 0x02000000 0,
          Event.start_iso_transmission 0] ∧
    ∃ e rest2,
      [Event.stop_iso_transmission 0,
          Event.set_iso_channel_and_speed 0 2 0,
          Event.set_video_format FORMAT_SCALABLE_IMAGE_SIZE 0,
          Event.set_video_mode 288 0,
          Event.get 288 Format7Reg.IMAGE_POSITION 0 0,
          Event.set 288 Format7Reg.IMAGE_POSITION 0 0,
          Event.set 288 Format7Reg.IMAGE_SIZE 0x028001E0 0,
          Event.get 288 Format7Reg.BYTE_PER_PACKET 0x04000400 0,
          Event.get 288 Format7Reg.PACKET_PARA_INQ 0x00041000 0,
          Event.set 288 Format7Reg.BYTE_PER_PACKET 0x04000000 0,
          Event.get 288 Format7Reg.BYTE_PER_PACKET 0x04000400 0,
          Event.get 288 Format7Reg.COLOR_CODING_ID 0x02000000 0,
          Event.start_iso_transmission 0] = Event.stop_iso_transmission e :: rest2 ∧
      (∀ x ∈ rest2, x.isStop = false) ∧
      (∀ pre x post, rest2 = pre ++ x :: post → x.isStart = true → post = []) ∧
      (∀ pre x post, rest2 = pre ++ x :: post → x.isConfigWrite = true →
        ∀ y ∈ pre, y.isStart = false) ∧
      ∃ mid, rest2 = mid ++ [Event.start_iso_transmission 0] := by
  have hseg := congrArg Outcome.seg streaming_camera_setup
  obtain ⟨e, rest2, h1, h2, h3, h4, h5⟩ :=
    (setup_stops_and_restarts_iso (scripted_camera unit8_regs true no_write_fault) 1
      camera_v120 0 288 2 1024 0 0 640 480 stale_capture [] _ true hseg).1 rfl
  exact ⟨hseg, e, rest2, h1, h2, h3, h4, h5 _ _ streaming_camera_setup⟩

/-- C16: if a transaction of a run of `_dc1394_basic_format7_setup` (a register read or
write, or another call into the camera layer) returns a code other than 0, it is the last
transaction of the run, and the function has returned a code other than `DC1394_SUCCESS`;
the transactions before it stay as they are, nothing is written after it. -/
theorem setup_stops_at_failed_transaction (D : Device) (fuel : Nat) (camera : dc1394camera_t)
    (channel mode speed bytes_per_packet left top width height : Int)
    (capture : dc1394capture_t) (h pre post : Trace) (x : Event)
    (hseg : (_dc1394_basic_format7_setup D fuel camera channel mode speed bytes_per_packet left
      top width height capture h).seg = pre ++ x :: post)
    (hx : x.err ≠ 0) :
    post = [] ∧
    ∃ code cap, _dc1394_basic_format7_setup D fuel camera channel mode speed bytes_per_packet
        left top width height capture h = .done (code, cap) (pre ++ [x]) ∧
      code ≠ DC1394_SUCCESS := by
  obtain ⟨hpost, a, ha, hne⟩ := format7_setup_failStop D fuel camera channel mode speed
    bytes_per_packet left top width height capture h pre x post hseg hx
  refine ⟨hpost, a.1, a.2, ?_, hne⟩
  rw [hseg, hpost] at ha
  exact ha

/-- Witness of C16: the camera of version 1.20 whose image-size write fails.  The position
has been written, the failed write is the last transaction, the function returns
`DC1394_FAILURE`. -/
theorem setup_stops_at_failed_transaction_witness :
    (_dc1394_basic_format7_setup (scripted_camera unit8_regs false size_write_fault) 1
        camera_v120 0 288 2 1024 0 0 640 480 stale_capture []).seg =
      [Event.get_iso_status false 0,
        Event.set_iso_channel_and_speed 0 2 0,
        Event.set_video_format FORMAT_SCALABLE_IMAGE_SIZE 0,
        Event.set_video_mode 288 0,
        Event.get 288 Format7Reg.IMAGE_POSITION 0 0,
        Event.set 288 Format7Reg.IMAGE_POSITION 0 0] ++
      Event.set 288 Format7Reg.IMAGE_SIZE 0x028001E0 DC1394_FAILURE :: [] ∧
    (Event.set 288 Format7Reg.IMAGE_SIZE 0x028001E0 DC1394_FAILURE).err ≠ 0 ∧
    ∃ code cap, _dc1394_basic_format7_setup (scripted_camera unit8_regs false size_write_fault)
        1 camera_v120 0 288 2 1024 0 0 640 480 stale_capture [] =
        .done (code, cap)
          ([Event.get_iso_status false 0,
            Event.set_iso_channel_and_speed 0 2 0,
            Event.set_video_format FORMAT_SCALABLE_IMAGE_SIZE 0,
            Event.set_video_mode 288 0,
            Event.get 288 Format7Reg.IMAGE_POSITION 0 0,
            Event.set 288 Format7Reg.IMAGE_POSITION 0 0] ++
            [Event.set 288 Format7Reg.IMAGE_SIZE 0x028001E0 DC1394_FAILURE]) ∧
      code ≠ DC1394_SUCCESS :=
  ⟨congrArg Outcome.seg size_fault_camera_setup, by decide,
    (setup_stops_at_failed_transaction (scripted_camera unit8_regs false size_write_fault) 1
      camera_v120 0 288 2 1024 0 0 640 480 stale_capture [] _ [] _
      (congrArg Outcome.seg size_fault_camera_setup) (by decide)).2⟩

-- The values committed to the camera.

/-- C17, counterexample: a camera of 640x480 pixels that reports a unit of
8x8 pixels for position and size.  The request of position (3, 5) and size 1001x7 succeeds,
and the values written are `0x00030005` and `0x03E90007`: no component is a multiple of 8,
and `3 + 1001` exceeds 640.  The run has no read of the unit-size or of the maximum-image-size
register. -/
theorem setup_commits_unchecked_literals :
    dc1394_query_format7_unit_size (scripted_camera unit8_regs false no_write_fault) 288 0 0 [] =
      .done (DC1394_SUCCESS, 8, 8) [Event.get 288 Format7Reg.UNIT_SIZE_INQ 0x00080008 0] ∧
    dc1394_query_format7_max_image_size (scripted_camera unit8_regs false no_write_fault) 288
        0 0 [] =
      .done (DC1394_SUCCESS, 640, 480)
        [Event.get 288 Format7Reg.MAX_IMAGE_SIZE_INQ 0x028001E0 0] ∧
    _dc1394_basic_format7_setup (scripted_camera unit8_regs false no_write_fault) 1 camera_v120
        0 288 2 1024 3 5 1001 7 stale_capture [] =
      .done (DC1394_SUCCESS,
        { node := 0, channel := 0, frame_rate := 0, frame_width := 1001, frame_height := 7,
          quadlets_per_frame := 3584, quadlets_per_packet := 256 })
        [Event.get_iso_status false 0,
          Event.set_iso_channel_and_speed 0 2 0,
          Event.set_video_format FORMAT_SCALABLE_IMAGE_SIZE 0,
          Event.set_video_mode 288 0,
          Event.get 288 Format7Reg.IMAGE_POSITION 0 0,
          Event.set 288 Format7Reg.IMAGE_POSITION (3 <<< 16 ||| 5) 0,
          Event.set 288 Format7Reg.IMAGE_SIZE (1001 <<< 16 ||| 7) 0,
          Event.get 288 Format7Reg.BYTE_PER_PACKET 0x04000400 0,
          Event.get 288 Format7Reg.PACKET_PARA_INQ 0x00041000 0,
          Event.set 288 Format7Reg.BYTE_PER_PACKET 0x04000000 0,
          Event.get 288 Format7Reg.BYTE_PER_PACKET 0x04000400 0,
          Event.get 288 Format7Reg.COLOR_CODING_ID 0x02000000 0] ∧
    ¬ (8 ∣ 3) ∧ ¬ (8 ∣ 5) ∧ ¬ (8 ∣ 1001) ∧ ¬ (8 ∣ 7) ∧ 640 < 3 + 1001 :=
  ⟨rfl, rfl, unit8_camera_setup_unchecked, by decide, by decide, by decide, by decide,
    by decide⟩

/-- C18, counterexample: a horizontal position of `USE_MAX_AVAIL` is requested.  The value
written to the image-position register is `0xFFFE0000`: its upper 16 bits are the 16-bit
pattern of the sentinel -2. -/
theorem setup_writes_position_sentinel :
    (_dc1394_basic_format7_setup (scripted_camera unit8_regs false no_write_fault) 1 camera_v120
        0 288 2 1024 USE_MAX_AVAIL 0 640 480 stale_capture []).seg =
      [Event.get_iso_status false 0,
        Event.set_iso_channel_and_speed 0 2 0,
        Event.set_video_format FORMAT_SCALABLE_IMAGE_SIZE 0,
        Event.set_video_mode 288 0,
        Event.get 288 Format7Reg.IMAGE_POSITION 0 0] ++
      Event.set 288 Format7Reg.IMAGE_POSITION 0xFFFE0000 0 ::
        [Event.set 288 Format7Reg.IMAGE_SIZE 0x028001E0 0,
          Event.get 288 Format7Reg.BYTE_PER_PACKET 0x04000400 0,
          Event.get 288 Format7Reg.PACKET_PARA_INQ 0x00041000 0,
          Event.set 288 Format7Reg.BYTE_PER_PACKET 0x04000000 0,
          Event.get 288 Format7Reg.BYTE_PER_PACKET 0x04000400 0,
          Event.get 288 Format7Reg.COLOR_CODING_ID 0x02000000 0] ∧
    0xFFFE0000 >>> 16 = uint USE_MAX_AVAIL % 65536 :=
  ⟨congrArg Outcome.seg unit8_camera_setup_position_max, by decide⟩

/-- C18, amended: a request whose `left` and `top` are each a non-negative literal or
`QUERY_FROM_CAMERA`, whose `width` and `height` are each a non-negative literal,
`QUERY_FROM_CAMERA` or `USE_MAX_AVAIL`, with any packet size.  The position written is the
pair `(l, t)` of the literal or of the field just read from the camera, both non-negative.
The size written is the pair `(w, ht)` of the literal, of the current size of the camera when
that is not 0, or of the maximum minus `l` (minus `t`); it is non-negative whenever the
maximum, where it is used, is not smaller than the position.  The packet size written is the
result `b` of the switch, with `0 <= b < 65536`. -/
theorem setup_writes_resolved_values (D : Device) (fuel : Nat) (camera : dc1394camera_t)
    (channel mode speed bytes_per_packet left top width height : Int)
    (capture : dc1394capture_t) (h : Trace)
    (hleft : 0 ≤ left ∨ left = QUERY_FROM_CAMERA) (htop : 0 ≤ top ∨ top = QUERY_FROM_CAMERA)
    (hwidth : 0 ≤ width ∨ width = QUERY_FROM_CAMERA ∨ width = USE_MAX_AVAIL)
    (hheight : 0 ≤ height ∨ height = QUERY_FROM_CAMERA ∨ height = USE_MAX_AVAIL) :
    (∀ (pre post : Trace) (m v : Nat) (e : Int),
      (_dc1394_basic_format7_setup D fuel camera channel mode speed bytes_per_packet left top
        width height capture h).seg =
          pre ++ Event.set m Format7Reg.IMAGE_POSITION v e :: post →
      ∃ (cur : Nat) (l t : Int),
        Event.get (uint mode) Format7Reg.IMAGE_POSITION cur 0 ∈ pre ∧
        l = (if left = QUERY_FROM_CAMERA then sint ((cur &&& 0xFFFF0000) >>> 16) else left) ∧
        t = (if top = QUERY_FROM_CAMERA then sint (cur &&& 0x0000FFFF) else top) ∧
        0 ≤ l ∧ 0 ≤ t ∧
        v = quadlet (quadlet (uint l <<< 16) ||| uint t)) ∧
    (∀ (pre post : Trace) (m v : Nat) (e : Int),
      (_dc1394_basic_format7_setup D fuel camera channel mode speed bytes_per_packet left top
        width height capture h).seg =
          pre ++ Event.set m Format7Reg.IMAGE_SIZE v e :: post →
      ∃ (cur cs mx : Nat) (l t w0 h0 w ht : Int),
        Event.get (uint mode) Format7Reg.IMAGE_POSITION cur 0 ∈ pre ∧
        l = (if left = QUERY_FROM_CAMERA then sint ((cur &&& 0xFFFF0000) >>> 16) else left) ∧
        t = (if top = QUERY_FROM_CAMERA then sint (cur &&& 0x0000FFFF) else top) ∧
        (width = QUERY_FROM_CAMERA ∨ height = QUERY_FROM_CAMERA →
          Event.get (uint mode) Format7Reg.IMAGE_SIZE cs 0 ∈ pre) ∧
        (w0 = USE_MAX_AVAIL ∨ h0 = USE_MAX_AVAIL →
          pre.getLast? = some (Event.get (uint mode) Format7Reg.MAX_IMAGE_SIZE_INQ mx 0)) ∧
        w0 = (if width = QUERY_FROM_CAMERA then
            if (cs &&& 0xFFFF0000) >>> 16 > 0 then sint ((cs &&& 0xFFFF0000) >>> 16)
            else USE_MAX_AVAIL
          else width) ∧
        h0 = (if height = QUERY_FROM_CAMERA then
            if cs &&& 0x0000FFFF > 0 then sint (cs &&& 0x0000FFFF) else USE_MAX_AVAIL
          else height) ∧
        w = (if w0 = USE_MAX_AVAIL then
            sint (uint ((((mx &&& 0xFFFF0000) >>> 16 : Nat) : Int) - l))
          else w0) ∧
        ht = (if h0 = USE_MAX_AVAIL then
            sint (uint (((mx &&& 0x0000FFFF : Nat) : Int) - t))
          else h0) ∧
        v = quadlet (quadlet (uint w <<< 16) ||| uint ht) ∧
        ((w0 = USE_MAX_AVAIL → l ≤ (((mx &&& 0xFFFF0000) >>> 16 : Nat) : Int)) → 0 ≤ w) ∧
        ((h0 = USE_MAX_AVAIL → t ≤ ((mx &&& 0x0000FFFF : Nat) : Int)) → 0 ≤ ht)) ∧
    (∀ (pre post : Trace) (m v : Nat) (e : Int),
      (_dc1394_basic_format7_setup D fuel camera channel mode speed bytes_per_packet left top
        width height capture h).seg =
          pre ++ Event.set m Format7Reg.BYTE_PER_PACKET v e :: post →
      ∃ (recom para : Nat) (request b : Int) (pre0 : Trace),
        pre = pre0 ++ [Event.get (uint mode) Format7Reg.BYTE_PER_PACKET recom 0,
          Event.get (uint mode) Format7Reg.PACKET_PARA_INQ para 0] ∧
        (bytes_per_packet ≠ QUERY_FROM_CAMERA → request = bytes_per_packet) ∧
        (bytes_per_packet = QUERY_FROM_CAMERA →
          ∃ cur, Event.get (uint mode) Format7Reg.BYTE_PER_PACKET cur 0 ∈ pre0 ∧
            request = sint ((cur &&& 0xFFFF0000) >>> 16)) ∧
        format7_packet_size_switch request (recom &&& 0x0000FFFF)
          ((para &&& 0xFFFF0000) >>> 16) (para &&& 0x0000FFFF) = some b ∧
        0 ≤ b ∧ b < 65536 ∧
        v = quadlet (quadlet (uint b <<< 16))) := by
  refine ⟨?_, ?_, ?_⟩
  · intro pre post m v e hseg
    obtain ⟨pre0, cur, hpre, -, hv⟩ := format7_setup_position_write D fuel camera channel mode
      speed bytes_per_packet left top width height capture h hseg
    exact ⟨cur, _, _, by rw [hpre]; simp, rfl, rfl,
      resolved_position_nonneg left _ (high_field_lt cur) hleft,
      resolved_position_nonneg top _ (low_field_lt cur) htop, hv⟩
  · intro pre post m v e hseg
    obtain ⟨cur, cs, mx, w0, h0, w1, h1, hcur, hcs, hmx, hw0, hh0, hw1, hh1, -, hv⟩ :=
      format7_setup_size_resolved D fuel camera channel mode speed bytes_per_packet left top
        width height capture h hseg
    refine ⟨cur, cs, mx, _, _, w0, h0, w1, h1, hcur, rfl, rfl, hcs, hmx, hw0, hh0, hw1, hh1,
      hv, ?_, ?_⟩
    · exact resolved_size_nonneg width _ _ _ (high_field_lt cs) (high_field_lt mx) hwidth
        (resolved_position_nonneg left _ (high_field_lt cur) hleft) hw0 hw1
    · exact resolved_size_nonneg height _ _ _ (low_field_lt cs) (low_field_lt mx) hheight
        (resolved_position_nonneg top _ (low_field_lt cur) htop) hh0 hh1
  · intro pre post m v e hseg
    obtain ⟨pre0, h3, request, s3, recom, para, b, hq, hs3, hpre, -, hsw, hv⟩ :=
      format7_setup_packet_write D fuel camera channel mode speed bytes_per_packet left top
        width height capture h hseg
    obtain ⟨ha, hb⟩ := format7_setup_query_bpp_ok _ _ _ _ hq
    have hreq : request ≠ QUERY_FROM_CAMERA := by
      by_cases hc : bytes_per_packet = QUERY_FROM_CAMERA
      · obtain ⟨cur, -, hr⟩ := hb hc
        rw [hr, sint_of_lt (by have := high_field_lt cur; omega)]
        unfold QUERY_FROM_CAMERA
        omega
      · rw [ha hc]
        exact hc
    obtain ⟨hb0, hb1⟩ := format7_packet_size_switch_range request _ _ _ hreq (low_field_lt _)
      (high_field_lt _) (low_field_lt _) hsw
    refine ⟨recom, para, request, b, pre0, hpre, ha, fun hc => ?_, hsw, hb0, hb1, hv⟩
    obtain ⟨cur, hs, hr⟩ := hb hc
    exact ⟨cur, hs3 _ (by rw [hs]; simp), hr⟩

/-- Witness of C18 as amended: position, size and packet size are all queried from a camera
at position (100, 50) with a current size of 320x0, a maximum of 640x480 and a packet size of
1024 bytes.  The values written are `0x00640032`, `0x014001AE` (320x430) and `0x04000000`. -/
theorem setup_writes_resolved_values_witness :
    ((0 : Int) ≤ QUERY_FROM_CAMERA ∨ QUERY_FROM_CAMERA = QUERY_FROM_CAMERA) ∧
    ((0 : Int) ≤ QUERY_FROM_CAMERA ∨ QUERY_FROM_CAMERA = QUERY_FROM_CAMERA ∨
      QUERY_FROM_CAMERA = USE_MAX_AVAIL) ∧
    (_dc1394_basic_format7_setup (fixed_camera vga_regs) 1 camera_v130 0 288 2
        QUERY_FROM_CAMERA QUERY_FROM_CAMERA QUERY_FROM_CAMERA QUERY_FROM_CAMERA
        QUERY_FROM_CAMERA stale_capture []).seg =
      [Event.get_iso_status false 0,
       Event.set_iso_channel_and_speed 0 2 0,
       Event.set_video_format FORMAT_SCALABLE_IMAGE_SIZE 0,
       Event.set_video_mode 288 0,
       Event.get 288 Format7Reg.BYTE_PER_PACKET 0x04000400 0,
       Event.get 288 Format7Reg.IMAGE_POSITION 0x00640032 0,
       Event.set 288 Format7Reg.IMAGE_POSITION 0x00640032 0,
       Event.get 288 Format7Reg.VALUE_SETTING 0x80000000 0,
       Event.set 288 Format7Reg.VALUE_SETTING 0x40000000 0,
       Event.get 288 Format7Reg.VALUE_SETTING 0x80000000 0,
       Event.get 288 Format7Reg.IMAGE_SIZE 0x01400000 0,
       Event.get 288 Format7Reg.MAX_IMAGE_SIZE_INQ 0x028001E0 0,
       Event.set 288 Format7Reg.IMAGE_SIZE 0x014001AE 0,
       Event.get 288 Format7Reg.VALUE_SETTING 0x80000000 0,
       Event.set 288 Format7Reg.VALUE_SETTING 0x40000000 0,
       Event.get 288 Format7Reg.VALUE_SETTING 0x80000000 0,
       Event.get 288 Format7Reg.BYTE_PER_PACKET 0x04000400 0,
       Event.get 288 Format7Reg.PACKET_PARA_INQ 0x00041000 0,
       Event.set 288 Format7Reg.BYTE_PER_PACKET 0x04000000 0,
       Event.get 288 Format7Reg.VALUE_SETTING 0x80000000 0,
       Event.set 288 Format7Reg.VALUE_SETTING 0x40000000 0,
       Event.get 288 Format7Reg.VALUE_SETTING 0x80000000 0,
       Event.get 288 Format7Reg.BYTE_PER_PACKET 0x04000400 0,
       Event.get 288 Format7Reg.PACKET_PER_FRAME_INQ 600 0] ∧
    (∃ (cur : Nat) (l t : Int),
      Event.get (uint 288) Format7Reg.IMAGE_POSITION cur 0 ∈
        ([Event.get_iso_status false 0,
          Event.set_iso_channel_and_speed 0 2 0,
          Event.set_video_format FORMAT_SCALABLE_IMAGE_SIZE 0,
          Event.set_video_mode 288 0,
          Event.get 288 Format7Reg.BYTE_PER_PACKET 0x04000400 0,
          Event.get 288 Format7Reg.IMAGE_POSITION 0x00640032 0] : Trace) ∧
      l = (if QUERY_FROM_CAMERA = QUERY_FROM_CAMERA then sint ((cur &&& 0xFFFF0000) >>> 16)
        else QUERY_FROM_CAMERA) ∧
      t = (if QUERY_FROM_CAMERA = QUERY_FROM_CAMERA then sint (cur &&& 0x0000FFFF)
        else QUERY_FROM_CAMERA) ∧
      0 ≤ l ∧ 0 ≤ t ∧
      0x00640032 = quadlet (quadlet (uint l <<< 16) ||| uint t)) ∧
    (∃ (cur cs mx : Nat) (l t w0 h0 w ht : Int),
      Event.get (uint 288) Format7Reg.IMAGE_POSITION cur 0 ∈
        ([Event.get_iso_status false 0,
            Event.set_iso_channel_and_speed 0 2 0,
            Event.set_video_format FORMAT_SCALABLE_IMAGE_SIZE 0,
            Event.set_video_mode 288 0,
            Event.get 288 Format7Reg.BYTE_PER_PACKET 0x04000400 0,
            Event.get 288 Format7Reg.IMAGE_POSITION 0x00640032 0,
            Event.set 288 Format7Reg.IMAGE_POSITION 0x00640032 0,
            Event.get 288 Format7Reg.VALUE_SETTING 0x80000000 0,
            Event.set 288 Format7Reg.VALUE_SETTING 0x40000000 0,
            Event.get 288 Format7Reg.VALUE_SETTING 0x80000000 0,
            Event.get 288 Format7Reg.IMAGE_SIZE 0x01400000 0,
            Event.get 288 Format7Reg.MAX_IMAGE_SIZE_INQ 0x028001E0 0] : Trace) ∧
      l = (if QUERY_FROM_CAMERA = QUERY_FROM_CAMERA then sint ((cur &&& 0xFFFF0000) >>> 16)
        else QUERY_FROM_CAMERA) ∧
      t = (if QUERY_FROM_CAMERA = QUERY_FROM_CAMERA then sint (cur &&& 0x0000FFFF)
        else QUERY_FROM_CAMERA) ∧
      (QUERY_FROM_CAMERA = QUERY_FROM_CAMERA ∨ QUERY_FROM_CAMERA = QUERY_FROM_CAMERA →
        Event.get (uint 288) Format7Reg.IMAGE_SIZE cs 0 ∈
          ([Event.get_iso_status false 0,
            Event.set_iso_channel_and_speed 0 2 0,
            Event.set_video_format FORMAT_SCALABLE_IMAGE_SIZE 0,
            Event.set_video_mode 288 0,
            Event.get 288 Format7Reg.BYTE_PER_PACKET 0x04000400 0,
            Event.get 288 Format7Reg.IMAGE_POSITION 0x00640032 0,
            Event.set 288 Format7Reg.IMAGE_POSITION 0x00640032 0,
            Event.get 288 Format7Reg.VALUE_SETTING 0x80000000 0,
            Event.set 288 Format7Reg.VALUE_SETTING 0x40000000 0,
            Event.get 288 Format7Reg.VALUE_SETTING 0x80000000 0,
            Event.get 288 Format7Reg.IMAGE_SIZE 0x01400000 0,
            Event.get 288 Format7Reg.MAX_IMAGE_SIZE_INQ 0x028001E0 0] : Trace)) ∧
      (w0 = USE_MAX_AVAIL ∨ h0 = USE_MAX_AVAIL →
        ([Event.get_iso_status false 0,
            Event.set_iso_channel_and_speed 0 2 0,
            Event.set_video_format FORMAT_SCALABLE_IMAGE_SIZE 0,
            Event.set_video_mode 288 0,
            Event.get 288 Format7Reg.BYTE_PER_PACKET 0x04000400 0,
            Event.get 288 Format7Reg.IMAGE_POSITION 0x00640032 0,
            Event.set 288 Format7Reg.IMAGE_POSITION 0x00640032 0,
            Event.get 288 Format7Reg.VALUE_SETTING 0x80000000 0,
            Event.set 288 Format7Reg.VALUE_SETTING 0x40000000 0,
            Event.get 288 Format7Reg.VALUE_SETTING 0x80000000 0,
            Event.get 288 Format7Reg.IMAGE_SIZE 0x01400000 0,
            Event.get 288 Format7Reg.MAX_IMAGE_SIZE_INQ 0x028001E0 0] : Trace).getLast? =
          some (Event.get (uint 288) Format7Reg.MAX_IMAGE_SIZE_INQ mx 0)) ∧
      w0 = (if QUERY_FROM_CAMERA = QUERY_FROM_CAMERA then
          if (cs &&& 0xFFFF0000) >>> 16 > 0 then sint ((cs &&& 0xFFFF0000) >>> 16)
          else USE_MAX_AVAIL
        else QUERY_FROM_CAMERA) ∧
      h0 = (if QUERY_FROM_CAMERA = QUERY_FROM_CAMERA then
          if cs &&& 0x0000FFFF > 0 then sint (cs &&& 0x0000FFFF) else USE_MAX_AVAIL
        else QUERY_FROM_CAMERA) ∧
      w = (if w0 = USE_MAX_AVAIL then
          sint (uint ((((mx &&& 0xFFFF0000) >>> 16 : Nat) : Int) - l))
        else w0) ∧
      ht = (if h0 = USE_MAX_AVAIL then
          sint (uint (((mx &&& 0x0000FFFF : Nat) : Int) - t))
        else h0) ∧
      0x014001AE = quadlet (quadlet (uint w <<< 16) ||| uint ht) ∧
      ((w0 = USE_MAX_AVAIL → l ≤ (((mx &&& 0xFFFF0000) >>> 16 : Nat) : Int)) → 0 ≤ w) ∧
      ((h0 = USE_MAX_AVAIL → t ≤ ((mx &&& 0x0000FFFF : Nat) : Int)) → 0 ≤ ht)) ∧
    (∃ (recom para : Nat) (request b : Int) (pre0 : Trace),
      ([Event.get_iso_status false 0,
        Event.set_iso_channel_and_speed 0 2 0,
        Event.set_video_format FORMAT_SCALABLE_IMAGE_SIZE 0,
        Event.set_video_mode 288 0,
        Event.get 288 Format7Reg.BYTE_PER_PACKET 0x04000400 0,
        Event.get 288 Format7Reg.IMAGE_POSITION 0x00640032 0,
        Event.set 288 Format7Reg.IMAGE_POSITION 0x00640032 0,
        Event.get 288 Format7Reg.VALUE_SETTING 0x80000000 0,
        Event.set 288 Format7Reg.VALUE_SETTING 0x40000000 0,
        Event.get 288 Format7Reg.VALUE_SETTING 0x80000000 0,
        Event.get 288 Format7Reg.IMAGE_SIZE 0x01400000 0,
        Event.get 288 Format7Reg.MAX_IMAGE_SIZE_INQ 0x028001E0 0,
        Event.set 288 Format7Reg.IMAGE_SIZE 0x014001AE 0,
        Event.get 288 Format7Reg.VALUE_SETTING 0x80000000 0,
        Event.set 288 Format7Reg.VALUE_SETTING 0x40000000 0,
        Event.get 288 Format7Reg.VALUE_SETTING 0x80000000 0,
        Event.get 288 Format7Reg.BYTE_PER_PACKET 0x04000400 0,
        Event.get 288 Format7Reg.PACKET_PARA_INQ 0x00041000 0] : Trace) =
        pre0 ++ [Event.get (uint 288) Format7Reg.BYTE_PER_PACKET recom 0,
          Event.get (uint 288) Format7Reg.PACKET_PARA_INQ para 0] ∧
      (QUERY_FROM_CAMERA ≠ QUERY_FROM_CAMERA → request = QUERY_FROM_CAMERA) ∧
      (QUERY_FROM_CAMERA = QUERY_FROM_CAMERA →
        ∃ cur, Event.get (uint 288) Format7Reg.BYTE_PER_PACKET cur 0 ∈ pre0 ∧
          request = sint ((cur &&& 0xFFFF0000) >>> 16)) ∧
      format7_packet_size_switch request (recom &&& 0x0000FFFF)
        ((para &&& 0xFFFF0000) >>> 16) (para &&& 0x0000FFFF) = some b ∧
      0 ≤ b ∧ b < 65536 ∧
      0x04000000 = quadlet (quadlet (uint b <<< 16))) := by
  have hrun := congrArg Outcome.seg vga_camera_setup_query
  have key := setup_writes_resolved_values (fixed_camera vga_regs) 1 camera_v130 0 288 2
      QUERY_FROM_CAMERA QUERY_FROM_CAMERA QUERY_FROM_CAMERA QUERY_FROM_CAMERA QUERY_FROM_CAMERA stale_capture []
    (Or.inr rfl) (Or.inr rfl) (Or.inr (Or.inl rfl)) (Or.inr (Or.inl rfl))
  exact ⟨Or.inr rfl, Or.inr (Or.inl rfl), hrun,
    key.1 _ _ 288 _ 0 (hrun.trans (by rfl :
      _ = [Event.get_iso_status false 0,
       Event.set_iso_channel_and_speed 0 2 0,
       Event.set_video_format FORMAT_SCALABLE_IMAGE_SIZE 0,
       Event.set_video_mode 288 0,
       Event.get 288 Format7Reg.BYTE_PER_PACKET 0x04000400 0,
       Event.get 288 Format7Reg.IMAGE_POSITION 0x00640032 0] ++
      Event.set 288 Format7Reg.IMAGE_POSITION 0x00640032 0 ::
        [Event.get 288 Format7Reg.VALUE_SETTING 0x80000000 0,
         Event.set 288 Format7Reg.VALUE_SETTING 0x40000000 0,
         Event.get 288 Format7Reg.VALUE_SETTING 0x80000000 0,
         Event.get 288 Format7Reg.IMAGE_SIZE 0x01400000 0,
         Event.get 288 Format7Reg.MAX_IMAGE_SIZE_INQ 0x028001E0 0,
         Event.set 288 Format7Reg.IMAGE_SIZE 0x014001AE 0,
         Event.get 288 Format7Reg.VALUE_SETTING 0x80000000 0,
         Event.set 288 Format7Reg.VALUE_SETTING 0x40000000 0,
         Event.get 288 Format7Reg.VALUE_SETTING 0x80000000 0,
         Event.get 288 Format7Reg.BYTE_PER_PACKET 0x04000400 0,
         Event.get 288 Format7Reg.PACKET_PARA_INQ 0x00041000 0,
         Event.set 288 Format7Reg.BYTE_PER_PACKET 0x04000000 0,
         Event.get 288 Format7Reg.VALUE_SETTING 0x80000000 0,
         Event.set 288 Format7Reg.VALUE_SETTING 0x40000000 0,
         Event.get 288 Format7Reg.VALUE_SETTING 0x80000000 0,
         Event.get 288 Format7Reg.BYTE_PER_PACKET 0x04000400 0,
         Event.get 288 Format7Reg.PACKET_PER_FRAME_INQ 600 0])),
    key.2.1 _ _ 288 _ 0 (hrun.trans (by rfl :
      _ = [Event.get_iso_status false 0,
       Event.set_iso_channel_and_speed 0 2 0,
       Event.set_video_format FORMAT_SCALABLE_IMAGE_SIZE 0,
       Event.set_video_mode 288 0,
       Event.get 288 Format7Reg.BYTE_PER_PACKET 0x04000400 0,
       Event.get 288 Format7Reg.IMAGE_POSITION 0x00640032 0,
       Event.set 288 Format7Reg.IMAGE_POSITION 0x00640032 0,
       Event.get 288 Format7Reg.VALUE_SETTING 0x80000000 0,
       Event.set 288 Format7Reg.VALUE_SETTING 0x40000000 0,
       Event.get 288 Format7Reg.VALUE_SETTING 0x80000000 0,
       Event.get 288 Format7Reg.IMAGE_SIZE 0x01400000 0,
       Event.get 288 Format7Reg.MAX_IMAGE_SIZE_INQ 0x028001E0 0] ++
      Event.set 288 Format7Reg.IMAGE_SIZE 0x014001AE 0 ::
        [Event.get 288 Format7Reg.VALUE_SETTING 0x80000000 0,
         Event.set 288 Format7Reg.VALUE_SETTING 0x40000000 0,
         Event.get 288 Format7Reg.VALUE_SETTING 0x80000000 0,
         Event.get 288 Format7Reg.BYTE_PER_PACKET 0x04000400 0,
         Event.get 288 Format7Reg.PACKET_PARA_INQ 0x00041000 0,
         Event.set 288 Format7Reg.BYTE_PER_PACKET 0x04000000 0,
         Event.get 288 Format7Reg.VALUE_SETTING 0x80000000 0,
         Event.set 288 Format7Reg.VALUE_SETTING 0x40000000 0,
         Event.get 288 Format7Reg.VALUE_SETTING 0x80000000 0,
         Event.get 288 Format7Reg.BYTE_PER_PACKET 0x04000400 0,
         Event.get 288 Format7Reg.PACKET_PER_FRAME_INQ 600 0])),
    key.2.2 _ _ 288 _ 0 (hrun.trans (by rfl :
      _ = [Event.get_iso_status false 0,
       Event.set_iso_channel_and_speed 0 2 0,
       Event.set_video_format FORMAT_SCALABLE_IMAGE_SIZE 0,
       Event.set_video_mode 288 0,
       Event.get 288 Format7Reg.BYTE_PER_PACKET 0x04000400 0,
       Event.get 288 Format7Reg.IMAGE_POSITION 0x00640032 0,
       Event.set 288 Format7Reg.IMAGE_POSITION 0x00640032 0,
       Event.get 288 Format7Reg.VALUE_SETTING 0x80000000 0,
       Event.set 288 Format7Reg.VALUE_SETTING 0x40000000 0,
       Event.get 288 Format7Reg.VALUE_SETTING 0x80000000 0,
       Event.get 288 Format7Reg.IMAGE_SIZE 0x01400000 0,
       Event.get 288 Format7Reg.MAX_IMAGE_SIZE_INQ 0x028001E0 0,
       Event.set 288 Format7Reg.IMAGE_SIZE 0x014001AE 0,
       Event.get 288 Format7Reg.VALUE_SETTING 0x80000000 0,
       Event.set 288 Format7Reg.VALUE_SETTING 0x40000000 0,
       Event.get 288 Format7Reg.VALUE_SETTING 0x80000000 0,
       Event.get 288 Format7Reg.BYTE_PER_PACKET 0x04000400 0,
       Event.get 288 Format7Reg.PACKET_PARA_INQ 0x00041000 0] ++
      Event.set 288 Format7Reg.BYTE_PER_PACKET 0x04000000 0 ::
        [Event.get 288 Format7Reg.VALUE_SETTING 0x80000000 0,
         Event.set 288 Format7Reg.VALUE_SETTING 0x40000000 0,
         Event.get 288 Format7Reg.VALUE_SETTING 0x80000000 0,
         Event.get 288 Format7Reg.BYTE_PER_PACKET 0x04000400 0,
         Event.get 288 Format7Reg.PACKET_PER_FRAME_INQ 600 0]))⟩

-- The register layouts of the packet size and of the value setting, the mode check, the
-- error-check macro, the table of bytes per pixel.

/-- C21: the byte-per-packet register of a Format_7 mode.  (1) The first transaction of
`dc1394_set_format7_byte_per_packet` is the write of `p << 16` (a 32-bit quadlet).  (2) When
the register delivers the 32-bit value `v`, `dc1394_query_format7_byte_per_packet` returns
its upper 16 bits and (3) `dc1394_query_format7_recommended_byte_per_packet` its lower 16
bits.  (4) For `p < 65536` the quadlet written is `p << 16` itself, and the query of a
register that holds it returns `p`. -/
theorem byte_per_packet_register_layout (D : Device) (fuel : Nat) (camera : dc1394camera_t)
    (mode : Nat) (h : Trace) (a v p : Nat)
    (hmode : MODE_FORMAT7_MIN ≤ mode ∧ mode ≤ MODE_FORMAT7_MAX) (hv : v < 4294967296) :
    (∃ e rest, (dc1394_set_format7_byte_per_packet D fuel camera mode p h).seg =
      Event.set mode Format7Reg.BYTE_PER_PACKET ((p <<< 16) % 4294967296) e :: rest) ∧
    (D.GetCameraFormat7Register h mode Format7Reg.BYTE_PER_PACKET = (0, v) →
      dc1394_query_format7_byte_per_packet D mode a h =
        .done (DC1394_SUCCESS, v >>> 16) [Event.get mode Format7Reg.BYTE_PER_PACKET v 0]) ∧
    (D.GetCameraFormat7Register h mode Format7Reg.BYTE_PER_PACKET = (0, v) →
      dc1394_query_format7_recommended_byte_per_packet D mode a h =
        .done (DC1394_SUCCESS, v &&& 0xFFFF) [Event.get mode Format7Reg.BYTE_PER_PACKET v 0]) ∧
    (p < 65536 →
      (p <<< 16) % 4294967296 = p <<< 16 ∧
      ∀ (D' : Device) (h' : Trace),
        D'.GetCameraFormat7Register h' mode Format7Reg.BYTE_PER_PACKET = ((0 : Int), p <<< 16) →
        dc1394_query_format7_byte_per_packet D' mode a h' =
          .done (DC1394_SUCCESS, p) [Event.get mode Format7Reg.BYTE_PER_PACKET (p <<< 16) 0]) := by
  have hquery : ∀ (D' : Device) (h' : Trace) (w : Nat), w < 4294967296 →
      D'.GetCameraFormat7Register h' mode Format7Reg.BYTE_PER_PACKET = (0, w) →
      dc1394_query_format7_byte_per_packet D' mode a h' =
        .done (DC1394_SUCCESS, w >>> 16) [Event.get mode Format7Reg.BYTE_PER_PACKET w 0] := by
    intro D' h' w hw hget
    rw [dc1394_query_format7_byte_per_packet_run, query_outcome_of_get _ _ hmode hget hw]
    simp only [high_field_eq_shiftRight hw]
    rfl
  refine ⟨?_, hquery D h v hv, ?_, ?_⟩
  · rw [dc1394_set_format7_byte_per_packet_run]
    obtain ⟨err, rest, hseg, -, -, -⟩ := commit_outcome_seg D fuel camera mode
      Format7Reg.BYTE_PER_PACKET (quadlet (p <<< 16)) h
    refine ⟨err, rest, ?_⟩
    rw [hseg]
    simp [quadlet]
  · intro hget
    rw [dc1394_query_format7_recommended_byte_per_packet_run,
      query_outcome_of_get _ _ hmode hget hv]
    rfl
  · intro hp
    have hlt : p <<< 16 < 4294967296 := by
      rw [Nat.shiftLeft_eq]
      omega
    refine ⟨Nat.mod_eq_of_lt hlt, fun D' h' hget => ?_⟩
    have := hquery D' h' _ hlt hget
    rw [show (p <<< 16) >>> 16 = p from by
      rw [Nat.shiftLeft_eq, Nat.shiftRight_eq_div_pow]; omega] at this
    exact this

/-- Witness of C21: mode 288 on a camera of version 1.20 whose byte-per-packet register
holds `0x04000400`; 1000 bytes are written as `0x03E80000`. -/
theorem byte_per_packet_register_layout_witness :
    (MODE_FORMAT7_MIN ≤ 288 ∧ 288 ≤ MODE_FORMAT7_MAX) ∧
    (∃ e rest, (dc1394_set_format7_byte_per_packet (fixed_camera unit8_regs) 0 camera_v120 288
        1000 []).seg = Event.set 288 Format7Reg.BYTE_PER_PACKET 0x03E80000 e :: rest) ∧
    dc1394_query_format7_byte_per_packet (fixed_camera unit8_regs) 288 0 [] =
      .done (DC1394_SUCCESS, 1024) [Event.get 288 Format7Reg.BYTE_PER_PACKET 0x04000400 0] ∧
    dc1394_query_format7_recommended_byte_per_packet (fixed_camera unit8_regs) 288 0 [] =
      .done (DC1394_SUCCESS, 1024) [Event.get 288 Format7Reg.BYTE_PER_PACKET 0x04000400 0] ∧
    (1000 <<< 16) % 4294967296 = 1000 <<< 16 :=
  ⟨by decide,
    (byte_per_packet_register_layout (fixed_camera unit8_regs) 0 camera_v120 288 [] 0
      0x04000400 1000 (by decide) (by decide)).1,
    (byte_per_packet_register_layout (fixed_camera unit8_regs) 0 camera_v120 288 [] 0
      0x04000400 1000 (by decide) (by decide)).2.1 rfl,
    (byte_per_packet_register_layout (fixed_camera unit8_regs) 0 camera_v120 288 [] 0
      0x04000400 1000 (by decide) (by decide)).2.2.1 rfl,
    ((byte_per_packet_register_layout (fixed_camera unit8_regs) 0 camera_v120 288 [] 0
      0x04000400 1000 (by decide) (by decide)).2.2.2 (by decide)).1⟩

/-- C22: on a camera of version 1.30 or later and for a Format_7 mode, when the value-setting
register delivers the 32-bit value `v`, `dc1394_query_format7_value_setting` returns
`present` = bit 31, `setting1` (pending) = bit 30, `err_flag1` = bit 23, `err_flag2` = bit 22
of `v`, each as 0 or 1; `dc1394_set_format7_value_setting` makes one write, of the quadlet
`0x40000000` = 2^30. -/
theorem value_setting_register_layout (D : Device) (camera : dc1394camera_t) (mode : Nat)
    (h : Trace) (out : ValueSetting) (v : Nat)
    (hver : IIDC_VERSION_1_30 ≤ camera.sw_version)
    (hmode : MODE_FORMAT7_MIN ≤ mode ∧ mode ≤ MODE_FORMAT7_MAX) (hv : v < 4294967296) :
    (D.GetCameraFormat7Register h mode Format7Reg.VALUE_SETTING = (0, v) →
      dc1394_query_format7_value_setting D camera mode out h =
        .done (DC1394_SUCCESS,
          { present := (v.testBit 31).toNat, setting1 := (v.testBit 30).toNat,
            err_flag1 := (v.testBit 23).toNat, err_flag2 := (v.testBit 22).toNat })
          [Event.get mode Format7Reg.VALUE_SETTING v 0]) ∧
    (v.testBit 31).toNat ≤ 1 ∧ (v.testBit 30).toNat ≤ 1 ∧
    (v.testBit 23).toNat ≤ 1 ∧ (v.testBit 22).toNat ≤ 1 ∧
    (∃ e, dc1394_set_format7_value_setting D mode h =
      .done (DC1394_ERR_CHK e) [Event.set mode Format7Reg.VALUE_SETTING 0x40000000 e]) ∧
    (0x40000000 : Nat) = 2 ^ 30 := by
  refine ⟨fun hget => ?_, Bool.toNat_le _, Bool.toNat_le _, Bool.toNat_le _, Bool.toNat_le _,
    ⟨_, dc1394_set_format7_value_setting_run D mode h⟩, by norm_num⟩
  rw [dc1394_query_format7_value_setting_run D camera mode out h hver,
    query_outcome_of_get _ _ hmode hget hv, value_setting_fields_eq]
  rfl

/-- Witness of C22: the camera of version 1.30 whose value-setting register holds
`0x80800000` (bits 31 and 23). -/
theorem value_setting_register_layout_witness :
    IIDC_VERSION_1_30 ≤ camera_v130.sw_version ∧
    (MODE_FORMAT7_MIN ≤ 288 ∧ 288 ≤ MODE_FORMAT7_MAX) ∧
    dc1394_query_format7_value_setting (fixed_camera flag1_regs) camera_v130 288 ⟨0, 0, 0, 0⟩ [] =
      .done (DC1394_SUCCESS, { present := 1, setting1 := 0, err_flag1 := 1, err_flag2 := 0 })
        [Event.get 288 Format7Reg.VALUE_SETTING 0x80800000 0] :=
  ⟨by decide, by decide,
    (value_setting_register_layout (fixed_camera flag1_regs) camera_v130 288 [] ⟨0, 0, 0, 0⟩
      0x80800000 (by decide) (by decide) (by decide)).1 rfl⟩

/-- C23: each of the fifteen Format_7 queries that validate their mode returns
`DC1394_FAILURE` without a register read when the mode is outside
`[MODE_FORMAT7_MIN, MODE_FORMAT7_MAX]`; for a mode inside it reads its register and returns
`DC1394_SUCCESS` exactly when the read succeeds.  The unit-position query reads the
unit-position register from version 1.30 on and the unit-size register below; the
total-bytes query reads two registers, the second after the first has succeeded, and
returns `DC1394_SUCCESS` exactly when both reads succeed. -/
theorem queries_validate_mode (D : Device) (camera : dc1394camera_t) (mode : Nat) (h : Trace)
    (a b : Nat) (q : ℚ) :
    mode_checked D mode Format7Reg.MAX_IMAGE_SIZE_INQ h
      (dc1394_query_format7_max_image_size D mode a b h) ∧
    mode_checked D mode Format7Reg.UNIT_SIZE_INQ h
      (dc1394_query_format7_unit_size D mode a b h) ∧
    mode_checked D mode Format7Reg.IMAGE_POSITION h
      (dc1394_query_format7_image_position D mode a b h) ∧
    mode_checked D mode Format7Reg.IMAGE_SIZE h
      (dc1394_query_format7_image_size D mode a b h) ∧
    mode_checked D mode Format7Reg.COLOR_CODING_ID h
      (dc1394_query_format7_color_coding_id D mode a h) ∧
    mode_checked D mode Format7Reg.COLOR_CODING_INQ h
      (dc1394_query_format7_color_coding D mode a h) ∧
    mode_checked D mode Format7Reg.PIXEL_NUMBER_INQ h
      (dc1394_query_format7_pixel_number D mode a h) ∧
    mode_checked D mode Format7Reg.PACKET_PARA_INQ h
      (dc1394_query_format7_packet_para D mode a b h) ∧
    mode_checked D mode Format7Reg.BYTE_PER_PACKET h
      (dc1394_query_format7_byte_per_packet D mode a h) ∧
    mode_checked D mode Format7Reg.BYTE_PER_PACKET h
      (dc1394_query_format7_recommended_byte_per_packet D mode a h) ∧
    mode_checked D mode
      (if camera.sw_version ≥ IIDC_VERSION_1_30 then Format7Reg.UNIT_POSITION_INQ
        else Format7Reg.UNIT_SIZE_INQ) h
      (dc1394_query_format7_unit_position D camera mode a b h) ∧
    mode_checked D mode Format7Reg.FRAME_INTERVAL_INQ h
      (dc1394_query_format7_frame_interval D mode q h) ∧
    mode_checked D mode Format7Reg.DATA_DEPTH_INQ h
      (dc1394_query_format7_data_depth D mode a h) ∧
    mode_checked D mode Format7Reg.COLOR_FILTER_ID h
      (dc1394_query_format7_color_filter_id D mode a h) ∧
    (mode > MODE_FORMAT7_MAX ∨ mode < MODE_FORMAT7_MIN →
      dc1394_query_format7_total_bytes D mode a h = .done (DC1394_FAILURE, a) []) ∧
    (¬ (mode > MODE_FORMAT7_MAX ∨ mode < MODE_FORMAT7_MIN) →
      ∃ code out rest, dc1394_query_format7_total_bytes D mode a h =
          .done (code, out)
            (Event.get mode Format7Reg.TOTAL_BYTES_HI_INQ
              (D.read_value h mode Format7Reg.TOTAL_BYTES_HI_INQ)
              (D.read_err h mode Format7Reg.TOTAL_BYTES_HI_INQ) :: rest) ∧
        (D.read_err h mode Format7Reg.TOTAL_BYTES_HI_INQ ≠ 0 → rest = []) ∧
        (D.read_err h mode Format7Reg.TOTAL_BYTES_HI_INQ = 0 →
          rest = [Event.get mode Format7Reg.TOTAL_BYTES_LO_INQ
            (D.read_value (h ++ [Event.get mode Format7Reg.TOTAL_BYTES_HI_INQ
              (D.read_value h mode Format7Reg.TOTAL_BYTES_HI_INQ) 0]) mode
              Format7Reg.TOTAL_BYTES_LO_INQ)
            (D.read_err (h ++ [Event.get mode Format7Reg.TOTAL_BYTES_HI_INQ
              (D.read_value h mode Format7Reg.TOTAL_BYTES_HI_INQ) 0]) mode
              Format7Reg.TOTAL_BYTES_LO_INQ)]) ∧
        (code = DC1394_SUCCESS ↔
          D.read_err h mode Format7Reg.TOTAL_BYTES_HI_INQ = 0 ∧
          D.read_err (h ++ [Event.get mode Format7Reg.TOTAL_BYTES_HI_INQ
            (D.read_value h mode Format7Reg.TOTAL_BYTES_HI_INQ) 0]) mode
            Format7Reg.TOTAL_BYTES_LO_INQ = 0)) := by
  refine ⟨?_, ?_, ?_, ?_, ?_, ?_, ?_, ?_, ?_, ?_, ?_, ?_, ?_, ?_, ?_, ?_⟩
  · rw [dc1394_query_format7_max_image_size_run]
    exact query_outcome_mode_checked _ _ _ _ _ _
  · rw [dc1394_query_format7_unit_size_run]
    exact query_outcome_mode_checked _ _ _ _ _ _
  · rw [dc1394_query_format7_image_position_run]
    exact query_outcome_mode_checked _ _ _ _ _ _
  · rw [dc1394_query_format7_image_size_run]
    exact query_outcome_mode_checked _ _ _ _ _ _
  · rw [dc1394_query_format7_color_coding_id_run]
    exact query_outcome_mode_checked _ _ _ _ _ _
  · rw [dc1394_query_format7_color_coding_run]
    refine ⟨fun hm => ⟨a, by rw [if_pos hm]⟩, fun hm => ?_⟩
    rw [if_neg hm]
    exact ⟨_, _, rfl, by simp⟩
  · rw [dc1394_query_format7_pixel_number_run]
    exact query_outcome_mode_checked _ _ _ _ _ _
  · rw [dc1394_query_format7_packet_para_run]
    exact query_outcome_mode_checked _ _ _ _ _ _
  · rw [dc1394_query_format7_byte_per_packet_run]
    exact query_outcome_mode_checked _ _ _ _ _ _
  · rw [dc1394_query_format7_recommended_byte_per_packet_run]
    exact query_outcome_mode_checked _ _ _ _ _ _
  · rw [dc1394_query_format7_unit_position_run]
    exact query_outcome_mode_checked _ _ _ _ _ _
  · rw [dc1394_query_format7_frame_interval_run]
    exact query_outcome_mode_checked _ _ _ _ _ _
  · rw [dc1394_query_format7_data_depth_run]
    exact query_outcome_mode_checked _ _ _ _ _ _
  · rw [dc1394_query_format7_color_filter_id_run]
    exact query_outcome_mode_checked _ _ _ _ _ _
  · intro hm
    rw [dc1394_query_format7_total_bytes_run, if_pos hm]
  · intro hm
    rw [dc1394_query_format7_total_bytes_run, if_neg hm]
    by_cases h1 : D.read_err h mode Format7Reg.TOTAL_BYTES_HI_INQ = 0
    · rw [if_pos h1]
      by_cases h2 : D.read_err (h ++ [Event.get mode Format7Reg.TOTAL_BYTES_HI_INQ
          (D.read_value h mode Format7Reg.TOTAL_BYTES_HI_INQ) 0]) mode
          Format7Reg.TOTAL_BYTES_LO_INQ = 0
      · rw [if_pos h2]
        refine ⟨0, _, _, by rw [h1], fun hne => absurd h1 hne, fun _ => by rw [h2],
          by simp [h1, h2]⟩
      · rw [if_neg h2]
        refine ⟨_, _, _, by rw [h1], fun hne => absurd h1 hne, fun _ => rfl,
          by simp [h1, h2]⟩
    · rw [if_neg h1]
      exact ⟨_, _, [], rfl, fun _ => rfl, fun h0 => absurd h0 h1, by simp [h1]⟩

/-- C24, the input that shows the divergence: the warning `DC1394_NO_FRAME` = -2.  The macro
replaces the negative code by `DC1394_INVALID_ERROR_CODE` = 17 before its test, so the
enclosing function returns: `_dc1394_basic_format7_setup` returns 17 right after an
iso-status call that gave `DC1394_NO_FRAME`. -/
theorem err_chk_returns_on_warning :
    DC1394_NO_FRAME = -2 ∧
    DC1394_ERR_CHK DC1394_NO_FRAME = DC1394_INVALID_ERROR_CODE ∧
    DC1394_INVALID_ERROR_CODE = 17 ∧
    DC1394_ERR_CHK_returns DC1394_NO_FRAME = true ∧
    _dc1394_basic_format7_setup (warning_camera vga_regs) 1 camera_v130 0 288 2 1024 0 0 640
        480 stale_capture [] =
      .done (DC1394_INVALID_ERROR_CODE, stale_capture)
        [Event.get_iso_status false DC1394_NO_FRAME] := by
  refine ⟨rfl, by decide, rfl, by decide, ?_⟩
  rw [_dc1394_basic_format7_setup,
    Prog.orReturn_error (e := DC1394_INVALID_ERROR_CODE)
      (s := [Event.get_iso_status false DC1394_NO_FRAME])
      ((format7_setup_stop_iso_run (warning_camera vga_regs) []).trans rfl)]

/-- C27: the table of `_Format7BytePerPixel`: 1 for MONO8 and RAW8, 1.5 for YUV411, 2 for
YUV422, MONO16 and MONO16S, 3 for YUV444 and RGB8, 6 for RGB16 and RGB16S; each of these
values is positive and an integer multiple of 1/2. -/
theorem Format7BytePerPixel_table :
    _Format7BytePerPixel COLOR_FORMAT7_MONO8 = 1 ∧
    _Format7BytePerPixel COLOR_FORMAT7_RAW8 = 1 ∧
    _Format7BytePerPixel COLOR_FORMAT7_YUV411 = 3 / 2 ∧
    _Format7BytePerPixel COLOR_FORMAT7_YUV422 = 2 ∧
    _Format7BytePerPixel COLOR_FORMAT7_MONO16 = 2 ∧
    _Format7BytePerPixel COLOR_FORMAT7_MONO16S = 2 ∧
    _Format7BytePerPixel COLOR_FORMAT7_YUV444 = 3 ∧
    _Format7BytePerPixel COLOR_FORMAT7_RGB8 = 3 ∧
    _Format7BytePerPixel COLOR_FORMAT7_RGB16 = 6 ∧
    _Format7BytePerPixel COLOR_FORMAT7_RGB16S = 6 ∧
    ∀ c ∈ [COLOR_FORMAT7_MONO8, COLOR_FORMAT7_RAW8, COLOR_FORMAT7_YUV411,
        COLOR_FORMAT7_YUV422, COLOR_FORMAT7_MONO16, COLOR_FORMAT7_MONO16S,
        COLOR_FORMAT7_YUV444, COLOR_FORMAT7_RGB8, COLOR_FORMAT7_RGB16, COLOR_FORMAT7_RGB16S],
      0 < _Format7BytePerPixel (c : Nat) ∧
      ∃ k : Nat, _Format7BytePerPixel (c : Nat) = (k : ℚ) * (1 / 2) := by
  have h1 : _Format7BytePerPixel COLOR_FORMAT7_MONO8 = 1 := by
    norm_num [_Format7BytePerPixel, COLOR_FORMAT7_MONO8]
  have h2 : _Format7BytePerPixel COLOR_FORMAT7_RAW8 = 1 := by
    norm_num [_Format7BytePerPixel, COLOR_FORMAT7_MONO8, COLOR_FORMAT7_YUV411,
      COLOR_FORMAT7_YUV422, COLOR_FORMAT7_YUV444, COLOR_FORMAT7_RGB8, COLOR_FORMAT7_MONO16,
      COLOR_FORMAT7_RGB16, COLOR_FORMAT7_MONO16S, COLOR_FORMAT7_RGB16S, COLOR_FORMAT7_RAW8]
  have h3 : _Format7BytePerPixel COLOR_FORMAT7_YUV411 = 3 / 2 := Format7BytePerPixel_yuv411
  have h4 : _Format7BytePerPixel COLOR_FORMAT7_YUV422 = 2 := Format7BytePerPixel_yuv422
  have h5 : _Format7BytePerPixel COLOR_FORMAT7_MONO16 = 2 := by
    norm_num [_Format7BytePerPixel, COLOR_FORMAT7_MONO8, COLOR_FORMAT7_YUV411,
      COLOR_FORMAT7_YUV422, COLOR_FORMAT7_YUV444, COLOR_FORMAT7_RGB8, COLOR_FORMAT7_MONO16]
  have h6 : _Format7BytePerPixel COLOR_FORMAT7_MONO16S = 2 := by
    norm_num [_Format7BytePerPixel, COLOR_FORMAT7_MONO8, COLOR_FORMAT7_YUV411,
      COLOR_FORMAT7_YUV422, COLOR_FORMAT7_YUV444, COLOR_FORMAT7_RGB8, COLOR_FORMAT7_MONO16,
      COLOR_FORMAT7_RGB16, COLOR_FORMAT7_MONO16S]
  have h7 : _Format7BytePerPixel COLOR_FORMAT7_YUV444 = 3 := by
    norm_num [_Format7BytePerPixel, COLOR_FORMAT7_MONO8, COLOR_FORMAT7_YUV411,
      COLOR_FORMAT7_YUV422, COLOR_FORMAT7_YUV444]
  have h8 : _Format7BytePerPixel COLOR_FORMAT7_RGB8 = 3 := by
    norm_num [_Format7BytePerPixel, COLOR_FORMAT7_MONO8, COLOR_FORMAT7_YUV411,
      COLOR_FORMAT7_YUV422, COLOR_FORMAT7_YUV444, COLOR_FORMAT7_RGB8]
  have h9 : _Format7BytePerPixel COLOR_FORMAT7_RGB16 = 6 := by
    norm_num [_Format7BytePerPixel, COLOR_FORMAT7_MONO8, COLOR_FORMAT7_YUV411,
      COLOR_FORMAT7_YUV422, COLOR_FORMAT7_YUV444, COLOR_FORMAT7_RGB8, COLOR_FORMAT7_MONO16,
      COLOR_FORMAT7_RGB16]
  have h10 : _Format7BytePerPixel COLOR_FORMAT7_RGB16S = 6 := by
    norm_num [_Format7BytePerPixel, COLOR_FORMAT7_MONO8, COLOR_FORMAT7_YUV411,
      COLOR_FORMAT7_YUV422, COLOR_FORMAT7_YUV444, COLOR_FORMAT7_RGB8, COLOR_FORMAT7_MONO16,
      COLOR_FORMAT7_RGB16, COLOR_FORMAT7_MONO16S, COLOR_FORMAT7_RGB16S]
  refine ⟨h1, h2, h3, h4, h5, h6, h7, h8, h9, h10, ?_⟩
  intro c hc
  simp only [List.mem_cons, List.mem_singleton, List.not_mem_nil, or_false] at hc
  rcases hc with rfl | rfl | rfl | rfl | rfl | rfl | rfl | rfl | rfl | rfl
  · rw [h1]; exact ⟨by norm_num, 2, by norm_num⟩
  · rw [h2]; exact ⟨by norm_num, 2, by norm_num⟩
  · rw [h3]; exact ⟨by norm_num, 3, by norm_num⟩
  · rw [h4]; exact ⟨by norm_num, 4, by norm_num⟩
  · rw [h5]; exact ⟨by norm_num, 4, by norm_num⟩
  · rw [h6]; exact ⟨by norm_num, 4, by norm_num⟩
  · rw [h7]; exact ⟨by norm_num, 6, by norm_num⟩
  · rw [h8]; exact ⟨by norm_num, 6, by norm_num⟩
  · rw [h9]; exact ⟨by norm_num, 12, by norm_num⟩
  · rw [h10]; exact ⟨by norm_num, 12, by norm_num⟩

-- The capture buffer of the non-DMA path, and the negotiation with the packet size of the
-- camera.

/-- C25, the input that shows the divergence: a camera of version 1.20 negotiates 640x480
YUV422 at 1024 bytes per packet, which gives 153600 quadlets per frame; the function asks for
one buffer of 614400 = 153600 * 4 bytes, and when the allocation is refused it returns
`DC1394_FAILURE` = 1, not `DC1394_MEMORY_ALLOCATION_FAILURE` = 18.  When the allocation is
granted it returns success with the buffer; when the negotiation fails (the write of the
image size is refused) it returns the error of the negotiation and asks for no memory. -/
theorem capture_setup_allocation_refused :
    dc1394_setup_format7_capture (scripted_camera unit8_regs false no_write_fault)
        malloc_refuses 1 camera_v120 0 288 2 1024 0 0 640 480 stale_capture none [] =
      .done
        { err := DC1394_FAILURE,
          capture :=
            { node := 0, channel := 0, frame_rate := 0, frame_width := 640,
              frame_height := 480, quadlets_per_frame := 153600, quadlets_per_packet := 256 },
          requested := [614400], capture_buffer := none }
        [Event.get_iso_status false 0,
          Event.set_iso_channel_and_speed 0 2 0,
          Event.set_video_format FORMAT_SCALABLE_IMAGE_SIZE 0,
          Event.set_video_mode 288 0,
          Event.get 288 Format7Reg.IMAGE_POSITION 0 0,
          Event.set 288 Format7Reg.IMAGE_POSITION 0 0,
          Event.set 288 Format7Reg.IMAGE_SIZE 0x028001E0 0,
          Event.get 288 Format7Reg.BYTE_PER_PACKET 0x04000400 0,
          Event.get 288 Format7Reg.PACKET_PARA_INQ 0x00041000 0,
          Event.set 288 Format7Reg.BYTE_PER_PACKET 0x04000000 0,
          Event.get 288 Format7Reg.BYTE_PER_PACKET 0x04000400 0,
          Event.get 288 Format7Reg.COLOR_CODING_ID 0x02000000 0] ∧
    DC1394_FAILURE = 1 ∧ DC1394_MEMORY_ALLOCATION_FAILURE = 18 ∧
    (614400 : Nat) = 153600 * 4 ∧
    (∃ s, dc1394_setup_format7_capture (scripted_camera unit8_regs false no_write_fault)
        malloc_grants 1 camera_v120 0 288 2 1024 0 0 640 480 stale_capture none [] =
      .done
        { err := DC1394_SUCCESS,
          capture :=
            { node := 0, channel := 0, frame_rate := 0, frame_width := 640,
              frame_height := 480, quadlets_per_frame := 153600, quadlets_per_packet := 256 },
          requested := [614400], capture_buffer := some 4096 } s) ∧
    (∃ s, dc1394_setup_format7_capture (scripted_camera unit8_regs false size_write_fault)
        malloc_grants 1 camera_v120 0 288 2 1024 0 0 640 480 stale_capture none [] =
      .done
        { err := DC1394_FAILURE, capture := stale_capture, requested := [],
          capture_buffer := none } s) :=
  ⟨(dc1394_setup_format7_capture_success _ malloc_refuses 1 camera_v120 0 288 2 1024 0 0 640
      480 stale_capture none [] unit8_camera_setup_1024).trans rfl,
    rfl, rfl, by decide,
    ⟨_, (dc1394_setup_format7_capture_success _ malloc_grants 1 camera_v120 0 288 2 1024 0 0
      640 480 stale_capture none [] unit8_camera_setup_1024).trans rfl⟩,
    ⟨_, (dc1394_setup_format7_capture_failure _ malloc_grants 1 camera_v120 0 288 2 1024 0 0
      640 480 stale_capture none [] size_fault_camera_setup (by decide)).trans rfl⟩⟩

/-- C26: in a negotiation whose packet-size request is `QUERY_FROM_CAMERA`, every write of a
Format_7 register (so every write of the image position and of the image size) comes after
the read of the camera's byte-per-packet register, which is the first register transaction
of the negotiation.  The upper half `c` of the value read is the request from then on: it
lies in `[0, 65535]`, so it is none of the sentinels, and the packet size written is the one
that `format7_packet_size_switch` gives for the literal request `c` (with a unit `u > 0` and
a maximum `M ≥ u`: `c` clamped into `[u, M]` and rounded down to a multiple of `u`), shifted
into the upper half of the quadlet. -/
theorem setup_query_packet_size_read_first (D : Device) (fuel : Nat) (camera : dc1394camera_t)
    (channel mode speed left top width height : Int) (capture : dc1394capture_t) (h : Trace)
    {pre post : Trace} {m v : Nat} {reg : Format7Reg} {e : Int}
    (hseg : (_dc1394_basic_format7_setup D fuel camera channel mode speed QUERY_FROM_CAMERA
      left top width height capture h).seg = pre ++ Event.set m reg v e :: post) :
    ∃ pre0 cur pre1,
      pre = pre0 ++ Event.get (uint mode) Format7Reg.BYTE_PER_PACKET cur 0 :: pre1 ∧
      (∀ x ∈ pre0, x.access = none) ∧
      (0 : Int) ≤ sint ((cur &&& 0xFFFF0000) >>> 16) ∧
      sint ((cur &&& 0xFFFF0000) >>> 16) < 65536 ∧
      sint ((cur &&& 0xFFFF0000) >>> 16) ≠ QUERY_FROM_CAMERA ∧
      sint ((cur &&& 0xFFFF0000) >>> 16) ≠ USE_MAX_AVAIL ∧
      sint ((cur &&& 0xFFFF0000) >>> 16) ≠ USE_RECOMMENDED ∧
      (reg = Format7Reg.BYTE_PER_PACKET →
        ∃ mid recom para b,
          pre1 = mid ++ [Event.get (uint mode) Format7Reg.BYTE_PER_PACKET recom 0,
            Event.get (uint mode) Format7Reg.PACKET_PARA_INQ para 0] ∧
          format7_packet_size_switch (sint ((cur &&& 0xFFFF0000) >>> 16))
            (recom &&& 0x0000FFFF) ((para &&& 0xFFFF0000) >>> 16) (para &&& 0x0000FFFF) =
              some b ∧
          v = quadlet (quadlet (uint b <<< 16)) ∧
          (0 < (para &&& 0xFFFF0000) >>> 16 →
            (para &&& 0xFFFF0000) >>> 16 ≤ para &&& 0x0000FFFF →
            b = ((max ((para &&& 0xFFFF0000) >>> 16)
              (min ((cur &&& 0xFFFF0000) >>> 16) (para &&& 0x0000FFFF)) /
                ((para &&& 0xFFFF0000) >>> 16) * ((para &&& 0xFFFF0000) >>> 16) : Nat) :
                  Int))) := by
  unfold _dc1394_basic_format7_setup at hseg
  obtain ⟨is_iso_on, s1, p1, hm1, hp1, hseg⟩ :=
    Prog.orReturn_split_after (format7_setup_stop_iso_emits D)
      (Event.set_access_not_mem (by simp) _ _ _) hseg
  obtain ⟨u, s2, p2, hm2, hp2, hseg⟩ :=
    Prog.orReturn_split_after (format7_setup_channel_and_mode_emits D _ _ _)
      (Event.set_access_not_mem (by simp) _ _ _) hseg
  obtain ⟨request, s3, p3, hq, hp3, hseg⟩ :=
    Prog.orReturn_split_after (format7_setup_query_bpp_emits D _ _)
      (Event.set_access_not_mem (by simp) _ _ _) hseg
  obtain ⟨cur, hs3, hreq⟩ := (format7_setup_query_bpp_ok D mode _ _ hq).2 rfl
  have hlt : (cur &&& 0xFFFF0000) >>> 16 < 65536 := by
    have := Nat.and_le_right (n := cur) (m := 0xFFFF0000)
    rw [Nat.shiftRight_eq_div_pow]
    omega
  have hsint : sint ((cur &&& 0xFFFF0000) >>> 16) = (((cur &&& 0xFFFF0000) >>> 16 : Nat) : Int) :=
    sint_of_lt (by omega)
  have hnone1 : ∀ x ∈ s1, x.access = none := by
    intro x hx
    have := format7_setup_stop_iso_emits D h x (by rw [hm1]; exact hx)
    simpa using this
  have hnone2 : ∀ x ∈ s2, x.access = none := by
    intro x hx
    have := format7_setup_channel_and_mode_emits D channel mode speed (h ++ s1) x
      (by rw [hm2]; exact hx)
    simpa using this
  refine ⟨s1 ++ s2, cur, p3, by rw [hp1, hp2, hp3, hs3]; simp, ?_, ?_, ?_, ?_, ?_, ?_, ?_⟩
  · intro x hx
    rcases List.mem_append.1 hx with hx | hx
    · exact hnone1 x hx
    · exact hnone2 x hx
  · rw [hsint]; exact Int.ofNat_nonneg _
  · rw [hsint]; exact_mod_cast hlt
  · rw [hsint]; unfold QUERY_FROM_CAMERA; omega
  · rw [hsint]; unfold USE_MAX_AVAIL; omega
  · rw [hsint]; unfold USE_RECOMMENDED; omega
  intro hreg
  subst hreg
  obtain ⟨position, s4, p4, -, hp4, hseg⟩ :=
    Prog.orReturn_split_after (format7_setup_image_position_emits D fuel camera _ _ _)
      (Event.set_access_not_mem (by decide) _ _ _) hseg
  obtain ⟨size, s5, p5, -, hp5, hseg⟩ :=
    Prog.orReturn_split_after (format7_setup_query_size_emits D _ _ _)
      (Event.set_access_not_mem (by decide) _ _ _) hseg
  obtain ⟨size', s6, p6, -, hp6, hseg⟩ :=
    Prog.orReturn_split_after (format7_setup_max_size_emits D _ _ _ _ _)
      (Event.set_access_not_mem (by decide) _ _ _) hseg
  obtain ⟨-, s7, p7, -, hp7, hseg⟩ :=
    Prog.orReturn_split_after (format7_setup_commit_size_emits D fuel camera _ _ _)
      (Event.set_access_not_mem (by decide) _ _ _) hseg
  obtain ⟨post1, hseg⟩ := Prog.orReturn_split_before
    (fun bpp' => format7_setup_accounting_emits D camera _ _ _ _ _ _ _)
    (Event.set_access_not_mem (by decide) _ _ _) hseg
  obtain ⟨recom, para, b, h1, -, -, h4, h5⟩ :=
    format7_setup_packet_size_write D fuel camera mode request _ (by decide) hseg
  rw [hreq] at h4
  refine ⟨s4 ++ (s5 ++ (s6 ++ s7)), recom, para, b, by rw [hp4, hp5, hp6, hp7, h1]; simp,
    h4, h5, fun hpos hle => ?_⟩
  have hmax : para &&& 0x0000FFFF < 65536 := by
    have := Nat.and_le_right (n := para) (m := 0x0000FFFF)
    omega
  have hlit := format7_packet_size_switch_literal (sint ((cur &&& 0xFFFF0000) >>> 16))
    (recom &&& 0x0000FFFF) _ _ (by rw [hsint]; exact Int.ofNat_nonneg _)
    (by rw [hsint]; omega) hmax hpos hle
  rw [h4, hsint, Int.toNat_ofNat] at hlit
  exact Option.some.inj hlit

/-- Witness of C26: the camera of version 1.30 that is set up with every request
`QUERY_FROM_CAMERA`; its byte-per-packet register holds `0x04000400`, and the packet size
`0x04000000` is written after the position and the size. -/
theorem setup_query_packet_size_read_first_witness :
    (_dc1394_basic_format7_setup (fixed_camera vga_regs) 1 camera_v130 0 288 2
        QUERY_FROM_CAMERA QUERY_FROM_CAMERA QUERY_FROM_CAMERA QUERY_FROM_CAMERA
        QUERY_FROM_CAMERA stale_capture []).seg =
      ([Event.get_iso_status false 0,
         Event.set_iso_channel_and_speed 0 2 0,
         Event.set_video_format FORMAT_SCALABLE_IMAGE_SIZE 0,
         Event.set_video_mode 288 0,
         Event.get 288 Format7Reg.BYTE_PER_PACKET 0x04000400 0,
         Event.get 288 Format7Reg.IMAGE_POSITION 0x00640032 0,
         Event.set 288 Format7Reg.IMAGE_POSITION 0x00640032 0,
         Event.get 288 Format7Reg.VALUE_SETTING 0x80000000 0,
         Event.set 288 Format7Reg.VALUE_SETTING 0x40000000 0,
         Event.get 288 Format7Reg.VALUE_SETTING 0x80000000 0,
         Event.get 288 Format7Reg.IMAGE_SIZE 0x01400000 0,
         Event.get 288 Format7Reg.MAX_IMAGE_SIZE_INQ 0x028001E0 0,
         Event.set 288 Format7Reg.IMAGE_SIZE 0x014001AE 0,
         Event.get 288 Format7Reg.VALUE_SETTING 0x80000000 0,
         Event.set 288 Format7Reg.VALUE_SETTING 0x40000000 0,
         Event.get 288 Format7Reg.VALUE_SETTING 0x80000000 0,
         Event.get 288 Format7Reg.BYTE_PER_PACKET 0x04000400 0,
         Event.get 288 Format7Reg.PACKET_PARA_INQ 0x00041000 0] : Trace) ++
        Event.set 288 Format7Reg.BYTE_PER_PACKET 0x04000000 0 ::
          [Event.get 288 Format7Reg.VALUE_SETTING 0x80000000 0,
            Event.set 288 Format7Reg.VALUE_SETTING 0x40000000 0,
            Event.get 288 Format7Reg.VALUE_SETTING 0x80000000 0,
            Event.get 288 Format7Reg.BYTE_PER_PACKET 0x04000400 0,
            Event.get 288 Format7Reg.PACKET_PER_FRAME_INQ 600 0] ∧
    ∃ pre0 cur pre1,
      ([Event.get_iso_status false 0,
         Event.set_iso_channel_and_speed 0 2 0,
         Event.set_video_format FORMAT_SCALABLE_IMAGE_SIZE 0,
         Event.set_video_mode 288 0,
         Event.get 288 Format7Reg.BYTE_PER_PACKET 0x04000400 0,
         Event.get 288 Format7Reg.IMAGE_POSITION 0x00640032 0,
         Event.set 288 Format7Reg.IMAGE_POSITION 0x00640032 0,
         Event.get 288 Format7Reg.VALUE_SETTING 0x80000000 0,
         Event.set 288 Format7Reg.VALUE_SETTING 0x40000000 0,
         Event.get 288 Format7Reg.VALUE_SETTING 0x80000000 0,
         Event.get 288 Format7Reg.IMAGE_SIZE 0x01400000 0,
         Event.get 288 Format7Reg.MAX_IMAGE_SIZE_INQ 0x028001E0 0,
         Event.set 288 Format7Reg.IMAGE_SIZE 0x014001AE 0,
         Event.get 288 Format7Reg.VALUE_SETTING 0x80000000 0,
         Event.set 288 Format7Reg.VALUE_SETTING 0x40000000 0,
         Event.get 288 Format7Reg.VALUE_SETTING 0x80000000 0,
         Event.get 288 Format7Reg.BYTE_PER_PACKET 0x04000400 0,
         Event.get 288 Format7Reg.PACKET_PARA_INQ 0x00041000 0] : Trace) =
        pre0 ++ Event.get (uint 288) Format7Reg.BYTE_PER_PACKET cur 0 :: pre1 ∧
      (∀ x ∈ pre0, x.access = none) ∧
      (0 : Int) ≤ sint ((cur &&& 0xFFFF0000) >>> 16) ∧
      sint ((cur &&& 0xFFFF0000) >>> 16) < 65536 ∧
      sint ((cur &&& 0xFFFF0000) >>> 16) ≠ QUERY_FROM_CAMERA ∧
      sint ((cur &&& 0xFFFF0000) >>> 16) ≠ USE_MAX_AVAIL ∧
      sint ((cur &&& 0xFFFF0000) >>> 16) ≠ USE_RECOMMENDED ∧
      (Format7Reg.BYTE_PER_PACKET = Format7Reg.BYTE_PER_PACKET →
        ∃ mid recom para b,
          pre1 = mid ++ [Event.get (uint 288) Format7Reg.BYTE_PER_PACKET recom 0,
            Event.get (uint 288) Format7Reg.PACKET_PARA_INQ para 0] ∧
          format7_packet_size_switch (sint ((cur &&& 0xFFFF0000) >>> 16))
            (recom &&& 0x0000FFFF) ((para &&& 0xFFFF0000) >>> 16) (para &&& 0x0000FFFF) =
              some b ∧
          (0x04000000 : Nat) = quadlet (quadlet (uint b <<< 16)) ∧
          (0 < (para &&& 0xFFFF0000) >>> 16 →
            (para &&& 0xFFFF0000) >>> 16 ≤ para &&& 0x0000FFFF →
            b = ((max ((para &&& 0xFFFF0000) >>> 16)
              (min ((cur &&& 0xFFFF0000) >>> 16) (para &&& 0x0000FFFF)) /
                ((para &&& 0xFFFF0000) >>> 16) * ((para &&& 0xFFFF0000) >>> 16) : Nat) :
                  Int))) :=
  have hseg : (_dc1394_basic_format7_setup (fixed_camera vga_regs) 1 camera_v130 0 288 2
        QUERY_FROM_CAMERA QUERY_FROM_CAMERA QUERY_FROM_CAMERA QUERY_FROM_CAMERA
        QUERY_FROM_CAMERA stale_capture []).seg =
      ([Event.get_iso_status false 0,
         Event.set_iso_channel_and_speed 0 2 0,
         Event.set_video_format FORMAT_SCALABLE_IMAGE_SIZE 0,
         Event.set_video_mode 288 0,
         Event.get 288 Format7Reg.BYTE_PER_PACKET 0x04000400 0,
         Event.get 288 Format7Reg.IMAGE_POSITION 0x00640032 0,
         Event.set 288 Format7Reg.IMAGE_POSITION 0x00640032 0,
         Event.get 288 Format7Reg.VALUE_SETTING 0x80000000 0,
         Event.set 288 Format7Reg.VALUE_SETTING 0x40000000 0,
         Event.get 288 Format7Reg.VALUE_SETTING 0x80000000 0,
         Event.get 288 Format7Reg.IMAGE_SIZE 0x01400000 0,
         Event.get 288 Format7Reg.MAX_IMAGE_SIZE_INQ 0x028001E0 0,
         Event.set 288 Format7Reg.IMAGE_SIZE 0x014001AE 0,
         Event.get 288 Format7Reg.VALUE_SETTING 0x80000000 0,
         Event.set 288 Format7Reg.VALUE_SETTING 0x40000000 0,
         Event.get 288 Format7Reg.VALUE_SETTING 0x80000000 0,
         Event.get 288 Format7Reg.BYTE_PER_PACKET 0x04000400 0,
         Event.get 288 Format7Reg.PACKET_PARA_INQ 0x00041000 0] : Trace) ++
        Event.set 288 Format7Reg.BYTE_PER_PACKET 0x04000000 0 ::
          [Event.get 288 Format7Reg.VALUE_SETTING 0x80000000 0,
            Event.set 288 Format7Reg.VALUE_SETTING 0x40000000 0,
            Event.get 288 Format7Reg.VALUE_SETTING 0x80000000 0,
            Event.get 288 Format7Reg.BYTE_PER_PACKET 0x04000400 0,
            Event.get 288 Format7Reg.PACKET_PER_FRAME_INQ 600 0] := by
    rw [vga_camera_setup_query]
    rfl
  ⟨hseg, setup_query_packet_size_read_first (fixed_camera vga_regs) 1 camera_v130 0 288 2
    QUERY_FROM_CAMERA QUERY_FROM_CAMERA QUERY_FROM_CAMERA QUERY_FROM_CAMERA stale_capture []
    hseg⟩

-- The isochronous resource allocator.

/-- C28, the input on which the claim fails: on a platform that does not support the release
of bandwidth, releasing 500 bytes for device 7 (running total 100, bus-wide total 300) does
not succeed: the result is "operation not supported", and both totals stay as they were. -/
theorem release_bandwidth_unsupported :
    (dc1394_iso_release_bandwidth iso_platform_none iso_state_example 7 500).1 =
      IsoResult.function_not_supported ∧
    (dc1394_iso_release_bandwidth iso_platform_none iso_state_example 7 500).1 ≠
      IsoResult.success ∧
    (dc1394_iso_release_bandwidth iso_platform_none iso_state_example 7 500).2.tracked 7 =
      100 ∧
    (dc1394_iso_release_bandwidth iso_platform_none iso_state_example 7 500).2.bus_bandwidth =
      300 := by
  refine ⟨rfl, by decide, rfl, rfl⟩

/-- C28 as amended: on a platform that supports the release of bandwidth,
`dc1394_iso_release_bandwidth` succeeds and clamps at zero: releasing at least the running
total of the device leaves that total at 0, releasing at least the bus-wide total leaves the
bus-wide total at 0; an amount between 0 and a total is subtracted from it, and the totals
of the other devices are not touched. -/
theorem release_bandwidth_clamps (P : IsoPlatform) (s : IsoState) (device : Nat)
    (bandwidth_bytes : Int) (hP : P.release_bandwidth = true) :
    (dc1394_iso_release_bandwidth P s device bandwidth_bytes).1 = IsoResult.success ∧
    ((s.tracked device : Int) ≤ bandwidth_bytes →
      (dc1394_iso_release_bandwidth P s device bandwidth_bytes).2.tracked device = 0) ∧
    ((s.bus_bandwidth : Int) ≤ bandwidth_bytes →
      (dc1394_iso_release_bandwidth P s device bandwidth_bytes).2.bus_bandwidth = 0) ∧
    (0 ≤ bandwidth_bytes → bandwidth_bytes ≤ (s.tracked device : Int) →
      ((dc1394_iso_release_bandwidth P s device bandwidth_bytes).2.tracked device : Int) =
        (s.tracked device : Int) - bandwidth_bytes) ∧
    (0 ≤ bandwidth_bytes → bandwidth_bytes ≤ (s.bus_bandwidth : Int) →
      ((dc1394_iso_release_bandwidth P s device bandwidth_bytes).2.bus_bandwidth : Int) =
        (s.bus_bandwidth : Int) - bandwidth_bytes) ∧
    (∀ d, d ≠ device →
      (dc1394_iso_release_bandwidth P s device bandwidth_bytes).2.tracked d = s.tracked d) := by
  unfold dc1394_iso_release_bandwidth
  rw [if_pos hP]
  refine ⟨rfl, fun h => ?_, fun h => ?_, fun h0 h1 => ?_, fun h0 h1 => ?_, fun d hd => ?_⟩
  · show (if device = device then ((s.tracked device : Int) - bandwidth_bytes).toNat
      else s.tracked device) = 0
    rw [if_pos rfl]
    omega
  · show ((s.bus_bandwidth : Int) - bandwidth_bytes).toNat = 0
    omega
  · show (((if device = device then ((s.tracked device : Int) - bandwidth_bytes).toNat
      else s.tracked device) : Nat) : Int) = _
    rw [if_pos rfl]
    omega
  · show ((((s.bus_bandwidth : Int) - bandwidth_bytes).toNat : Nat) : Int) = _
    omega
  · show (if d = device then ((s.tracked d : Int) - bandwidth_bytes).toNat
      else s.tracked d) = s.tracked d
    rw [if_neg hd]

/-- Witness of C28 as amended: on a platform that supports every operation, releasing 500
bytes for device 7 (running total 100, bus-wide total 300) succeeds and leaves both totals
at 0. -/
theorem release_bandwidth_clamps_witness :
    iso_platform_full.release_bandwidth = true ∧
    (dc1394_iso_release_bandwidth iso_platform_full iso_state_example 7 500).1 =
      IsoResult.success ∧
    (dc1394_iso_release_bandwidth iso_platform_full iso_state_example 7 500).2.tracked 7 = 0 ∧
    (dc1394_iso_release_bandwidth iso_platform_full iso_state_example 7 500).2.bus_bandwidth =
      0 :=
  ⟨rfl, (release_bandwidth_clamps iso_platform_full iso_state_example 7 500 rfl).1,
    (release_bandwidth_clamps iso_platform_full iso_state_example 7 500 rfl).2.1 (by decide),
    (release_bandwidth_clamps iso_platform_full iso_state_example 7 500 rfl).2.2.1
      (by decide)⟩

/-- C29, the input on which the claim fails: on a platform that does not support the release
of channels, releasing channel 2 for device 7 does not succeed, the first time and the
second time: the result is "operation not supported". -/
theorem release_channel_unsupported :
    (dc1394_iso_release_channel iso_platform_none iso_state_example 7 2).1 =
      IsoResult.function_not_supported ∧
    (dc1394_iso_release_channel iso_platform_none iso_state_example 7 2).1 ≠
      IsoResult.success ∧
    (dc1394_iso_release_channel iso_platform_none
      (dc1394_iso_release_channel iso_platform_none iso_state_example 7 2).2 7 2).1 ≠
      IsoResult.success := by
  refine ⟨rfl, by decide, by decide⟩

/-- C29 as amended: on a platform that supports the release of channels,
`dc1394_iso_release_channel` is idempotent: for every state (whoever holds the channel, or
nobody), device and channel, the release succeeds, a second release right after it succeeds
too and changes nothing, and after the release the channel is neither held by the device in
this process nor in use on the bus. -/
theorem release_channel_idempotent (P : IsoPlatform) (s : IsoState) (device : Nat)
    (channel : Int) (hP : P.release_channel = true) :
    (dc1394_iso_release_channel P s device channel).1 = IsoResult.success ∧
    (dc1394_iso_release_channel P (dc1394_iso_release_channel P s device channel).2 device
      channel).1 = IsoResult.success ∧
    (dc1394_iso_release_channel P (dc1394_iso_release_channel P s device channel).2 device
      channel).2 = (dc1394_iso_release_channel P s device channel).2 ∧
    (∀ x : Nat, (x : Int) = channel →
      (dc1394_iso_release_channel P s device channel).2.held device x = false ∧
      (dc1394_iso_release_channel P s device channel).2.bus_channels x = false) := by
  unfold dc1394_iso_release_channel
  simp only [if_pos hP]
  refine ⟨trivial, trivial, ?_, fun x hx => ?_⟩
  · congr 1
    · funext x
      by_cases hx : (x : Int) = channel
      · simp only [if_pos hx]
      · simp only [if_neg hx]
    · funext d x
      by_cases hx : d = device ∧ (x : Int) = channel
      · simp only [if_pos hx]
      · simp only [if_neg hx]
  · exact ⟨if_pos ⟨trivial, hx⟩, if_pos hx⟩

/-- Witness of C29 as amended: on a platform that supports every operation, channel 2 (taken
by another process) is released for device 7 twice in a row. -/
theorem release_channel_idempotent_witness :
    iso_platform_full.release_channel = true ∧
    (dc1394_iso_release_channel iso_platform_full iso_state_example 7 2).1 =
      IsoResult.success ∧
    (dc1394_iso_release_channel iso_platform_full
      (dc1394_iso_release_channel iso_platform_full iso_state_example 7 2).2 7 2).1 =
      IsoResult.success ∧
    (dc1394_iso_release_channel iso_platform_full iso_state_example 7 2).2.held 7 2 = false :=
  ⟨rfl, (release_channel_idempotent iso_platform_full iso_state_example 7 2 rfl).1,
    (release_channel_idempotent iso_platform_full iso_state_example 7 2 rfl).2.1,
    ((release_channel_idempotent iso_platform_full iso_state_example 7 2 rfl).2.2.2 2 rfl).1⟩

/-- C30, the input on which the claim fails: on a platform that does not support the
allocation of channels, no channel is selected although channel 0 is allowed and free, and
when every channel is taken the call fails with "operation not supported", not with "no
channel available". -/
theorem allocate_channel_unsupported :
    iso_channel_allowed iso_state_example 7 0 0 = true ∧
    iso_state_example.bus_channels 0 = false ∧
    (dc1394_iso_allocate_channel iso_platform_none iso_state_example 7 0).1 =
      IsoResult.function_not_supported ∧
    (dc1394_iso_allocate_channel iso_platform_none iso_state_example 7 0).2.1 = none ∧
    (∀ c, c < 64 → iso_state_busy.bus_channels c = true) ∧
    (dc1394_iso_allocate_channel iso_platform_none iso_state_busy 7 0).1 =
      IsoResult.function_not_supported ∧
    (dc1394_iso_allocate_channel iso_platform_none iso_state_busy 7 0).1 ≠
      IsoResult.no_iso_channel := by
  refine ⟨rfl, rfl, rfl, rfl, fun _ _ => rfl, rfl, by decide⟩

/-- C30 as amended: on a platform that supports the allocation of channels,
`dc1394_iso_allocate_channel` with a 64-bit mask considers the channels whose bit is set
(the channels that the device supports when the mask is 0); when `c` is the lowest channel
below 64 that is considered and free on the bus, the call succeeds, stores `c`, records it as
held by the device and as in use on the bus, and leaves every other channel as it was; the
call fails with "no channel available" exactly when no considered channel below 64 is free,
and there is no third result. -/
theorem allocate_channel_lowest_free (P : IsoPlatform) (s : IsoState) (device : Nat)
    (channels_allowed : Nat) (hP : P.allocate_channel = true) :
    (∀ c, iso_channel_allowed s device channels_allowed c =
      if channels_allowed % 2 ^ 64 = 0 then s.supported device c
      else (channels_allowed % 2 ^ 64).testBit c) ∧
    (∀ c, c < 64 → iso_channel_allowed s device channels_allowed c = true →
      s.bus_channels c = false →
      (∀ c', c' < c → ¬ (iso_channel_allowed s device channels_allowed c' = true ∧
        s.bus_channels c' = false)) →
      (dc1394_iso_allocate_channel P s device channels_allowed).1 = IsoResult.success ∧
      (dc1394_iso_allocate_channel P s device channels_allowed).2.1 = some c ∧
      (dc1394_iso_allocate_channel P s device channels_allowed).2.2.held device c = true ∧
      (dc1394_iso_allocate_channel P s device channels_allowed).2.2.bus_channels c = true ∧
      (∀ x, x ≠ c →
        (dc1394_iso_allocate_channel P s device channels_allowed).2.2.bus_channels x =
          s.bus_channels x ∧
        ∀ d, (dc1394_iso_allocate_channel P s device channels_allowed).2.2.held d x =
          s.held d x)) ∧
    ((dc1394_iso_allocate_channel P s device channels_allowed).1 = IsoResult.no_iso_channel ↔
      ∀ c, c < 64 → ¬ (iso_channel_allowed s device channels_allowed c = true ∧
        s.bus_channels c = false)) ∧
    ((dc1394_iso_allocate_channel P s device channels_allowed).1 = IsoResult.success ∨
      (dc1394_iso_allocate_channel P s device channels_allowed).1 =
        IsoResult.no_iso_channel) := by
  have hp : ∀ c, ((iso_channel_allowed s device channels_allowed c && !s.bus_channels c) =
      true) ↔ (iso_channel_allowed s device channels_allowed c = true ∧
        s.bus_channels c = false) := by
    intro c
    simp
  have hpf : ∀ c, ((iso_channel_allowed s device channels_allowed c && !s.bus_channels c) =
      false) ↔ ¬ (iso_channel_allowed s device channels_allowed c = true ∧
        s.bus_channels c = false) := by
    intro c
    rw [← hp c]
    simp
  unfold dc1394_iso_allocate_channel
  rw [if_pos hP]
  refine ⟨fun c => rfl, ?_, ?_, ?_⟩
  · intro c hc hallowed hfree hlow
    cases hf : (List.range 64).find?
        (fun c => iso_channel_allowed s device channels_allowed c && !s.bus_channels c) with
    | none =>
      exact absurd ⟨hallowed, hfree⟩ ((hpf c).1 (range_find_none.1 hf c hc))
    | some c0 =>
      obtain ⟨-, h2, h3⟩ := range_find_some hf
      have hc0 : c0 = c := by
        rcases Nat.lt_trichotomy c0 c with hlt | heq | hgt
        · exact absurd ((hp c0).1 h2) (hlow c0 hlt)
        · exact heq
        · exact absurd ⟨hallowed, hfree⟩ ((hpf c).1 (h3 c hgt))
      subst hc0
      refine ⟨rfl, rfl, if_pos ⟨rfl, rfl⟩, if_pos rfl, fun x hx => ⟨if_neg hx, fun d => ?_⟩⟩
      exact if_neg (fun h => hx h.2)
  · cases hf : (List.range 64).find?
        (fun c => iso_channel_allowed s device channels_allowed c && !s.bus_channels c) with
    | none =>
      exact ⟨fun _ c hc => (hpf c).1 (range_find_none.1 hf c hc), fun _ => rfl⟩
    | some c0 =>
      obtain ⟨h1, h2, -⟩ := range_find_some hf
      refine ⟨fun h => ?_, fun h => absurd ((hp c0).1 h2) (h c0 h1)⟩
      cases h
  · cases hf : (List.range 64).find?
        (fun c => iso_channel_allowed s device channels_allowed c && !s.bus_channels c) with
    | none => exact Or.inr rfl
    | some c0 => exact Or.inl rfl

/-- Witness of C30 as amended: on a platform that supports every operation, with mask 0 and
the channels 2 and 5 taken by others, device 7 is given channel 0; when every channel is
taken the call fails with "no channel available". -/
theorem allocate_channel_lowest_free_witness :
    iso_platform_full.allocate_channel = true ∧
    iso_state_example.bus_channels 2 = true ∧ iso_state_example.bus_channels 5 = true ∧
    (dc1394_iso_allocate_channel iso_platform_full iso_state_example 7 0).1 =
      IsoResult.success ∧
    (dc1394_iso_allocate_channel iso_platform_full iso_state_example 7 0).2.1 = some 0 ∧
    (dc1394_iso_allocate_channel iso_platform_full iso_state_example 7 0).2.2.held 7 0 =
      true ∧
    (dc1394_iso_allocate_channel iso_platform_full iso_state_busy 7 0).1 =
      IsoResult.no_iso_channel :=
  ⟨rfl, rfl, rfl,
    ((allocate_channel_lowest_free iso_platform_full iso_state_example 7 0 rfl).2.1 0
      (by decide) rfl rfl (fun c' hc' => absurd hc' (Nat.not_lt_zero c'))).1,
    ((allocate_channel_lowest_free iso_platform_full iso_state_example 7 0 rfl).2.1 0
      (by decide) rfl rfl (fun c' hc' => absurd hc' (Nat.not_lt_zero c'))).2.1,
    ((allocate_channel_lowest_free iso_platform_full iso_state_example 7 0 rfl).2.1 0
      (by decide) rfl rfl (fun c' hc' => absurd hc' (Nat.not_lt_zero c'))).2.2.1,
    (allocate_channel_lowest_free iso_platform_full iso_state_busy 7 0 rfl).2.2.1.2
      (fun _ _ h => Bool.noConfusion h.2)⟩

-- The bounds of the size that the setup resolves.

/-- C17 as amended: a request whose `left` and `top` are each a non-negative literal or
`QUERY_FROM_CAMERA`.  The position `(l, t)` committed is the literal, or the field just read
from the camera, and is non-negative.  When a size component is requested as
`QUERY_FROM_CAMERA`, the current size `cs` is the value that the run has read from the
image-size register before the write.  A size component that the setup resolves from
`USE_MAX_AVAIL` (requested so, or queried from a camera whose current size is 0) is the
maximum that the camera reports minus the position, so that position plus size is that
maximum whenever the position does not exceed it.  Every other size component, a literal or
the current size of the camera, is committed as it is. -/
theorem setup_max_size_within_bounds (D : Device) (fuel : Nat) (camera : dc1394camera_t)
    (channel mode speed bytes_per_packet left top width height : Int)
    (capture : dc1394capture_t) (h : Trace) {pre post : Trace} {m v : Nat} {e : Int}
    (hleft : 0 ≤ left ∨ left = QUERY_FROM_CAMERA) (htop : 0 ≤ top ∨ top = QUERY_FROM_CAMERA)
    (hseg : (_dc1394_basic_format7_setup D fuel camera channel mode speed bytes_per_packet left
      top width height capture h).seg =
        pre ++ Event.set m Format7Reg.IMAGE_SIZE v e :: post) :
    ∃ (cur cs mx : Nat) (l t w0 h0 w ht : Int),
      Event.get (uint mode) Format7Reg.IMAGE_POSITION cur 0 ∈ pre ∧
      (width = QUERY_FROM_CAMERA ∨ height = QUERY_FROM_CAMERA →
        Event.get (uint mode) Format7Reg.IMAGE_SIZE cs 0 ∈ pre) ∧
      l = (if left = QUERY_FROM_CAMERA then sint ((cur &&& 0xFFFF0000) >>> 16) else left) ∧
      t = (if top = QUERY_FROM_CAMERA then sint (cur &&& 0x0000FFFF) else top) ∧
      0 ≤ l ∧ 0 ≤ t ∧
      w0 = (if width = QUERY_FROM_CAMERA then
          if (cs &&& 0xFFFF0000) >>> 16 > 0 then sint ((cs &&& 0xFFFF0000) >>> 16)
          else USE_MAX_AVAIL
        else width) ∧
      h0 = (if height = QUERY_FROM_CAMERA then
          if cs &&& 0x0000FFFF > 0 then sint (cs &&& 0x0000FFFF) else USE_MAX_AVAIL
        else height) ∧
      (w0 = USE_MAX_AVAIL ∨ h0 = USE_MAX_AVAIL →
        pre.getLast? =
          some (Event.get (uint mode) Format7Reg.MAX_IMAGE_SIZE_INQ mx 0)) ∧
      v = quadlet (quadlet (uint w <<< 16) ||| uint ht) ∧
      (w0 = USE_MAX_AVAIL → l ≤ (((mx &&& 0xFFFF0000) >>> 16 : Nat) : Int) →
        0 ≤ w ∧ l + w = (((mx &&& 0xFFFF0000) >>> 16 : Nat) : Int)) ∧
      (w0 ≠ USE_MAX_AVAIL → w = w0) ∧
      (h0 = USE_MAX_AVAIL → t ≤ ((mx &&& 0x0000FFFF : Nat) : Int) →
        0 ≤ ht ∧ t + ht = ((mx &&& 0x0000FFFF : Nat) : Int)) ∧
      (h0 ≠ USE_MAX_AVAIL → ht = h0) := by
  obtain ⟨cur, cs, mx, w0, h0, w1, h1, hcur, hcs, hmx, hw0, hh0, hw1, hh1, -, hv⟩ :=
    format7_setup_size_resolved D fuel camera channel mode speed bytes_per_packet left top
      width height capture h hseg
  have hl := resolved_position_nonneg left _ (high_field_lt cur) hleft
  have ht := resolved_position_nonneg top _ (low_field_lt cur) htop
  have hmw := high_field_lt mx
  have hmh := low_field_lt mx
  refine ⟨cur, cs, mx, _, _, w0, h0, w1, h1, hcur, hcs, rfl, rfl, hl, ht, hw0, hh0, hmx, hv,
    fun hmax hle => ?_, fun hne => by rw [hw1, if_neg hne],
    fun hmax hle => ?_, fun hne => by rw [hh1, if_neg hne]⟩
  · rw [hw1, if_pos hmax,
      sint_uint_of_fits (by simp only [int_fits, decide_eq_true_eq]; omega)]
    omega
  · rw [hh1, if_pos hmax,
      sint_uint_of_fits (by simp only [int_fits, decide_eq_true_eq]; omega)]
    omega

/-- Witness of C17 as amended: the camera of version 1.30 that is set up with every request
`QUERY_FROM_CAMERA`: it stands at position (100, 50), its current size is 320x0 and its
maximum size 640x480; the height is resolved to 480 - 50 = 430, the width 320 is committed
as it is, and the size written is `0x014001AE`. -/
theorem setup_max_size_within_bounds_witness :
    ((0 : Int) ≤ QUERY_FROM_CAMERA ∨ QUERY_FROM_CAMERA = QUERY_FROM_CAMERA) ∧
    (_dc1394_basic_format7_setup (fixed_camera vga_regs) 1 camera_v130 0 288 2
        QUERY_FROM_CAMERA QUERY_FROM_CAMERA QUERY_FROM_CAMERA QUERY_FROM_CAMERA
        QUERY_FROM_CAMERA stale_capture []).seg =
      ([Event.get_iso_status false 0,
         Event.set_iso_channel_and_speed 0 2 0,
         Event.set_video_format FORMAT_SCALABLE_IMAGE_SIZE 0,
         Event.set_video_mode 288 0,
         Event.get 288 Format7Reg.BYTE_PER_PACKET 0x04000400 0,
         Event.get 288 Format7Reg.IMAGE_POSITION 0x00640032 0,
         Event.set 288 Format7Reg.IMAGE_POSITION 0x00640032 0,
         Event.get 288 Format7Reg.VALUE_SETTING 0x80000000 0,
         Event.set 288 Format7Reg.VALUE_SETTING 0x40000000 0,
         Event.get 288 Format7Reg.VALUE_SETTING 0x80000000 0,
         Event.get 288 Format7Reg.IMAGE_SIZE 0x01400000 0,
         Event.get 288 Format7Reg.MAX_IMAGE_SIZE_INQ 0x028001E0 0] : Trace) ++
        Event.set 288 Format7Reg.IMAGE_SIZE 0x014001AE 0 ::
          [Event.get 288 Format7Reg.VALUE_SETTING 0x80000000 0,
            Event.set 288 Format7Reg.VALUE_SETTING 0x40000000 0,
            Event.get 288 Format7Reg.VALUE_SETTING 0x80000000 0,
            Event.get 288 Format7Reg.BYTE_PER_PACKET 0x04000400 0,
            Event.get 288 Format7Reg.PACKET_PARA_INQ 0x00041000 0,
            Event.set 288 Format7Reg.BYTE_PER_PACKET 0x04000000 0,
            Event.get 288 Format7Reg.VALUE_SETTING 0x80000000 0,
            Event.set 288 Format7Reg.VALUE_SETTING 0x40000000 0,
            Event.get 288 Format7Reg.VALUE_SETTING 0x80000000 0,
            Event.get 288 Format7Reg.BYTE_PER_PACKET 0x04000400 0,
            Event.get 288 Format7Reg.PACKET_PER_FRAME_INQ 600 0] ∧
    ∃ (cur cs mx : Nat) (l t w0 h0 w ht : Int),
      Event.get (uint 288) Format7Reg.IMAGE_POSITION cur 0 ∈ ([Event.get_iso_status false 0,
          Event.set_iso_channel_and_speed 0 2 0,
          Event.set_video_format FORMAT_SCALABLE_IMAGE_SIZE 0,
          Event.set_video_mode 288 0,
          Event.get 288 Format7Reg.BYTE_PER_PACKET 0x04000400 0,
          Event.get 288 Format7Reg.IMAGE_POSITION 0x00640032 0,
          Event.set 288 Format7Reg.IMAGE_POSITION 0x00640032 0,
          Event.get 288 Format7Reg.VALUE_SETTING 0x80000000 0,
          Event.set 288 Format7Reg.VALUE_SETTING 0x40000000 0,
          Event.get 288 Format7Reg.VALUE_SETTING 0x80000000 0,
          Event.get 288 Format7Reg.IMAGE_SIZE 0x01400000 0,
          Event.get 288 Format7Reg.MAX_IMAGE_SIZE_INQ 0x028001E0 0] : Trace) ∧
      (QUERY_FROM_CAMERA = QUERY_FROM_CAMERA ∨ QUERY_FROM_CAMERA = QUERY_FROM_CAMERA →
        Event.get (uint 288) Format7Reg.IMAGE_SIZE cs 0 ∈ ([Event.get_iso_status false 0,
            Event.set_iso_channel_and_speed 0 2 0,
            Event.set_video_format FORMAT_SCALABLE_IMAGE_SIZE 0,
            Event.set_video_mode 288 0,
            Event.get 288 Format7Reg.BYTE_PER_PACKET 0x04000400 0,
            Event.get 288 Format7Reg.IMAGE_POSITION 0x00640032 0,
            Event.set 288 Format7Reg.IMAGE_POSITION 0x00640032 0,
            Event.get 288 Format7Reg.VALUE_SETTING 0x80000000 0,
            Event.set 288 Format7Reg.VALUE_SETTING 0x40000000 0,
            Event.get 288 Format7Reg.VALUE_SETTING 0x80000000 0,
            Event.get 288 Format7Reg.IMAGE_SIZE 0x01400000 0,
            Event.get 288 Format7Reg.MAX_IMAGE_SIZE_INQ 0x028001E0 0] : Trace)) ∧
      l = (if QUERY_FROM_CAMERA = QUERY_FROM_CAMERA then sint ((cur &&& 0xFFFF0000) >>> 16) else QUERY_FROM_CAMERA) ∧
      t = (if QUERY_FROM_CAMERA = QUERY_FROM_CAMERA then sint (cur &&& 0x0000FFFF) else QUERY_FROM_CAMERA) ∧
      0 ≤ l ∧ 0 ≤ t ∧
      w0 = (if QUERY_FROM_CAMERA = QUERY_FROM_CAMERA then
          if (cs &&& 0xFFFF0000) >>> 16 > 0 then sint ((cs &&& 0xFFFF0000) >>> 16)
          else USE_MAX_AVAIL
        else QUERY_FROM_CAMERA) ∧
      h0 = (if QUERY_FROM_CAMERA = QUERY_FROM_CAMERA then
          if cs &&& 0x0000FFFF > 0 then sint (cs &&& 0x0000FFFF) else USE_MAX_AVAIL
        else QUERY_FROM_CAMERA) ∧
      (w0 = USE_MAX_AVAIL ∨ h0 = USE_MAX_AVAIL →
        ([Event.get_iso_status false 0,
          Event.set_iso_channel_and_speed 0 2 0,
          Event.set_video_format FORMAT_SCALABLE_IMAGE_SIZE 0,
          Event.set_video_mode 288 0,
          Event.get 288 Format7Reg.BYTE_PER_PACKET 0x04000400 0,
          Event.get 288 Format7Reg.IMAGE_POSITION 0x00640032 0,
          Event.set 288 Format7Reg.IMAGE_POSITION 0x00640032 0,
          Event.get 288 Format7Reg.VALUE_SETTING 0x80000000 0,
          Event.set 288 Format7Reg.VALUE_SETTING 0x40000000 0,
          Event.get 288 Format7Reg.VALUE_SETTING 0x80000000 0,
          Event.get 288 Format7Reg.IMAGE_SIZE 0x01400000 0,
          Event.get 288 Format7Reg.MAX_IMAGE_SIZE_INQ 0x028001E0 0] : Trace).getLast? =
          some (Event.get (uint 288) Format7Reg.MAX_IMAGE_SIZE_INQ mx 0)) ∧
      (0x014001AE : Nat) = quadlet (quadlet (uint w <<< 16) ||| uint ht) ∧
      (w0 = USE_MAX_AVAIL → l ≤ (((mx &&& 0xFFFF0000) >>> 16 : Nat) : Int) →
        0 ≤ w ∧ l + w = (((mx &&& 0xFFFF0000) >>> 16 : Nat) : Int)) ∧
      (w0 ≠ USE_MAX_AVAIL → w = w0) ∧
      (h0 = USE_MAX_AVAIL → t ≤ ((mx &&& 0x0000FFFF : Nat) : Int) →
        0 ≤ ht ∧ t + ht = ((mx &&& 0x0000FFFF : Nat) : Int)) ∧
      (h0 ≠ USE_MAX_AVAIL → ht = h0) :=
  have hseg : (_dc1394_basic_format7_setup (fixed_camera vga_regs) 1 camera_v130 0 288 2
        QUERY_FROM_CAMERA QUERY_FROM_CAMERA QUERY_FROM_CAMERA QUERY_FROM_CAMERA
        QUERY_FROM_CAMERA stale_capture []).seg =
      ([Event.get_iso_status false 0,
         Event.set_iso_channel_and_speed 0 2 0,
         Event.set_video_format FORMAT_SCALABLE_IMAGE_SIZE 0,
         Event.set_video_mode 288 0,
         Event.get 288 Format7Reg.BYTE_PER_PACKET 0x04000400 0,
         Event.get 288 Format7Reg.IMAGE_POSITION 0x00640032 0,
         Event.set 288 Format7Reg.IMAGE_POSITION 0x00640032 0,
         Event.get 288 Format7Reg.VALUE_SETTING 0x80000000 0,
         Event.set 288 Format7Reg.VALUE_SETTING 0x40000000 0,
         Event.get 288 Format7Reg.VALUE_SETTING 0x80000000 0,
         Event.get 288 Format7Reg.IMAGE_SIZE 0x01400000 0,
         Event.get 288 Format7Reg.MAX_IMAGE_SIZE_INQ 0x028001E0 0] : Trace) ++
        Event.set 288 Format7Reg.IMAGE_SIZE 0x014001AE 0 ::
          [Event.get 288 Format7Reg.VALUE_SETTING 0x80000000 0,
            Event.set 288 Format7Reg.VALUE_SETTING 0x40000000 0,
            Event.get 288 Format7Reg.VALUE_SETTING 0x80000000 0,
            Event.get 288 Format7Reg.BYTE_PER_PACKET 0x04000400 0,
            Event.get 288 Format7Reg.PACKET_PARA_INQ 0x00041000 0,
            Event.set 288 Format7Reg.BYTE_PER_PACKET 0x04000000 0,
            Event.get 288 Format7Reg.VALUE_SETTING 0x80000000 0,
            Event.set 288 Format7Reg.VALUE_SETTING 0x40000000 0,
            Event.get 288 Format7Reg.VALUE_SETTING 0x80000000 0,
            Event.get 288 Format7Reg.BYTE_PER_PACKET 0x04000400 0,
            Event.get 288 Format7Reg.PACKET_PER_FRAME_INQ 600 0] := by
    rw [vga_camera_setup_query]
    rfl
  ⟨Or.inr rfl, hseg, setup_max_size_within_bounds (fixed_camera vga_regs) 1 camera_v130 0 288
    2 QUERY_FROM_CAMERA QUERY_FROM_CAMERA QUERY_FROM_CAMERA QUERY_FROM_CAMERA
    QUERY_FROM_CAMERA stale_capture [] (Or.inr rfl) (Or.inr rfl) hseg⟩

-- The commit handshake: the poll loop, and the feature reported absent.

/-- C31: a camera of version 1.30 or later, a Format_7 mode, a first read of the
value-setting register that succeeds with the feature-present bit 31 set, and an accepted
write.  When the camera answers the polls with `n - 1` quadlets `ps` whose pending bit 30 is
set and then with a quadlet `final` whose pending bit is clear, all reads successful, the
handshake (with fuel for at least `n` polls) terminates: it has made the first read, exactly
one write, of `0x40000000` to the value-setting register, and exactly `n` polls, and it
returns `DC1394_FAILURE` when error flag 1 (bit 23) of the `n`-th poll is set and
`DC1394_SUCCESS` when it is clear. -/
theorem handshake_ends_at_first_clear_poll (D : Device) (fuel : Nat) (camera : dc1394camera_t)
    (mode : Int) (h : Trace) (first : Nat) (ps : List Nat) (final : Nat)
    (hv : IIDC_VERSION_1_30 ≤ camera.sw_version)
    (hmode : MODE_FORMAT7_MIN ≤ uint mode ∧ uint mode ≤ MODE_FORMAT7_MAX)
    (herr : D.read_err h (uint mode) Format7Reg.VALUE_SETTING = 0)
    (hfirst : D.read_value h (uint mode) Format7Reg.VALUE_SETTING = first)
    (hpresent : first.testBit 31 = true)
    (hset : D.SetCameraFormat7Register
      (h ++ [Event.get (uint mode) Format7Reg.VALUE_SETTING first 0]) (uint mode)
      Format7Reg.VALUE_SETTING 0x40000000 = 0)
    (hpolls : polls_until D (uint mode)
      (h ++ [Event.get (uint mode) Format7Reg.VALUE_SETTING first 0,
        Event.set (uint mode) Format7Reg.VALUE_SETTING 0x40000000 0]) ps final)
    (hfuel : ps.length < fuel) :
    _dc1394_v130_handshake D fuel camera mode h =
      .done (if final.testBit 23 = true then DC1394_FAILURE else DC1394_SUCCESS)
        (Event.get (uint mode) Format7Reg.VALUE_SETTING first 0 ::
          Event.set (uint mode) Format7Reg.VALUE_SETTING 0x40000000 0 ::
            poll_events (uint mode) (ps ++ [final])) ∧
    (poll_events (uint mode) (ps ++ [final])).length = ps.length + 1 ∧
    (_dc1394_v130_handshake D fuel camera mode h).seg.countP
      (fun e => e.isWrite Format7Reg.VALUE_SETTING) = 1 ∧
    (final.testBit 23 = false →
      _dc1394_v130_handshake D fuel camera mode h =
        .done DC1394_SUCCESS (_dc1394_v130_handshake D fuel camera mode h).seg) ∧
    (final.testBit 23 = true →
      _dc1394_v130_handshake D fuel camera mode h =
        .done DC1394_FAILURE (_dc1394_v130_handshake D fuel camera mode h).seg) := by
  have hrun := _dc1394_v130_handshake_polls D fuel camera mode h first ps final hv (by omega)
    herr hfirst hpresent hset hpolls hfuel
  refine ⟨hrun, by rw [poll_events_length]; simp, ?_, fun hb => ?_, fun hb => ?_⟩
  · rw [hrun, Outcome.seg_done,
      List.countP_cons_of_neg _ _ (by simp [Event.isWrite]),
      List.countP_cons_of_pos _ _ (by simp [Event.isWrite]), poll_events_countP_isWrite]
  · rw [hrun, if_neg (by rw [hb]; simp)]
    rfl
  · rw [hrun, if_pos hb]
    rfl

/-- Witness of C31: a camera of version 1.30 whose value-setting register reads as pending for
the first two polls; the third poll shows the pending bit clear, with error flag 1 set in
the first example and clear in the second. -/
theorem handshake_ends_at_first_clear_poll_witness :
    _dc1394_v130_handshake (slow_camera 2 0x80800000) 3 camera_v130 288 [] =
      .done DC1394_FAILURE
        [Event.get 288 Format7Reg.VALUE_SETTING 0xC0000000 0,
          Event.set 288 Format7Reg.VALUE_SETTING 0x40000000 0,
          Event.get 288 Format7Reg.VALUE_SETTING 0xC0000000 0,
          Event.get 288 Format7Reg.VALUE_SETTING 0xC0000000 0,
          Event.get 288 Format7Reg.VALUE_SETTING 0x80800000 0] ∧
    _dc1394_v130_handshake (slow_camera 2 0x80000000) 7 camera_v130 288 [] =
      .done DC1394_SUCCESS
        [Event.get 288 Format7Reg.VALUE_SETTING 0xC0000000 0,
          Event.set 288 Format7Reg.VALUE_SETTING 0x40000000 0,
          Event.get 288 Format7Reg.VALUE_SETTING 0xC0000000 0,
          Event.get 288 Format7Reg.VALUE_SETTING 0xC0000000 0,
          Event.get 288 Format7Reg.VALUE_SETTING 0x80000000 0] :=
  ⟨(handshake_ends_at_first_clear_poll (slow_camera 2 0x80800000) 3 camera_v130 288 []
      0xC0000000 [0xC0000000, 0xC0000000] 0x80800000 (by decide) (by decide) rfl rfl
      (by decide) rfl ⟨rfl, rfl, by decide, rfl, rfl, by decide, rfl, rfl, by decide⟩
      (by decide)).1,
    (handshake_ends_at_first_clear_poll (slow_camera 2 0x80000000) 7 camera_v130 288 []
      0xC0000000 [0xC0000000, 0xC0000000] 0x80000000 (by decide) (by decide) rfl rfl
      (by decide) rfl ⟨rfl, rfl, by decide, rfl, rfl, by decide, rfl, rfl, by decide⟩
      (by decide)).1⟩

/-- C37: a camera of version 1.30 or later and a Format_7 mode.  When the read of the
value-setting register succeeds with a quadlet `v` whose feature-present bit 31 is clear,
`_dc1394_v130_handshake` returns `DC1394_SUCCESS` after this one read, with no write and no
poll, whatever the pending bit and the error flags of `v` are; `_dc1394_v130_errflag2`
returns `DC1394_SUCCESS` after its one read as well, whatever error flag 2 is. -/
theorem handshake_skipped_when_feature_absent (D : Device) (fuel : Nat)
    (camera : dc1394camera_t) (mode : Int) (h : Trace) (v : Nat)
    (hv : IIDC_VERSION_1_30 ≤ camera.sw_version)
    (hmode : MODE_FORMAT7_MIN ≤ uint mode ∧ uint mode ≤ MODE_FORMAT7_MAX)
    (hget : D.GetCameraFormat7Register h (uint mode) Format7Reg.VALUE_SETTING = (0, v))
    (hv32 : v < 4294967296) (habsent : v.testBit 31 = false) :
    _dc1394_v130_handshake D fuel camera mode h =
      .done DC1394_SUCCESS [Event.get (uint mode) Format7Reg.VALUE_SETTING v 0] ∧
    _dc1394_v130_errflag2 D camera mode h =
      .done DC1394_SUCCESS [Event.get (uint mode) Format7Reg.VALUE_SETTING v 0] := by
  obtain ⟨he, hval⟩ := read_of_get hget hv32
  refine ⟨?_, ?_⟩
  · rw [_dc1394_v130_handshake_run D fuel camera mode h hv, if_neg (by omega), if_pos he, hval,
      if_neg (by rw [habsent]; simp)]
    rfl
  · rw [_dc1394_v130_errflag2_run D camera mode h hv, if_neg (by omega), if_pos he, hval,
      if_neg (by rw [habsent]; simp)]

/-- Witness of C37: the value-setting register of the camera reads `0x40C00000`: feature
absent, pending bit and both error flags set. -/
theorem handshake_skipped_when_feature_absent_witness :
    _dc1394_v130_handshake (fixed_camera absent_regs) 0 camera_v130 288 [] =
      .done DC1394_SUCCESS [Event.get 288 Format7Reg.VALUE_SETTING 0x40C00000 0] ∧
    _dc1394_v130_errflag2 (fixed_camera absent_regs) camera_v130 288 [] =
      .done DC1394_SUCCESS [Event.get 288 Format7Reg.VALUE_SETTING 0x40C00000 0] :=
  handshake_skipped_when_feature_absent (fixed_camera absent_regs) 0 camera_v130 288 []
    0x40C00000 (by decide) (by decide) rfl (by decide) (by decide)

-- Branches that no run of `_dc1394_basic_format7_setup` takes.

/-- C32: the request that reaches the packet-size switch of `_dc1394_basic_format7_setup` is
never `QUERY_FROM_CAMERA`.  The step that handles a query-from-camera request hands over the
request itself when it is not `QUERY_FROM_CAMERA`, and the upper 16 bits of the camera's
byte-per-packet register, a value in `[0, 65535]`, when it is.  So the function stays the
same, for every camera, every request and every history, when the code of lines 258-311 (the
two reads, the switch and the commit) is replaced by an arbitrary piece of code `X` in the
case that the request is `QUERY_FROM_CAMERA`. -/
theorem setup_switch_query_case_unreachable (D : Device) (fuel : Nat) (camera : dc1394camera_t)
    (channel mode speed bytes_per_packet left top width height : Int)
    (capture : dc1394capture_t) (X : Prog (Except Int Int)) (h : Trace) :
    (∀ (h' : Trace) (request : Int) (s : Trace),
      format7_setup_query_bpp D mode bytes_per_packet h' = .done (.ok request) s →
      request ≠ QUERY_FROM_CAMERA ∧
      (bytes_per_packet = QUERY_FROM_CAMERA → 0 ≤ request ∧ request < 65536)) ∧
    _dc1394_basic_format7_setup D fuel camera channel mode speed bytes_per_packet left top
        width height capture h =
      ((format7_setup_stop_iso D).orReturn capture fun is_iso_on =>
        (format7_setup_channel_and_mode D channel mode speed).orReturn capture fun _ =>
        (format7_setup_query_bpp D mode bytes_per_packet).orReturn capture fun request =>
        (format7_setup_image_position D fuel camera mode left top).orReturn capture
          fun position =>
        (format7_setup_query_size D mode width height).orReturn capture fun size =>
        (format7_setup_max_size D mode position.1 position.2 size.1 size.2).orReturn capture
          fun size =>
        (format7_setup_commit_size D fuel camera mode size.1 size.2).orReturn capture fun _ =>
        (if request = QUERY_FROM_CAMERA then X
          else format7_setup_packet_size D fuel camera mode request).orReturn capture
          fun bytes_per_packet =>
        format7_setup_accounting D camera channel mode size.1 size.2 bytes_per_packet
          is_iso_on capture) h := by
  refine ⟨fun h' request s hq => format7_setup_query_bpp_ne_query D mode bytes_per_packet h' hq,
    ?_⟩
  unfold _dc1394_basic_format7_setup
  refine Prog.orReturn_congr fun is_iso_on s1 _ => ?_
  refine Prog.orReturn_congr fun _ s2 _ => ?_
  refine Prog.orReturn_congr fun request s3 hq => ?_
  have hne := (format7_setup_query_bpp_ne_query D mode bytes_per_packet _ hq).1
  simp only [if_neg hne]

/-- C34: a camera whose packet parameters always read with a maximum that is not 0 and a unit
(minimum) that does not exceed it.  For every request, every camera version and every
history: (1) the unit by which the switch takes the remainder (the maximum when the unit
reads 0) is not 0, the switch has a result, and this result is not 0; (2) the step that
resolves and commits the packet size has no undefined behaviour; (3) the packet size that
reaches the frame accounting, where it is the divisor of the packets-per-frame computation
on the branch below version 1.30, is never 0: the function stays the same when the frame
accounting is replaced by an arbitrary piece of code `X` in the case that the packet size
is 0. -/
theorem setup_divisors_nonzero (D : Device) (fuel : Nat) (camera : dc1394camera_t)
    (channel mode speed bytes_per_packet left top width height : Int)
    (capture : dc1394capture_t) (X : Prog (Int × dc1394capture_t)) (h : Trace)
    (hpara : ∀ h', 0 < D.read_value h' (uint mode) Format7Reg.PACKET_PARA_INQ &&& 0x0000FFFF ∧
      (D.read_value h' (uint mode) Format7Reg.PACKET_PARA_INQ &&& 0xFFFF0000) >>> 16 ≤
        D.read_value h' (uint mode) Format7Reg.PACKET_PARA_INQ &&& 0x0000FFFF) :
    (∀ (request : Int) (recom : Nat) (h' : Trace),
      (if (D.read_value h' (uint mode) Format7Reg.PACKET_PARA_INQ &&& 0xFFFF0000) >>> 16 = 0
        then D.read_value h' (uint mode) Format7Reg.PACKET_PARA_INQ &&& 0x0000FFFF
        else (D.read_value h' (uint mode) Format7Reg.PACKET_PARA_INQ &&& 0xFFFF0000) >>> 16)
          ≠ 0 ∧
      ∃ b, format7_packet_size_switch request (recom &&& 0x0000FFFF)
          ((D.read_value h' (uint mode) Format7Reg.PACKET_PARA_INQ &&& 0xFFFF0000) >>> 16)
          (D.read_value h' (uint mode) Format7Reg.PACKET_PARA_INQ &&& 0x0000FFFF) = some b ∧
        b ≠ 0) ∧
    (∀ (request : Int) (h' : Trace),
      (format7_setup_packet_size D fuel camera mode request h').isUndef = false) ∧
    _dc1394_basic_format7_setup D fuel camera channel mode speed bytes_per_packet left top
        width height capture h =
      ((format7_setup_stop_iso D).orReturn capture fun is_iso_on =>
        (format7_setup_channel_and_mode D channel mode speed).orReturn capture fun _ =>
        (format7_setup_query_bpp D mode bytes_per_packet).orReturn capture fun request =>
        (format7_setup_image_position D fuel camera mode left top).orReturn capture
          fun position =>
        (format7_setup_query_size D mode width height).orReturn capture fun size =>
        (format7_setup_max_size D mode position.1 position.2 size.1 size.2).orReturn capture
          fun size =>
        (format7_setup_commit_size D fuel camera mode size.1 size.2).orReturn capture fun _ =>
        (format7_setup_packet_size D fuel camera mode request).orReturn capture
          fun bytes_per_packet =>
        if bytes_per_packet = 0 then X
        else format7_setup_accounting D camera channel mode size.1 size.2 bytes_per_packet
          is_iso_on capture) h := by
  refine ⟨fun request recom h' => ?_, fun request h' =>
    (format7_setup_packet_size_nonzero D fuel camera mode request h' hpara).1, ?_⟩
  · obtain ⟨hp, hl⟩ := hpara h'
    obtain ⟨hu, b, hb, hne, -⟩ := format7_packet_size_switch_nonzero request
      (recom &&& 0x0000FFFF) _ _ (low_field_lt _) (low_field_lt _) hp hl
    exact ⟨hu, b, hb, hne⟩
  · unfold _dc1394_basic_format7_setup
    refine Prog.orReturn_congr fun is_iso_on s1 _ => ?_
    refine Prog.orReturn_congr fun _ s2 _ => ?_
    refine Prog.orReturn_congr fun request s3 _ => ?_
    refine Prog.orReturn_congr fun position s4 _ => ?_
    refine Prog.orReturn_congr fun size s5 _ => ?_
    refine Prog.orReturn_congr fun size' s6 _ => ?_
    refine Prog.orReturn_congr fun _ s7 _ => ?_
    refine Prog.orReturn_congr fun b s8 hb => ?_
    have hne := (format7_setup_packet_size_nonzero D fuel camera mode request _ hpara).2 b s8 hb
    simp only [if_neg hne]

/-- Witness of C34: the camera whose packet parameters read `0x00041000`, unit 4 and maximum
4096; a request of 0 bytes on a camera of version 1.20, and `USE_RECOMMENDED` on a camera of
version 1.30. -/
theorem setup_divisors_nonzero_witness :
    (0 < (0x00041000 : Nat) &&& 0x0000FFFF ∧
      (0x00041000 &&& 0xFFFF0000) >>> 16 ≤ (0x00041000 : Nat) &&& 0x0000FFFF) ∧
    (format7_setup_packet_size (fixed_camera vga_regs) 1 camera_v120 288 0 []).isUndef =
      false ∧
    (format7_setup_packet_size (fixed_camera vga_regs) 1 camera_v130 288 USE_RECOMMENDED
      []).isUndef = false :=
  ⟨by decide,
    (setup_divisors_nonzero (fixed_camera vga_regs) 1 camera_v120 0 288 2 0 0 0 640 480
      stale_capture (pure (0, stale_capture)) []
      (fun _ => show 0 < (0x00041000 : Nat) &&& 0x0000FFFF ∧
        (0x00041000 &&& 0xFFFF0000) >>> 16 ≤ (0x00041000 : Nat) &&& 0x0000FFFF
        from by decide)).2.1 0 [],
    (setup_divisors_nonzero (fixed_camera vga_regs) 1 camera_v130 0 288 2 USE_RECOMMENDED 0 0
      640 480 stale_capture (pure (0, stale_capture)) []
      (fun _ => show 0 < (0x00041000 : Nat) &&& 0x0000FFFF ∧
        (0x00041000 &&& 0xFFFF0000) >>> 16 ≤ (0x00041000 : Nat) &&& 0x0000FFFF
        from by decide)).2.1 USE_RECOMMENDED []⟩

-- Writes and reads of the same register, and checks that miss their case.

/-- C38: a Format_7 mode and a register that stores the written quadlet.  For `left` and
`top` below 65536, when `dc1394_set_format7_image_position` succeeds (the write is accepted
and the handshake succeeds), the quadlet written is `(left << 16) | top`, and
`dc1394_query_format7_image_position` right after it returns `(left, top)`.  The same holds
of `dc1394_set_format7_image_size` and `dc1394_query_format7_image_size` for `width` and
`height` below 65536. -/
theorem image_position_and_size_round_trip (D : Device) (fuel : Nat) (camera : dc1394camera_t)
    (mode : Nat) (h : Trace) (left top width height a b : Nat)
    (hmode : MODE_FORMAT7_MIN ≤ mode ∧ mode ≤ MODE_FORMAT7_MAX)
    (hl : left < 65536) (ht : top < 65536) (hw : width < 65536) (hh : height < 65536) :
    (D.stores mode Format7Reg.IMAGE_POSITION →
      ∀ s, dc1394_set_format7_image_position D fuel camera mode left top h =
          .done DC1394_SUCCESS s →
        (∃ rest, s = Event.set mode Format7Reg.IMAGE_POSITION (left <<< 16 ||| top) 0 :: rest) ∧
        dc1394_query_format7_image_position D mode a b (h ++ s) =
          .done (DC1394_SUCCESS, left, top)
            [Event.get mode Format7Reg.IMAGE_POSITION (left <<< 16 ||| top) 0]) ∧
    (D.stores mode Format7Reg.IMAGE_SIZE →
      ∀ s, dc1394_set_format7_image_size D fuel camera mode width height h =
          .done DC1394_SUCCESS s →
        (∃ rest, s = Event.set mode Format7Reg.IMAGE_SIZE (width <<< 16 ||| height) 0 :: rest) ∧
        dc1394_query_format7_image_size D mode a b (h ++ s) =
          .done (DC1394_SUCCESS, width, height)
            [Event.get mode Format7Reg.IMAGE_SIZE (width <<< 16 ||| height) 0]) := by
  refine ⟨fun hD s hs => ?_, fun hD s hs => ?_⟩
  · rw [dc1394_set_format7_image_position_run] at hs
    obtain ⟨hrest, hget⟩ := commit_outcome_stored D fuel camera mode Format7Reg.IMAGE_POSITION
      _ h (by decide) hD hs
    rw [pack_fields_quadlet hl ht] at hrest hget
    refine ⟨hrest, ?_⟩
    rw [dc1394_query_format7_image_position_run,
      query_outcome_of_get _ _ hmode hget (pack_fields_lt hl ht)]
    simp only [pack_fields_upper hl ht, pack_fields_lower ht]
    rfl
  · rw [dc1394_set_format7_image_size_run] at hs
    obtain ⟨hrest, hget⟩ := commit_outcome_stored D fuel camera mode Format7Reg.IMAGE_SIZE
      _ h (by decide) hD hs
    rw [pack_fields_quadlet hw hh] at hrest hget
    refine ⟨hrest, ?_⟩
    rw [dc1394_query_format7_image_size_run,
      query_outcome_of_get _ _ hmode hget (pack_fields_lt hw hh)]
    simp only [pack_fields_upper hw hh, pack_fields_lower hh]
    rfl

/-- Witness of C38: a camera of version 1.30 that stores the written quadlets and whose
handshake succeeds at the first poll; position (100, 50) and size 320x240 in mode 288. -/
theorem image_position_and_size_round_trip_witness :
    (MODE_FORMAT7_MIN ≤ 288 ∧ 288 ≤ MODE_FORMAT7_MAX) ∧
    dc1394_set_format7_image_position (storing_camera handshake_regs) 1 camera_v130 288 100 50
        [] =
      .done DC1394_SUCCESS
        [Event.set 288 Format7Reg.IMAGE_POSITION 0x00640032 0,
          Event.get 288 Format7Reg.VALUE_SETTING 0x80000000 0,
          Event.set 288 Format7Reg.VALUE_SETTING 0x40000000 0,
          Event.get 288 Format7Reg.VALUE_SETTING 0x80000000 0] ∧
    dc1394_query_format7_image_position (storing_camera handshake_regs) 288 0 0
        ([] ++ [Event.set 288 Format7Reg.IMAGE_POSITION 0x00640032 0,
          Event.get 288 Format7Reg.VALUE_SETTING 0x80000000 0,
          Event.set 288 Format7Reg.VALUE_SETTING 0x40000000 0,
          Event.get 288 Format7Reg.VALUE_SETTING 0x80000000 0]) =
      .done (DC1394_SUCCESS, 100, 50)
        [Event.get 288 Format7Reg.IMAGE_POSITION (100 <<< 16 ||| 50) 0] ∧
    dc1394_query_format7_image_size (storing_camera handshake_regs) 288 0 0
        ([] ++ [Event.set 288 Format7Reg.IMAGE_SIZE 0x014000F0 0,
          Event.get 288 Format7Reg.VALUE_SETTING 0x80000000 0,
          Event.set 288 Format7Reg.VALUE_SETTING 0x40000000 0,
          Event.get 288 Format7Reg.VALUE_SETTING 0x80000000 0]) =
      .done (DC1394_SUCCESS, 320, 240)
        [Event.get 288 Format7Reg.IMAGE_SIZE (320 <<< 16 ||| 240) 0] :=
  ⟨by decide, rfl,
    ((image_position_and_size_round_trip (storing_camera handshake_regs) 1 camera_v130 288 []
      100 50 320 240 0 0 (by decide) (by decide) (by decide) (by decide) (by decide)).1
      (storing_camera_stores handshake_regs 288 Format7Reg.IMAGE_POSITION (by decide)) _
      rfl).2,
    ((image_position_and_size_round_trip (storing_camera handshake_regs) 1 camera_v130 288 []
      100 50 320 240 0 0 (by decide) (by decide) (by decide) (by decide) (by decide)).2
      (storing_camera_stores handshake_regs 288 Format7Reg.IMAGE_SIZE (by decide)) _
      rfl).2⟩

/-- C35, the input that shows the divergence: mode 288 and the color filter id
`COLOR_FORMAT7_MIN + 1` = 321 on a camera that stores the written quadlets.
`dc1394_set_format7_color_filter_id` writes `321 - 320 = 1` into the low bits of the
register, `dc1394_query_format7_color_filter_id` decodes the top 8 bits of what it reads and
returns `(1 >> 24) + 320 = 320`, not 321.  Only the id `COLOR_FORMAT7_MIN` itself comes
back. -/
theorem color_filter_id_round_trip_fails :
    (COLOR_FORMAT7_MIN ≤ 321 ∧ 321 ≤ COLOR_FORMAT7_MIN + 255) ∧
    dc1394_set_format7_color_filter_id (storing_camera handshake_regs) 288 321 [] =
      .done DC1394_SUCCESS [Event.set 288 Format7Reg.COLOR_FILTER_ID 1 0] ∧
    dc1394_query_format7_color_filter_id (storing_camera handshake_regs) 288 0
        [Event.set 288 Format7Reg.COLOR_FILTER_ID 1 0] =
      .done (DC1394_SUCCESS, 320) [Event.get 288 Format7Reg.COLOR_FILTER_ID 1 0] ∧
    (320 : Nat) ≠ 321 ∧
    dc1394_set_format7_color_filter_id (storing_camera handshake_regs) 288 320 [] =
      .done DC1394_SUCCESS [Event.set 288 Format7Reg.COLOR_FILTER_ID 0 0] ∧
    dc1394_query_format7_color_filter_id (storing_camera handshake_regs) 288 0
        [Event.set 288 Format7Reg.COLOR_FILTER_ID 0 0] =
      .done (DC1394_SUCCESS, 320) [Event.get 288 Format7Reg.COLOR_FILTER_ID 0 0] := by
  refine ⟨by decide, rfl, rfl, by decide, rfl, rfl⟩

/-- C33, the input that shows the divergence: mode 288 on a camera whose byte-per-packet
register reads `0x00000400`, so that the current packet size in its upper 16 bits is 0.  The
read succeeds and `dc1394_query_format7_byte_per_packet` returns `DC1394_SUCCESS` with the
value 0: the test `packet_bytes==0` of the source compares the out-pointer, not the value.
With a packet size that is not 0 (register `0x04000400`) the function returns success with
1024. -/
theorem byte_per_packet_zero_not_detected :
    (0x00000400 &&& 0xFFFF0000) >>> 16 = 0 ∧
    dc1394_query_format7_byte_per_packet (fixed_camera zero_packet_regs) 288 7 [] =
      .done (DC1394_SUCCESS, 0) [Event.get 288 Format7Reg.BYTE_PER_PACKET 0x00000400 0] ∧
    dc1394_query_format7_byte_per_packet (fixed_camera vga_regs) 288 7 [] =
      .done (DC1394_SUCCESS, 1024) [Event.get 288 Format7Reg.BYTE_PER_PACKET 0x04000400 0] := by
  refine ⟨by decide, rfl, rfl⟩

/-- C36, the input that shows the divergence: the code `DC1394_ERROR_NUM` = 25.  The macro
replaces codes below 0 and codes above `DC1394_ERROR_NUM`, so 25 stays as it is, the test
`err > DC1394_SUCCESS` holds, and the macro reports with `dc1394_error_strings[25]`, one past
the last entry of a table of `DC1394_ERROR_NUM` = 25 entries.  A register read that returns
25 makes `dc1394_query_format7_byte_per_packet` report and return this code. -/
theorem err_chk_index_out_of_bounds :
    DC1394_ERROR_NUM = 25 ∧
    DC1394_ERR_CHK DC1394_ERROR_NUM = DC1394_ERROR_NUM ∧
    DC1394_ERR_CHK_returns DC1394_ERROR_NUM = true ∧
    ¬ (DC1394_ERR_CHK DC1394_ERROR_NUM < DC1394_ERROR_NUM) ∧
    dc1394_query_format7_byte_per_packet (read_fault_camera DC1394_ERROR_NUM) 288 7 [] =
      .done (DC1394_ERROR_NUM, 7)
        [Event.get 288 Format7Reg.BYTE_PER_PACKET 0 DC1394_ERROR_NUM] := by
  refine ⟨rfl, by decide, by decide, by decide, rfl⟩

-- The resolution of a literal packet size, and the packets per frame below version 1.30.

/-- C39: the resolution of a literal packet size by the switch of
`_dc1394_basic_format7_setup`, for bounds with a maximum that is not 0 and a unit that does
not exceed it (the unit is replaced by the maximum when it is 0).  For literals
`0 <= b1 <= b2`: the switch resolves both, the resolved values are again non-negative
literals, resolving a resolved value returns it unchanged, and `b1 <= b2` gives
`resolve b1 <= resolve b2`. -/
theorem literal_packet_size_idempotent_monotone (recom_bpp unit_bytes max_bytes : Nat)
    (b1 b2 : Int) (hmax : max_bytes < 65536) (hpos : 0 < max_bytes)
    (hle : unit_bytes ≤ max_bytes) (h0 : 0 ≤ b1) (h12 : b1 ≤ b2) (h2 : b2 ≤ 2147483647) :
    ∃ r1 r2 : Int,
      format7_packet_size_switch b1 recom_bpp unit_bytes max_bytes = some r1 ∧
      format7_packet_size_switch b2 recom_bpp unit_bytes max_bytes = some r2 ∧
      0 ≤ r1 ∧ 0 ≤ r2 ∧
      format7_packet_size_switch r1 recom_bpp unit_bytes max_bytes = some r1 ∧
      format7_packet_size_switch r2 recom_bpp unit_bytes max_bytes = some r2 ∧
      r1 ≤ r2 := by
  have hU : 0 < (if unit_bytes = 0 then max_bytes else unit_bytes) := by
    split_ifs <;> omega
  have hUM : (if unit_bytes = 0 then max_bytes else unit_bytes) ≤ max_bytes := by
    split_ifs <;> omega
  have hxy : b1.toNat ≤ b2.toNat := by omega
  obtain ⟨-, hr1M, hfix1, hmono⟩ := clamp_round_facts _ max_bytes hU hUM _ _ hxy
  obtain ⟨-, hr2M, hfix2, -⟩ := clamp_round_facts _ max_bytes hU hUM _ _ (le_refl b2.toNat)
  have hs1 := format7_packet_size_switch_literal_closed b1 recom_bpp unit_bytes max_bytes h0
    (by omega) hmax hpos hle
  have hs2 := format7_packet_size_switch_literal_closed b2 recom_bpp unit_bytes max_bytes
    (by omega) h2 hmax hpos hle
  refine ⟨_, _, hs1, hs2, Int.ofNat_nonneg _, Int.ofNat_nonneg _, ?_, ?_,
    Int.ofNat_le.2 hmono⟩
  · rw [format7_packet_size_switch_literal_closed _ recom_bpp unit_bytes max_bytes
      (Int.ofNat_nonneg _) (by omega) hmax hpos hle, Int.toNat_ofNat, hfix1]
  · rw [format7_packet_size_switch_literal_closed _ recom_bpp unit_bytes max_bytes
      (Int.ofNat_nonneg _) (by omega) hmax hpos hle, Int.toNat_ofNat, hfix2]

/-- Witness of C39: unit 4 and maximum 4096; the literal 1001 resolves to 1000 and the
literal 5000 to 4096. -/
theorem literal_packet_size_idempotent_monotone_witness :
    ((4096 : Nat) < 65536 ∧ 0 < 4096 ∧ 4 ≤ 4096) ∧
    format7_packet_size_switch 1001 1024 4 4096 = some 1000 ∧
    format7_packet_size_switch 5000 1024 4 4096 = some 4096 ∧
    ∃ r1 r2 : Int,
      format7_packet_size_switch 1001 1024 4 4096 = some r1 ∧
      format7_packet_size_switch 5000 1024 4 4096 = some r2 ∧
      0 ≤ r1 ∧ 0 ≤ r2 ∧
      format7_packet_size_switch r1 1024 4 4096 = some r1 ∧
      format7_packet_size_switch r2 1024 4 4096 = some r2 ∧
      r1 ≤ r2 :=
  ⟨by decide, by decide, by decide,
    literal_packet_size_idempotent_monotone 1024 4 4096 1001 5000 (by decide) (by decide)
      (by decide) (by decide) (by decide) (by decide)⟩

/-- C40, counterexample: a camera of version 1.20 with a packet size of 1 byte whose
total-bytes registers read high 1 and low 0, a frame of 2^32 bytes.  The quotient rounded up
is 4294967296; the function stores it into an `unsigned int` and returns 0 with
`DC1394_SUCCESS`. -/
theorem packet_per_frame_old_truncates :
    dc1394_query_format7_packet_per_frame (fixed_camera huge_frame_regs) camera_v120 288 7 [] =
      .done (DC1394_SUCCESS, 0)
        [Event.get 288 Format7Reg.BYTE_PER_PACKET 0x00010001 0,
          Event.get 288 Format7Reg.TOTAL_BYTES_HI_INQ 1 0,
          Event.get 288 Format7Reg.TOTAL_BYTES_LO_INQ 0 0] ∧
    (0x00010001 &&& 0xFFFF0000) >>> 16 = 1 ∧
    (0 ||| 1 <<< 32 : Nat) = 4294967296 ∧
    (4294967296 + 1 - 1) / 1 = 4294967296 ∧ (0 : Nat) ≠ 4294967296 := by
  refine ⟨rfl, by decide, by decide, by decide, by decide⟩

/-- C40 as amended: a camera of version below 1.30, a Format_7 mode, and a successful read of
the byte-per-packet register with current packet size `p` (its upper 16 bits).  When `p` is
0 the function returns `DC1394_FAILURE` after this one read, without reading the total bytes
and without dividing.  When `p` is not 0 and the two total-bytes registers read `hi` and
`lo`, the function returns `DC1394_SUCCESS` with `c` reduced modulo 2^32 (the result is an
`unsigned int`), where `c` is the quotient of `total = lo | (hi << 32)` by `p` rounded up,
the least number of packets of `p` bytes that hold `total` bytes; the value returned is `c`
itself whenever `c < 2^32`, which is the case whenever `hi` is 0. -/
theorem packet_per_frame_old_ceiling (D : Device) (camera : dc1394camera_t) (mode : Nat)
    (a : Nat) (h : Trace) (vb : Nat)
    (hv : camera.sw_version < IIDC_VERSION_1_30)
    (hmode : MODE_FORMAT7_MIN ≤ mode ∧ mode ≤ MODE_FORMAT7_MAX)
    (hb : D.GetCameraFormat7Register h mode Format7Reg.BYTE_PER_PACKET = (0, vb))
    (hvb : vb < 4294967296) :
    ((vb &&& 0xFFFF0000) >>> 16 = 0 →
      dc1394_query_format7_packet_per_frame D camera mode a h =
        .done (DC1394_FAILURE, a) [Event.get mode Format7Reg.BYTE_PER_PACKET vb 0]) ∧
    ((vb &&& 0xFFFF0000) >>> 16 ≠ 0 →
      ∀ hi lo : Nat, hi < 4294967296 → lo < 4294967296 →
      D.GetCameraFormat7Register (h ++ [Event.get mode Format7Reg.BYTE_PER_PACKET vb 0])
        mode Format7Reg.TOTAL_BYTES_HI_INQ = (0, hi) →
      D.GetCameraFormat7Register
        (h ++ [Event.get mode Format7Reg.BYTE_PER_PACKET vb 0] ++
          [Event.get mode Format7Reg.TOTAL_BYTES_HI_INQ hi 0])
        mode Format7Reg.TOTAL_BYTES_LO_INQ = (0, lo) →
      dc1394_query_format7_packet_per_frame D camera mode a h =
        .done (DC1394_SUCCESS,
            (((lo ||| hi <<< 32) + (vb &&& 0xFFFF0000) >>> 16 - 1) /
              ((vb &&& 0xFFFF0000) >>> 16)) % 4294967296)
          [Event.get mode Format7Reg.BYTE_PER_PACKET vb 0,
            Event.get mode Format7Reg.TOTAL_BYTES_HI_INQ hi 0,
            Event.get mode Format7Reg.TOTAL_BYTES_LO_INQ lo 0] ∧
      (lo ||| hi <<< 32) ≤
        ((lo ||| hi <<< 32) + (vb &&& 0xFFFF0000) >>> 16 - 1) /
          ((vb &&& 0xFFFF0000) >>> 16) * ((vb &&& 0xFFFF0000) >>> 16) ∧
      (∀ n, (lo ||| hi <<< 32) ≤ n * ((vb &&& 0xFFFF0000) >>> 16) →
        ((lo ||| hi <<< 32) + (vb &&& 0xFFFF0000) >>> 16 - 1) /
          ((vb &&& 0xFFFF0000) >>> 16) ≤ n) ∧
      (((lo ||| hi <<< 32) + (vb &&& 0xFFFF0000) >>> 16 - 1) /
          ((vb &&& 0xFFFF0000) >>> 16) < 4294967296 →
        (((lo ||| hi <<< 32) + (vb &&& 0xFFFF0000) >>> 16 - 1) /
          ((vb &&& 0xFFFF0000) >>> 16)) % 4294967296 =
        ((lo ||| hi <<< 32) + (vb &&& 0xFFFF0000) >>> 16 - 1) /
          ((vb &&& 0xFFFF0000) >>> 16)) ∧
      (hi = 0 →
        ((lo ||| hi <<< 32) + (vb &&& 0xFFFF0000) >>> 16 - 1) /
          ((vb &&& 0xFFFF0000) >>> 16) < 4294967296)) := by
  refine ⟨fun hz => dc1394_query_format7_packet_per_frame_old_zero D camera mode a h vb hv hmode
    hb hvb hz, fun hnz hi lo hhi32 hlo32 hhi hlo => ?_⟩
  have hp : 0 < (vb &&& 0xFFFF0000) >>> 16 := Nat.pos_of_ne_zero hnz
  obtain ⟨hc1, hc2⟩ := ceil_div_least (lo ||| hi <<< 32) _ hp
  refine ⟨dc1394_query_format7_packet_per_frame_old_ceil D camera mode a h vb hi lo hv hmode
    hb hvb hnz hhi hhi32 hlo hlo32, hc1, hc2, fun hlt => Nat.mod_eq_of_lt hlt, fun h0 => ?_⟩
  subst h0
  have htot : lo ||| 0 <<< 32 = lo := by simp
  rw [htot]
  have := hc2
  rw [htot] at this
  have hle := this lo (Nat.le_mul_of_pos_right lo hp)
  omega

/-- Witness of C40 as amended: a camera of version 1.20 with a packet size of 1024 bytes and
a frame of 614500 bytes needs 601 packets; a camera whose current packet size reads 0 gets
`DC1394_FAILURE` after the one read. -/
theorem packet_per_frame_old_ceiling_witness :
    camera_v120.sw_version < IIDC_VERSION_1_30 ∧
    (MODE_FORMAT7_MIN ≤ 288 ∧ 288 ≤ MODE_FORMAT7_MAX) ∧
    dc1394_query_format7_packet_per_frame (fixed_camera padded_frame_regs) camera_v120 288 7
        [] =
      .done (DC1394_SUCCESS, 601)
        [Event.get 288 Format7Reg.BYTE_PER_PACKET 0x04000400 0,
          Event.get 288 Format7Reg.TOTAL_BYTES_HI_INQ 0 0,
          Event.get 288 Format7Reg.TOTAL_BYTES_LO_INQ 614500 0] ∧
    dc1394_query_format7_packet_per_frame (fixed_camera zero_packet_regs) camera_v120 288 7
        [] =
      .done (DC1394_FAILURE, 7) [Event.get 288 Format7Reg.BYTE_PER_PACKET 0x00000400 0] :=
  ⟨by decide, by decide,
    ((packet_per_frame_old_ceiling (fixed_camera padded_frame_regs) camera_v120 288 7 []
      0x04000400 (by decide) (by decide) rfl (by decide)).2 (by decide) 0 614500 (by decide)
      (by decide) rfl rfl).1,
    (packet_per_frame_old_ceiling (fixed_camera zero_packet_regs) camera_v120 288 7 []
      0x00000400 (by decide) (by decide) rfl (by decide)).1 (by decide)⟩

end Dc1394
